import Mathlib

/-!
# HCI data dump decoder

A shallow embedding of `system/bt/mediatek/hci/hci_data_dump.c`: the static
schema tables, the opcode resolver `get_matched_hci_cmd_repr`, the field
interpreter `parse_parameter`, the instance walker `parse_hci_instance` and the
two packet entry points `parse_hci_command` and `parse_hci_event`; and of the
record writer `event_fw_log_data_ready` of `system/bt/mediatek/fw_log/fw_logger.c`.

Conventions of the embedding.

* A packet is a `List Nat` of octets (every octet is read modulo 256) together
  with an integer cursor; a read outside the list is a `Fault`.
* C `int` variables are `Int`; the conversions the source performs
  (`(int)`, `(uint8_t)`, `(uint16_t)`) are written out as explicit wrap-arounds.
* A `char` buffer filled by `sprintf` is the `String` of the characters written;
  `c_str` is the view a later `%s` or `strtol` has of it (up to the first NUL).
  The capacity of `log_buf` is part of the model (`LOG_BUF_SIZE`); the capacity
  of the field buffers `char value[255 * 3]` is not.
* `assert` is modelled as active: a failing assertion is a `Fault`.
* `LOG_DEBUG` appends one record to the list of emitted lines.
* The macros of `bt_types.h` and `hcidefs.h` are not in the source tree; the
  byte order of the multi-byte stream readers is a parameter (`ByteOrder`).
-/

namespace HciDump

/-! ## C library primitives -/

/-- Abnormal outcomes of the C code: what the embedding reports instead of
continuing after an abort or an access outside an object. -/
inductive Fault where
  /-- `assert` failed. -/
  | assertion
  /-- A read through the packet cursor outside the packet buffer. -/
  | read_outside_packet
  /-- An access to `instance->value[k]` with `k` outside `0 .. MAX_HCI_PARAM_NUM - 1`. -/
  | value_slot_out_of_range
  /-- An access to a descriptor `parameter[k]` with `k` outside `0 .. MAX_HCI_PARAM_NUM - 1`. -/
  | descriptor_out_of_range
  /-- `EVENT_STATUS_TEXT[k]` with `k` beyond the last entry. -/
  | status_text_out_of_range
  /-- `LE_META_EVENTS[k]` with `k` beyond the declared size. -/
  | subevent_out_of_range
  /-- `LINE_INDENT[k]` with `k` beyond the last entry. -/
  | indent_out_of_range
  /-- A read of more than `FIRMWARE_LOG_BLOCK_SIZE` octets of the array `append_data`. -/
  | padding_out_of_range
  /-- A write behind the last element of `log_buf`. -/
  | log_buf_out_of_range
  deriving DecidableEq

/-- Equality of outcomes is decidable. -/
instance instDecidableEqExcept {ε α : Type} [DecidableEq ε] [DecidableEq α] :
    DecidableEq (Except ε α)
  | .ok a, .ok b =>
    if h : a = b then isTrue (by rw [h]) else isFalse (fun h2 => h (by cases h2; rfl))
  | .error a, .error b =>
    if h : a = b then isTrue (by rw [h]) else isFalse (fun h2 => h (by cases h2; rfl))
  | .ok _, .error _ => isFalse (fun h => by cases h)
  | .error _, .ok _ => isFalse (fun h => by cases h)

/-- Left-pad a digit string with `0` up to the minimum field width `w`. -/
def zeroPad (w : Nat) (l : List Char) : List Char :=
  List.replicate (w - l.length) '0' ++ l

/-- The printf conversion `%x` with flag `0` and minimum width `w` (`%02x`, `%04x`, `%08x`). -/
def fmt_x (w n : Nat) : String := String.mk (zeroPad w (Nat.toDigits 16 n))

/-- The printf conversions `%u` and `%zu`. -/
def fmt_u (n : Nat) : String := String.mk (Nat.toDigits 10 n)

/-- The printf conversion `%d`. -/
def fmt_d (i : Int) : String :=
  if i < 0 then "-" ++ fmt_u i.natAbs else fmt_u i.toNat

/-- The printf conversion `%c` of an octet. -/
def fmt_c (b : Nat) : String := String.mk [Char.ofNat (b % 256)]

/-- The content of a character buffer as a C string: the characters before the first NUL. -/
def c_str (s : String) : String := String.mk (s.data.takeWhile (fun c => c.toNat ≠ 0))

/-- The printf conversion `%s`; a NULL argument prints as `(null)`, as bionic and glibc do. -/
def fmt_s (s : Option String) : String :=
  match s with
  | none => "(null)"
  | some t => c_str t

/-- The printf conversion `%lf` (six decimals) of `n * num / den`, for the scale
factors of the source (0.625, 1.25, 10, 1.28), whose products with a 16-bit
integer have at most three decimals: the text is the exact decimal expansion. -/
def fmt_lf (n num den : Nat) : String :=
  let micro := n * num * 1000000 / den
  fmt_u (micro / 1000000) ++ "." ++ String.mk (zeroPad 6 (Nat.toDigits 10 (micro % 1000000)))

/-- Libc `isspace` in the C locale. -/
def isspace (c : Char) : Bool :=
  c.toNat = 32 || (9 ≤ c.toNat && c.toNat ≤ 13)

/-- Value of a character as a digit (`0-9`, `a-z`, `A-Z`), as `strtol` reads it. -/
def digit_value (c : Char) : Option Nat :=
  if 48 ≤ c.toNat ∧ c.toNat ≤ 57 then some (c.toNat - 48)
  else if 97 ≤ c.toNat ∧ c.toNat ≤ 122 then some (c.toNat - 97 + 10)
  else if 65 ≤ c.toNat ∧ c.toNat ≤ 90 then some (c.toNat - 65 + 10)
  else none

/-- Accumulate the longest run of digits valid in `base`. -/
def strtol_digits (base : Nat) : List Char → Nat → Nat
  | [], acc => acc
  | c :: cs, acc =>
    match digit_value c with
    | some d => if d < base then strtol_digits base cs (acc * base + d) else acc
    | none => acc

/-- Is `c` a digit valid in `base`? -/
def is_digit_of (base : Nat) (c : Char) : Bool :=
  match digit_value c with
  | some d => decide (d < base)
  | none => false

/-- Magnitude parsed by `strtol` with base 0 after the optional sign: base 16
after a `0x`/`0X` that is followed by a hex digit, base 8 after a leading `0`,
base 10 otherwise. -/
def strtol_magnitude : List Char → Nat
  | '0' :: x :: h :: rest =>
    if (x = 'x' ∨ x = 'X') ∧ is_digit_of 16 h = true then strtol_digits 16 (h :: rest) 0
    else strtol_digits 8 (x :: h :: rest) 0
  | '0' :: rest => strtol_digits 8 rest 0
  | cs => strtol_digits 10 cs 0

/-- `LONG_MAX` of an LP64 target. -/
def LONG_MAX : Int := 9223372036854775807

/-- Libc `strtol(s, NULL, 0)`: leading white space is skipped, an optional sign
is read, the base is detected from the prefix, the result saturates at the range
of `long`, and a string without digits yields 0. -/
def strtol (s : String) : Int :=
  match (c_str s).data.dropWhile isspace with
  | '-' :: cs => max (-(strtol_magnitude cs : Int)) (-LONG_MAX - 1)
  | '+' :: cs => min (strtol_magnitude cs : Int) LONG_MAX
  | cs => min (strtol_magnitude cs : Int) LONG_MAX

/-- `INT_MAX` of `<limits.h>`. -/
def INT_MAX : Int := 2147483647

/-- The conversion `(int)` of a `long`: the low 32 bits, read as two's complement. -/
def to_int (x : Int) : Int := (x + 2147483648) % 4294967296 - 2147483648

/-- The conversion `(uint8_t)`. -/
def to_uint8 (x : Int) : Nat := (x % 256).toNat

/-- The conversion `(uint16_t)`. -/
def to_uint16 (x : Int) : Nat := (x % 65536).toNat

/-! ## Stream readers (`bt_types.h`) and opcode fields (`hcidefs.h`) -/

/-- Modelled from the spec: the byte order in which the macros
`STREAM_TO_UINT16`, `STREAM_TO_UINT24` and `STREAM_TO_UINT32` of `bt_types.h`
assemble an integer; the header is not in the source tree, and the spec speaks
of big-endian fields while its opcode examples read the low octet first, so the
order is a parameter of every function that reads the stream. -/
inductive ByteOrder where
  | little
  | big
  deriving DecidableEq

/-- The octet under the cursor `pos`, if the cursor is inside the packet buffer. -/
def octet_at (data : List Nat) (pos : Int) : Option Nat :=
  if 0 ≤ pos then data[pos.toNat]?.map (fun b => b % 256) else none

/-- The `n` octets starting at the cursor, in stream order. -/
def octets_at (data : List Nat) (pos : Int) : Nat → Option (List Nat)
  | 0 => some []
  | n + 1 =>
    match octet_at data pos, octets_at data (pos + 1) n with
    | some b, some bs => some (b :: bs)
    | _, _ => none

/-- The integer whose base-256 digits are `bs`, least significant first. -/
def le_value : List Nat → Nat
  | [] => 0
  | b :: bs => b + 256 * le_value bs

/-- The integer a stream macro assembles from the octets `bs` read in stream order. -/
def assemble (bo : ByteOrder) (bs : List Nat) : Nat :=
  match bo with
  | .little => le_value bs
  | .big => le_value bs.reverse

/-- Modelled from the spec: the macros `STREAM_TO_UINT8/16/24/32(v, p)` of
`bt_types.h` (not in the source tree): read `n` octets at the cursor, assemble
them in the byte order `bo`, and advance the cursor by `n`. -/
def STREAM_TO_UINT (bo : ByteOrder) (n : Nat) (data : List Nat) (pos : Int) :
    Except Fault (Nat × Int) :=
  match octets_at data pos n with
  | some bs => .ok (assemble bo bs, pos + n)
  | none => .error .read_outside_packet

/-- `STREAM_TO_UINT8(v, p)`: the octet under the cursor; the cursor advances by one. -/
def STREAM_TO_UINT8 (data : List Nat) (pos : Int) : Except Fault (Nat × Int) :=
  match octet_at data pos with
  | some b => .ok (b, pos + 1)
  | none => .error .read_outside_packet

/-- Modelled from the spec: `HCI_OGF(opcode)` of `hcidefs.h` (not in the source
tree), the group code held in the upper 6 bits of the opcode. -/
def HCI_OGF (opcode : Nat) : Nat := opcode / 1024 % 64

/-- Modelled from the spec: `HCI_OCF(opcode)` of `hcidefs.h` (not in the source
tree), the within-group index held in the lower 10 bits of the opcode. -/
def HCI_OCF (opcode : Nat) : Nat := opcode % 1024

/-! ## Schema types -/

def INDENT_LEVEL_0 : Nat := 0
def INDENT_LEVEL_1 : Nat := 1
def INDENT_LEVEL_2 : Nat := 2
def INDENT_LEVEL_3 : Nat := 3
def INDENT_LEVEL_4 : Nat := 4

/-- The array `LINE_INDENT` of indentation strings. -/
def LINE_INDENT : List String :=
  ["", "    ", "        ", "            ", "                "]

/-- The capacity of the descriptor arrays of a unit and of the value array of an instance. -/
def MAX_HCI_PARAM_NUM : Nat := 24 + 6

def HCI_CMD_GRP_LINK_CONTROL : Nat := 0x01
def HCI_CMD_GRP_LINK_POLICY : Nat := 0x02
def HCI_CMD_GRP_CONTROLLER_BASEBAND : Nat := 0x03
def HCI_CMD_GRP_INFORMATIONAL_PARAMETERS : Nat := 0x04
def HCI_CMD_GRP_STATUS_PARAMETERS : Nat := 0x05
def HCI_CMD_GRP_TESTING : Nat := 0x06
def HCI_CMD_GRP_LE_CONTROLLER : Nat := 0x08
def HCI_CMD_GRP_VENDOR_SPECIFIC : Nat := 0x3f

def SCAN_ENABLE : Int := 1
def INQUIRY_SCAN_TYPE : Int := 4
def INQUIRY_MODE : Int := 5
def PAGE_SCAN_TYPE : Int := 11
def VOICE_SETTING : Int := 12
def PIN_TYPE : Int := 13
def AUTHENTICATION_ENABLE : Int := 16
def HOLD_MODE_ACTIVITY : Int := 17
def LINK_POLICY_SETTING : Int := 18
def SYNCHRONOUS_FLOW_CONTROL_ENABLE : Int := 22
def ERRONEOUS_DATA_REPORTING : Int := 25
def LOCATION_DOMAIN_AWARE : Int := 29
def LOCATION_DOMAIN_OPTIONS : Int := 31
def LOCATION_OPTIONS : Int := 32
def FLOW_CONTROL_MODE : Int := 33
def LE_SUPPORTED_HOST : Int := 34
def SECURE_CONNECTIONS_HOST_SUPPORT : Int := 39
def PAGE_SCAN_REPETITION_MODE : Int := 100
def LAP_IAC : Int := 101
def PACKET_TYPE_ACL : Int := 102
def PACKET_TYPE_SCO : Int := 103
def SIMPLE_PAIRING_MODE : Int := 104
def SIMPLE_PAIRING_DEBUG_MODE : Int := 105
def FEC_REQUIRED : Int := 106
def RSSI : Int := 107
def DELETE_ALL_FLAG : Int := 108
def LE_META_EVENT_ADVERTISING_REPORT_EVENT_TYPE : Int := 200
def LE_META_EVENT_ADVERTISING_REPORT_ADDRESS_TYPE : Int := 201
def ADVERTISING_TYPE : Int := 202
def ADVERTISING_ENABLE : Int := 203
def LE_SCAN_TYPE : Int := 204
def LE_SCAN_ENABLE : Int := 205
def FILTER_DUPLICATES : Int := 206
def ADDRESS_TYPE : Int := 207
def OWN_ADDRESS_TYPE : Int := 208
def PEER_IDENTITY_ADDRESS_TYPE : Int := 209
def PEER_ADDRESS_TYPE : Int := 210
def SECURITY_KEY_TYPE : Int := 301
def SECURITY_PASSKEY_TYPE : Int := 302

/-- The display types of a parameter. `UNSET` is the value 0 that a descriptor
left out of an initialiser carries; the enumerators start at `INT_HEX = 0x01`. -/
inductive HCI_PARAM_DISPLAY_TYPE where
  | UNSET
  | INT_HEX
  | INT_DEC
  | INT_HANDLE
  | SEQ_HEX
  | SEQ_CHAR
  | TIME_CLK1
  | TIME_CLK2
  | TIME_CLK5
  | TIME_CLK12
  | TEXT_REASON_STATUS_CODE
  | TEXT_BD_ADDR
  | TEXT_SPECIAL_DISPLAY_PARAM
  deriving DecidableEq

/-- One parameter descriptor (`HCI_PARAMETER_REPR`); a field an initialiser
leaves out is zero. -/
structure HCI_PARAMETER_REPR where
  name : Option String := none
  length : Int := 0
  repeat_param_num : Int := 0
  display_type : HCI_PARAM_DISPLAY_TYPE := .UNSET
  index_of_special_display_param : Int := 0
  deriving DecidableEq

/-- One command or event (`HCI_UNIT_REPR`). The lists `parameter` and
`return_parameter` hold the initialised prefix of the two arrays of
`MAX_HCI_PARAM_NUM` descriptors; the slots behind the prefix are zero. -/
structure HCI_UNIT_REPR where
  name : Option String := none
  opcode : Nat := 0
  parameter_count : Nat := 0
  parameter : List HCI_PARAMETER_REPR := []
  return_parameter_count : Nat := 0
  return_parameter : List HCI_PARAMETER_REPR := []
  deriving DecidableEq

/-- The descriptor `hci_param_repr[k]` of a descriptor array. -/
def descriptor_at (hci_param_repr : List HCI_PARAMETER_REPR) (k : Nat) :
    Except Fault HCI_PARAMETER_REPR :=
  if k < MAX_HCI_PARAM_NUM then .ok (hci_param_repr.getD k {}) else .error .descriptor_out_of_range

/-- A table of units written with designated initialisers `[index] = entry`:
the slot `index` of the array, zero where no initialiser names it. -/
def table_slot (table : List (Nat × HCI_UNIT_REPR)) (index : Nat) : HCI_UNIT_REPR :=
  match table.find? (fun e => e.1 = index) with
  | some e => e.2
  | none => {}

/-! ## Schema tables

The tables are the designated initialisers of the source, entry by entry: the
definition `TABLE_0xNN` is the initialiser of `[0xNN] = { ... }`, a pair
`(index, unit)` of a table places it, and a field the source leaves out is left
out here (it is zero). `parameter_count` and `return_parameter_count`
are the declared counts, which in a few entries differ from the number of
descriptors written.
-/

def LING_CONTROL_NUM : Nat := 69

def HCI_LINK_CONTROL_COMMANDS_0x0001 : HCI_UNIT_REPR where
  name := some "HCI_Inquiry"
  opcode := 0x0401
  parameter_count := 3
  parameter := [
    { name := some "LAP", length := 3, display_type := .TEXT_SPECIAL_DISPLAY_PARAM, index_of_special_display_param := LAP_IAC },
    { name := some "Inquiry_Length", length := 1, display_type := .TIME_CLK12 },
    { name := some "Num_Responses", length := 1, display_type := .INT_DEC } ]
  return_parameter_count := 0
  return_parameter := []

def HCI_LINK_CONTROL_COMMANDS_0x0002 : HCI_UNIT_REPR where
  name := some "HCI_Inquiry_Cancel"
  opcode := 0x0402
  parameter_count := 0
  parameter := []
  return_parameter_count := 1
  return_parameter := [
    { name := some "Status", length := 1, display_type := .TEXT_REASON_STATUS_CODE } ]

def HCI_LINK_CONTROL_COMMANDS_0x0003 : HCI_UNIT_REPR where
  name := some "HCI_Periodic_Inquiry_Mode"
  opcode := 0x0403
  parameter_count := 5
  parameter := [
    { name := some "Max_Period_Length", length := 2, display_type := .TIME_CLK12 },
    { name := some "Min_Period_Length", length := 2, display_type := .TIME_CLK12 },
    { name := some "LAP", length := 3, display_type := .TEXT_SPECIAL_DISPLAY_PARAM, index_of_special_display_param := LAP_IAC },
    { name := some "Inquiry_Length", length := 1, display_type := .TIME_CLK12 },
    { name := some "Num_Responses", length := 1, display_type := .INT_DEC } ]
  return_parameter_count := 1
  return_parameter := [
    { name := some "Status", length := 1, display_type := .TEXT_REASON_STATUS_CODE } ]

def HCI_LINK_CONTROL_COMMANDS_0x0004 : HCI_UNIT_REPR where
  name := some "HCI_Exit_Periodic_Inquiry_Mode"
  opcode := 0x0404
  parameter_count := 0
  parameter := []
  return_parameter_count := 1
  return_parameter := [
    { name := some "Status", length := 1, display_type := .TEXT_REASON_STATUS_CODE } ]

def HCI_LINK_CONTROL_COMMANDS_0x0005 : HCI_UNIT_REPR where
  name := some "HCI_Create_Connection"
  opcode := 0x0405
  parameter_count := 6
  parameter := [
    { name := some "BD_ADDR", length := 6, display_type := .TEXT_BD_ADDR },
    { name := some "Packet_Type", length := 2, display_type := .TEXT_SPECIAL_DISPLAY_PARAM, index_of_special_display_param := PACKET_TYPE_ACL },
    { name := some "Page_Scan_Repetition_Mode", length := 1, display_type := .TEXT_SPECIAL_DISPLAY_PARAM, index_of_special_display_param := PAGE_SCAN_REPETITION_MODE },
    { name := some "Reserved", length := 1, display_type := .INT_HEX },
    { name := some "Clock_Offset", length := 2, display_type := .INT_HEX },
    { name := some "Allow_Role_Switch", length := 1, display_type := .INT_HEX } ]
  return_parameter_count := 0
  return_parameter := []

def HCI_LINK_CONTROL_COMMANDS_0x0006 : HCI_UNIT_REPR where
  name := some "HCI_Disconnect"
  opcode := 0x0406
  parameter_count := 2
  parameter := [
    { name := some "Connection_Handle", length := 2, display_type := .INT_HANDLE },
    { name := some "Reason", length := 1, display_type := .TEXT_REASON_STATUS_CODE } ]
  return_parameter_count := 0
  return_parameter := []

def HCI_LINK_CONTROL_COMMANDS_0x0008 : HCI_UNIT_REPR where
  name := some "HCI_Create_Connection_Cancel"
  opcode := 0x0408
  parameter_count := 1
  parameter := [
    { name := some "BD_ADDR", length := 6, display_type := .TEXT_BD_ADDR } ]
  return_parameter_count := 2
  return_parameter := [
    { name := some "Status", length := 1, display_type := .TEXT_REASON_STATUS_CODE },
    { name := some "BD_ADDR", length := 6, display_type := .TEXT_BD_ADDR } ]

def HCI_LINK_CONTROL_COMMANDS_0x0009 : HCI_UNIT_REPR where
  name := some "HCI_Accept_Connection_Request"
  opcode := 0x0409
  parameter_count := 2
  parameter := [
    { name := some "BD_ADDR", length := 6, display_type := .TEXT_BD_ADDR },
    { name := some "Role", length := 1, display_type := .INT_HEX } ]
  return_parameter_count := 0
  return_parameter := []

def HCI_LINK_CONTROL_COMMANDS_0x000a : HCI_UNIT_REPR where
  name := some "HCI_Reject_Connection_Request"
  opcode := 0x040a
  parameter_count := 2
  parameter := [
    { name := some "BD_ADDR", length := 6, display_type := .TEXT_BD_ADDR },
    { name := some "Reason", length := 1, display_type := .TEXT_REASON_STATUS_CODE } ]
  return_parameter_count := 0
  return_parameter := []

def HCI_LINK_CONTROL_COMMANDS_0x000b : HCI_UNIT_REPR where
  name := some "HCI_Link_Key_Request_Reply"
  opcode := 0x040b
  parameter_count := 2
  parameter := [
    { name := some "BD_ADDR", length := 6, display_type := .TEXT_BD_ADDR },
    { name := some "Link_Key", length := 16, display_type := .TEXT_SPECIAL_DISPLAY_PARAM, index_of_special_display_param := SECURITY_KEY_TYPE } ]
  return_parameter_count := 2
  return_parameter := [
    { name := some "Status", length := 1, display_type := .TEXT_REASON_STATUS_CODE },
    { name := some "BD_ADDR", length := 6, display_type := .TEXT_BD_ADDR } ]

def HCI_LINK_CONTROL_COMMANDS_0x000c : HCI_UNIT_REPR where
  name := some "HCI_Link_Key_Request_Negative_Reply"
  opcode := 0x040c
  parameter_count := 1
  parameter := [
    { name := some "BD_ADDR", length := 6, display_type := .TEXT_BD_ADDR } ]
  return_parameter_count := 2
  return_parameter := [
    { name := some "Status", length := 1, display_type := .TEXT_REASON_STATUS_CODE },
    { name := some "BD_ADDR", length := 6, display_type := .TEXT_BD_ADDR } ]

def HCI_LINK_CONTROL_COMMANDS_0x000d : HCI_UNIT_REPR where
  name := some "HCI_PIN_Code_Request_Reply"
  opcode := 0x040d
  parameter_count := 3
  parameter := [
    { name := some "BD_ADDR", length := 6, display_type := .TEXT_BD_ADDR },
    { name := some "PIN_Code_Length", length := 1, display_type := .INT_DEC },
    { name := some "PIN_Code", length := 16, display_type := .TEXT_SPECIAL_DISPLAY_PARAM, index_of_special_display_param := SECURITY_KEY_TYPE } ]
  return_parameter_count := 2
  return_parameter := [
    { name := some "Status", length := 1, display_type := .TEXT_REASON_STATUS_CODE },
    { name := some "BD_ADDR", length := 6, display_type := .TEXT_BD_ADDR } ]

def HCI_LINK_CONTROL_COMMANDS_0x000e : HCI_UNIT_REPR where
  name := some "HCI_PIN_Code_Request_Negative_Reply"
  opcode := 0x040e
  parameter_count := 1
  parameter := [
    { name := some "BD_ADDR", length := 6, display_type := .TEXT_BD_ADDR } ]
  return_parameter_count := 2
  return_parameter := [
    { name := some "Status", length := 1, display_type := .TEXT_REASON_STATUS_CODE },
    { name := some "BD_ADDR", length := 6, display_type := .TEXT_BD_ADDR } ]

def HCI_LINK_CONTROL_COMMANDS_0x000f : HCI_UNIT_REPR where
  name := some "HCI_Change_Connection_Packet_Type"
  opcode := 0x040f
  parameter_count := 2
  parameter := [
    { name := some "Connection_Handle", length := 2, display_type := .INT_HANDLE },
    { name := some "Packet_Type", length := 2, display_type := .TEXT_SPECIAL_DISPLAY_PARAM, index_of_special_display_param := PACKET_TYPE_ACL } ]
  return_parameter_count := 0
  return_parameter := []

def HCI_LINK_CONTROL_COMMANDS_0x0011 : HCI_UNIT_REPR where
  name := some "HCI_Authentication_Requested"
  opcode := 0x0411
  parameter_count := 1
  parameter := [
    { name := some "Connection_Handle", length := 2, display_type := .INT_HANDLE } ]
  return_parameter_count := 0
  return_parameter := []

def HCI_LINK_CONTROL_COMMANDS_0x0013 : HCI_UNIT_REPR where
  name := some "HCI_Set_Connection_Encryption"
  opcode := 0x0413
  parameter_count := 2
  parameter := [
    { name := some "Connection_Handle", length := 2, display_type := .INT_HANDLE },
    { name := some "Encryption_Enable", length := 1, display_type := .INT_HEX } ]
  return_parameter_count := 0
  return_parameter := []

def HCI_LINK_CONTROL_COMMANDS_0x0015 : HCI_UNIT_REPR where
  name := some "HCI_Change_Connection_Link_Key"
  opcode := 0x0415
  parameter_count := 1
  parameter := [
    { name := some "Connection_Handle", length := 2, display_type := .INT_HANDLE } ]
  return_parameter_count := 0
  return_parameter := []

def HCI_LINK_CONTROL_COMMANDS_0x0017 : HCI_UNIT_REPR where
  name := some "HCI_Master_Link_Key"
  opcode := 0x0417
  parameter_count := 1
  parameter := [
    { name := some "Key_Flag", length := 1, display_type := .INT_HEX } ]
  return_parameter_count := 0
  return_parameter := []

def HCI_LINK_CONTROL_COMMANDS_0x0019 : HCI_UNIT_REPR where
  name := some "HCI_Remote_Name_Request"
  opcode := 0x0419
  parameter_count := 4
  parameter := [
    { name := some "BD_ADDR", length := 6, display_type := .TEXT_BD_ADDR },
    { name := some "Page_Scan_Repetition_Mode", length := 1, display_type := .TEXT_SPECIAL_DISPLAY_PARAM, index_of_special_display_param := PAGE_SCAN_REPETITION_MODE },
    { name := some "Reserved", length := 1, display_type := .INT_HEX },
    { name := some "Clock_Offset", length := 2, display_type := .INT_HEX } ]
  return_parameter_count := 0
  return_parameter := []

def HCI_LINK_CONTROL_COMMANDS_0x001a : HCI_UNIT_REPR where
  name := some "HCI_Remote_Name_Request_Cancel"
  opcode := 0x041a
  parameter_count := 1
  parameter := [
    { name := some "BD_ADDR", length := 6, display_type := .TEXT_BD_ADDR } ]
  return_parameter_count := 2
  return_parameter := [
    { name := some "Status", length := 1, display_type := .TEXT_REASON_STATUS_CODE },
    { name := some "BD_ADDR", length := 6, display_type := .TEXT_BD_ADDR } ]

def HCI_LINK_CONTROL_COMMANDS_0x001b : HCI_UNIT_REPR where
  name := some "HCI_Read_Remote_Supported_Features"
  opcode := 0x041b
  parameter_count := 1
  parameter := [
    { name := some "Connection_Handle", length := 2, display_type := .INT_HANDLE } ]
  return_parameter_count := 0
  return_parameter := []

def HCI_LINK_CONTROL_COMMANDS_0x001c : HCI_UNIT_REPR where
  name := some "HCI_Read_Remote_Extended_Features"
  opcode := 0x041c
  parameter_count := 2
  parameter := [
    { name := some "Connection_Handle", length := 2, display_type := .INT_HANDLE },
    { name := some "Page Number", length := 1, display_type := .INT_DEC } ]
  return_parameter_count := 0
  return_parameter := []

def HCI_LINK_CONTROL_COMMANDS_0x001d : HCI_UNIT_REPR where
  name := some "HCI_Read_Remote_Version_Information"
  opcode := 0x041d
  parameter_count := 1
  parameter := [
    { name := some "Connection_Handle", length := 2, display_type := .INT_HANDLE } ]
  return_parameter_count := 0
  return_parameter := []

def HCI_LINK_CONTROL_COMMANDS_0x001f : HCI_UNIT_REPR where
  name := some "HCI_Read_Clock_Offset"
  opcode := 0x041f
  parameter_count := 1
  parameter := [
    { name := some "Connection_Handle", length := 2, display_type := .INT_HANDLE } ]
  return_parameter_count := 0
  return_parameter := []

def HCI_LINK_CONTROL_COMMANDS_0x0020 : HCI_UNIT_REPR where
  name := some "HCI_Read_LMP_Handle"
  opcode := 0x0420
  parameter_count := 1
  parameter := [
    { name := some "Connection_Handle", length := 2, display_type := .INT_HANDLE } ]
  return_parameter_count := 0
  return_parameter := []

def HCI_LINK_CONTROL_COMMANDS_0x0028 : HCI_UNIT_REPR where
  name := some "HCI_Setup_Synchronous_Connection"
  opcode := 0x0428
  parameter_count := 7
  parameter := [
    { name := some "Connection_Handle", length := 2, display_type := .INT_HANDLE },
    { name := some "Transmit_Bandwidth", length := 4, display_type := .INT_HEX },
    { name := some "Receive_Bandwidth", length := 4, display_type := .INT_HEX },
    { name := some "Max_Latency", length := 2, display_type := .INT_HEX },
    { name := some "Voice_Setting", length := 2, display_type := .TEXT_SPECIAL_DISPLAY_PARAM, index_of_special_display_param := VOICE_SETTING },
    { name := some "Retransmission_Effort", length := 1, display_type := .INT_HEX },
    { name := some "Packet_Type", length := 2, display_type := .TEXT_SPECIAL_DISPLAY_PARAM, index_of_special_display_param := PACKET_TYPE_SCO } ]
  return_parameter_count := 0
  return_parameter := []

def HCI_LINK_CONTROL_COMMANDS_0x0029 : HCI_UNIT_REPR where
  name := some "HCI_Accept_Synchronous_Connection_Request"
  opcode := 0x0429
  parameter_count := 7
  parameter := [
    { name := some "BD_ADDR", length := 6, display_type := .TEXT_BD_ADDR },
    { name := some "Transmit_Bandwidth", length := 4, display_type := .INT_HEX },
    { name := some "Receive_Bandwidth", length := 4, display_type := .INT_HEX },
    { name := some "Max_Latency", length := 2, display_type := .INT_HEX },
    { name := some "Voice_Setting", length := 2, display_type := .TEXT_SPECIAL_DISPLAY_PARAM, index_of_special_display_param := VOICE_SETTING },
    { name := some "Retransmission_Effort", length := 1, display_type := .INT_HEX },
    { name := some "Packet_Type", length := 2, display_type := .TEXT_SPECIAL_DISPLAY_PARAM, index_of_special_display_param := PACKET_TYPE_SCO } ]
  return_parameter_count := 0
  return_parameter := []

def HCI_LINK_CONTROL_COMMANDS_0x002a : HCI_UNIT_REPR where
  name := some "HCI_Reject_Synchronous_Connection_Request"
  opcode := 0x042a
  parameter_count := 2
  parameter := [
    { name := some "BD_ADDR", length := 6, display_type := .TEXT_BD_ADDR },
    { name := some "Reason", length := 1, display_type := .TEXT_REASON_STATUS_CODE } ]
  return_parameter_count := 0
  return_parameter := []

def HCI_LINK_CONTROL_COMMANDS_0x002b : HCI_UNIT_REPR where
  name := some "HCI_IO_Capability_Request_Reply"
  opcode := 0x042b
  parameter_count := 4
  parameter := [
    { name := some "BD_ADDR", length := 6, display_type := .TEXT_BD_ADDR },
    { name := some "IO_Capability", length := 1, display_type := .INT_HEX },
    { name := some "OOB_Data_Present", length := 1, display_type := .INT_HEX },
    { name := some "Authentication_Requirements", length := 1, display_type := .INT_HEX } ]
  return_parameter_count := 2
  return_parameter := [
    { name := some "Status", length := 1, display_type := .TEXT_REASON_STATUS_CODE },
    { name := some "BD_ADDR", length := 6, display_type := .TEXT_BD_ADDR } ]

def HCI_LINK_CONTROL_COMMANDS_0x002c : HCI_UNIT_REPR where
  name := some "HCI_User_Confirmation_Request_Reply"
  opcode := 0x042c
  parameter_count := 1
  parameter := [
    { name := some "BD_ADDR", length := 6, display_type := .TEXT_BD_ADDR } ]
  return_parameter_count := 2
  return_parameter := [
    { name := some "Status", length := 1, display_type := .TEXT_REASON_STATUS_CODE },
    { name := some "BD_ADDR", length := 6, display_type := .TEXT_BD_ADDR } ]

def HCI_LINK_CONTROL_COMMANDS_0x002d : HCI_UNIT_REPR where
  name := some "HCI_User_Confirmation_Request_Negative_Reply"
  opcode := 0x042d
  parameter_count := 1
  parameter := [
    { name := some "BD_ADDR", length := 6, display_type := .TEXT_BD_ADDR } ]
  return_parameter_count := 2
  return_parameter := [
    { name := some "Status", length := 1, display_type := .TEXT_REASON_STATUS_CODE },
    { name := some "BD_ADDR", length := 6, display_type := .TEXT_BD_ADDR } ]

def HCI_LINK_CONTROL_COMMANDS_0x002e : HCI_UNIT_REPR where
  name := some "HCI_User_Passkey_Request_Reply"
  opcode := 0x042e
  parameter_count := 2
  parameter := [
    { name := some "BD_ADDR", length := 6, display_type := .TEXT_BD_ADDR },
    { name := some "Numeric_Value", length := 4, display_type := .INT_HEX } ]
  return_parameter_count := 2
  return_parameter := [
    { name := some "Status", length := 1, display_type := .TEXT_REASON_STATUS_CODE },
    { name := some "BD_ADDR", length := 6, display_type := .TEXT_BD_ADDR } ]

def HCI_LINK_CONTROL_COMMANDS_0x002f : HCI_UNIT_REPR where
  name := some "HCI_User_Passkey_Request_Negative_Reply"
  opcode := 0x042f
  parameter_count := 1
  parameter := [
    { name := some "BD_ADDR", length := 6, display_type := .TEXT_BD_ADDR } ]
  return_parameter_count := 2
  return_parameter := [
    { name := some "Status", length := 1, display_type := .TEXT_REASON_STATUS_CODE },
    { name := some "BD_ADDR", length := 6, display_type := .TEXT_BD_ADDR } ]

def HCI_LINK_CONTROL_COMMANDS_0x0030 : HCI_UNIT_REPR where
  name := some "HCI_Remote_OOB_Data_Request_Reply"
  opcode := 0x0430
  parameter_count := 3
  parameter := [
    { name := some "BD_ADDR", length := 6, display_type := .TEXT_BD_ADDR },
    { name := some "C", length := 16, display_type := .SEQ_HEX },
    { name := some "R", length := 16, display_type := .SEQ_HEX } ]
  return_parameter_count := 2
  return_parameter := [
    { name := some "Status", length := 1, display_type := .TEXT_REASON_STATUS_CODE },
    { name := some "BD_ADDR", length := 6, display_type := .TEXT_BD_ADDR } ]

def HCI_LINK_CONTROL_COMMANDS_0x0033 : HCI_UNIT_REPR where
  name := some "HCI_Remote_OOB_Data_Request_Negative_Reply"
  opcode := 0x0433
  parameter_count := 1
  parameter := [
    { name := some "BD_ADDR", length := 6, display_type := .TEXT_BD_ADDR } ]
  return_parameter_count := 2
  return_parameter := [
    { name := some "Status", length := 1, display_type := .TEXT_REASON_STATUS_CODE },
    { name := some "BD_ADDR", length := 6, display_type := .TEXT_BD_ADDR } ]

def HCI_LINK_CONTROL_COMMANDS_0x0034 : HCI_UNIT_REPR where
  name := some "HCI_IO_Capability_Request_Negative_Reply"
  opcode := 0x0434
  parameter_count := 1
  parameter := [
    { name := some "BD_ADDR", length := 6, display_type := .TEXT_BD_ADDR },
    { name := some "Reason", length := 1, display_type := .TEXT_REASON_STATUS_CODE } ]
  return_parameter_count := 2
  return_parameter := [
    { name := some "Status", length := 1, display_type := .TEXT_REASON_STATUS_CODE },
    { name := some "BD_ADDR", length := 6, display_type := .TEXT_BD_ADDR } ]

def HCI_LINK_CONTROL_COMMANDS_0x0035 : HCI_UNIT_REPR where
  name := some "HCI_Create_Physical_Link"
  opcode := 0x0435
  parameter_count := 4
  parameter := [
    { name := some "Physical_Link_Handle", length := 1, display_type := .INT_HEX },
    { name := some "Dedicated_AMP_Key_Length", length := 1, display_type := .INT_DEC },
    { name := some "Dedicated_AMP_Key_Type", length := 1, display_type := .INT_HEX },
    { name := some "Dedicated_AMP_Key", length := -2, display_type := .SEQ_HEX } ]
  return_parameter_count := 0
  return_parameter := []

def HCI_LINK_CONTROL_COMMANDS_0x0036 : HCI_UNIT_REPR where
  name := some "HCI_Accept_Physical_Link"
  opcode := 0x0436
  parameter_count := 4
  parameter := [
    { name := some "Physical_Link_Handle", length := 1, display_type := .INT_HEX },
    { name := some "Dedicated_AMP_Key_Length", length := 1, display_type := .INT_DEC },
    { name := some "Dedicated_AMP_Key_Type", length := 1, display_type := .INT_HEX },
    { name := some "Dedicated_AMP_Key", length := -2, display_type := .SEQ_HEX } ]
  return_parameter_count := 0
  return_parameter := []

def HCI_LINK_CONTROL_COMMANDS_0x0037 : HCI_UNIT_REPR where
  name := some "HCI_Disconnect_Physical_Link"
  opcode := 0x0437
  parameter_count := 2
  parameter := [
    { name := some "Physical_Link_Handle", length := 1, display_type := .INT_HEX },
    { name := some "Reason", length := 1, display_type := .TEXT_REASON_STATUS_CODE } ]
  return_parameter_count := 0
  return_parameter := []

def HCI_LINK_CONTROL_COMMANDS_0x0038 : HCI_UNIT_REPR where
  name := some "HCI_Create_Logical_Link"
  opcode := 0x0438
  parameter_count := 3
  parameter := [
    { name := some "Physical_Link_Handle", length := 1, display_type := .INT_HEX },
    { name := some "Tx_Flow_Spec", length := 16, display_type := .SEQ_HEX },
    { name := some "Rx_Flow_Spec", length := 16, display_type := .SEQ_HEX } ]
  return_parameter_count := 0
  return_parameter := []

def HCI_LINK_CONTROL_COMMANDS_0x0039 : HCI_UNIT_REPR where
  name := some "HCI_Accept_Logical_Link"
  opcode := 0x0439
  parameter_count := 3
  parameter := [
    { name := some "Physical_Link_Handle", length := 1, display_type := .INT_HEX },
    { name := some "Tx_Flow_Spec", length := 16, display_type := .SEQ_HEX },
    { name := some "Rx_Flow_Spec", length := 16, display_type := .SEQ_HEX } ]
  return_parameter_count := 0
  return_parameter := []

def HCI_LINK_CONTROL_COMMANDS_0x003a : HCI_UNIT_REPR where
  name := some "HCI_Disconnect_Logical_Link"
  opcode := 0x043a
  parameter_count := 1
  parameter := [
    { name := some "Logical_Link_Handle", length := 2, display_type := .INT_HEX } ]
  return_parameter_count := 0
  return_parameter := []

def HCI_LINK_CONTROL_COMMANDS_0x003b : HCI_UNIT_REPR where
  name := some "HCI_Logical_Link_Cancel"
  opcode := 0x043b
  parameter_count := 2
  parameter := [
    { name := some "Physical_Link_Handle", length := 1, display_type := .INT_HEX },
    { name := some "Tx_Flow_Spec_ID", length := 1, display_type := .INT_HEX } ]
  return_parameter_count := 3
  return_parameter := [
    { name := some "Status", length := 1, display_type := .TEXT_REASON_STATUS_CODE },
    { name := some "Physical_Link_Handle", length := 1, display_type := .INT_HEX },
    { name := some "Tx_Flow_Spec_ID", length := 1, display_type := .INT_HEX } ]

def HCI_LINK_CONTROL_COMMANDS_0x003c : HCI_UNIT_REPR where
  name := some "HCI_Flow_Spec_Modify"
  opcode := 0x043c
  parameter_count := 3
  parameter := [
    { name := some "Handle", length := 2, display_type := .INT_HEX },
    { name := some "Tx_Flow_Spec", length := 16, display_type := .SEQ_HEX },
    { name := some "Rx_Flow_Spec", length := 16, display_type := .SEQ_HEX } ]
  return_parameter_count := 0
  return_parameter := []

def HCI_LINK_CONTROL_COMMANDS_0x003d : HCI_UNIT_REPR where
  name := some "HCI_Enhanced_Setup_Synchronous_Connection"
  opcode := 0x043d
  parameter_count := 24
  parameter := [
    { name := some "Connection_Handle", length := 2, display_type := .INT_HANDLE },
    { name := some "Transmit_Bandwidth", length := 4, display_type := .INT_HEX },
    { name := some "Receive_Bandwidth", length := 4, display_type := .INT_HEX },
    { name := some "Transmit_Coding_Format", length := 5, display_type := .SEQ_HEX },
    { name := some "Receive_Coding_Format", length := 5, display_type := .SEQ_HEX },
    { name := some "Transmit_Codec_Frame_Size", length := 2, display_type := .INT_HEX },
    { name := some "Receive_Codec_Frame_Size", length := 2, display_type := .INT_HEX },
    { name := some "Input_Bandwidth", length := 4, display_type := .INT_HEX },
    { name := some "Output_Bandwidth", length := 4, display_type := .INT_HEX },
    { name := some "Input_Coding_Format", length := 5, display_type := .SEQ_HEX },
    { name := some "Output_Coding_Format", length := 5, display_type := .SEQ_HEX },
    { name := some "Input_Coded_Data_Size", length := 2, display_type := .INT_DEC },
    { name := some "Output_Coded_Data_Size", length := 2, display_type := .INT_DEC },
    { name := some "Input_PCM_Data_Format", length := 1, display_type := .INT_HEX },
    { name := some "Output_PCM_Data_Format", length := 1, display_type := .INT_HEX },
    { name := some "Input_PCM_Sample_Payload_MSB_Position", length := 1, display_type := .INT_HEX },
    { name := some "Output_PCM_Sample_Payload_MSB_Position", length := 1, display_type := .INT_HEX },
    { name := some "InputData_Path", length := 1, display_type := .INT_HEX },
    { name := some "Output_Data_Path", length := 1, display_type := .INT_HEX },
    { name := some "Input_Transport_Unit_Size", length := 1, display_type := .INT_DEC },
    { name := some "Output_Transport_Unit_Size", length := 1, display_type := .INT_DEC },
    { name := some "Max_Latency", length := 2, display_type := .INT_HEX },
    { name := some "Packet_Type", length := 2, display_type := .TEXT_SPECIAL_DISPLAY_PARAM, index_of_special_display_param := PACKET_TYPE_SCO },
    { name := some "Retransmission_Effort", length := 1, display_type := .INT_HEX } ]
  return_parameter_count := 0
  return_parameter := []

def HCI_LINK_CONTROL_COMMANDS_0x003e : HCI_UNIT_REPR where
  name := some "HCI_Enhanced_Accept_Synchronous_Connection_Request"
  opcode := 0x043e
  parameter_count := 24
  parameter := [
    { name := some "BD_ADDR", length := 6, display_type := .TEXT_BD_ADDR },
    { name := some "Transmit_Bandwidth", length := 4, display_type := .INT_HEX },
    { name := some "Receive_Bandwidth", length := 4, display_type := .INT_HEX },
    { name := some "Transmit_Coding_Format", length := 5, display_type := .SEQ_HEX },
    { name := some "Receive_Coding_Format", length := 5, display_type := .SEQ_HEX },
    { name := some "Transmit_Codec_Frame_Size", length := 2, display_type := .INT_DEC },
    { name := some "Receive_Codec_Frame_Size", length := 2, display_type := .INT_DEC },
    { name := some "Input_Bandwidth", length := 4, display_type := .INT_HEX },
    { name := some "Output_Bandwidth", length := 4, display_type := .INT_HEX },
    { name := some "Input_Coding_Format", length := 5, display_type := .SEQ_HEX },
    { name := some "Output_Coding_Format", length := 5, display_type := .SEQ_HEX },
    { name := some "Input_Coded_Data_Size", length := 2, display_type := .INT_DEC },
    { name := some "Output_Coded_Data_Size", length := 2, display_type := .INT_DEC },
    { name := some "Input_PCM_Data_Format", length := 1, display_type := .INT_HEX },
    { name := some "Output_PCM_Data_Format", length := 1, display_type := .INT_HEX },
    { name := some "Input_PCM_Sample_Payload_MSB_Position", length := 1, display_type := .INT_HEX },
    { name := some "Output_PCM_Sample_Payload_MSB_Position", length := 1, display_type := .INT_HEX },
    { name := some "InputData_Path", length := 1, display_type := .INT_HEX },
    { name := some "Output_Data_Path", length := 1, display_type := .INT_HEX },
    { name := some "Input_Transport_Unit_Size", length := 1, display_type := .INT_DEC },
    { name := some "Output_Transport_Unit_Size", length := 1, display_type := .INT_DEC },
    { name := some "Max_Latency", length := 2, display_type := .INT_HEX },
    { name := some "Packet_Type", length := 2, display_type := .TEXT_SPECIAL_DISPLAY_PARAM, index_of_special_display_param := PACKET_TYPE_SCO },
    { name := some "Retransmission_Effort", length := 1, display_type := .INT_HEX } ]
  return_parameter_count := 0
  return_parameter := []

def HCI_LINK_CONTROL_COMMANDS_0x003f : HCI_UNIT_REPR where
  name := some "HCI_Truncated_Page"
  opcode := 0x043f
  parameter_count := 3
  parameter := [
    { name := some "BD_ADDR", length := 6, display_type := .TEXT_BD_ADDR },
    { name := some "Page_Scan_Repetition_Mode", length := 1, display_type := .TEXT_SPECIAL_DISPLAY_PARAM, index_of_special_display_param := PAGE_SCAN_REPETITION_MODE },
    { name := some "Clock_Offset", length := 2, display_type := .SEQ_HEX } ]
  return_parameter_count := 0
  return_parameter := []

def HCI_LINK_CONTROL_COMMANDS_0x0040 : HCI_UNIT_REPR where
  name := some "HCI_Truncated_Page_Cancel"
  opcode := 0x0440
  parameter_count := 1
  parameter := [
    { name := some "BD_ADDR", length := 6, display_type := .TEXT_BD_ADDR } ]
  return_parameter_count := 2
  return_parameter := [
    { name := some "Status", length := 1, display_type := .TEXT_REASON_STATUS_CODE },
    { name := some "BD_ADDR", length := 6, display_type := .TEXT_BD_ADDR } ]

def HCI_LINK_CONTROL_COMMANDS_0x0041 : HCI_UNIT_REPR where
  name := some "HCI_Set_Connectionless_Slave_Broadcast"
  opcode := 0x0441
  parameter_count := 7
  parameter := [
    { name := some "Enable", length := 1, display_type := .INT_HEX },
    { name := some "LT_ADDR", length := 1, display_type := .INT_HEX },
    { name := some "LPO_Allowed", length := 1, display_type := .INT_HEX },
    { name := some "Packet_Type", length := 2, display_type := .TEXT_SPECIAL_DISPLAY_PARAM, index_of_special_display_param := PACKET_TYPE_ACL },
    { name := some "Interval_Min", length := 2, display_type := .INT_HEX },
    { name := some "Interval_Max", length := 2, display_type := .INT_HEX },
    { name := some "CSB_supervisionTO", length := 2, display_type := .INT_HEX } ]
  return_parameter_count := 3
  return_parameter := [
    { name := some "Status", length := 1, display_type := .TEXT_REASON_STATUS_CODE },
    { name := some "LT_ADDR", length := 1, display_type := .INT_HEX },
    { name := some "Interval", length := 2, display_type := .INT_HEX } ]

def HCI_LINK_CONTROL_COMMANDS_0x0042 : HCI_UNIT_REPR where
  name := some "HCI_Set_Connectionless_Slave_Broadcast_Receive"
  opcode := 0x0442
  parameter_count := 12
  parameter := [
    { name := some "Enable", length := 1, display_type := .INT_HEX },
    { name := some "BD_ADDR", length := 6, display_type := .TEXT_BD_ADDR },
    { name := some "LT_ADDR", length := 1, display_type := .INT_HEX },
    { name := some "Interval", length := 2, display_type := .INT_HEX },
    { name := some "Clock_Offset", length := 4, display_type := .INT_HEX },
    { name := some "Next_Connectionless_Slave_Broadcast_Clock", length := 4, display_type := .INT_HEX },
    { name := some "CSB_supervisionTO", length := 2, display_type := .INT_HEX },
    { name := some "Remote_Timing_Accuracy", length := 1, display_type := .INT_HEX },
    { name := some "Skip", length := 1, display_type := .INT_HEX },
    { name := some "Packet_Type", length := 2, display_type := .TEXT_SPECIAL_DISPLAY_PARAM, index_of_special_display_param := PACKET_TYPE_ACL },
    { name := some "AFH_Channel_Map", length := 10, display_type := .SEQ_HEX } ]
  return_parameter_count := 3
  return_parameter := [
    { name := some "Status", length := 1, display_type := .TEXT_REASON_STATUS_CODE },
    { name := some "BD_ADDR", length := 6, display_type := .TEXT_BD_ADDR },
    { name := some "LT_ADDR", length := 1, display_type := .INT_HEX } ]

def HCI_LINK_CONTROL_COMMANDS_0x0043 : HCI_UNIT_REPR where
  name := some "HCI_Start_Synchronization_Train"
  opcode := 0x0443
  parameter_count := 0
  parameter := []
  return_parameter_count := 0
  return_parameter := []

def HCI_LINK_CONTROL_COMMANDS_0x0044 : HCI_UNIT_REPR where
  name := some "HCI_ Receive_Synchronization_Train"
  opcode := 0x0444
  parameter_count := 4
  parameter := [
    { name := some "BD_ADDR", length := 6, display_type := .TEXT_BD_ADDR },
    { name := some "synchronization_scanTO", length := 2, display_type := .INT_HEX },
    { name := some "Sync_Scan_Window", length := 2, display_type := .INT_HEX },
    { name := some "Sync_Scan_Interval", length := 2, display_type := .INT_HEX } ]
  return_parameter_count := 0
  return_parameter := []

def HCI_LINK_CONTROL_COMMANDS_0x0045 : HCI_UNIT_REPR where
  name := some "HCI_Remote_OOB_Extended_Data_Request_Reply"
  opcode := 0x0445
  parameter_count := 5
  parameter := [
    { name := some "BD_ADDR", length := 6, display_type := .TEXT_BD_ADDR },
    { name := some "C_192", length := 16, display_type := .SEQ_HEX },
    { name := some "R_192", length := 16, display_type := .SEQ_HEX },
    { name := some "C_256", length := 16, display_type := .SEQ_HEX },
    { name := some "R_256", length := 16, display_type := .SEQ_HEX } ]
  return_parameter_count := 2
  return_parameter := [
    { name := some "Status", length := 1, display_type := .TEXT_REASON_STATUS_CODE },
    { name := some "BD_ADDR", length := 6, display_type := .TEXT_BD_ADDR } ]

/-- The table `HCI_LINK_CONTROL_COMMANDS[LING_CONTROL_NUM + 1]`: Link Control commands (OGF 0x01). -/
def HCI_LINK_CONTROL_COMMANDS : List (Nat × HCI_UNIT_REPR) := [
  (0x0001, HCI_LINK_CONTROL_COMMANDS_0x0001), (0x0002, HCI_LINK_CONTROL_COMMANDS_0x0002), (0x0003, HCI_LINK_CONTROL_COMMANDS_0x0003),
  (0x0004, HCI_LINK_CONTROL_COMMANDS_0x0004), (0x0005, HCI_LINK_CONTROL_COMMANDS_0x0005), (0x0006, HCI_LINK_CONTROL_COMMANDS_0x0006),
  (0x0008, HCI_LINK_CONTROL_COMMANDS_0x0008), (0x0009, HCI_LINK_CONTROL_COMMANDS_0x0009), (0x000a, HCI_LINK_CONTROL_COMMANDS_0x000a),
  (0x000b, HCI_LINK_CONTROL_COMMANDS_0x000b), (0x000c, HCI_LINK_CONTROL_COMMANDS_0x000c), (0x000d, HCI_LINK_CONTROL_COMMANDS_0x000d),
  (0x000e, HCI_LINK_CONTROL_COMMANDS_0x000e), (0x000f, HCI_LINK_CONTROL_COMMANDS_0x000f), (0x0011, HCI_LINK_CONTROL_COMMANDS_0x0011),
  (0x0013, HCI_LINK_CONTROL_COMMANDS_0x0013), (0x0015, HCI_LINK_CONTROL_COMMANDS_0x0015), (0x0017, HCI_LINK_CONTROL_COMMANDS_0x0017),
  (0x0019, HCI_LINK_CONTROL_COMMANDS_0x0019), (0x001a, HCI_LINK_CONTROL_COMMANDS_0x001a), (0x001b, HCI_LINK_CONTROL_COMMANDS_0x001b),
  (0x001c, HCI_LINK_CONTROL_COMMANDS_0x001c), (0x001d, HCI_LINK_CONTROL_COMMANDS_0x001d), (0x001f, HCI_LINK_CONTROL_COMMANDS_0x001f),
  (0x0020, HCI_LINK_CONTROL_COMMANDS_0x0020), (0x0028, HCI_LINK_CONTROL_COMMANDS_0x0028), (0x0029, HCI_LINK_CONTROL_COMMANDS_0x0029),
  (0x002a, HCI_LINK_CONTROL_COMMANDS_0x002a), (0x002b, HCI_LINK_CONTROL_COMMANDS_0x002b), (0x002c, HCI_LINK_CONTROL_COMMANDS_0x002c),
  (0x002d, HCI_LINK_CONTROL_COMMANDS_0x002d), (0x002e, HCI_LINK_CONTROL_COMMANDS_0x002e), (0x002f, HCI_LINK_CONTROL_COMMANDS_0x002f),
  (0x0030, HCI_LINK_CONTROL_COMMANDS_0x0030), (0x0033, HCI_LINK_CONTROL_COMMANDS_0x0033), (0x0034, HCI_LINK_CONTROL_COMMANDS_0x0034),
  (0x0035, HCI_LINK_CONTROL_COMMANDS_0x0035), (0x0036, HCI_LINK_CONTROL_COMMANDS_0x0036), (0x0037, HCI_LINK_CONTROL_COMMANDS_0x0037),
  (0x0038, HCI_LINK_CONTROL_COMMANDS_0x0038), (0x0039, HCI_LINK_CONTROL_COMMANDS_0x0039), (0x003a, HCI_LINK_CONTROL_COMMANDS_0x003a),
  (0x003b, HCI_LINK_CONTROL_COMMANDS_0x003b), (0x003c, HCI_LINK_CONTROL_COMMANDS_0x003c), (0x003d, HCI_LINK_CONTROL_COMMANDS_0x003d),
  (0x003e, HCI_LINK_CONTROL_COMMANDS_0x003e), (0x003f, HCI_LINK_CONTROL_COMMANDS_0x003f), (0x0040, HCI_LINK_CONTROL_COMMANDS_0x0040),
  (0x0041, HCI_LINK_CONTROL_COMMANDS_0x0041), (0x0042, HCI_LINK_CONTROL_COMMANDS_0x0042), (0x0043, HCI_LINK_CONTROL_COMMANDS_0x0043),
  (0x0044, HCI_LINK_CONTROL_COMMANDS_0x0044), (0x0045, HCI_LINK_CONTROL_COMMANDS_0x0045) ]

def LINK_POLICY_NUM : Nat := 17

def HCI_LINK_POLICY_COMMANDS_0x0001 : HCI_UNIT_REPR where
  name := some "HCI_Hold_Mode"
  opcode := 0x0801
  parameter_count := 3
  parameter := [
    { name := some "Connection_Handle", length := 2, display_type := .INT_HANDLE },
    { name := some "Hold_Mode_Max_Interval", length := 2, display_type := .INT_HEX },
    { name := some "Hold_Mode_Min_Interval", length := 2, display_type := .INT_HEX } ]
  return_parameter_count := 0
  return_parameter := []

def HCI_LINK_POLICY_COMMANDS_0x0003 : HCI_UNIT_REPR where
  name := some "HCI_Sniff_Mode"
  opcode := 0x0803
  parameter_count := 5
  parameter := [
    { name := some "Connection_Handle", length := 2, display_type := .INT_HANDLE },
    { name := some "Sniff_Max_Interval", length := 2, display_type := .TIME_CLK1 },
    { name := some "Sniff_Min_Interval", length := 2, display_type := .TIME_CLK1 },
    { name := some "Sniff_Attempt", length := 2, display_type := .TIME_CLK2 },
    { name := some "Sniff_Timeout", length := 2, display_type := .TIME_CLK2 } ]
  return_parameter_count := 0
  return_parameter := []

def HCI_LINK_POLICY_COMMANDS_0x0004 : HCI_UNIT_REPR where
  name := some "HCI_Exit_Sniff_Mode"
  opcode := 0x0804
  parameter_count := 1
  parameter := [
    { name := some "Connection_Handle", length := 2, display_type := .INT_HANDLE } ]
  return_parameter_count := 0
  return_parameter := []

def HCI_LINK_POLICY_COMMANDS_0x0005 : HCI_UNIT_REPR where
  name := some "HCI_Park_State"
  opcode := 0x0805
  parameter_count := 0
  parameter := []
  return_parameter_count := 0
  return_parameter := []

def HCI_LINK_POLICY_COMMANDS_0x0006 : HCI_UNIT_REPR where
  name := some "HCI_Exit_Park_State"
  opcode := 0x0806
  parameter_count := 0
  parameter := []
  return_parameter_count := 0
  return_parameter := []

def HCI_LINK_POLICY_COMMANDS_0x0007 : HCI_UNIT_REPR where
  name := some "HCI_QoS_Setup"
  opcode := 0x0807
  parameter_count := 7
  parameter := [
    { name := some "Connection_Handle", length := 2, display_type := .INT_HANDLE },
    { name := some "Flags", length := 1, display_type := .INT_HEX },
    { name := some "Service_Type", length := 1, display_type := .INT_HEX },
    { name := some "Token_Rate", length := 4, display_type := .INT_HEX },
    { name := some "Peak_Bandwidth", length := 4, display_type := .INT_HEX },
    { name := some "Latency", length := 4, display_type := .INT_HEX },
    { name := some "Delay_Variation", length := 4, display_type := .INT_HEX } ]
  return_parameter_count := 0
  return_parameter := []

def HCI_LINK_POLICY_COMMANDS_0x0009 : HCI_UNIT_REPR where
  name := some "HCI_Role_Discovery"
  opcode := 0x0809
  parameter_count := 1
  parameter := [
    { name := some "Connection_Handle", length := 2, display_type := .INT_HANDLE } ]
  return_parameter_count := 3
  return_parameter := [
    { name := some "Status", length := 1, display_type := .TEXT_REASON_STATUS_CODE },
    { name := some "Connection_Handle", length := 2, display_type := .INT_HANDLE },
    { name := some "Current_Role", length := 1, display_type := .INT_HEX } ]

def HCI_LINK_POLICY_COMMANDS_0x000b : HCI_UNIT_REPR where
  name := some "HCI_Switch_Role"
  opcode := 0x080b
  parameter_count := 2
  parameter := [
    { name := some "BD_ADDR", length := 6, display_type := .TEXT_BD_ADDR },
    { name := some "Role", length := 1, display_type := .INT_HEX } ]
  return_parameter_count := 0
  return_parameter := []

def HCI_LINK_POLICY_COMMANDS_0x000c : HCI_UNIT_REPR where
  name := some "HCI_Read_Link_Policy_Settings"
  opcode := 0x080c
  parameter_count := 1
  parameter := [
    { name := some "Connection_Handle", length := 2, display_type := .INT_HANDLE } ]
  return_parameter_count := 3
  return_parameter := [
    { name := some "Status", length := 1, display_type := .TEXT_REASON_STATUS_CODE },
    { name := some "Connection_Handle", length := 2, display_type := .INT_HANDLE },
    { name := some "Link_Policy_Settings", length := 2, display_type := .TEXT_SPECIAL_DISPLAY_PARAM, index_of_special_display_param := LINK_POLICY_SETTING } ]

def HCI_LINK_POLICY_COMMANDS_0x000d : HCI_UNIT_REPR where
  name := some "HCI_Write_Link_Policy_Settings"
  opcode := 0x080d
  parameter_count := 2
  parameter := [
    { name := some "Connection_Handle", length := 2, display_type := .INT_HANDLE },
    { name := some "Link_Policy_Settings", length := 2, display_type := .TEXT_SPECIAL_DISPLAY_PARAM, index_of_special_display_param := LINK_POLICY_SETTING } ]
  return_parameter_count := 2
  return_parameter := [
    { name := some "Status", length := 1, display_type := .TEXT_REASON_STATUS_CODE },
    { name := some "Connection_Handle", length := 2, display_type := .INT_HANDLE } ]

def HCI_LINK_POLICY_COMMANDS_0x000e : HCI_UNIT_REPR where
  name := some "HCI_Read_Default_Link_Policy_Settings"
  opcode := 0x080e
  parameter_count := 0
  parameter := []
  return_parameter_count := 2
  return_parameter := [
    { name := some "Status", length := 1, display_type := .TEXT_REASON_STATUS_CODE },
    { name := some "Default_Link_Policy_Settings", length := 2, display_type := .TEXT_SPECIAL_DISPLAY_PARAM, index_of_special_display_param := LINK_POLICY_SETTING } ]

def HCI_LINK_POLICY_COMMANDS_0x000f : HCI_UNIT_REPR where
  name := some "HCI_Write_Default_Link_Policy_Settings"
  opcode := 0x080f
  parameter_count := 1
  parameter := [
    { name := some "Default_Link_Policy_Settings", length := 2, display_type := .TEXT_SPECIAL_DISPLAY_PARAM, index_of_special_display_param := LINK_POLICY_SETTING } ]
  return_parameter_count := 1
  return_parameter := [
    { name := some "Status", length := 1, display_type := .TEXT_REASON_STATUS_CODE } ]

def HCI_LINK_POLICY_COMMANDS_0x0010 : HCI_UNIT_REPR where
  name := some "HCI_Flow_Specification"
  opcode := 0x0810
  parameter_count := 8
  parameter := [
    { name := some "Connection_Handle", length := 2, display_type := .INT_HANDLE },
    { name := some "Flags", length := 1, display_type := .INT_HEX },
    { name := some "Flow_direction", length := 1, display_type := .INT_HEX },
    { name := some "Service_Type", length := 1, display_type := .INT_HEX },
    { name := some "Token Rate", length := 4, display_type := .INT_HEX },
    { name := some "Token Bucket Size", length := 4, display_type := .INT_DEC },
    { name := some "Peak_Bandwidth", length := 4, display_type := .INT_HEX },
    { name := some "Access Latency", length := 4, display_type := .INT_HEX } ]
  return_parameter_count := 0
  return_parameter := []

def HCI_LINK_POLICY_COMMANDS_0x0011 : HCI_UNIT_REPR where
  name := some "HCI_Sniff_Subrating"
  opcode := 0x0811
  parameter_count := 4
  parameter := [
    { name := some "Connection_Handle", length := 2, display_type := .INT_HANDLE },
    { name := some "Maximum_Latency", length := 2, display_type := .INT_HEX },
    { name := some "Minimum_Remote_Timeout", length := 2, display_type := .INT_HEX },
    { name := some "Minimum_Local_Timeout", length := 2, display_type := .INT_HEX } ]
  return_parameter_count := 2
  return_parameter := [
    { name := some "Status", length := 1, display_type := .TEXT_REASON_STATUS_CODE },
    { name := some "Connection_Handle", length := 2, display_type := .INT_HANDLE } ]

/-- The table `HCI_LINK_POLICY_COMMANDS[LINK_POLICY_NUM + 1]`: Link Policy commands (OGF 0x02). -/
def HCI_LINK_POLICY_COMMANDS : List (Nat × HCI_UNIT_REPR) := [
  (0x0001, HCI_LINK_POLICY_COMMANDS_0x0001), (0x0003, HCI_LINK_POLICY_COMMANDS_0x0003), (0x0004, HCI_LINK_POLICY_COMMANDS_0x0004),
  (0x0005, HCI_LINK_POLICY_COMMANDS_0x0005), (0x0006, HCI_LINK_POLICY_COMMANDS_0x0006), (0x0007, HCI_LINK_POLICY_COMMANDS_0x0007),
  (0x0009, HCI_LINK_POLICY_COMMANDS_0x0009), (0x000b, HCI_LINK_POLICY_COMMANDS_0x000b), (0x000c, HCI_LINK_POLICY_COMMANDS_0x000c),
  (0x000d, HCI_LINK_POLICY_COMMANDS_0x000d), (0x000e, HCI_LINK_POLICY_COMMANDS_0x000e), (0x000f, HCI_LINK_POLICY_COMMANDS_0x000f),
  (0x0010, HCI_LINK_POLICY_COMMANDS_0x0010), (0x0011, HCI_LINK_POLICY_COMMANDS_0x0011) ]

def CONTROLLER_BASEBAND_NUM : Nat := 129

def HCI_CONTROLLER_BASEBAND_COMMANDS_0x0001 : HCI_UNIT_REPR where
  name := some "HCI_Set_Event_Mask"
  opcode := 0x0c01
  parameter_count := 1
  parameter := [
    { name := some "Event_Mask", length := 8, display_type := .SEQ_HEX } ]
  return_parameter_count := 1
  return_parameter := [
    { name := some "Status", length := 1, display_type := .TEXT_REASON_STATUS_CODE } ]

def HCI_CONTROLLER_BASEBAND_COMMANDS_0x0003 : HCI_UNIT_REPR where
  name := some "HCI_Reset"
  opcode := 0x0c03
  parameter_count := 0
  parameter := []
  return_parameter_count := 1
  return_parameter := [
    { name := some "Status", length := 1, display_type := .TEXT_REASON_STATUS_CODE } ]

def HCI_CONTROLLER_BASEBAND_COMMANDS_0x0005 : HCI_UNIT_REPR where
  name := some "HCI_Set_Event_Filter"
  opcode := 0x0c05
  parameter_count := 1
  parameter := [
    { name := some "Filter_Type", length := 1, display_type := .INT_HEX } ]
  return_parameter_count := 1
  return_parameter := [
    { name := some "Status", length := 1, display_type := .TEXT_REASON_STATUS_CODE } ]

def HCI_CONTROLLER_BASEBAND_COMMANDS_0x0008 : HCI_UNIT_REPR where
  name := some "HCI_Flush"
  opcode := 0x0c08
  parameter_count := 1
  parameter := [
    { name := some "Connection_Handle", length := 2, display_type := .INT_HANDLE } ]
  return_parameter_count := 2
  return_parameter := [
    { name := some "Status", length := 1, display_type := .TEXT_REASON_STATUS_CODE },
    { name := some "Connection_Handle", length := 2, display_type := .INT_HANDLE } ]

def HCI_CONTROLLER_BASEBAND_COMMANDS_0x0009 : HCI_UNIT_REPR where
  name := some "HCI_Read_PIN_Type"
  opcode := 0x0c09
  parameter_count := 0
  parameter := []
  return_parameter_count := 2
  return_parameter := [
    { name := some "Status", length := 1, display_type := .TEXT_REASON_STATUS_CODE },
    { name := some "PIN_Type", length := 1, display_type := .TEXT_SPECIAL_DISPLAY_PARAM, index_of_special_display_param := PIN_TYPE } ]

def HCI_CONTROLLER_BASEBAND_COMMANDS_0x000a : HCI_UNIT_REPR where
  name := some "HCI_Write_PIN_Type"
  opcode := 0x0c0a
  parameter_count := 1
  parameter := [
    { name := some "PIN_Type", length := 1, display_type := .TEXT_SPECIAL_DISPLAY_PARAM, index_of_special_display_param := PIN_TYPE } ]
  return_parameter_count := 1
  return_parameter := [
    { name := some "Status", length := 1, display_type := .TEXT_REASON_STATUS_CODE } ]

def HCI_CONTROLLER_BASEBAND_COMMANDS_0x000b : HCI_UNIT_REPR where
  name := some "HCI_Create_New_Unit_Key"
  opcode := 0x0c0b
  parameter_count := 0
  parameter := []
  return_parameter_count := 1
  return_parameter := [
    { name := some "Status", length := 1, display_type := .TEXT_REASON_STATUS_CODE } ]

def HCI_CONTROLLER_BASEBAND_COMMANDS_0x000d : HCI_UNIT_REPR where
  name := some "HCI_Read_Stored_Link_Key"
  opcode := 0x0c0d
  parameter_count := 2
  parameter := [
    { name := some "BD_ADDR", length := 6, display_type := .TEXT_BD_ADDR },
    { name := some "Read_All_Flag", length := 1, display_type := .INT_HEX } ]
  return_parameter_count := 3
  return_parameter := [
    { name := some "Status", length := 1, display_type := .TEXT_REASON_STATUS_CODE },
    { name := some "Max_Num_Keys", length := 2, display_type := .INT_DEC },
    { name := some "Max_Keys_Read", length := 2, display_type := .INT_HEX } ]

def HCI_CONTROLLER_BASEBAND_COMMANDS_0x0011 : HCI_UNIT_REPR where
  name := some "HCI_Write_Stored_Link_Key"
  opcode := 0x0c11
  parameter_count := 3
  parameter := [
    { name := some "Num_Keys_To_Write", length := 1, repeat_param_num := 2, display_type := .INT_DEC },
    { name := some "BD_ADDR", length := 6, display_type := .TEXT_BD_ADDR },
    { name := some "Link_Key", length := 16, display_type := .TEXT_SPECIAL_DISPLAY_PARAM, index_of_special_display_param := SECURITY_KEY_TYPE } ]
  return_parameter_count := 2
  return_parameter := [
    { name := some "Status", length := 1, display_type := .TEXT_REASON_STATUS_CODE },
    { name := some "Num_Keys_Written", length := 1, display_type := .INT_DEC } ]

def HCI_CONTROLLER_BASEBAND_COMMANDS_0x0012 : HCI_UNIT_REPR where
  name := some "HCI_Delete_Stored_Link_Key"
  opcode := 0x0c12
  parameter_count := 2
  parameter := [
    { name := some "BD_ADDR", length := 6, display_type := .TEXT_BD_ADDR },
    { name := some "Delete_All_Flag", length := 1, display_type := .TEXT_SPECIAL_DISPLAY_PARAM, index_of_special_display_param := DELETE_ALL_FLAG } ]
  return_parameter_count := 2
  return_parameter := [
    { name := some "Status", length := 1, display_type := .TEXT_REASON_STATUS_CODE },
    { name := some "Num_Keys_Deleted", length := 2, display_type := .INT_DEC } ]

def HCI_CONTROLLER_BASEBAND_COMMANDS_0x0013 : HCI_UNIT_REPR where
  name := some "HCI_Write_Local_Name"
  opcode := 0x0c13
  parameter_count := 1
  parameter := [
    { name := some "Local_Name", length := 248, display_type := .SEQ_CHAR } ]
  return_parameter_count := 1
  return_parameter := [
    { name := some "Status", length := 1, display_type := .TEXT_REASON_STATUS_CODE } ]

def HCI_CONTROLLER_BASEBAND_COMMANDS_0x0014 : HCI_UNIT_REPR where
  name := some "HCI_Read_Local_Name"
  opcode := 0x0c14
  parameter_count := 0
  parameter := []
  return_parameter_count := 2
  return_parameter := [
    { name := some "Status", length := 1, display_type := .TEXT_REASON_STATUS_CODE },
    { name := some "Local_Name", length := 248, display_type := .SEQ_CHAR } ]

def HCI_CONTROLLER_BASEBAND_COMMANDS_0x0015 : HCI_UNIT_REPR where
  name := some "HCI_Read_Connection_Accept_Timeout"
  opcode := 0x0c15
  parameter_count := 0
  parameter := []
  return_parameter_count := 2
  return_parameter := [
    { name := some "Status", length := 1, display_type := .TEXT_REASON_STATUS_CODE },
    { name := some "Conn_Accept_Timeout", length := 2, display_type := .TIME_CLK1 } ]

def HCI_CONTROLLER_BASEBAND_COMMANDS_0x0016 : HCI_UNIT_REPR where
  name := some "HCI_Write_Connection_Accept_Timeout"
  opcode := 0x0c16
  parameter_count := 1
  parameter := [
    { name := some "Conn_Accept_Timeout", length := 2, display_type := .TIME_CLK1 } ]
  return_parameter_count := 1
  return_parameter := [
    { name := some "Status", length := 1, display_type := .TEXT_REASON_STATUS_CODE } ]

def HCI_CONTROLLER_BASEBAND_COMMANDS_0x0017 : HCI_UNIT_REPR where
  name := some "HCI_Read_Page_Timeout"
  opcode := 0x0c17
  parameter_count := 0
  parameter := []
  return_parameter_count := 0
  return_parameter := [
    { name := some "Status", length := 1, display_type := .TEXT_REASON_STATUS_CODE },
    { name := some "Page_Timeout", length := 2, display_type := .TIME_CLK1 } ]

def HCI_CONTROLLER_BASEBAND_COMMANDS_0x0018 : HCI_UNIT_REPR where
  name := some "HCI_Write_Page_Timeout"
  opcode := 0x0c18
  parameter_count := 1
  parameter := [
    { name := some "Page_Timeout", length := 2, display_type := .TIME_CLK1 } ]
  return_parameter_count := 1
  return_parameter := [
    { name := some "Status", length := 1, display_type := .TEXT_REASON_STATUS_CODE } ]

def HCI_CONTROLLER_BASEBAND_COMMANDS_0x0019 : HCI_UNIT_REPR where
  name := some "HCI_Read_Scan_Enable"
  opcode := 0x0c19
  parameter_count := 0
  parameter := []
  return_parameter_count := 2
  return_parameter := [
    { name := some "Status", length := 1, display_type := .TEXT_REASON_STATUS_CODE },
    { name := some "Scan_Enable", length := 1, display_type := .TEXT_SPECIAL_DISPLAY_PARAM, index_of_special_display_param := SCAN_ENABLE } ]

def HCI_CONTROLLER_BASEBAND_COMMANDS_0x001a : HCI_UNIT_REPR where
  name := some "HCI_Write_Scan_Enable"
  opcode := 0x0c1a
  parameter_count := 1
  parameter := [
    { name := some "Scan_Enable", length := 1, display_type := .TEXT_SPECIAL_DISPLAY_PARAM, index_of_special_display_param := SCAN_ENABLE } ]
  return_parameter_count := 1
  return_parameter := [
    { name := some "Status", length := 1, display_type := .TEXT_REASON_STATUS_CODE } ]

def HCI_CONTROLLER_BASEBAND_COMMANDS_0x001b : HCI_UNIT_REPR where
  name := some "HCI_Read_Page_Scan_Activity"
  opcode := 0x0c1b
  parameter_count := 0
  parameter := []
  return_parameter_count := 3
  return_parameter := [
    { name := some "Status", length := 1, display_type := .TEXT_REASON_STATUS_CODE },
    { name := some "Page_Scan_Interval", length := 2, display_type := .TIME_CLK1 },
    { name := some "Page_Scan_Window", length := 2, display_type := .TIME_CLK1 } ]

def HCI_CONTROLLER_BASEBAND_COMMANDS_0x001c : HCI_UNIT_REPR where
  name := some "HCI_Write_Page_Scan_Activity"
  opcode := 0x0c1c
  parameter_count := 2
  parameter := [
    { name := some "Page_Scan_Interval", length := 2, display_type := .TIME_CLK1 },
    { name := some "Page_Scan_Window", length := 2, display_type := .TIME_CLK1 } ]
  return_parameter_count := 1
  return_parameter := [
    { name := some "Status", length := 1, display_type := .TEXT_REASON_STATUS_CODE } ]

def HCI_CONTROLLER_BASEBAND_COMMANDS_0x001d : HCI_UNIT_REPR where
  name := some "HCI_Read_Inquiry_Scan_Activity"
  opcode := 0x0c1d
  parameter_count := 0
  parameter := []
  return_parameter_count := 3
  return_parameter := [
    { name := some "Status", length := 1, display_type := .TEXT_REASON_STATUS_CODE },
    { name := some "Inquiry_Scan_Interval", length := 2, display_type := .TIME_CLK1 },
    { name := some "Inquiry_Scan_Window", length := 2, display_type := .TIME_CLK1 } ]

def HCI_CONTROLLER_BASEBAND_COMMANDS_0x001e : HCI_UNIT_REPR where
  name := some "HCI_Write_Inquiry_Scan_Activity"
  opcode := 0x0c1e
  parameter_count := 2
  parameter := [
    { name := some "Inquiry_Scan_Interval", length := 2, display_type := .TIME_CLK1 },
    { name := some "Inquiry_Scan_Window", length := 2, display_type := .TIME_CLK1 } ]
  return_parameter_count := 1
  return_parameter := [
    { name := some "Status", length := 1, display_type := .TEXT_REASON_STATUS_CODE } ]

def HCI_CONTROLLER_BASEBAND_COMMANDS_0x001f : HCI_UNIT_REPR where
  name := some "HCI_Read_Authentication_Enable"
  opcode := 0x0c1f
  parameter_count := 0
  parameter := []
  return_parameter_count := 2
  return_parameter := [
    { name := some "Status", length := 1, display_type := .TEXT_REASON_STATUS_CODE },
    { name := some "Authentication_Enable", length := 1, display_type := .TEXT_SPECIAL_DISPLAY_PARAM, index_of_special_display_param := AUTHENTICATION_ENABLE } ]

def HCI_CONTROLLER_BASEBAND_COMMANDS_0x0020 : HCI_UNIT_REPR where
  name := some "HCI_Write_Authentication_Enable"
  opcode := 0x0c20
  parameter_count := 1
  parameter := [
    { name := some "Authentication_Enable", length := 1, display_type := .TEXT_SPECIAL_DISPLAY_PARAM, index_of_special_display_param := AUTHENTICATION_ENABLE } ]
  return_parameter_count := 1
  return_parameter := [
    { name := some "Status", length := 1, display_type := .TEXT_REASON_STATUS_CODE } ]

def HCI_CONTROLLER_BASEBAND_COMMANDS_0x0023 : HCI_UNIT_REPR where
  name := some "HCI_Read_Class_of_Device"
  opcode := 0x0c23
  parameter_count := 0
  parameter := []
  return_parameter_count := 2
  return_parameter := [
    { name := some "Status", length := 1, display_type := .TEXT_REASON_STATUS_CODE },
    { name := some "Class_of_Device", length := 3, display_type := .INT_HEX } ]

def HCI_CONTROLLER_BASEBAND_COMMANDS_0x0024 : HCI_UNIT_REPR where
  name := some "HCI_Write_Class_of_Device"
  opcode := 0x0c24
  parameter_count := 1
  parameter := [
    { name := some "Class_of_Device", length := 3, display_type := .INT_HEX } ]
  return_parameter_count := 1
  return_parameter := [
    { name := some "Status", length := 1, display_type := .TEXT_REASON_STATUS_CODE } ]

def HCI_CONTROLLER_BASEBAND_COMMANDS_0x0025 : HCI_UNIT_REPR where
  name := some "HCI_Read_Voice_Setting"
  opcode := 0x0c25
  parameter_count := 0
  parameter := []
  return_parameter_count := 2
  return_parameter := [
    { name := some "Status", length := 1, display_type := .TEXT_REASON_STATUS_CODE },
    { name := some "Voice_Setting", length := 2, display_type := .TEXT_SPECIAL_DISPLAY_PARAM, index_of_special_display_param := VOICE_SETTING } ]

def HCI_CONTROLLER_BASEBAND_COMMANDS_0x0026 : HCI_UNIT_REPR where
  name := some "HCI_Write_Voice_Setting"
  opcode := 0x0c26
  parameter_count := 1
  parameter := [
    { name := some "Voice_Setting", length := 2, display_type := .TEXT_SPECIAL_DISPLAY_PARAM, index_of_special_display_param := VOICE_SETTING } ]
  return_parameter_count := 1
  return_parameter := [
    { name := some "Status", length := 1, display_type := .TEXT_REASON_STATUS_CODE } ]

def HCI_CONTROLLER_BASEBAND_COMMANDS_0x0027 : HCI_UNIT_REPR where
  name := some "HCI_Read_Automatic_Flush_Timeout"
  opcode := 0x0c27
  parameter_count := 1
  parameter := [
    { name := some "Connection_Handle", length := 2, display_type := .INT_HANDLE } ]
  return_parameter_count := 3
  return_parameter := [
    { name := some "Status", length := 1, display_type := .TEXT_REASON_STATUS_CODE },
    { name := some "Connection_Handle", length := 2, display_type := .INT_HANDLE },
    { name := some "Flush_Timeout", length := 2, display_type := .TIME_CLK1 } ]

def HCI_CONTROLLER_BASEBAND_COMMANDS_0x0028 : HCI_UNIT_REPR where
  name := some "HCI_Write_Automatic_Flush_Timeout"
  opcode := 0x0c28
  parameter_count := 2
  parameter := [
    { name := some "Connection_Handle", length := 2, display_type := .INT_HANDLE },
    { name := some "Flush_Timeout", length := 2, display_type := .TIME_CLK1 } ]
  return_parameter_count := 2
  return_parameter := [
    { name := some "Status", length := 1, display_type := .TEXT_REASON_STATUS_CODE },
    { name := some "Connection_Handle", length := 2, display_type := .INT_HANDLE } ]

def HCI_CONTROLLER_BASEBAND_COMMANDS_0x0029 : HCI_UNIT_REPR where
  name := some "HCI_Read_Num_Broadcast_Retransmissions"
  opcode := 0x0c29
  parameter_count := 0
  parameter := []
  return_parameter_count := 2
  return_parameter := [
    { name := some "Status", length := 1, display_type := .TEXT_REASON_STATUS_CODE },
    { name := some "Num_Broadcast_Retransmissions", length := 1, display_type := .INT_DEC } ]

def HCI_CONTROLLER_BASEBAND_COMMANDS_0x002a : HCI_UNIT_REPR where
  name := some "HCI_Write_Num_Broadcast_Retransmissions"
  opcode := 0x0c2a
  parameter_count := 1
  parameter := [
    { name := some "Num_Broadcast_Retransmissions", length := 1, display_type := .INT_DEC } ]
  return_parameter_count := 1
  return_parameter := [
    { name := some "Status", length := 1, display_type := .TEXT_REASON_STATUS_CODE } ]

def HCI_CONTROLLER_BASEBAND_COMMANDS_0x002b : HCI_UNIT_REPR where
  name := some "HCI_Read_Hold_Mode_Activity"
  opcode := 0x0c2b
  parameter_count := 0
  parameter := []
  return_parameter_count := 2
  return_parameter := [
    { name := some "Status", length := 1, display_type := .TEXT_REASON_STATUS_CODE },
    { name := some "Hold_Mode_Activity", length := 1, display_type := .TEXT_SPECIAL_DISPLAY_PARAM, index_of_special_display_param := HOLD_MODE_ACTIVITY } ]

def HCI_CONTROLLER_BASEBAND_COMMANDS_0x002c : HCI_UNIT_REPR where
  name := some "HCI_Write_Hold_Mode_Activity"
  opcode := 0x0c2c
  parameter_count := 1
  parameter := [
    { name := some "Hold_Mode_Activity", length := 1, display_type := .TEXT_SPECIAL_DISPLAY_PARAM, index_of_special_display_param := HOLD_MODE_ACTIVITY } ]
  return_parameter_count := 1
  return_parameter := [
    { name := some "Status", length := 1, display_type := .TEXT_REASON_STATUS_CODE } ]

def HCI_CONTROLLER_BASEBAND_COMMANDS_0x002d : HCI_UNIT_REPR where
  name := some "HCI_Read_Transmit_Power_Level"
  opcode := 0x0c2d
  parameter_count := 2
  parameter := [
    { name := some "Connection_Handle", length := 2, display_type := .INT_HANDLE },
    { name := some "Type", length := 1, display_type := .INT_HEX } ]
  return_parameter_count := 3
  return_parameter := [
    { name := some "Status", length := 1, display_type := .TEXT_REASON_STATUS_CODE },
    { name := some "Connection_Handle", length := 2, display_type := .INT_HANDLE },
    { name := some "Transmit_Power_Level", length := 1, display_type := .INT_HEX } ]

def HCI_CONTROLLER_BASEBAND_COMMANDS_0x002e : HCI_UNIT_REPR where
  name := some "HCI_Read_Synchronous_Flow_Control_Enable"
  opcode := 0x0c2e
  parameter_count := 0
  parameter := []
  return_parameter_count := 2
  return_parameter := [
    { name := some "Status", length := 1, display_type := .TEXT_REASON_STATUS_CODE },
    { name := some "Synchronous_Flow_Control_Enable", length := 1, display_type := .TEXT_SPECIAL_DISPLAY_PARAM, index_of_special_display_param := SYNCHRONOUS_FLOW_CONTROL_ENABLE } ]

def HCI_CONTROLLER_BASEBAND_COMMANDS_0x002f : HCI_UNIT_REPR where
  name := some "HCI_Write_Synchronous_Flow_Control_Enable"
  opcode := 0x0c2f
  parameter_count := 1
  parameter := [
    { name := some "Synchronous_Flow_Control_Enable", length := 1, display_type := .TEXT_SPECIAL_DISPLAY_PARAM, index_of_special_display_param := SYNCHRONOUS_FLOW_CONTROL_ENABLE } ]
  return_parameter_count := 1
  return_parameter := [
    { name := some "Status", length := 1, display_type := .TEXT_REASON_STATUS_CODE } ]

def HCI_CONTROLLER_BASEBAND_COMMANDS_0x0031 : HCI_UNIT_REPR where
  name := some "HCI_Set_Controller_To_Host_Flow_Control"
  opcode := 0x0c31
  parameter_count := 1
  parameter := [
    { name := some "Flow_Control_Enable", length := 1, display_type := .INT_HEX } ]
  return_parameter_count := 1
  return_parameter := [
    { name := some "Status", length := 1, display_type := .TEXT_REASON_STATUS_CODE } ]

def HCI_CONTROLLER_BASEBAND_COMMANDS_0x0033 : HCI_UNIT_REPR where
  name := some "HCI_Host_Buffer_Size"
  opcode := 0x0c33
  parameter_count := 4
  parameter := [
    { name := some "Host_ACL_Data_Packet_Length", length := 2, display_type := .INT_DEC },
    { name := some "Host_Synchronous_Data_Packet_Length", length := 1, display_type := .INT_DEC },
    { name := some "Host_Total_Num_ACL_Data_Packets", length := 2, display_type := .INT_DEC },
    { name := some "Host_Total_Num_Synchronous_Data_Packets", length := 2, display_type := .INT_DEC } ]
  return_parameter_count := 1
  return_parameter := [
    { name := some "Status", length := 1, display_type := .TEXT_REASON_STATUS_CODE } ]

def HCI_CONTROLLER_BASEBAND_COMMANDS_0x0035 : HCI_UNIT_REPR where
  name := some "HCI_Host_Number_Of_Completed_Packets"
  opcode := 0x0c35
  parameter_count := 3
  parameter := [
    { name := some "Number_Of_Handles", length := 1, repeat_param_num := 2, display_type := .INT_DEC },
    { name := some "Connection_Handle", length := 2, display_type := .INT_HANDLE },
    { name := some "Host_Num_Of_Complete_Packets", length := 2, display_type := .INT_DEC } ]
  return_parameter_count := 0
  return_parameter := []

def HCI_CONTROLLER_BASEBAND_COMMANDS_0x0036 : HCI_UNIT_REPR where
  name := some "HCI_Read_Link_Supervision_Timeout"
  opcode := 0x0c36
  parameter_count := 1
  parameter := [
    { name := some "Connection_Handle", length := 2, display_type := .INT_HANDLE } ]
  return_parameter_count := 3
  return_parameter := [
    { name := some "Status", length := 1, display_type := .TEXT_REASON_STATUS_CODE },
    { name := some "Connection_Handle", length := 2, display_type := .INT_HANDLE },
    { name := some "Link_Supervision_Timeout", length := 2, display_type := .TIME_CLK1 } ]

def HCI_CONTROLLER_BASEBAND_COMMANDS_0x0037 : HCI_UNIT_REPR where
  name := some "HCI_Write_Link_Supervision_Timeout"
  opcode := 0x0c37
  parameter_count := 2
  parameter := [
    { name := some "Connection_Handle", length := 2, display_type := .INT_HANDLE },
    { name := some "Link_Supervision_Timeout", length := 2, display_type := .TIME_CLK1 } ]
  return_parameter_count := 2
  return_parameter := [
    { name := some "Status", length := 1, display_type := .TEXT_REASON_STATUS_CODE },
    { name := some "Connection_Handle", length := 2, display_type := .INT_HANDLE } ]

def HCI_CONTROLLER_BASEBAND_COMMANDS_0x0038 : HCI_UNIT_REPR where
  name := some "HCI_Read_Number_Of_Supported_IAC"
  opcode := 0x0c38
  parameter_count := 0
  parameter := []
  return_parameter_count := 2
  return_parameter := [
    { name := some "Status", length := 1, display_type := .TEXT_REASON_STATUS_CODE },
    { name := some "Num_Support_IAC", length := 1, display_type := .INT_DEC } ]

def HCI_CONTROLLER_BASEBAND_COMMANDS_0x0039 : HCI_UNIT_REPR where
  name := some "HCI_Read_Current_IAC_LAP"
  opcode := 0x0c39
  parameter_count := 0
  parameter := []
  return_parameter_count := 3
  return_parameter := [
    { name := some "Status", length := 1, display_type := .TEXT_REASON_STATUS_CODE },
    { name := some "Num_Current_IAC", length := 1, repeat_param_num := 1, display_type := .INT_DEC },
    { name := some "IAC_LAP", length := 3, display_type := .TEXT_SPECIAL_DISPLAY_PARAM, index_of_special_display_param := LAP_IAC } ]

def HCI_CONTROLLER_BASEBAND_COMMANDS_0x003a : HCI_UNIT_REPR where
  name := some "HCI_Write_Current_IAC_LAP"
  opcode := 0x0c3a
  parameter_count := 2
  parameter := [
    { name := some "Num_Current_IAC", length := 1, repeat_param_num := 1, display_type := .INT_DEC },
    { name := some "IAC_LAP", length := 3, display_type := .TEXT_SPECIAL_DISPLAY_PARAM, index_of_special_display_param := LAP_IAC } ]
  return_parameter_count := 1
  return_parameter := [
    { name := some "Status", length := 1, display_type := .TEXT_REASON_STATUS_CODE } ]

def HCI_CONTROLLER_BASEBAND_COMMANDS_0x003f : HCI_UNIT_REPR where
  name := some "Set_AFH_Host_Channel_Classification"
  opcode := 0x0c3f
  parameter_count := 1
  parameter := [
    { name := some "AFH_Host_Channel_Classification", length := 10, display_type := .SEQ_HEX } ]
  return_parameter_count := 1
  return_parameter := [
    { name := some "Status", length := 1, display_type := .TEXT_REASON_STATUS_CODE } ]

def HCI_CONTROLLER_BASEBAND_COMMANDS_0x0042 : HCI_UNIT_REPR where
  name := some "HCI_Read_Inquiry_Scan_Type"
  opcode := 0x0c42
  parameter_count := 0
  parameter := []
  return_parameter_count := 2
  return_parameter := [
    { name := some "Status", length := 1, display_type := .TEXT_REASON_STATUS_CODE },
    { name := some "Inquiry_Scan_Type", length := 1, display_type := .TEXT_SPECIAL_DISPLAY_PARAM, index_of_special_display_param := INQUIRY_SCAN_TYPE } ]

def HCI_CONTROLLER_BASEBAND_COMMANDS_0x0043 : HCI_UNIT_REPR where
  name := some "HCI_Write_Inquiry_Scan_Type"
  opcode := 0x0c43
  parameter_count := 1
  parameter := [
    { name := some "Inquiry_Scan_Type", length := 1, display_type := .TEXT_SPECIAL_DISPLAY_PARAM, index_of_special_display_param := INQUIRY_SCAN_TYPE } ]
  return_parameter_count := 1
  return_parameter := [
    { name := some "Status", length := 1, display_type := .TEXT_REASON_STATUS_CODE } ]

def HCI_CONTROLLER_BASEBAND_COMMANDS_0x0044 : HCI_UNIT_REPR where
  name := some "HCI_Read_Inquiry_Mode"
  opcode := 0x0c44
  parameter_count := 0
  parameter := []
  return_parameter_count := 2
  return_parameter := [
    { name := some "Status", length := 1, display_type := .TEXT_REASON_STATUS_CODE },
    { name := some "Inquiry_Mode", length := 1, display_type := .TEXT_SPECIAL_DISPLAY_PARAM, index_of_special_display_param := INQUIRY_MODE } ]

def HCI_CONTROLLER_BASEBAND_COMMANDS_0x0045 : HCI_UNIT_REPR where
  name := some "HCI_Write_Inquiry_Mode"
  opcode := 0x0c45
  parameter_count := 1
  parameter := [
    { name := some "Inquiry_Mode", length := 1, display_type := .TEXT_SPECIAL_DISPLAY_PARAM, index_of_special_display_param := INQUIRY_MODE } ]
  return_parameter_count := 1
  return_parameter := [
    { name := some "Status", length := 1, display_type := .TEXT_REASON_STATUS_CODE } ]

def HCI_CONTROLLER_BASEBAND_COMMANDS_0x0046 : HCI_UNIT_REPR where
  name := some "HCI_Read_Page_Scan_Type"
  opcode := 0x0c46
  parameter_count := 0
  parameter := []
  return_parameter_count := 2
  return_parameter := [
    { name := some "Status", length := 1, display_type := .TEXT_REASON_STATUS_CODE },
    { name := some "Page_Scan_Type", length := 1, display_type := .TEXT_SPECIAL_DISPLAY_PARAM, index_of_special_display_param := PAGE_SCAN_TYPE } ]

def HCI_CONTROLLER_BASEBAND_COMMANDS_0x0047 : HCI_UNIT_REPR where
  name := some "HCI_Write_Page_Scan_Type"
  opcode := 0x0c47
  parameter_count := 1
  parameter := [
    { name := some "Page_Scan_Type", length := 1, display_type := .TEXT_SPECIAL_DISPLAY_PARAM, index_of_special_display_param := PAGE_SCAN_TYPE } ]
  return_parameter_count := 1
  return_parameter := [
    { name := some "Status", length := 1, display_type := .TEXT_REASON_STATUS_CODE } ]

def HCI_CONTROLLER_BASEBAND_COMMANDS_0x0048 : HCI_UNIT_REPR where
  name := some "Read_AFH_Channel_Assessment_Mode"
  opcode := 0x0c48
  parameter_count := 0
  parameter := []
  return_parameter_count := 2
  return_parameter := [
    { name := some "Status", length := 1, display_type := .TEXT_REASON_STATUS_CODE },
    { name := some "AFH_Channel_Assessment_Mode", length := 1, display_type := .INT_HEX } ]

def HCI_CONTROLLER_BASEBAND_COMMANDS_0x0049 : HCI_UNIT_REPR where
  name := some "Write_AFH_Channel_Assessment_Mode"
  opcode := 0x0c49
  parameter_count := 1
  parameter := [
    { name := some "AFH_Channel_Assessment_Mode", length := 1, display_type := .INT_HEX } ]
  return_parameter_count := 1
  return_parameter := [
    { name := some "Status", length := 1, display_type := .TEXT_REASON_STATUS_CODE } ]

def HCI_CONTROLLER_BASEBAND_COMMANDS_0x0051 : HCI_UNIT_REPR where
  name := some "HCI_Read_Extended_Inquiry_Response"
  opcode := 0x0c51
  parameter_count := 0
  parameter := []
  return_parameter_count := 3
  return_parameter := [
    { name := some "Status", length := 1, display_type := .TEXT_REASON_STATUS_CODE },
    { name := some "FEC_Required", length := 1, display_type := .TEXT_SPECIAL_DISPLAY_PARAM, index_of_special_display_param := FEC_REQUIRED },
    { name := some "Extended_Inquiry_Response", length := 240, display_type := .SEQ_HEX } ]

def HCI_CONTROLLER_BASEBAND_COMMANDS_0x0052 : HCI_UNIT_REPR where
  name := some "HCI_Write_Extended_Inquiry_Response"
  opcode := 0x0c52
  parameter_count := 2
  parameter := [
    { name := some "FEC_Required", length := 1, display_type := .TEXT_SPECIAL_DISPLAY_PARAM, index_of_special_display_param := FEC_REQUIRED },
    { name := some "Extended_Inquiry_Response", length := 240, display_type := .SEQ_HEX } ]
  return_parameter_count := 1
  return_parameter := [
    { name := some "Status", length := 1, display_type := .TEXT_REASON_STATUS_CODE } ]

def HCI_CONTROLLER_BASEBAND_COMMANDS_0x0053 : HCI_UNIT_REPR where
  name := some "HCI_Refresh_Encryption_Key"
  opcode := 0x0c53
  parameter_count := 1
  parameter := [
    { name := some "Connection_Handle", length := 2, display_type := .INT_HANDLE } ]
  return_parameter_count := 0
  return_parameter := []

def HCI_CONTROLLER_BASEBAND_COMMANDS_0x0055 : HCI_UNIT_REPR where
  name := some "HCI_Read_Simple_Pairing_Mode"
  opcode := 0x0c55
  parameter_count := 0
  parameter := []
  return_parameter_count := 2
  return_parameter := [
    { name := some "Status", length := 1, display_type := .TEXT_REASON_STATUS_CODE },
    { name := some "Simple_Pairing_Mode", length := 1, display_type := .TEXT_SPECIAL_DISPLAY_PARAM, index_of_special_display_param := SIMPLE_PAIRING_MODE } ]

def HCI_CONTROLLER_BASEBAND_COMMANDS_0x0056 : HCI_UNIT_REPR where
  name := some "HCI_Write_Simple_Pairing_Mode"
  opcode := 0x0c56
  parameter_count := 1
  parameter := [
    { name := some "Simple_Pairing_Mode", length := 1, display_type := .TEXT_SPECIAL_DISPLAY_PARAM, index_of_special_display_param := SIMPLE_PAIRING_MODE } ]
  return_parameter_count := 1
  return_parameter := [
    { name := some "Status", length := 1, display_type := .TEXT_REASON_STATUS_CODE } ]

def HCI_CONTROLLER_BASEBAND_COMMANDS_0x0057 : HCI_UNIT_REPR where
  name := some "HCI_Read_Local_OOB_Data"
  opcode := 0x0c57
  parameter_count := 0
  parameter := []
  return_parameter_count := 3
  return_parameter := [
    { name := some "Status", length := 1, display_type := .TEXT_REASON_STATUS_CODE },
    { name := some "C", length := 16, display_type := .SEQ_HEX },
    { name := some "R", length := 16, display_type := .SEQ_HEX } ]

def HCI_CONTROLLER_BASEBAND_COMMANDS_0x0058 : HCI_UNIT_REPR where
  name := some "HCI_Read_Inquiry_Response_Transmit_Power_Level"
  opcode := 0x0c58
  parameter_count := 0
  parameter := []
  return_parameter_count := 2
  return_parameter := [
    { name := some "Status", length := 1, display_type := .TEXT_REASON_STATUS_CODE },
    { name := some "TX_Power", length := 1, display_type := .INT_HEX } ]

def HCI_CONTROLLER_BASEBAND_COMMANDS_0x0059 : HCI_UNIT_REPR where
  name := some "HCI_Write_Inquiry_Transmit_Power_Level"
  opcode := 0x0c59
  parameter_count := 1
  parameter := [
    { name := some "TX_Power", length := 1, display_type := .INT_HEX } ]
  return_parameter_count := 1
  return_parameter := [
    { name := some "Status", length := 1, display_type := .TEXT_REASON_STATUS_CODE } ]

def HCI_CONTROLLER_BASEBAND_COMMANDS_0x005a : HCI_UNIT_REPR where
  name := some "HCI_Read_Default_Erroneous_Data_Reporting"
  opcode := 0x0c5a
  parameter_count := 0
  parameter := []
  return_parameter_count := 2
  return_parameter := [
    { name := some "Status", length := 1, display_type := .TEXT_REASON_STATUS_CODE },
    { name := some "Erroneous_Data_Reporting", length := 1, display_type := .TEXT_SPECIAL_DISPLAY_PARAM, index_of_special_display_param := ERRONEOUS_DATA_REPORTING } ]

def HCI_CONTROLLER_BASEBAND_COMMANDS_0x005b : HCI_UNIT_REPR where
  name := some "HCI_Write_Default_Erroneous_Data_Reporting"
  opcode := 0x0c5b
  parameter_count := 1
  parameter := [
    { name := some "Erroneous_Data_Reporting", length := 1, display_type := .TEXT_SPECIAL_DISPLAY_PARAM, index_of_special_display_param := ERRONEOUS_DATA_REPORTING } ]
  return_parameter_count := 1
  return_parameter := [
    { name := some "Status", length := 1, display_type := .TEXT_REASON_STATUS_CODE } ]

def HCI_CONTROLLER_BASEBAND_COMMANDS_0x005f : HCI_UNIT_REPR where
  name := some "HCI_Enhanced_Flush"
  opcode := 0x0c5f
  parameter_count := 2
  parameter := [
    { name := some "Connection_Handle", length := 2, display_type := .INT_HANDLE },
    { name := some "Packet_Type", length := 1, display_type := .INT_HEX } ]
  return_parameter_count := 0
  return_parameter := []

def HCI_CONTROLLER_BASEBAND_COMMANDS_0x0060 : HCI_UNIT_REPR where
  name := some "HCI_Send_Keypress_Notification"
  opcode := 0x0c60
  parameter_count := 2
  parameter := [
    { name := some "BD_ADDR", length := 6, display_type := .TEXT_BD_ADDR },
    { name := some "Notification_Type", length := 1, display_type := .INT_HEX } ]
  return_parameter_count := 2
  return_parameter := [
    { name := some "Status", length := 1, display_type := .TEXT_REASON_STATUS_CODE },
    { name := some "BD_ADDR", length := 6, display_type := .TEXT_BD_ADDR } ]

def HCI_CONTROLLER_BASEBAND_COMMANDS_0x0061 : HCI_UNIT_REPR where
  name := some "HCI_Read_Logical_Link_Accept_Timeout"
  opcode := 0x0c61
  parameter_count := 0
  parameter := []
  return_parameter_count := 2
  return_parameter := [
    { name := some "Status", length := 1, display_type := .TEXT_REASON_STATUS_CODE },
    { name := some "Logical_Link_Accept_Timeout", length := 2, display_type := .TIME_CLK1 } ]

def HCI_CONTROLLER_BASEBAND_COMMANDS_0x0062 : HCI_UNIT_REPR where
  name := some "HCI_Write_Logical_Link_Accept_Timeout"
  opcode := 0x0c62
  parameter_count := 1
  parameter := [
    { name := some "Logical_Link_Accept_Timeout", length := 2, display_type := .TIME_CLK1 } ]
  return_parameter_count := 1
  return_parameter := [
    { name := some "Status", length := 1, display_type := .TEXT_REASON_STATUS_CODE } ]

def HCI_CONTROLLER_BASEBAND_COMMANDS_0x0063 : HCI_UNIT_REPR where
  name := some "HCI_Set_Event_Mask_Page_2"
  opcode := 0x0c63
  parameter_count := 1
  parameter := [
    { name := some "Event_Mask_Page_2", length := 8, display_type := .SEQ_HEX } ]
  return_parameter_count := 1
  return_parameter := [
    { name := some "Status", length := 1, display_type := .TEXT_REASON_STATUS_CODE } ]

def HCI_CONTROLLER_BASEBAND_COMMANDS_0x0064 : HCI_UNIT_REPR where
  name := some "HCI_Read_Location_Data"
  opcode := 0x0c64
  parameter_count := 0
  parameter := []
  return_parameter_count := 5
  return_parameter := [
    { name := some "Status", length := 1, display_type := .TEXT_REASON_STATUS_CODE },
    { name := some "Location_Domain_Aware", length := 1, display_type := .TEXT_SPECIAL_DISPLAY_PARAM, index_of_special_display_param := LOCATION_DOMAIN_AWARE },
    { name := some "Location_Domain", length := 2, display_type := .INT_HEX },
    { name := some "Location_Domain_Options", length := 1, display_type := .TEXT_SPECIAL_DISPLAY_PARAM, index_of_special_display_param := LOCATION_DOMAIN_OPTIONS },
    { name := some "Location_Options", length := 1, display_type := .TEXT_SPECIAL_DISPLAY_PARAM, index_of_special_display_param := LOCATION_OPTIONS } ]

def HCI_CONTROLLER_BASEBAND_COMMANDS_0x0065 : HCI_UNIT_REPR where
  name := some "HCI_Write_Location_Data"
  opcode := 0x0c65
  parameter_count := 4
  parameter := [
    { name := some "Location_Domain_Aware", length := 1, display_type := .TEXT_SPECIAL_DISPLAY_PARAM, index_of_special_display_param := LOCATION_DOMAIN_AWARE },
    { name := some "Location_Domain", length := 2, display_type := .INT_HEX },
    { name := some "Location_Domain_Options", length := 1, display_type := .TEXT_SPECIAL_DISPLAY_PARAM, index_of_special_display_param := LOCATION_DOMAIN_OPTIONS },
    { name := some "Location_Options", length := 1, display_type := .TEXT_SPECIAL_DISPLAY_PARAM, index_of_special_display_param := LOCATION_OPTIONS } ]
  return_parameter_count := 1
  return_parameter := [
    { name := some "Status", length := 1, display_type := .TEXT_REASON_STATUS_CODE } ]

def HCI_CONTROLLER_BASEBAND_COMMANDS_0x0066 : HCI_UNIT_REPR where
  name := some "HCI_Read_Flow_Control_Mode"
  opcode := 0x0c66
  parameter_count := 0
  parameter := []
  return_parameter_count := 2
  return_parameter := [
    { name := some "Status", length := 1, display_type := .TEXT_REASON_STATUS_CODE },
    { name := some "Flow_Control_Mode", length := 1, display_type := .TEXT_SPECIAL_DISPLAY_PARAM, index_of_special_display_param := FLOW_CONTROL_MODE } ]

def HCI_CONTROLLER_BASEBAND_COMMANDS_0x0067 : HCI_UNIT_REPR where
  name := some "HCI_Write_Flow_Control_Mode"
  opcode := 0x0c67
  parameter_count := 1
  parameter := [
    { name := some "Flow_Control_Mode", length := 1, display_type := .TEXT_SPECIAL_DISPLAY_PARAM, index_of_special_display_param := FLOW_CONTROL_MODE } ]
  return_parameter_count := 1
  return_parameter := [
    { name := some "Status", length := 1, display_type := .TEXT_REASON_STATUS_CODE } ]

def HCI_CONTROLLER_BASEBAND_COMMANDS_0x0068 : HCI_UNIT_REPR where
  name := some "HCI_Read_Enhance_Transmit_Power_Level"
  opcode := 0x0c68
  parameter_count := 2
  parameter := [
    { name := some "Connection_Handle", length := 2, display_type := .INT_HANDLE },
    { name := some "Type", length := 1, display_type := .INT_HEX } ]
  return_parameter_count := 5
  return_parameter := [
    { name := some "Status", length := 1, display_type := .TEXT_REASON_STATUS_CODE },
    { name := some "Connection_Handle", length := 2, display_type := .INT_HANDLE },
    { name := some "Transmit_Power_Level_GFSK", length := 1, display_type := .INT_HEX },
    { name := some "Transmit_Power_Level_DQPSK", length := 1, display_type := .INT_HEX },
    { name := some "Transmit_Power_Level_8DPSK", length := 1, display_type := .INT_HEX } ]

def HCI_CONTROLLER_BASEBAND_COMMANDS_0x0069 : HCI_UNIT_REPR where
  name := some "HCI_Read_Best_Effort_Flush_Timeout"
  opcode := 0x0c69
  parameter_count := 1
  parameter := [
    { name := some "Logical_Link_Handle", length := 2, display_type := .INT_HEX } ]
  return_parameter_count := 2
  return_parameter := [
    { name := some "Status", length := 1, display_type := .TEXT_REASON_STATUS_CODE },
    { name := some "Best_Effort_Flush_Timeout", length := 4, display_type := .INT_HEX } ]

def HCI_CONTROLLER_BASEBAND_COMMANDS_0x006a : HCI_UNIT_REPR where
  name := some "HCI_Write_Best_Effort_Flush_Timeout"
  opcode := 0x0c6a
  parameter_count := 2
  parameter := [
    { name := some "Logical_Link_Handle", length := 2, display_type := .INT_HEX },
    { name := some "Best_Effort_Flush_Timeout", length := 4, display_type := .INT_HEX } ]
  return_parameter_count := 1
  return_parameter := [
    { name := some "Status", length := 1, display_type := .TEXT_REASON_STATUS_CODE } ]

def HCI_CONTROLLER_BASEBAND_COMMANDS_0x006b : HCI_UNIT_REPR where
  name := some "HCI_Short_Range_Mode"
  opcode := 0x0c6b
  parameter_count := 2
  parameter := [
    { name := some "Physical_Link_Handle", length := 1, display_type := .INT_HEX },
    { name := some "Short_Range_Mode", length := 1, display_type := .INT_HEX } ]
  return_parameter_count := 0
  return_parameter := []

def HCI_CONTROLLER_BASEBAND_COMMANDS_0x006c : HCI_UNIT_REPR where
  name := some "HCI_Read_LE_Host_Support"
  opcode := 0x0c6c
  parameter_count := 0
  parameter := []
  return_parameter_count := 3
  return_parameter := [
    { name := some "Status", length := 1, display_type := .TEXT_REASON_STATUS_CODE },
    { name := some "LE_Supported_Host", length := 1, display_type := .TEXT_SPECIAL_DISPLAY_PARAM, index_of_special_display_param := LE_SUPPORTED_HOST },
    { name := some "Simultaneous_LE_Host", length := 1, display_type := .INT_HEX } ]

def HCI_CONTROLLER_BASEBAND_COMMANDS_0x006d : HCI_UNIT_REPR where
  name := some "HCI_Write_LE_Host_Support"
  opcode := 0x0c6d
  parameter_count := 2
  parameter := [
    { name := some "LE_Supported_Host", length := 1, display_type := .TEXT_SPECIAL_DISPLAY_PARAM, index_of_special_display_param := LE_SUPPORTED_HOST },
    { name := some "Simultaneous_LE_Host", length := 1, display_type := .INT_HEX } ]
  return_parameter_count := 1
  return_parameter := [
    { name := some "Status", length := 1, display_type := .TEXT_REASON_STATUS_CODE } ]

def HCI_CONTROLLER_BASEBAND_COMMANDS_0x006e : HCI_UNIT_REPR where
  name := some "HCI_Set_MWS_Channel_Parameters"
  opcode := 0x0c6e
  parameter_count := 6
  parameter := [
    { name := some "MWS_Channel_Enable", length := 1, display_type := .INT_HEX },
    { name := some "MWS_RX_Center_Frequency", length := 2, display_type := .INT_HEX },
    { name := some "MWS_TX_Center_Frequency", length := 2, display_type := .INT_HEX },
    { name := some "MWS_RX_Channel_Bandwidth", length := 2, display_type := .INT_HEX },
    { name := some "MWS_TX_Channel_Bandwidth", length := 2, display_type := .INT_HEX },
    { name := some "MWS_Channel_Type", length := 1, display_type := .INT_HEX } ]
  return_parameter_count := 1
  return_parameter := [
    { name := some "Status", length := 1, display_type := .TEXT_REASON_STATUS_CODE } ]

def HCI_CONTROLLER_BASEBAND_COMMANDS_0x006f : HCI_UNIT_REPR where
  name := some "HCI_Set_External_Frame_Configuration"
  opcode := 0x0c6f
  parameter_count := 6
  parameter := [
    { name := some "Ext_Frame_Duration", length := 1, display_type := .INT_HEX },
    { name := some "Ext_Frame_Sync_Assert_Offset", length := 2, display_type := .INT_HEX },
    { name := some "Ext_Frame_Sync_Assert_Jitter", length := 2, display_type := .INT_HEX },
    { name := some "Ext_Num_Periods", length := 1, repeat_param_num := 1, display_type := .INT_DEC },
    { name := some "Period_Duration", length := 2, display_type := .INT_HEX },
    { name := some "Period_Type", length := 1, display_type := .INT_HEX } ]
  return_parameter_count := 1
  return_parameter := [
    { name := some "Status", length := 1, display_type := .TEXT_REASON_STATUS_CODE } ]

def HCI_CONTROLLER_BASEBAND_COMMANDS_0x0070 : HCI_UNIT_REPR where
  name := some "HCI_Set_MWS_Signaling"
  opcode := 0x0c70
  parameter_count := 15
  parameter := [
    { name := some "MWS_RX_Assert_Offset", length := 2, display_type := .INT_HEX },
    { name := some "MWS_RX_Assert_Jitter", length := 2, display_type := .INT_HEX },
    { name := some "MWS_RX_Deassert_Offset", length := 2, display_type := .INT_HEX },
    { name := some "MWS_RX_Deassert_Jitter", length := 2, display_type := .INT_HEX },
    { name := some "MWS_TX_Assert_Offset", length := 2, display_type := .INT_HEX },
    { name := some "MWS_TX_Assert_Jitter", length := 2, display_type := .INT_HEX },
    { name := some "MWS_TX_Deassert_Offset", length := 2, display_type := .INT_HEX },
    { name := some "MWS_TX_Deassert_Jitter", length := 2, display_type := .INT_HEX },
    { name := some "MWS_Pattern_Assert_Offset", length := 2, display_type := .INT_HEX },
    { name := some "MWS_Pattern_Assert_Jitter", length := 2, display_type := .INT_HEX },
    { name := some "MWS_Inactivity_Duration_Assert_Offset", length := 2, display_type := .INT_HEX },
    { name := some "MWS_Inactivity_Duration_Assert_Jitter", length := 2, display_type := .INT_HEX },
    { name := some "MWS_Scan_Frequency_Assert_Offset", length := 2, display_type := .INT_HEX },
    { name := some "MWS_Scan_Frequency_Assert_Jitter", length := 2, display_type := .INT_HEX },
    { name := some "MWS_Priority_Assert_Offset_Requeset", length := 2, display_type := .INT_HEX } ]
  return_parameter_count := 17
  return_parameter := [
    { name := some "Status", length := 1, display_type := .TEXT_REASON_STATUS_CODE },
    { name := some "Bluetooth_RX_Priority_Assert_Offset", length := 2, display_type := .INT_HEX },
    { name := some "Bluetooth_RX_Priority_Assert_Jitter", length := 2, display_type := .INT_HEX },
    { name := some "Bluetooth_RX_Priority_Deassert_Offset", length := 2, display_type := .INT_HEX },
    { name := some "Bluetooth_RX_Priority_Deassert_Jitter", length := 2, display_type := .INT_HEX },
    { name := some "802_RX_Priority_Assert_Offset", length := 2, display_type := .INT_HEX },
    { name := some "802_RX_Priority_Assert_Jitter", length := 2, display_type := .INT_HEX },
    { name := some "802_RX_Priority_Deassert_Offset", length := 2, display_type := .INT_HEX },
    { name := some "802_RX_Priority_Deassert_Jitter", length := 2, display_type := .INT_HEX },
    { name := some "Bluetooth_TX_Priority_Assert_Offset", length := 2, display_type := .INT_HEX },
    { name := some "Bluetooth_TX_Priority_Assert_Jitter", length := 2, display_type := .INT_HEX },
    { name := some "Bluetooth_TX_Priority_Deassert_Offset", length := 2, display_type := .INT_HEX },
    { name := some "Bluetooth_TX_Priority_Deassert_Jitter", length := 2, display_type := .INT_HEX },
    { name := some "802_TX_Priority_Assert_Offset", length := 2, display_type := .INT_HEX },
    { name := some "802_TX_Priority_Assert_Jitter", length := 2, display_type := .INT_HEX },
    { name := some "802_TX_Priority_Deassert_Offset", length := 2, display_type := .INT_HEX },
    { name := some "802_TX_Priority_Deassert_Jitter", length := 2, display_type := .INT_HEX } ]

def HCI_CONTROLLER_BASEBAND_COMMANDS_0x0071 : HCI_UNIT_REPR where
  name := some "HCI_Set_MWS_Transport_Layer"
  opcode := 0x0c71
  parameter_count := 3
  parameter := [
    { name := some "Transport_Layer", length := 1, display_type := .INT_HEX },
    { name := some "To_MWS_Baud_Rate", length := 4, display_type := .INT_HEX },
    { name := some "From_MWS_Baud_Rate", length := 4, display_type := .INT_HEX } ]
  return_parameter_count := 1
  return_parameter := [
    { name := some "Status", length := 1, display_type := .TEXT_REASON_STATUS_CODE } ]

def HCI_CONTROLLER_BASEBAND_COMMANDS_0x0072 : HCI_UNIT_REPR where
  name := some "HCI_Set_MWS_Scan_Frequency_Table"
  opcode := 0x0c72
  parameter_count := 3
  parameter := [
    { name := some "Num_Scan_Frequencies", length := 1, repeat_param_num := 2, display_type := .INT_DEC },
    { name := some "Scan_Frequency_Low", length := 2, display_type := .INT_HEX },
    { name := some "Scan_Frequency_High", length := 2, display_type := .INT_HEX } ]
  return_parameter_count := 1
  return_parameter := [
    { name := some "Status", length := 1, display_type := .TEXT_REASON_STATUS_CODE } ]

def HCI_CONTROLLER_BASEBAND_COMMANDS_0x0073 : HCI_UNIT_REPR where
  name := some "HCI_Set_MWS_PATTERN_Configuration"
  opcode := 0x0c73
  parameter_count := 4
  parameter := [
    { name := some "MWS_PATTERN_Index", length := 1, display_type := .INT_HEX },
    { name := some "MWS_PATTERN_NumIntervals", length := 1, repeat_param_num := 2, display_type := .INT_DEC },
    { name := some "MWS_PATTERN_IntervalDuration", length := 2, display_type := .INT_HEX },
    { name := some "MWS_PATTERN_IntervalType", length := 1, display_type := .INT_HEX } ]
  return_parameter_count := 1
  return_parameter := [
    { name := some "Status", length := 1, display_type := .TEXT_REASON_STATUS_CODE } ]

def HCI_CONTROLLER_BASEBAND_COMMANDS_0x0074 : HCI_UNIT_REPR where
  name := some "HCI_Set_Reserved_LT_ADDR"
  opcode := 0x0c74
  parameter_count := 1
  parameter := [
    { name := some "LT_ADDR", length := 1, display_type := .INT_HEX } ]
  return_parameter_count := 2
  return_parameter := [
    { name := some "Status", length := 1, display_type := .TEXT_REASON_STATUS_CODE },
    { name := some "LT_ADDR", length := 1, display_type := .INT_HEX } ]

def HCI_CONTROLLER_BASEBAND_COMMANDS_0x0075 : HCI_UNIT_REPR where
  name := some "HCI_Delete_Reserved_LT_ADDR"
  opcode := 0x0c75
  parameter_count := 1
  parameter := [
    { name := some "LT_ADDR", length := 1, display_type := .INT_HEX } ]
  return_parameter_count := 2
  return_parameter := [
    { name := some "Status", length := 1, display_type := .TEXT_REASON_STATUS_CODE },
    { name := some "LT_ADDR", length := 1, display_type := .INT_HEX } ]

def HCI_CONTROLLER_BASEBAND_COMMANDS_0x0076 : HCI_UNIT_REPR where
  name := some "HCI_Set_Connectionless_Slave_Broadcast_Data"
  opcode := 0x0c76
  parameter_count := 4
  parameter := [
    { name := some "LT_ADDR", length := 1, display_type := .INT_HEX },
    { name := some "Fragment", length := 1, display_type := .INT_HEX },
    { name := some "Data_Length", length := 1, display_type := .INT_DEC },
    { name := some "Data", length := -1, display_type := .SEQ_HEX } ]
  return_parameter_count := 2
  return_parameter := [
    { name := some "Status", length := 1, display_type := .TEXT_REASON_STATUS_CODE },
    { name := some "LT_ADDR", length := 1, display_type := .INT_HEX } ]

def HCI_CONTROLLER_BASEBAND_COMMANDS_0x0077 : HCI_UNIT_REPR where
  name := some "HCI_Read_Synchronization_Train_Parameters"
  opcode := 0x0c77
  parameter_count := 0
  parameter := []
  return_parameter_count := 4
  return_parameter := [
    { name := some "Status", length := 1, display_type := .TEXT_REASON_STATUS_CODE },
    { name := some "Sync_Train_Interval", length := 2, display_type := .INT_HEX },
    { name := some "synchronization_trainTO", length := 4, display_type := .INT_HEX },
    { name := some "Service_Data", length := 1, display_type := .INT_HEX } ]

def HCI_CONTROLLER_BASEBAND_COMMANDS_0x0078 : HCI_UNIT_REPR where
  name := some "HCI_Write_Synchronization_Train_Parameters"
  opcode := 0x0c78
  parameter_count := 4
  parameter := [
    { name := some "Interval_Min", length := 2, display_type := .INT_HEX },
    { name := some "Interval_Max", length := 2, display_type := .INT_HEX },
    { name := some "synchronization_trainTO", length := 4, display_type := .INT_HEX },
    { name := some "Service_Data", length := 1, display_type := .INT_HEX } ]
  return_parameter_count := 2
  return_parameter := [
    { name := some "Status", length := 1, display_type := .TEXT_REASON_STATUS_CODE },
    { name := some "Sync_Train_Interval", length := 2, display_type := .INT_HEX } ]

def HCI_CONTROLLER_BASEBAND_COMMANDS_0x0079 : HCI_UNIT_REPR where
  name := some "HCI_Read_Secure_Connections_Host_Support"
  opcode := 0x0c79
  parameter_count := 0
  parameter := []
  return_parameter_count := 2
  return_parameter := [
    { name := some "Status", length := 1, display_type := .TEXT_REASON_STATUS_CODE },
    { name := some "Secure_Connections_Host_Support", length := 1, display_type := .TEXT_SPECIAL_DISPLAY_PARAM, index_of_special_display_param := SECURE_CONNECTIONS_HOST_SUPPORT } ]

def HCI_CONTROLLER_BASEBAND_COMMANDS_0x007a : HCI_UNIT_REPR where
  name := some "HCI_Write_Secure_Connections_Host_Support"
  opcode := 0x0c7a
  parameter_count := 1
  parameter := [
    { name := some "Secure_Connections_Host_Support", length := 1, display_type := .TEXT_SPECIAL_DISPLAY_PARAM, index_of_special_display_param := SECURE_CONNECTIONS_HOST_SUPPORT } ]
  return_parameter_count := 1
  return_parameter := [
    { name := some "Status", length := 1, display_type := .TEXT_REASON_STATUS_CODE } ]

def HCI_CONTROLLER_BASEBAND_COMMANDS_0x007b : HCI_UNIT_REPR where
  name := some "HCI_Read_Authenticated_Payload_Timeout"
  opcode := 0x0c7b
  parameter_count := 1
  parameter := [
    { name := some "Connection_Handle", length := 2, display_type := .INT_HANDLE } ]
  return_parameter_count := 3
  return_parameter := [
    { name := some "Status", length := 1, display_type := .TEXT_REASON_STATUS_CODE },
    { name := some "Connection_Handle", length := 2, display_type := .INT_HANDLE },
    { name := some "Authenticated_Payload_Timeout", length := 2, display_type := .TIME_CLK5 } ]

def HCI_CONTROLLER_BASEBAND_COMMANDS_0x007c : HCI_UNIT_REPR where
  name := some "HCI_Write_Authenticated_Payload_Timeout"
  opcode := 0x0c7c
  parameter_count := 2
  parameter := [
    { name := some "Connection_Handle", length := 2, display_type := .INT_HANDLE },
    { name := some "Authenticated_Payload_Timeout", length := 2, display_type := .TIME_CLK5 } ]
  return_parameter_count := 2
  return_parameter := [
    { name := some "Status", length := 1, display_type := .TEXT_REASON_STATUS_CODE },
    { name := some "Connection_Handle", length := 2, display_type := .INT_HANDLE } ]

def HCI_CONTROLLER_BASEBAND_COMMANDS_0x007d : HCI_UNIT_REPR where
  name := some "HCI_Read_Local_OOB_Extended_Data"
  opcode := 0x0c7d
  parameter_count := 0
  parameter := []
  return_parameter_count := 5
  return_parameter := [
    { name := some "Status", length := 1, display_type := .TEXT_REASON_STATUS_CODE },
    { name := some "C_192", length := 16, display_type := .SEQ_HEX },
    { name := some "R_192", length := 16, display_type := .SEQ_HEX },
    { name := some "C_256", length := 16, display_type := .SEQ_HEX },
    { name := some "R_256", length := 16, display_type := .SEQ_HEX } ]

def HCI_CONTROLLER_BASEBAND_COMMANDS_0x007e : HCI_UNIT_REPR where
  name := some "HCI_Read_Extended_Page_Timeout"
  opcode := 0x0c7e
  parameter_count := 0
  parameter := []
  return_parameter_count := 2
  return_parameter := [
    { name := some "Status", length := 1, display_type := .TEXT_REASON_STATUS_CODE },
    { name := some "Extended_Page_Timeout", length := 2, display_type := .TIME_CLK1 } ]

def HCI_CONTROLLER_BASEBAND_COMMANDS_0x007f : HCI_UNIT_REPR where
  name := some "HCI_Write_Extended_Page_Timeout"
  opcode := 0x0c7f
  parameter_count := 1
  parameter := [
    { name := some "Extended_Page_Timeout", length := 2, display_type := .TIME_CLK1 } ]
  return_parameter_count := 1
  return_parameter := [
    { name := some "Status", length := 1, display_type := .TEXT_REASON_STATUS_CODE } ]

def HCI_CONTROLLER_BASEBAND_COMMANDS_0x0080 : HCI_UNIT_REPR where
  name := some "HCI_Read_Extended_Inquiry_Length"
  opcode := 0x0c80
  parameter_count := 0
  parameter := []
  return_parameter_count := 2
  return_parameter := [
    { name := some "Status", length := 1, display_type := .TEXT_REASON_STATUS_CODE },
    { name := some "Extended_Inquiry_Length", length := 2, display_type := .TIME_CLK1 } ]

def HCI_CONTROLLER_BASEBAND_COMMANDS_0x0081 : HCI_UNIT_REPR where
  name := some "HCI_Write_Extended_Inquiry_Length"
  opcode := 0x0c81
  parameter_count := 1
  parameter := [
    { name := some "Extended_Inquiry_Length", length := 2, display_type := .TIME_CLK1 } ]
  return_parameter_count := 1
  return_parameter := [
    { name := some "Status", length := 1, display_type := .TEXT_REASON_STATUS_CODE } ]

/-- The table `HCI_CONTROLLER_BASEBAND_COMMANDS[CONTROLLER_BASEBAND_NUM + 1]`: Controller and Baseband commands (OGF 0x03). -/
def HCI_CONTROLLER_BASEBAND_COMMANDS : List (Nat × HCI_UNIT_REPR) := [
  (0x0001, HCI_CONTROLLER_BASEBAND_COMMANDS_0x0001), (0x0003, HCI_CONTROLLER_BASEBAND_COMMANDS_0x0003), (0x0005, HCI_CONTROLLER_BASEBAND_COMMANDS_0x0005),
  (0x0008, HCI_CONTROLLER_BASEBAND_COMMANDS_0x0008), (0x0009, HCI_CONTROLLER_BASEBAND_COMMANDS_0x0009), (0x000a, HCI_CONTROLLER_BASEBAND_COMMANDS_0x000a),
  (0x000b, HCI_CONTROLLER_BASEBAND_COMMANDS_0x000b), (0x000d, HCI_CONTROLLER_BASEBAND_COMMANDS_0x000d), (0x0011, HCI_CONTROLLER_BASEBAND_COMMANDS_0x0011),
  (0x0012, HCI_CONTROLLER_BASEBAND_COMMANDS_0x0012), (0x0013, HCI_CONTROLLER_BASEBAND_COMMANDS_0x0013), (0x0014, HCI_CONTROLLER_BASEBAND_COMMANDS_0x0014),
  (0x0015, HCI_CONTROLLER_BASEBAND_COMMANDS_0x0015), (0x0016, HCI_CONTROLLER_BASEBAND_COMMANDS_0x0016), (0x0017, HCI_CONTROLLER_BASEBAND_COMMANDS_0x0017),
  (0x0018, HCI_CONTROLLER_BASEBAND_COMMANDS_0x0018), (0x0019, HCI_CONTROLLER_BASEBAND_COMMANDS_0x0019), (0x001a, HCI_CONTROLLER_BASEBAND_COMMANDS_0x001a),
  (0x001b, HCI_CONTROLLER_BASEBAND_COMMANDS_0x001b), (0x001c, HCI_CONTROLLER_BASEBAND_COMMANDS_0x001c), (0x001d, HCI_CONTROLLER_BASEBAND_COMMANDS_0x001d),
  (0x001e, HCI_CONTROLLER_BASEBAND_COMMANDS_0x001e), (0x001f, HCI_CONTROLLER_BASEBAND_COMMANDS_0x001f), (0x0020, HCI_CONTROLLER_BASEBAND_COMMANDS_0x0020),
  (0x0023, HCI_CONTROLLER_BASEBAND_COMMANDS_0x0023), (0x0024, HCI_CONTROLLER_BASEBAND_COMMANDS_0x0024), (0x0025, HCI_CONTROLLER_BASEBAND_COMMANDS_0x0025),
  (0x0026, HCI_CONTROLLER_BASEBAND_COMMANDS_0x0026), (0x0027, HCI_CONTROLLER_BASEBAND_COMMANDS_0x0027), (0x0028, HCI_CONTROLLER_BASEBAND_COMMANDS_0x0028),
  (0x0029, HCI_CONTROLLER_BASEBAND_COMMANDS_0x0029), (0x002a, HCI_CONTROLLER_BASEBAND_COMMANDS_0x002a), (0x002b, HCI_CONTROLLER_BASEBAND_COMMANDS_0x002b),
  (0x002c, HCI_CONTROLLER_BASEBAND_COMMANDS_0x002c), (0x002d, HCI_CONTROLLER_BASEBAND_COMMANDS_0x002d), (0x002e, HCI_CONTROLLER_BASEBAND_COMMANDS_0x002e),
  (0x002f, HCI_CONTROLLER_BASEBAND_COMMANDS_0x002f), (0x0031, HCI_CONTROLLER_BASEBAND_COMMANDS_0x0031), (0x0033, HCI_CONTROLLER_BASEBAND_COMMANDS_0x0033),
  (0x0035, HCI_CONTROLLER_BASEBAND_COMMANDS_0x0035), (0x0036, HCI_CONTROLLER_BASEBAND_COMMANDS_0x0036), (0x0037, HCI_CONTROLLER_BASEBAND_COMMANDS_0x0037),
  (0x0038, HCI_CONTROLLER_BASEBAND_COMMANDS_0x0038), (0x0039, HCI_CONTROLLER_BASEBAND_COMMANDS_0x0039), (0x003a, HCI_CONTROLLER_BASEBAND_COMMANDS_0x003a),
  (0x003f, HCI_CONTROLLER_BASEBAND_COMMANDS_0x003f), (0x0042, HCI_CONTROLLER_BASEBAND_COMMANDS_0x0042), (0x0043, HCI_CONTROLLER_BASEBAND_COMMANDS_0x0043),
  (0x0044, HCI_CONTROLLER_BASEBAND_COMMANDS_0x0044), (0x0045, HCI_CONTROLLER_BASEBAND_COMMANDS_0x0045), (0x0046, HCI_CONTROLLER_BASEBAND_COMMANDS_0x0046),
  (0x0047, HCI_CONTROLLER_BASEBAND_COMMANDS_0x0047), (0x0048, HCI_CONTROLLER_BASEBAND_COMMANDS_0x0048), (0x0049, HCI_CONTROLLER_BASEBAND_COMMANDS_0x0049),
  (0x0051, HCI_CONTROLLER_BASEBAND_COMMANDS_0x0051), (0x0052, HCI_CONTROLLER_BASEBAND_COMMANDS_0x0052), (0x0053, HCI_CONTROLLER_BASEBAND_COMMANDS_0x0053),
  (0x0055, HCI_CONTROLLER_BASEBAND_COMMANDS_0x0055), (0x0056, HCI_CONTROLLER_BASEBAND_COMMANDS_0x0056), (0x0057, HCI_CONTROLLER_BASEBAND_COMMANDS_0x0057),
  (0x0058, HCI_CONTROLLER_BASEBAND_COMMANDS_0x0058), (0x0059, HCI_CONTROLLER_BASEBAND_COMMANDS_0x0059), (0x005a, HCI_CONTROLLER_BASEBAND_COMMANDS_0x005a),
  (0x005b, HCI_CONTROLLER_BASEBAND_COMMANDS_0x005b), (0x005f, HCI_CONTROLLER_BASEBAND_COMMANDS_0x005f), (0x0060, HCI_CONTROLLER_BASEBAND_COMMANDS_0x0060),
  (0x0061, HCI_CONTROLLER_BASEBAND_COMMANDS_0x0061), (0x0062, HCI_CONTROLLER_BASEBAND_COMMANDS_0x0062), (0x0063, HCI_CONTROLLER_BASEBAND_COMMANDS_0x0063),
  (0x0064, HCI_CONTROLLER_BASEBAND_COMMANDS_0x0064), (0x0065, HCI_CONTROLLER_BASEBAND_COMMANDS_0x0065), (0x0066, HCI_CONTROLLER_BASEBAND_COMMANDS_0x0066),
  (0x0067, HCI_CONTROLLER_BASEBAND_COMMANDS_0x0067), (0x0068, HCI_CONTROLLER_BASEBAND_COMMANDS_0x0068), (0x0069, HCI_CONTROLLER_BASEBAND_COMMANDS_0x0069),
  (0x006a, HCI_CONTROLLER_BASEBAND_COMMANDS_0x006a), (0x006b, HCI_CONTROLLER_BASEBAND_COMMANDS_0x006b), (0x006c, HCI_CONTROLLER_BASEBAND_COMMANDS_0x006c),
  (0x006d, HCI_CONTROLLER_BASEBAND_COMMANDS_0x006d), (0x006e, HCI_CONTROLLER_BASEBAND_COMMANDS_0x006e), (0x006f, HCI_CONTROLLER_BASEBAND_COMMANDS_0x006f),
  (0x0070, HCI_CONTROLLER_BASEBAND_COMMANDS_0x0070), (0x0071, HCI_CONTROLLER_BASEBAND_COMMANDS_0x0071), (0x0072, HCI_CONTROLLER_BASEBAND_COMMANDS_0x0072),
  (0x0073, HCI_CONTROLLER_BASEBAND_COMMANDS_0x0073), (0x0074, HCI_CONTROLLER_BASEBAND_COMMANDS_0x0074), (0x0075, HCI_CONTROLLER_BASEBAND_COMMANDS_0x0075),
  (0x0076, HCI_CONTROLLER_BASEBAND_COMMANDS_0x0076), (0x0077, HCI_CONTROLLER_BASEBAND_COMMANDS_0x0077), (0x0078, HCI_CONTROLLER_BASEBAND_COMMANDS_0x0078),
  (0x0079, HCI_CONTROLLER_BASEBAND_COMMANDS_0x0079), (0x007a, HCI_CONTROLLER_BASEBAND_COMMANDS_0x007a), (0x007b, HCI_CONTROLLER_BASEBAND_COMMANDS_0x007b),
  (0x007c, HCI_CONTROLLER_BASEBAND_COMMANDS_0x007c), (0x007d, HCI_CONTROLLER_BASEBAND_COMMANDS_0x007d), (0x007e, HCI_CONTROLLER_BASEBAND_COMMANDS_0x007e),
  (0x007f, HCI_CONTROLLER_BASEBAND_COMMANDS_0x007f), (0x0080, HCI_CONTROLLER_BASEBAND_COMMANDS_0x0080), (0x0081, HCI_CONTROLLER_BASEBAND_COMMANDS_0x0081) ]

def INFORMATIONAL_PARAMETERS_NUM : Nat := 11

def HCI_INFORMATIONAL_PARAMETERS_0x0001 : HCI_UNIT_REPR where
  name := some "HCI_Read_Local_Version_Information"
  opcode := 0x1001
  parameter_count := 0
  parameter := []
  return_parameter_count := 6
  return_parameter := [
    { name := some "Status", length := 1, display_type := .TEXT_REASON_STATUS_CODE },
    { name := some "HCI_Version", length := 1, display_type := .INT_HEX },
    { name := some "HCI_Revision", length := 2, display_type := .INT_HEX },
    { name := some "LMP/PAL_Version", length := 1, display_type := .INT_HEX },
    { name := some "Manufacturer_Name", length := 2, display_type := .INT_HEX },
    { name := some "LMP/PAL_Subversion", length := 2, display_type := .INT_HEX } ]

def HCI_INFORMATIONAL_PARAMETERS_0x0002 : HCI_UNIT_REPR where
  name := some "HCI_Read_Local_Supported_Commands"
  opcode := 0x1002
  parameter_count := 0
  parameter := []
  return_parameter_count := 2
  return_parameter := [
    { name := some "Status", length := 1, display_type := .TEXT_REASON_STATUS_CODE },
    { name := some "Supported_Commands", length := 64, display_type := .SEQ_HEX } ]

def HCI_INFORMATIONAL_PARAMETERS_0x0003 : HCI_UNIT_REPR where
  name := some "HCI_Read_Local_Supported_Features"
  opcode := 0x1003
  parameter_count := 0
  parameter := []
  return_parameter_count := 2
  return_parameter := [
    { name := some "Status", length := 1, display_type := .TEXT_REASON_STATUS_CODE },
    { name := some "LMP_Features", length := 8, display_type := .SEQ_HEX } ]

def HCI_INFORMATIONAL_PARAMETERS_0x0004 : HCI_UNIT_REPR where
  name := some "HCI_Read_Local_Extended_Features"
  opcode := 0x1004
  parameter_count := 1
  parameter := [
    { name := some "Page_Number", length := 1, display_type := .INT_DEC } ]
  return_parameter_count := 4
  return_parameter := [
    { name := some "Status", length := 1, display_type := .TEXT_REASON_STATUS_CODE },
    { name := some "Page_Number", length := 1, display_type := .INT_DEC },
    { name := some "Maximum_Page_Number", length := 1, display_type := .INT_DEC },
    { name := some "Extended_LMP_Features", length := 8, display_type := .SEQ_HEX } ]

def HCI_INFORMATIONAL_PARAMETERS_0x0005 : HCI_UNIT_REPR where
  name := some "HCI_Read_Buffer_Size"
  opcode := 0x1005
  parameter_count := 0
  parameter := []
  return_parameter_count := 5
  return_parameter := [
    { name := some "Status", length := 1, display_type := .TEXT_REASON_STATUS_CODE },
    { name := some "HC_ACL_Data_Packet_Length", length := 2, display_type := .INT_DEC },
    { name := some "HC_Synchronous_Data_Length", length := 1, display_type := .INT_DEC },
    { name := some "HC_Total_Num_ACL_Data_Packets", length := 2, display_type := .INT_DEC },
    { name := some "HC_Total_Num_Synchronous_Data_Packets", length := 2, display_type := .INT_DEC } ]

def HCI_INFORMATIONAL_PARAMETERS_0x0009 : HCI_UNIT_REPR where
  name := some "HCI_Read_BD_ADDR"
  opcode := 0x1009
  parameter_count := 0
  parameter := []
  return_parameter_count := 2
  return_parameter := [
    { name := some "Status", length := 1, display_type := .TEXT_REASON_STATUS_CODE },
    { name := some "BD_ADDR", length := 6, display_type := .TEXT_BD_ADDR } ]

def HCI_INFORMATIONAL_PARAMETERS_0x000a : HCI_UNIT_REPR where
  name := some "HCI_Read_Data_Block_Size"
  opcode := 0x100a
  parameter_count := 0
  parameter := []
  return_parameter_count := 4
  return_parameter := [
    { name := some "Status", length := 1, display_type := .TEXT_REASON_STATUS_CODE },
    { name := some "Max_ACL_Data_Packet_Length", length := 2, display_type := .INT_DEC },
    { name := some "Data_Block_Length", length := 2, display_type := .INT_DEC },
    { name := some "Total_Num_Data_Blocks", length := 2, display_type := .INT_DEC } ]

def HCI_INFORMATIONAL_PARAMETERS_0x000b : HCI_UNIT_REPR where
  name := some "HCI_Read_Local_Supported_Codecs"
  opcode := 0x100b
  parameter_count := 0
  parameter := []
  return_parameter_count := 5
  return_parameter := [
    { name := some "Status", length := 1, display_type := .TEXT_REASON_STATUS_CODE },
    { name := some "Number_of_Supported_Codecs", length := 1, repeat_param_num := 1, display_type := .INT_DEC },
    { name := some "Supported_Codecs", length := 1, display_type := .INT_HEX },
    { name := some "Number_of_Supported_Vendor_Specific_Codecs", length := 1, repeat_param_num := 1, display_type := .INT_DEC },
    { name := some "Vendor_Specific_Codecs", length := 4, display_type := .INT_HEX } ]

/-- The table `HCI_INFORMATIONAL_PARAMETERS[INFORMATIONAL_PARAMETERS_NUM + 1]`: Informational Parameters commands (OGF 0x04). -/
def HCI_INFORMATIONAL_PARAMETERS : List (Nat × HCI_UNIT_REPR) := [
  (0x0001, HCI_INFORMATIONAL_PARAMETERS_0x0001), (0x0002, HCI_INFORMATIONAL_PARAMETERS_0x0002), (0x0003, HCI_INFORMATIONAL_PARAMETERS_0x0003),
  (0x0004, HCI_INFORMATIONAL_PARAMETERS_0x0004), (0x0005, HCI_INFORMATIONAL_PARAMETERS_0x0005), (0x0009, HCI_INFORMATIONAL_PARAMETERS_0x0009),
  (0x000a, HCI_INFORMATIONAL_PARAMETERS_0x000a), (0x000b, HCI_INFORMATIONAL_PARAMETERS_0x000b) ]

def STATUS_PARAMETERS_NUM : Nat := 13

def HCI_STATUS_PARAMETERS_0x0001 : HCI_UNIT_REPR where
  name := some "HCI_Read_Failed_Contact_Counter"
  opcode := 0x1401
  parameter_count := 1
  parameter := [
    { name := some "Handle", length := 2, display_type := .INT_HEX } ]
  return_parameter_count := 3
  return_parameter := [
    { name := some "Status", length := 1, display_type := .TEXT_REASON_STATUS_CODE },
    { name := some "Handle", length := 2, display_type := .INT_HEX },
    { name := some "Failed_Contact_Counter", length := 2, display_type := .INT_DEC } ]

def HCI_STATUS_PARAMETERS_0x0002 : HCI_UNIT_REPR where
  name := some "HCI_Reset_Failed_Contact_Counter"
  opcode := 0x1402
  parameter_count := 1
  parameter := [
    { name := some "Handle", length := 2, display_type := .INT_HEX } ]
  return_parameter_count := 2
  return_parameter := [
    { name := some "Status", length := 1, display_type := .TEXT_REASON_STATUS_CODE },
    { name := some "Handle", length := 2, display_type := .INT_HEX } ]

def HCI_STATUS_PARAMETERS_0x0003 : HCI_UNIT_REPR where
  name := some "HCI_Read_Link_Quality"
  opcode := 0x1403
  parameter_count := 1
  parameter := [
    { name := some "Handle", length := 2, display_type := .INT_HEX } ]
  return_parameter_count := 3
  return_parameter := [
    { name := some "Status", length := 1, display_type := .TEXT_REASON_STATUS_CODE },
    { name := some "Handle", length := 2, display_type := .INT_HEX },
    { name := some "Link_Quality", length := 1, display_type := .INT_HEX } ]

def HCI_STATUS_PARAMETERS_0x0005 : HCI_UNIT_REPR where
  name := some "HCI_Read_RSSI"
  opcode := 0x1405
  parameter_count := 1
  parameter := [
    { name := some "Handle", length := 2, display_type := .INT_HEX } ]
  return_parameter_count := 3
  return_parameter := [
    { name := some "Status", length := 1, display_type := .TEXT_REASON_STATUS_CODE },
    { name := some "Handle", length := 2, display_type := .INT_HEX },
    { name := some "RSSI", length := 1, display_type := .TEXT_SPECIAL_DISPLAY_PARAM, index_of_special_display_param := RSSI } ]

def HCI_STATUS_PARAMETERS_0x0006 : HCI_UNIT_REPR where
  name := some "HCI_Read_AFH_Channel_Map"
  opcode := 0x1406
  parameter_count := 1
  parameter := [
    { name := some "Connection_Handle", length := 2, display_type := .INT_HANDLE } ]
  return_parameter_count := 4
  return_parameter := [
    { name := some "Status", length := 1, display_type := .TEXT_REASON_STATUS_CODE },
    { name := some "Connection_Handle", length := 2, display_type := .INT_HANDLE },
    { name := some "AFH_Mode", length := 1, display_type := .INT_HEX },
    { name := some "AFH_Channel_Map", length := 10, display_type := .SEQ_HEX } ]

def HCI_STATUS_PARAMETERS_0x0007 : HCI_UNIT_REPR where
  name := some "HCI_Read_Clock"
  opcode := 0x1407
  parameter_count := 2
  parameter := [
    { name := some "Connection_Handle", length := 2, display_type := .INT_HANDLE },
    { name := some "Which_Clock", length := 1, display_type := .INT_HEX } ]
  return_parameter_count := 2
  return_parameter := [
    { name := some "Status", length := 1, display_type := .TEXT_REASON_STATUS_CODE },
    { name := some "Connection_Handle", length := 2, display_type := .INT_HANDLE },
    { name := some "Clock", length := 4, display_type := .INT_HEX },
    { name := some "Accuracy", length := 2, display_type := .INT_HEX } ]

def HCI_STATUS_PARAMETERS_0x0008 : HCI_UNIT_REPR where
  name := some "HCI_Read_Encryption_Key_Size"
  opcode := 0x1408
  parameter_count := 1
  parameter := [
    { name := some "Connection_Handle", length := 2, display_type := .INT_HANDLE } ]
  return_parameter_count := 3
  return_parameter := [
    { name := some "Status", length := 1, display_type := .TEXT_REASON_STATUS_CODE },
    { name := some "Connection_Handle", length := 2, display_type := .INT_HANDLE },
    { name := some "Key_Size", length := 1, display_type := .INT_DEC } ]

def HCI_STATUS_PARAMETERS_0x0009 : HCI_UNIT_REPR where
  name := some "HCI_Read_Local_AMP_Info"
  opcode := 0x1409
  parameter_count := 0
  parameter := []
  return_parameter_count := 11
  return_parameter := [
    { name := some "Status", length := 1, display_type := .TEXT_REASON_STATUS_CODE },
    { name := some "AMP_Status", length := 1, display_type := .INT_HEX },
    { name := some "Total_Bandwidth", length := 4, display_type := .INT_HEX },
    { name := some "Max_Guaranteed_Bandwidth", length := 4, display_type := .INT_HEX },
    { name := some "Min_Latency", length := 4, display_type := .INT_HEX },
    { name := some "Max_PDU_Size", length := 2, display_type := .INT_DEC },
    { name := some "Controller_Type", length := 1, display_type := .INT_HEX },
    { name := some "PAL_Capablities", length := 2, display_type := .INT_HEX },
    { name := some "Max_AMP_ASSOC_Length", length := 2, display_type := .INT_DEC },
    { name := some "Max_Flush_Timeout", length := 4, display_type := .INT_HEX },
    { name := some "Best_Effort_Flush_Timeout", length := 4, display_type := .INT_HEX } ]

def HCI_STATUS_PARAMETERS_0x000a : HCI_UNIT_REPR where
  name := some "HCI_Read_Local_AMP_ASSOC"
  opcode := 0x140a
  parameter_count := 3
  parameter := [
    { name := some "Physical_Link_Handle", length := 1, display_type := .INT_HEX },
    { name := some "Length_So_Far", length := 2, display_type := .INT_HEX },
    { name := some "AMP_ASSOC_Length", length := 2, display_type := .INT_DEC } ]
  return_parameter_count := 4
  return_parameter := [
    { name := some "Status", length := 1, display_type := .TEXT_REASON_STATUS_CODE },
    { name := some "Physical_Link_Handle", length := 1, display_type := .INT_HEX },
    { name := some "AMP_ASSOC_Remaining_Length", length := 2, display_type := .INT_DEC },
    { name := some "AMP_ASSOC_fragment", length := INT_MAX, display_type := .SEQ_HEX } ]

def HCI_STATUS_PARAMETERS_0x000b : HCI_UNIT_REPR where
  name := some "HCI_Write_Remote_AMP_ASSOC"
  opcode := 0x140b
  parameter_count := 4
  parameter := [
    { name := some "Physical_Link_Handle", length := 1, display_type := .INT_HEX },
    { name := some "Length_So_Far", length := 2, display_type := .INT_HEX },
    { name := some "AMP_ASSOC_Remaining_Length", length := 2, display_type := .INT_DEC },
    { name := some "AMP_ASSOC_fragment", length := -1, display_type := .INT_HEX } ]
  return_parameter_count := 2
  return_parameter := [
    { name := some "Status", length := 1, display_type := .TEXT_REASON_STATUS_CODE },
    { name := some "Physical_Link_Handle", length := 1, display_type := .INT_HEX } ]

def HCI_STATUS_PARAMETERS_0x000c : HCI_UNIT_REPR where
  name := some "HCI_Get_MWS_Transport_Layer_Configuration"
  opcode := 0x140c
  parameter_count := 0
  parameter := []
  return_parameter_count := 6
  return_parameter := [
    { name := some "Status", length := 1, display_type := .TEXT_REASON_STATUS_CODE },
    { name := some "Num_Transports", length := 1, repeat_param_num := 2, display_type := .INT_DEC },
    { name := some "Transport_Layer", length := 1, display_type := .INT_HEX },
    { name := some "Num_Baud_Rates", length := 1, repeat_param_num := 2, display_type := .INT_DEC },
    { name := some "To_MWS_Baud_Rate", length := 1, display_type := .INT_HEX },
    { name := some "From_MWS_Baud_Rate", length := 1, display_type := .INT_HEX } ]

def HCI_STATUS_PARAMETERS_0x000d : HCI_UNIT_REPR where
  name := some "HCI_Set_Triggered_Clock_Capture"
  opcode := 0x140d
  parameter_count := 5
  parameter := [
    { name := some "Connection_Handle", length := 2, display_type := .INT_HANDLE },
    { name := some "Enable", length := 1, display_type := .INT_HEX },
    { name := some "Which_Clock", length := 1, display_type := .INT_HEX },
    { name := some "LPO_Allowed", length := 1, display_type := .INT_HEX },
    { name := some "Num_Clock_Captures_To_Filter", length := 1, display_type := .INT_DEC } ]
  return_parameter_count := 1
  return_parameter := [
    { name := some "Status", length := 1, display_type := .TEXT_REASON_STATUS_CODE } ]

/-- The table `HCI_STATUS_PARAMETERS[STATUS_PARAMETERS_NUM + 1]`: Status Parameters commands (OGF 0x05). -/
def HCI_STATUS_PARAMETERS : List (Nat × HCI_UNIT_REPR) := [
  (0x0001, HCI_STATUS_PARAMETERS_0x0001), (0x0002, HCI_STATUS_PARAMETERS_0x0002), (0x0003, HCI_STATUS_PARAMETERS_0x0003),
  (0x0005, HCI_STATUS_PARAMETERS_0x0005), (0x0006, HCI_STATUS_PARAMETERS_0x0006), (0x0007, HCI_STATUS_PARAMETERS_0x0007),
  (0x0008, HCI_STATUS_PARAMETERS_0x0008), (0x0009, HCI_STATUS_PARAMETERS_0x0009), (0x000a, HCI_STATUS_PARAMETERS_0x000a),
  (0x000b, HCI_STATUS_PARAMETERS_0x000b), (0x000c, HCI_STATUS_PARAMETERS_0x000c), (0x000d, HCI_STATUS_PARAMETERS_0x000d) ]

def TESTING_NUM : Nat := 10

def HCI_TESTING_COMMANDS_0x0001 : HCI_UNIT_REPR where
  name := some "HCI_Read_Loopback_Mode"
  opcode := 0x1801
  parameter_count := 0
  parameter := []
  return_parameter_count := 2
  return_parameter := [
    { name := some "Status", length := 1, display_type := .TEXT_REASON_STATUS_CODE },
    { name := some "Loopback_Mode", length := 1, display_type := .INT_HEX } ]

def HCI_TESTING_COMMANDS_0x0002 : HCI_UNIT_REPR where
  name := some "HCI_Write_Loopback_Mode"
  opcode := 0x1802
  parameter_count := 1
  parameter := [
    { name := some "Loopback_Mode", length := 1, display_type := .INT_HEX } ]
  return_parameter_count := 1
  return_parameter := [
    { name := some "Status", length := 1, display_type := .TEXT_REASON_STATUS_CODE } ]

def HCI_TESTING_COMMANDS_0x0003 : HCI_UNIT_REPR where
  name := some "HCI_Enable_Device_Under_Test_Mode"
  opcode := 0x1803
  parameter_count := 0
  parameter := []
  return_parameter_count := 1
  return_parameter := [
    { name := some "Status", length := 1, display_type := .TEXT_REASON_STATUS_CODE } ]

def HCI_TESTING_COMMANDS_0x0004 : HCI_UNIT_REPR where
  name := some "HCI_Write_Simple_Pairing_Debug_Mode"
  opcode := 0x1804
  parameter_count := 1
  parameter := [
    { name := some "Simple_Pairing_Debug_Mode", length := 1, display_type := .TEXT_SPECIAL_DISPLAY_PARAM, index_of_special_display_param := SIMPLE_PAIRING_DEBUG_MODE } ]
  return_parameter_count := 1
  return_parameter := [
    { name := some "Status", length := 1, display_type := .TEXT_REASON_STATUS_CODE } ]

def HCI_TESTING_COMMANDS_0x0007 : HCI_UNIT_REPR where
  name := some "HCI_Enable_AMP_Receiver_Reports"
  opcode := 0x1807
  parameter_count := 2
  parameter := [
    { name := some "Enable", length := 1, display_type := .INT_HEX },
    { name := some "Interval", length := 1, display_type := .INT_HEX } ]
  return_parameter_count := 1
  return_parameter := [
    { name := some "Status", length := 1, display_type := .TEXT_REASON_STATUS_CODE } ]

def HCI_TESTING_COMMANDS_0x0008 : HCI_UNIT_REPR where
  name := some "HCI_AMP_Test_End"
  opcode := 0x1808
  parameter_count := 0
  parameter := []
  return_parameter_count := 1
  return_parameter := [
    { name := some "Status", length := 1, display_type := .TEXT_REASON_STATUS_CODE } ]

def HCI_TESTING_COMMANDS_0x0009 : HCI_UNIT_REPR where
  name := some "HCI_AMP_Test"
  opcode := 0x1809
  parameter_count := 1
  parameter := [
    { name := some "Test_Parameters", length := 1, display_type := .INT_HEX } ]
  return_parameter_count := 1
  return_parameter := [
    { name := some "Status", length := 1, display_type := .TEXT_REASON_STATUS_CODE } ]

def HCI_TESTING_COMMANDS_0x000a : HCI_UNIT_REPR where
  name := some "HCI_Write_Secure_Connections_Test_Mode"
  opcode := 0x180a
  parameter_count := 3
  parameter := [
    { name := some "Connection_Handle", length := 2, display_type := .INT_HANDLE },
    { name := some "DM1_ACL-U_Mode", length := 1, display_type := .INT_HEX },
    { name := some "eSCO_Loopback_Mode", length := 1, display_type := .INT_HEX } ]
  return_parameter_count := 2
  return_parameter := [
    { name := some "Status", length := 1, display_type := .TEXT_REASON_STATUS_CODE },
    { name := some "Connection_Handle", length := 2, display_type := .INT_HANDLE } ]

/-- The table `HCI_TESTING_COMMANDS[TESTING_NUM + 1]`: Testing commands (OGF 0x06). -/
def HCI_TESTING_COMMANDS : List (Nat × HCI_UNIT_REPR) := [
  (0x0001, HCI_TESTING_COMMANDS_0x0001), (0x0002, HCI_TESTING_COMMANDS_0x0002), (0x0003, HCI_TESTING_COMMANDS_0x0003),
  (0x0004, HCI_TESTING_COMMANDS_0x0004), (0x0007, HCI_TESTING_COMMANDS_0x0007), (0x0008, HCI_TESTING_COMMANDS_0x0008),
  (0x0009, HCI_TESTING_COMMANDS_0x0009), (0x000a, HCI_TESTING_COMMANDS_0x000a) ]

def LE_CONTROLLER_NUM : Nat := 47

def HCI_LE_CONTROLLER_COMMANDS_0x0001 : HCI_UNIT_REPR where
  name := some "HCI_LE_Set_Event_Mask"
  opcode := 0x2001
  parameter_count := 1
  parameter := [
    { name := some "LE_Event_Mask", length := 8, display_type := .SEQ_HEX } ]
  return_parameter_count := 1
  return_parameter := [
    { name := some "Status", length := 1, display_type := .TEXT_REASON_STATUS_CODE } ]

def HCI_LE_CONTROLLER_COMMANDS_0x0002 : HCI_UNIT_REPR where
  name := some "HCI_LE_Read_Buffer_Size"
  opcode := 0x2002
  parameter_count := 0
  parameter := []
  return_parameter_count := 3
  return_parameter := [
    { name := some "Status", length := 1, display_type := .TEXT_REASON_STATUS_CODE },
    { name := some "HC_LE_ACL_Data_Packet_Length", length := 2, display_type := .INT_DEC },
    { name := some "HC_Total_Num_LE_ACL_Data_Packets", length := 1, display_type := .INT_DEC } ]

def HCI_LE_CONTROLLER_COMMANDS_0x0003 : HCI_UNIT_REPR where
  name := some "HCI_LE_Read_Local_Supported_Features"
  opcode := 0x2003
  parameter_count := 0
  parameter := []
  return_parameter_count := 2
  return_parameter := [
    { name := some "Status", length := 1, display_type := .TEXT_REASON_STATUS_CODE },
    { name := some "LE_Features", length := 8, display_type := .SEQ_HEX } ]

def HCI_LE_CONTROLLER_COMMANDS_0x0005 : HCI_UNIT_REPR where
  name := some "HCI_LE_Set_Random_Address"
  opcode := 0x2005
  parameter_count := 1
  parameter := [
    { name := some "Random_Address", length := 6, display_type := .TEXT_BD_ADDR } ]
  return_parameter_count := 1
  return_parameter := [
    { name := some "Status", length := 1, display_type := .TEXT_REASON_STATUS_CODE } ]

def HCI_LE_CONTROLLER_COMMANDS_0x0006 : HCI_UNIT_REPR where
  name := some "HCI_LE_Set_Advertising_Parameters"
  opcode := 0x2006
  parameter_count := 8
  parameter := [
    { name := some "Advertising_Interval_Min", length := 2, display_type := .TIME_CLK1 },
    { name := some "Advertising_Interval_Max", length := 2, display_type := .TIME_CLK1 },
    { name := some "Advertising_Type", length := 1, display_type := .TEXT_SPECIAL_DISPLAY_PARAM, index_of_special_display_param := ADVERTISING_TYPE },
    { name := some "Own_Address_Type", length := 1, display_type := .TEXT_SPECIAL_DISPLAY_PARAM, index_of_special_display_param := OWN_ADDRESS_TYPE },
    { name := some "Peer_Address_Type", length := 1, display_type := .TEXT_SPECIAL_DISPLAY_PARAM, index_of_special_display_param := PEER_ADDRESS_TYPE },
    { name := some "Peer_Address", length := 6, display_type := .SEQ_HEX },
    { name := some "Advertising_Channel_Map", length := 1, display_type := .INT_HEX },
    { name := some "Advertising_Filter_Policy", length := 1, display_type := .INT_HEX } ]
  return_parameter_count := 1
  return_parameter := [
    { name := some "Status", length := 1, display_type := .TEXT_REASON_STATUS_CODE } ]

def HCI_LE_CONTROLLER_COMMANDS_0x0007 : HCI_UNIT_REPR where
  name := some "HCI_LE_Read_Advertising_Channel_Tx_Power"
  opcode := 0x2007
  parameter_count := 0
  parameter := []
  return_parameter_count := 2
  return_parameter := [
    { name := some "Status", length := 1, display_type := .TEXT_REASON_STATUS_CODE },
    { name := some "Transmit_Power_Level", length := 1, display_type := .INT_HEX } ]

def HCI_LE_CONTROLLER_COMMANDS_0x0008 : HCI_UNIT_REPR where
  name := some "HCI_LE_Set_Advertising_Data"
  opcode := 0x2008
  parameter_count := 2
  parameter := [
    { name := some "Advertising_Data_Length", length := 1, display_type := .INT_DEC },
    { name := some "Advertising_Data", length := 31, display_type := .SEQ_HEX } ]
  return_parameter_count := 1
  return_parameter := [
    { name := some "Status", length := 1, display_type := .TEXT_REASON_STATUS_CODE } ]

def HCI_LE_CONTROLLER_COMMANDS_0x0009 : HCI_UNIT_REPR where
  name := some "HCI_LE_Set_Scan_Response_Data"
  opcode := 0x2009
  parameter_count := 2
  parameter := [
    { name := some "Scan_Response_Data_Length", length := 1, display_type := .INT_DEC },
    { name := some "Scan_Response_Data", length := 31, display_type := .SEQ_HEX } ]
  return_parameter_count := 1
  return_parameter := [
    { name := some "Status", length := 1, display_type := .TEXT_REASON_STATUS_CODE } ]

def HCI_LE_CONTROLLER_COMMANDS_0x000a : HCI_UNIT_REPR where
  name := some "HCI_LE_Set_Advertise_Enable"
  opcode := 0x200a
  parameter_count := 1
  parameter := [
    { name := some "Advertising_Enable", length := 1, display_type := .TEXT_SPECIAL_DISPLAY_PARAM, index_of_special_display_param := ADVERTISING_ENABLE } ]
  return_parameter_count := 1
  return_parameter := [
    { name := some "Status", length := 1, display_type := .TEXT_REASON_STATUS_CODE } ]

def HCI_LE_CONTROLLER_COMMANDS_0x000b : HCI_UNIT_REPR where
  name := some "HCI_LE_Set_Scan_Parameters"
  opcode := 0x200b
  parameter_count := 5
  parameter := [
    { name := some "LE_Scan_Type", length := 1, display_type := .TEXT_SPECIAL_DISPLAY_PARAM, index_of_special_display_param := LE_SCAN_TYPE },
    { name := some "LE_Scan_Interval", length := 2, display_type := .TIME_CLK1 },
    { name := some "LE_Scan_Window", length := 2, display_type := .TIME_CLK1 },
    { name := some "Own_Address_Type", length := 1, display_type := .TEXT_SPECIAL_DISPLAY_PARAM, index_of_special_display_param := OWN_ADDRESS_TYPE },
    { name := some "Scanning_Filter_Policy", length := 1, display_type := .INT_HEX } ]
  return_parameter_count := 1
  return_parameter := [
    { name := some "Status", length := 1, display_type := .TEXT_REASON_STATUS_CODE } ]

def HCI_LE_CONTROLLER_COMMANDS_0x000c : HCI_UNIT_REPR where
  name := some "HCI_LE_Set_Scan_Enable"
  opcode := 0x200c
  parameter_count := 2
  parameter := [
    { name := some "LE_Scan_Enable", length := 1, display_type := .TEXT_SPECIAL_DISPLAY_PARAM, index_of_special_display_param := LE_SCAN_ENABLE },
    { name := some "Filter_Duplicates", length := 1, display_type := .TEXT_SPECIAL_DISPLAY_PARAM, index_of_special_display_param := FILTER_DUPLICATES } ]
  return_parameter_count := 1
  return_parameter := [
    { name := some "Status", length := 1, display_type := .TEXT_REASON_STATUS_CODE } ]

def HCI_LE_CONTROLLER_COMMANDS_0x000d : HCI_UNIT_REPR where
  name := some "HCI_LE_Create_Connection"
  opcode := 0x200d
  parameter_count := 12
  parameter := [
    { name := some "LE_Scan_Interval", length := 2, display_type := .TIME_CLK1 },
    { name := some "LE_Scan_Window", length := 2, display_type := .TIME_CLK1 },
    { name := some "Initiator_Filter_Policy", length := 1, display_type := .INT_HEX },
    { name := some "Peer_Address_Type", length := 1, display_type := .TEXT_SPECIAL_DISPLAY_PARAM, index_of_special_display_param := PEER_ADDRESS_TYPE },
    { name := some "Peer_address", length := 6, display_type := .TEXT_BD_ADDR },
    { name := some "Own_Address_Type", length := 1, display_type := .TEXT_SPECIAL_DISPLAY_PARAM, index_of_special_display_param := OWN_ADDRESS_TYPE },
    { name := some "Conn_Interval_Min", length := 2, display_type := .TIME_CLK2 },
    { name := some "Conn_Interval_Max", length := 2, display_type := .TIME_CLK2 },
    { name := some "Conn_Latency", length := 2, display_type := .INT_HEX },
    { name := some "Supervision_Timeout", length := 2, display_type := .TIME_CLK5 },
    { name := some "Minimum_CE_Length", length := 2, display_type := .TIME_CLK1 },
    { name := some "Maximum_CE_Length", length := 2, display_type := .TIME_CLK1 } ]
  return_parameter_count := 0
  return_parameter := []

def HCI_LE_CONTROLLER_COMMANDS_0x000e : HCI_UNIT_REPR where
  name := some "HCI_LE_Create_Connection_Cancel"
  opcode := 0x200e
  parameter_count := 0
  parameter := []
  return_parameter_count := 1
  return_parameter := [
    { name := some "Status", length := 1, display_type := .TEXT_REASON_STATUS_CODE } ]

def HCI_LE_CONTROLLER_COMMANDS_0x000f : HCI_UNIT_REPR where
  name := some "HCI_LE_Read_White_List_Size"
  opcode := 0x200f
  parameter_count := 0
  parameter := []
  return_parameter_count := 2
  return_parameter := [
    { name := some "Status", length := 1, display_type := .TEXT_REASON_STATUS_CODE },
    { name := some "White_List_Size", length := 1, display_type := .INT_DEC } ]

def HCI_LE_CONTROLLER_COMMANDS_0x0010 : HCI_UNIT_REPR where
  name := some "HCI_LE_Clear_White_List"
  opcode := 0x2010
  parameter_count := 0
  parameter := []
  return_parameter_count := 1
  return_parameter := [
    { name := some "Status", length := 1, display_type := .TEXT_REASON_STATUS_CODE } ]

def HCI_LE_CONTROLLER_COMMANDS_0x0011 : HCI_UNIT_REPR where
  name := some "HCI_LE_Add_Device_To_White_List"
  opcode := 0x2011
  parameter_count := 2
  parameter := [
    { name := some "Address_Type", length := 1, display_type := .TEXT_SPECIAL_DISPLAY_PARAM, index_of_special_display_param := ADDRESS_TYPE },
    { name := some "Address", length := 6, display_type := .TEXT_BD_ADDR } ]
  return_parameter_count := 1
  return_parameter := [
    { name := some "Status", length := 1, display_type := .TEXT_REASON_STATUS_CODE } ]

def HCI_LE_CONTROLLER_COMMANDS_0x0012 : HCI_UNIT_REPR where
  name := some "HCI_LE_Remove_Device_From_White_List"
  opcode := 0x2012
  parameter_count := 2
  parameter := [
    { name := some "Address_Type", length := 1, display_type := .TEXT_SPECIAL_DISPLAY_PARAM, index_of_special_display_param := ADDRESS_TYPE },
    { name := some "Address", length := 6, display_type := .TEXT_BD_ADDR } ]
  return_parameter_count := 1
  return_parameter := [
    { name := some "Status", length := 1, display_type := .TEXT_REASON_STATUS_CODE } ]

def HCI_LE_CONTROLLER_COMMANDS_0x0013 : HCI_UNIT_REPR where
  name := some "HCI_LE_Connection_Update"
  opcode := 0x2013
  parameter_count := 7
  parameter := [
    { name := some "Connection_Handle", length := 2, display_type := .INT_HANDLE },
    { name := some "Conn_Interval_Min", length := 2, display_type := .TIME_CLK2 },
    { name := some "Conn_Interval_Max", length := 2, display_type := .TIME_CLK2 },
    { name := some "Conn_Latency", length := 2, display_type := .INT_HEX },
    { name := some "Supervision_Timeout", length := 2, display_type := .TIME_CLK5 },
    { name := some "Minimum_CE_Length", length := 2, display_type := .TIME_CLK1 },
    { name := some "Maximum_CE_Length", length := 2, display_type := .TIME_CLK1 } ]
  return_parameter_count := 0
  return_parameter := []

def HCI_LE_CONTROLLER_COMMANDS_0x0014 : HCI_UNIT_REPR where
  name := some "HCI_LE_Set_Host_Channel_Classification"
  opcode := 0x2014
  parameter_count := 1
  parameter := [
    { name := some "Channel_Map", length := 5, display_type := .SEQ_HEX } ]
  return_parameter_count := 1
  return_parameter := [
    { name := some "Status", length := 1, display_type := .TEXT_REASON_STATUS_CODE } ]

def HCI_LE_CONTROLLER_COMMANDS_0x0015 : HCI_UNIT_REPR where
  name := some "HCI_LE_Read_Channel_Map"
  opcode := 0x2015
  parameter_count := 1
  parameter := [
    { name := some "Connection_Handle", length := 2, display_type := .INT_HANDLE } ]
  return_parameter_count := 3
  return_parameter := [
    { name := some "Status", length := 1, display_type := .TEXT_REASON_STATUS_CODE },
    { name := some "Connection_Handle", length := 2, display_type := .INT_HANDLE },
    { name := some "Channel_Map", length := 5, display_type := .SEQ_HEX } ]

def HCI_LE_CONTROLLER_COMMANDS_0x0016 : HCI_UNIT_REPR where
  name := some "HCI_LE_Read_Remote_Used_Features"
  opcode := 0x2016
  parameter_count := 1
  parameter := [
    { name := some "Connection_Handle", length := 2, display_type := .INT_HANDLE } ]
  return_parameter_count := 0
  return_parameter := []

def HCI_LE_CONTROLLER_COMMANDS_0x0017 : HCI_UNIT_REPR where
  name := some "HCI_LE_Encrypt"
  opcode := 0x2017
  parameter_count := 2
  parameter := [
    { name := some "Key", length := 16, display_type := .TEXT_SPECIAL_DISPLAY_PARAM, index_of_special_display_param := SECURITY_KEY_TYPE },
    { name := some "Plaintext_Data", length := 16, display_type := .TEXT_SPECIAL_DISPLAY_PARAM, index_of_special_display_param := SECURITY_KEY_TYPE } ]
  return_parameter_count := 2
  return_parameter := [
    { name := some "Status", length := 1, display_type := .TEXT_REASON_STATUS_CODE },
    { name := some "Encrypted_Data", length := 16, display_type := .SEQ_HEX } ]

def HCI_LE_CONTROLLER_COMMANDS_0x0018 : HCI_UNIT_REPR where
  name := some "HCI_LE_Rand"
  opcode := 0x2018
  parameter_count := 0
  parameter := []
  return_parameter_count := 2
  return_parameter := [
    { name := some "Status", length := 1, display_type := .TEXT_REASON_STATUS_CODE },
    { name := some "Random_Number", length := 8, display_type := .SEQ_HEX } ]

def HCI_LE_CONTROLLER_COMMANDS_0x0019 : HCI_UNIT_REPR where
  name := some "HCI_LE_Start_Encryption"
  opcode := 0x2019
  parameter_count := 4
  parameter := [
    { name := some "Connection_Handle", length := 2, display_type := .INT_HANDLE },
    { name := some "Random_Number", length := 8, display_type := .SEQ_HEX },
    { name := some "Encrypted_Diversifier", length := 2, display_type := .INT_HEX },
    { name := some "Long_Term_Key", length := 16, display_type := .TEXT_SPECIAL_DISPLAY_PARAM, index_of_special_display_param := SECURITY_KEY_TYPE } ]
  return_parameter_count := 0
  return_parameter := []

def HCI_LE_CONTROLLER_COMMANDS_0x001a : HCI_UNIT_REPR where
  name := some "HCI_LE_Long_Term_Key_Request_Reply"
  opcode := 0x201a
  parameter_count := 2
  parameter := [
    { name := some "Connection_Handle", length := 2, display_type := .INT_HANDLE },
    { name := some "Long_Term_Key", length := 16, display_type := .TEXT_SPECIAL_DISPLAY_PARAM, index_of_special_display_param := SECURITY_KEY_TYPE } ]
  return_parameter_count := 2
  return_parameter := [
    { name := some "Status", length := 1, display_type := .TEXT_REASON_STATUS_CODE },
    { name := some "Connection_Handle", length := 2, display_type := .INT_HANDLE } ]

def HCI_LE_CONTROLLER_COMMANDS_0x001b : HCI_UNIT_REPR where
  name := some "HCI_LE_Long_Term_Key_Request_Negative_Reply"
  opcode := 0x201b
  parameter_count := 1
  parameter := [
    { name := some "Connection_Handle", length := 2, display_type := .INT_HANDLE } ]
  return_parameter_count := 2
  return_parameter := [
    { name := some "Status", length := 1, display_type := .TEXT_REASON_STATUS_CODE },
    { name := some "Connection_Handle", length := 2, display_type := .INT_HANDLE } ]

def HCI_LE_CONTROLLER_COMMANDS_0x001c : HCI_UNIT_REPR where
  name := some "HCI_LE_Read_Supported_States"
  opcode := 0x201c
  parameter_count := 0
  parameter := []
  return_parameter_count := 2
  return_parameter := [
    { name := some "Status", length := 1, display_type := .TEXT_REASON_STATUS_CODE },
    { name := some "LE_States", length := 8, display_type := .SEQ_HEX } ]

def HCI_LE_CONTROLLER_COMMANDS_0x001d : HCI_UNIT_REPR where
  name := some "HCI_LE_Receiver_Test"
  opcode := 0x201d
  parameter_count := 1
  parameter := [
    { name := some "RX_Channel", length := 1, display_type := .INT_HEX } ]
  return_parameter_count := 1
  return_parameter := [
    { name := some "Status", length := 1, display_type := .TEXT_REASON_STATUS_CODE } ]

def HCI_LE_CONTROLLER_COMMANDS_0x001e : HCI_UNIT_REPR where
  name := some "HCI_LE_Transmitter_Test"
  opcode := 0x201e
  parameter_count := 3
  parameter := [
    { name := some "TX_Channel", length := 1, display_type := .INT_HEX },
    { name := some "Length_Of_Test_Data", length := 1, display_type := .INT_DEC },
    { name := some "Packet_Payload", length := 1, display_type := .INT_HEX } ]
  return_parameter_count := 1
  return_parameter := [
    { name := some "Status", length := 1, display_type := .TEXT_REASON_STATUS_CODE } ]

def HCI_LE_CONTROLLER_COMMANDS_0x001f : HCI_UNIT_REPR where
  name := some "HCI_LE_Test_End"
  opcode := 0x201f
  parameter_count := 0
  parameter := []
  return_parameter_count := 2
  return_parameter := [
    { name := some "Status", length := 1, display_type := .TEXT_REASON_STATUS_CODE },
    { name := some "Number_Of_Packets", length := 2, display_type := .INT_DEC } ]

def HCI_LE_CONTROLLER_COMMANDS_0x0020 : HCI_UNIT_REPR where
  name := some "LE_Remote_Connection_Parameter_Request_Reply"
  opcode := 0x2020
  parameter_count := 7
  parameter := [
    { name := some "Connection_Handle", length := 2, display_type := .INT_HANDLE },
    { name := some "Interval_Min", length := 2, display_type := .TIME_CLK2 },
    { name := some "Interval_Max", length := 2, display_type := .TIME_CLK2 },
    { name := some "Latency", length := 2, display_type := .INT_HEX },
    { name := some "Timeout", length := 2, display_type := .TIME_CLK5 },
    { name := some "Minimum_CE_Length", length := 2, display_type := .TIME_CLK1 },
    { name := some "Maximum_CE_Length", length := 2, display_type := .TIME_CLK1 } ]
  return_parameter_count := 2
  return_parameter := [
    { name := some "Status", length := 1, display_type := .TEXT_REASON_STATUS_CODE },
    { name := some "Connection_Handle", length := 2, display_type := .INT_HANDLE } ]

def HCI_LE_CONTROLLER_COMMANDS_0x0021 : HCI_UNIT_REPR where
  name := some "LE_Remote_Connection_Parameter_Request_Negative_Reply"
  opcode := 0x2021
  parameter_count := 2
  parameter := [
    { name := some "Connection_Handle", length := 2, display_type := .INT_HANDLE },
    { name := some "Reason", length := 1, display_type := .TEXT_REASON_STATUS_CODE } ]
  return_parameter_count := 2
  return_parameter := [
    { name := some "Status", length := 1, display_type := .TEXT_REASON_STATUS_CODE },
    { name := some "Connection_Handle", length := 2, display_type := .INT_HANDLE } ]

def HCI_LE_CONTROLLER_COMMANDS_0x0022 : HCI_UNIT_REPR where
  name := some "HCI_LE_Set_Data_Length"
  opcode := 0x2022
  parameter_count := 3
  parameter := [
    { name := some "Connection_Handle", length := 2, display_type := .INT_HANDLE },
    { name := some "TxOctets", length := 2, display_type := .INT_HEX },
    { name := some "TxTime", length := 2, display_type := .INT_HEX } ]
  return_parameter_count := 2
  return_parameter := [
    { name := some "Status", length := 1, display_type := .TEXT_REASON_STATUS_CODE },
    { name := some "Connection_Handle", length := 2, display_type := .INT_HANDLE } ]

def HCI_LE_CONTROLLER_COMMANDS_0x0023 : HCI_UNIT_REPR where
  name := some "HCI_LE_Read_Suggested_Default_Data_Length"
  opcode := 0x2023
  parameter_count := 0
  parameter := []
  return_parameter_count := 3
  return_parameter := [
    { name := some "Status", length := 1, display_type := .TEXT_REASON_STATUS_CODE },
    { name := some "SuggestedMaxTxOctets", length := 2, display_type := .INT_HEX },
    { name := some "SuggestedMaxTxTime", length := 2, display_type := .INT_HEX } ]

def HCI_LE_CONTROLLER_COMMANDS_0x0024 : HCI_UNIT_REPR where
  name := some "HCI_LE_Write_Suggested_Default_Data_Length"
  opcode := 0x2024
  parameter_count := 2
  parameter := [
    { name := some "SuggestedMaxTxOctets", length := 2, display_type := .INT_HEX },
    { name := some "SuggestedMaxTxTime", length := 2, display_type := .INT_HEX } ]
  return_parameter_count := 1
  return_parameter := [
    { name := some "Status", length := 1, display_type := .TEXT_REASON_STATUS_CODE } ]

def HCI_LE_CONTROLLER_COMMANDS_0x0025 : HCI_UNIT_REPR where
  name := some "HCI_LE_Read_Local_P-256_Public_Key"
  opcode := 0x2025
  parameter_count := 0
  parameter := []
  return_parameter_count := 0
  return_parameter := []

def HCI_LE_CONTROLLER_COMMANDS_0x0026 : HCI_UNIT_REPR where
  name := some "HCI_LE_Generate_DHKey"
  opcode := 0x2026
  parameter_count := 1
  parameter := [
    { name := some "Remote_P-256_Public_Key", length := 64, display_type := .SEQ_HEX } ]
  return_parameter_count := 0
  return_parameter := []

def HCI_LE_CONTROLLER_COMMANDS_0x0027 : HCI_UNIT_REPR where
  name := some "HCI_LE_Add_Device_To_Resolving_List"
  opcode := 0x2027
  parameter_count := 4
  parameter := [
    { name := some "Peer_Identity_Address_Type", length := 1, display_type := .TEXT_SPECIAL_DISPLAY_PARAM, index_of_special_display_param := PEER_IDENTITY_ADDRESS_TYPE },
    { name := some "Peer_Identity_Address", length := 6, display_type := .TEXT_BD_ADDR },
    { name := some "Peer_IRK", length := 16, display_type := .SEQ_HEX },
    { name := some "Local_IRK", length := 16, display_type := .SEQ_HEX } ]
  return_parameter_count := 1
  return_parameter := [
    { name := some "Status", length := 1, display_type := .TEXT_REASON_STATUS_CODE } ]

def HCI_LE_CONTROLLER_COMMANDS_0x0028 : HCI_UNIT_REPR where
  name := some "HCI_LE_Remove_Device_From_Resolving_List"
  opcode := 0x2028
  parameter_count := 2
  parameter := [
    { name := some "Peer_Identity_Address_Type", length := 1, display_type := .TEXT_SPECIAL_DISPLAY_PARAM, index_of_special_display_param := PEER_IDENTITY_ADDRESS_TYPE },
    { name := some "Peer_Identity_Address", length := 6, display_type := .TEXT_BD_ADDR } ]
  return_parameter_count := 1
  return_parameter := [
    { name := some "Status", length := 1, display_type := .TEXT_REASON_STATUS_CODE } ]

def HCI_LE_CONTROLLER_COMMANDS_0x0029 : HCI_UNIT_REPR where
  name := some "HCI_LE_Clear_Resolving_List"
  opcode := 0x2029
  parameter_count := 0
  parameter := []
  return_parameter_count := 1
  return_parameter := [
    { name := some "Status", length := 1, display_type := .TEXT_REASON_STATUS_CODE } ]

def HCI_LE_CONTROLLER_COMMANDS_0x002a : HCI_UNIT_REPR where
  name := some "HCI_LE_Read_Resolving_List_Size"
  opcode := 0x202a
  parameter_count := 0
  parameter := []
  return_parameter_count := 2
  return_parameter := [
    { name := some "Status", length := 1, display_type := .TEXT_REASON_STATUS_CODE },
    { name := some "Resolving_List_Size", length := 1, display_type := .INT_DEC } ]

def HCI_LE_CONTROLLER_COMMANDS_0x002b : HCI_UNIT_REPR where
  name := some "HCI_LE_Read_Peer_Resolvable_Address"
  opcode := 0x202b
  parameter_count := 2
  parameter := [
    { name := some "Peer_Identity_Address_Type", length := 1, display_type := .TEXT_SPECIAL_DISPLAY_PARAM, index_of_special_display_param := PEER_IDENTITY_ADDRESS_TYPE },
    { name := some "Peer_Identity_Address", length := 6, display_type := .TEXT_BD_ADDR } ]
  return_parameter_count := 2
  return_parameter := [
    { name := some "Status", length := 1, display_type := .TEXT_REASON_STATUS_CODE },
    { name := some "Peer_Resolvable_Address", length := 6, display_type := .TEXT_BD_ADDR } ]

def HCI_LE_CONTROLLER_COMMANDS_0x002c : HCI_UNIT_REPR where
  name := some "HCI_LE_Read_Local_Resolvable_Address"
  opcode := 0x202c
  parameter_count := 2
  parameter := [
    { name := some "Peer_Identity_Address_Type", length := 1, display_type := .TEXT_SPECIAL_DISPLAY_PARAM, index_of_special_display_param := PEER_IDENTITY_ADDRESS_TYPE },
    { name := some "Peer_Identity_Address", length := 6, display_type := .SEQ_HEX } ]
  return_parameter_count := 2
  return_parameter := [
    { name := some "Status", length := 1, display_type := .TEXT_REASON_STATUS_CODE },
    { name := some "Local_Resolvable_Address", length := 6, display_type := .TEXT_BD_ADDR } ]

def HCI_LE_CONTROLLER_COMMANDS_0x002d : HCI_UNIT_REPR where
  name := some "HCI_LE_Set_Address_Resolution_Enable"
  opcode := 0x202d
  parameter_count := 1
  parameter := [
    { name := some "Address_Resolution_Enable", length := 1, display_type := .INT_HEX } ]
  return_parameter_count := 1
  return_parameter := [
    { name := some "Status", length := 1, display_type := .TEXT_REASON_STATUS_CODE } ]

def HCI_LE_CONTROLLER_COMMANDS_0x002e : HCI_UNIT_REPR where
  name := some "HCI_LE_Set_Resolvable_Private_Address_Timeout"
  opcode := 0x202e
  parameter_count := 1
  parameter := [
    { name := some "RPA_Timeout", length := 2, display_type := .INT_HEX } ]
  return_parameter_count := 1
  return_parameter := [
    { name := some "Status", length := 1, display_type := .TEXT_REASON_STATUS_CODE } ]

def HCI_LE_CONTROLLER_COMMANDS_0x002f : HCI_UNIT_REPR where
  name := some "HCI_LE_Read_Maximum_Data_Length"
  opcode := 0x202f
  parameter_count := 0
  parameter := []
  return_parameter_count := 5
  return_parameter := [
    { name := some "Status", length := 1, display_type := .TEXT_REASON_STATUS_CODE },
    { name := some "supportedMaxTxOctets", length := 2, display_type := .INT_HEX },
    { name := some "supportedMaxTxTime", length := 2, display_type := .INT_HEX },
    { name := some "supportedMaxRxOctets", length := 2, display_type := .INT_HEX },
    { name := some "supportedMaxRxTime", length := 2, display_type := .INT_HEX } ]

/-- The table `HCI_LE_CONTROLLER_COMMANDS[LE_CONTROLLER_NUM + 1]`: LE Controller commands (OGF 0x08). -/
def HCI_LE_CONTROLLER_COMMANDS : List (Nat × HCI_UNIT_REPR) := [
  (0x0001, HCI_LE_CONTROLLER_COMMANDS_0x0001), (0x0002, HCI_LE_CONTROLLER_COMMANDS_0x0002), (0x0003, HCI_LE_CONTROLLER_COMMANDS_0x0003),
  (0x0005, HCI_LE_CONTROLLER_COMMANDS_0x0005), (0x0006, HCI_LE_CONTROLLER_COMMANDS_0x0006), (0x0007, HCI_LE_CONTROLLER_COMMANDS_0x0007),
  (0x0008, HCI_LE_CONTROLLER_COMMANDS_0x0008), (0x0009, HCI_LE_CONTROLLER_COMMANDS_0x0009), (0x000a, HCI_LE_CONTROLLER_COMMANDS_0x000a),
  (0x000b, HCI_LE_CONTROLLER_COMMANDS_0x000b), (0x000c, HCI_LE_CONTROLLER_COMMANDS_0x000c), (0x000d, HCI_LE_CONTROLLER_COMMANDS_0x000d),
  (0x000e, HCI_LE_CONTROLLER_COMMANDS_0x000e), (0x000f, HCI_LE_CONTROLLER_COMMANDS_0x000f), (0x0010, HCI_LE_CONTROLLER_COMMANDS_0x0010),
  (0x0011, HCI_LE_CONTROLLER_COMMANDS_0x0011), (0x0012, HCI_LE_CONTROLLER_COMMANDS_0x0012), (0x0013, HCI_LE_CONTROLLER_COMMANDS_0x0013),
  (0x0014, HCI_LE_CONTROLLER_COMMANDS_0x0014), (0x0015, HCI_LE_CONTROLLER_COMMANDS_0x0015), (0x0016, HCI_LE_CONTROLLER_COMMANDS_0x0016),
  (0x0017, HCI_LE_CONTROLLER_COMMANDS_0x0017), (0x0018, HCI_LE_CONTROLLER_COMMANDS_0x0018), (0x0019, HCI_LE_CONTROLLER_COMMANDS_0x0019),
  (0x001a, HCI_LE_CONTROLLER_COMMANDS_0x001a), (0x001b, HCI_LE_CONTROLLER_COMMANDS_0x001b), (0x001c, HCI_LE_CONTROLLER_COMMANDS_0x001c),
  (0x001d, HCI_LE_CONTROLLER_COMMANDS_0x001d), (0x001e, HCI_LE_CONTROLLER_COMMANDS_0x001e), (0x001f, HCI_LE_CONTROLLER_COMMANDS_0x001f),
  (0x0020, HCI_LE_CONTROLLER_COMMANDS_0x0020), (0x0021, HCI_LE_CONTROLLER_COMMANDS_0x0021), (0x0022, HCI_LE_CONTROLLER_COMMANDS_0x0022),
  (0x0023, HCI_LE_CONTROLLER_COMMANDS_0x0023), (0x0024, HCI_LE_CONTROLLER_COMMANDS_0x0024), (0x0025, HCI_LE_CONTROLLER_COMMANDS_0x0025),
  (0x0026, HCI_LE_CONTROLLER_COMMANDS_0x0026), (0x0027, HCI_LE_CONTROLLER_COMMANDS_0x0027), (0x0028, HCI_LE_CONTROLLER_COMMANDS_0x0028),
  (0x0029, HCI_LE_CONTROLLER_COMMANDS_0x0029), (0x002a, HCI_LE_CONTROLLER_COMMANDS_0x002a), (0x002b, HCI_LE_CONTROLLER_COMMANDS_0x002b),
  (0x002c, HCI_LE_CONTROLLER_COMMANDS_0x002c), (0x002d, HCI_LE_CONTROLLER_COMMANDS_0x002d), (0x002e, HCI_LE_CONTROLLER_COMMANDS_0x002e),
  (0x002f, HCI_LE_CONTROLLER_COMMANDS_0x002f) ]

def VENDOR_SPECIFIC_COMMAND_NUM : Nat := 0

def VENDOR_SPECIFIC_COMMAND_0x0000 : HCI_UNIT_REPR where
  name := some "Vendor Specific Command"
  opcode := 0xfc00
  parameter_count := 0
  parameter := []
  return_parameter_count := 0
  return_parameter := []

/-- The table `VENDOR_SPECIFIC_COMMAND[VENDOR_SPECIFIC_COMMAND_NUM + 1]`: the vendor specific placeholder (OGF 0x3f). -/
def VENDOR_SPECIFIC_COMMAND : List (Nat × HCI_UNIT_REPR) := [
  (0x0000, VENDOR_SPECIFIC_COMMAND_0x0000) ]

def HCI_EVENT_NUMBER : Nat := 87

def HCI_EVENTS_0x01 : HCI_UNIT_REPR where
  name := some "Inquiry Complete"
  opcode := 0x01
  parameter_count := 1
  parameter := [
    { name := some "status", length := 1, display_type := .INT_HEX } ]
  return_parameter_count := 0
  return_parameter := []

def HCI_EVENTS_0x02 : HCI_UNIT_REPR where
  name := some "Inquiry Result"
  opcode := 0x02
  parameter_count := 7
  parameter := [
    { name := some "Num_Responses", length := 1, repeat_param_num := 6, display_type := .INT_DEC },
    { name := some "BD_ADDR", length := 6, display_type := .TEXT_BD_ADDR },
    { name := some "Page_Scan_Repetition_Mode", length := 1, display_type := .TEXT_SPECIAL_DISPLAY_PARAM, index_of_special_display_param := PAGE_SCAN_REPETITION_MODE },
    { name := some "Reserved1", length := 1, display_type := .INT_HEX },
    { name := some "Reserved2", length := 1, display_type := .INT_HEX },
    { name := some "Class_of_Device", length := 3, display_type := .INT_HEX },
    { name := some "Clock_Offset", length := 2, display_type := .INT_HEX } ]
  return_parameter_count := 0
  return_parameter := []

def HCI_EVENTS_0x03 : HCI_UNIT_REPR where
  name := some "Connection Complete"
  opcode := 0x03
  parameter_count := 5
  parameter := [
    { name := some "Status", length := 1, display_type := .TEXT_REASON_STATUS_CODE },
    { name := some "Connection_Handle", length := 2, display_type := .INT_HANDLE },
    { name := some "BD_ADDR", length := 6, display_type := .TEXT_BD_ADDR },
    { name := some "Link_Type", length := 1, display_type := .INT_HEX },
    { name := some "Encryption_Enabled", length := 1, display_type := .INT_HEX } ]
  return_parameter_count := 0
  return_parameter := []

def HCI_EVENTS_0x04 : HCI_UNIT_REPR where
  name := some "Connection Request"
  opcode := 0x04
  parameter_count := 3
  parameter := [
    { name := some "BD_ADDR", length := 6, display_type := .TEXT_BD_ADDR },
    { name := some "Class_of_Device", length := 3, display_type := .INT_HEX },
    { name := some "Link_Type", length := 1, display_type := .INT_HEX } ]
  return_parameter_count := 0
  return_parameter := []

def HCI_EVENTS_0x05 : HCI_UNIT_REPR where
  name := some "Disconnection Complete"
  opcode := 0x05
  parameter_count := 3
  parameter := [
    { name := some "Status", length := 1, display_type := .TEXT_REASON_STATUS_CODE },
    { name := some "Connection_Handle", length := 2, display_type := .INT_HANDLE },
    { name := some "Reason", length := 1, display_type := .TEXT_REASON_STATUS_CODE } ]
  return_parameter_count := 0
  return_parameter := []

def HCI_EVENTS_0x06 : HCI_UNIT_REPR where
  name := some "Authentication Complete"
  opcode := 0x06
  parameter_count := 2
  parameter := [
    { name := some "Status", length := 1, display_type := .TEXT_REASON_STATUS_CODE },
    { name := some "Connection_Handle", length := 2, display_type := .INT_HANDLE } ]
  return_parameter_count := 0
  return_parameter := []

def HCI_EVENTS_0x07 : HCI_UNIT_REPR where
  name := some "Remote Name Request Complete"
  opcode := 0x07
  parameter_count := 3
  parameter := [
    { name := some "Status", length := 1, display_type := .TEXT_REASON_STATUS_CODE },
    { name := some "BD_ADDR", length := 6, display_type := .TEXT_BD_ADDR },
    { name := some "Remote_Name", length := 248, display_type := .SEQ_CHAR } ]
  return_parameter_count := 0
  return_parameter := []

def HCI_EVENTS_0x08 : HCI_UNIT_REPR where
  name := some "Encryption Change"
  opcode := 0x08
  parameter_count := 3
  parameter := [
    { name := some "Status", length := 1, display_type := .TEXT_REASON_STATUS_CODE },
    { name := some "Connection_Handle", length := 2, display_type := .INT_HANDLE },
    { name := some "Encryption_Enabled", length := 1, display_type := .INT_HEX } ]
  return_parameter_count := 0
  return_parameter := []

def HCI_EVENTS_0x09 : HCI_UNIT_REPR where
  name := some "Change Connection Link Key Complete"
  opcode := 0x09
  parameter_count := 2
  parameter := [
    { name := some "Status", length := 1, display_type := .TEXT_REASON_STATUS_CODE },
    { name := some "Connection_Handle", length := 2, display_type := .INT_HANDLE } ]
  return_parameter_count := 0
  return_parameter := []

def HCI_EVENTS_0x0a : HCI_UNIT_REPR where
  name := some "Master Link Key Complete"
  opcode := 0x0a
  parameter_count := 3
  parameter := [
    { name := some "Status", length := 1, display_type := .TEXT_REASON_STATUS_CODE },
    { name := some "Connection_Handle", length := 2, display_type := .INT_HANDLE },
    { name := some "Key_Flag", length := 1, display_type := .INT_HEX } ]
  return_parameter_count := 0
  return_parameter := []

def HCI_EVENTS_0x0b : HCI_UNIT_REPR where
  name := some "Read Remote Supported Features Complete"
  opcode := 0x0b
  parameter_count := 3
  parameter := [
    { name := some "Status", length := 1, display_type := .TEXT_REASON_STATUS_CODE },
    { name := some "Connection_Handle", length := 2, display_type := .INT_HANDLE },
    { name := some "Key_Flag", length := 8, display_type := .SEQ_HEX } ]
  return_parameter_count := 0
  return_parameter := []

def HCI_EVENTS_0x0c : HCI_UNIT_REPR where
  name := some "Read Remote Version Information Complete"
  opcode := 0x0c
  parameter_count := 5
  parameter := [
    { name := some "Status", length := 1, display_type := .TEXT_REASON_STATUS_CODE },
    { name := some "Connection_Handle", length := 2, display_type := .INT_HANDLE },
    { name := some "Version", length := 1, display_type := .INT_HEX },
    { name := some "Manufacturer_Name", length := 2, display_type := .INT_HEX },
    { name := some "Subversion", length := 2, display_type := .INT_HEX } ]
  return_parameter_count := 0
  return_parameter := []

def HCI_EVENTS_0x0d : HCI_UNIT_REPR where
  name := some "QoS Setup Complete"
  opcode := 0x0d
  parameter_count := 8
  parameter := [
    { name := some "Status", length := 1, display_type := .TEXT_REASON_STATUS_CODE },
    { name := some "Connection_Handle", length := 2, display_type := .INT_HANDLE },
    { name := some "Flags", length := 1, display_type := .INT_HEX },
    { name := some "Service_Type", length := 1, display_type := .INT_HEX },
    { name := some "Token_Rate", length := 4, display_type := .INT_HEX },
    { name := some "Peak_Bandwidth", length := 4, display_type := .INT_HEX },
    { name := some "Latency", length := 4, display_type := .INT_HEX },
    { name := some "Delay_Variation", length := 4, display_type := .INT_HEX } ]
  return_parameter_count := 0
  return_parameter := []

def HCI_EVENTS_0x0e : HCI_UNIT_REPR where
  name := some "Command Complete"
  opcode := 0x0e
  parameter_count := 2
  parameter := [
    { name := some "Num_HCI_Command_Packets", length := 1, display_type := .INT_DEC },
    { name := some "Command_Opcode", length := 2, display_type := .INT_HEX } ]
  return_parameter_count := 0
  return_parameter := []

def HCI_EVENTS_0x0f : HCI_UNIT_REPR where
  name := some "Command Status"
  opcode := 0x0f
  parameter_count := 3
  parameter := [
    { name := some "Status", length := 1, display_type := .TEXT_REASON_STATUS_CODE },
    { name := some "Num_HCI_Command_Packets", length := 1, display_type := .INT_DEC },
    { name := some "Command_Opcode", length := 2, display_type := .INT_HEX } ]
  return_parameter_count := 0
  return_parameter := []

def HCI_EVENTS_0x10 : HCI_UNIT_REPR where
  name := some "Hardware Error"
  opcode := 0x10
  parameter_count := 1
  parameter := [
    { name := some "Hardware_Code", length := 1, display_type := .INT_HEX } ]
  return_parameter_count := 0
  return_parameter := []

def HCI_EVENTS_0x11 : HCI_UNIT_REPR where
  name := some "Flush Occurred"
  opcode := 0x11
  parameter_count := 1
  parameter := [
    { name := some "Handle", length := 2, display_type := .INT_HEX } ]
  return_parameter_count := 0
  return_parameter := []

def HCI_EVENTS_0x12 : HCI_UNIT_REPR where
  name := some "Role Change"
  opcode := 0x12
  parameter_count := 3
  parameter := [
    { name := some "Status", length := 1, display_type := .TEXT_REASON_STATUS_CODE },
    { name := some "BD_ADDR", length := 6, display_type := .TEXT_BD_ADDR },
    { name := some "New_Role", length := 1, display_type := .INT_HEX } ]
  return_parameter_count := 0
  return_parameter := []

def HCI_EVENTS_0x13 : HCI_UNIT_REPR where
  name := some "Number Of Completed Packets"
  opcode := 0x13
  parameter_count := 3
  parameter := [
    { name := some "Number_of_Handles", length := 1, repeat_param_num := 2, display_type := .INT_DEC },
    { name := some "Connection_Handle", length := 2, display_type := .INT_HANDLE },
    { name := some "HC_Num_Of_Completed_Packet", length := 2, display_type := .INT_DEC } ]
  return_parameter_count := 0
  return_parameter := []

def HCI_EVENTS_0x14 : HCI_UNIT_REPR where
  name := some "Mode Change"
  opcode := 0x14
  parameter_count := 4
  parameter := [
    { name := some "Status", length := 1, display_type := .TEXT_REASON_STATUS_CODE },
    { name := some "Connection_Handle", length := 2, display_type := .INT_HANDLE },
    { name := some "Current_Mode", length := 1, display_type := .INT_HEX },
    { name := some "Interval", length := 2, display_type := .TIME_CLK1 } ]
  return_parameter_count := 0
  return_parameter := []

def HCI_EVENTS_0x15 : HCI_UNIT_REPR where
  name := some "Return Link Keys"
  opcode := 0x15
  parameter_count := 3
  parameter := [
    { name := some "Num_Keys", length := 1, repeat_param_num := 2, display_type := .INT_DEC },
    { name := some "BD_ADDR", length := 6, display_type := .TEXT_BD_ADDR },
    { name := some "Link_Key", length := 16, display_type := .TEXT_SPECIAL_DISPLAY_PARAM, index_of_special_display_param := SECURITY_KEY_TYPE } ]
  return_parameter_count := 0
  return_parameter := []

def HCI_EVENTS_0x16 : HCI_UNIT_REPR where
  name := some "PIN Code Request"
  opcode := 0x16
  parameter_count := 1
  parameter := [
    { name := some "BD_ADDR", length := 6, display_type := .TEXT_BD_ADDR } ]
  return_parameter_count := 0
  return_parameter := []

def HCI_EVENTS_0x17 : HCI_UNIT_REPR where
  name := some "Link Key Request"
  opcode := 0x17
  parameter_count := 1
  parameter := [
    { name := some "BD_ADDR", length := 6, display_type := .TEXT_BD_ADDR } ]
  return_parameter_count := 0
  return_parameter := []

def HCI_EVENTS_0x18 : HCI_UNIT_REPR where
  name := some "Link Key Notification"
  opcode := 0x18
  parameter_count := 3
  parameter := [
    { name := some "BD_ADDR", length := 6, display_type := .TEXT_BD_ADDR },
    { name := some "Link_Key", length := 16, display_type := .TEXT_SPECIAL_DISPLAY_PARAM, index_of_special_display_param := SECURITY_KEY_TYPE },
    { name := some "Key_Type", length := 1, display_type := .INT_HEX } ]
  return_parameter_count := 0
  return_parameter := []

def HCI_EVENTS_0x19 : HCI_UNIT_REPR where
  name := some "Loopback Command"
  opcode := 0x19
  parameter_count := 0
  parameter := []
  return_parameter_count := 0
  return_parameter := []

def HCI_EVENTS_0x1a : HCI_UNIT_REPR where
  name := some "Data Buffer Overflow"
  opcode := 0x1a
  parameter_count := 1
  parameter := [
    { name := some "Link_Type", length := 1, display_type := .INT_HEX } ]
  return_parameter_count := 0
  return_parameter := []

def HCI_EVENTS_0x1b : HCI_UNIT_REPR where
  name := some "Max Slots Change"
  opcode := 0x1b
  parameter_count := 2
  parameter := [
    { name := some "Connection_Handle", length := 2, display_type := .INT_HANDLE },
    { name := some "LMP_Max_Slots", length := 1, display_type := .INT_DEC } ]
  return_parameter_count := 0
  return_parameter := []

def HCI_EVENTS_0x1c : HCI_UNIT_REPR where
  name := some "Read Clock Offset Complete"
  opcode := 0x1c
  parameter_count := 3
  parameter := [
    { name := some "Status", length := 1, display_type := .TEXT_REASON_STATUS_CODE },
    { name := some "Connection_Handle", length := 2, display_type := .INT_HANDLE },
    { name := some "Clock_Offset", length := 2, display_type := .INT_HEX } ]
  return_parameter_count := 0
  return_parameter := []

def HCI_EVENTS_0x1d : HCI_UNIT_REPR where
  name := some "Connection Packet Type Changed"
  opcode := 0x1d
  parameter_count := 3
  parameter := [
    { name := some "Status", length := 1, display_type := .TEXT_REASON_STATUS_CODE },
    { name := some "Connection_Handle", length := 2, display_type := .INT_HANDLE },
    { name := some "Packet_Type", length := 2, display_type := .TEXT_SPECIAL_DISPLAY_PARAM, index_of_special_display_param := PACKET_TYPE_ACL } ]
  return_parameter_count := 0
  return_parameter := []

def HCI_EVENTS_0x1e : HCI_UNIT_REPR where
  name := some "QoS Violation"
  opcode := 0x1e
  parameter_count := 1
  parameter := [
    { name := some "Handle", length := 2, display_type := .INT_HEX } ]
  return_parameter_count := 0
  return_parameter := []

def HCI_EVENTS_0x20 : HCI_UNIT_REPR where
  name := some "Page Scan Repetition Mode Change"
  opcode := 0x20
  parameter_count := 2
  parameter := [
    { name := some "BD_ADDR", length := 6, display_type := .TEXT_BD_ADDR },
    { name := some "Page_Scan_Repetition_Mode", length := 1, display_type := .TEXT_SPECIAL_DISPLAY_PARAM, index_of_special_display_param := PAGE_SCAN_REPETITION_MODE } ]
  return_parameter_count := 0
  return_parameter := []

def HCI_EVENTS_0x21 : HCI_UNIT_REPR where
  name := some "Flow Specification Complete"
  opcode := 0x21
  parameter_count := 9
  parameter := [
    { name := some "Status", length := 1, display_type := .TEXT_REASON_STATUS_CODE },
    { name := some "Connection_Handle", length := 2, display_type := .INT_HANDLE },
    { name := some "Flags", length := 1, display_type := .INT_HEX },
    { name := some "Flow_direction", length := 1, display_type := .INT_HEX },
    { name := some "Service_Type", length := 1, display_type := .INT_HEX },
    { name := some "Token_Rate", length := 4, display_type := .INT_HEX },
    { name := some "Token_Bucket_Size", length := 4, display_type := .INT_DEC },
    { name := some "Peak_Bandwidth", length := 4, display_type := .INT_HEX },
    { name := some "Access_Lantency", length := 4, display_type := .INT_HEX } ]
  return_parameter_count := 0
  return_parameter := []

def HCI_EVENTS_0x22 : HCI_UNIT_REPR where
  name := some "Inquiry Result with RSSI"
  opcode := 0x22
  parameter_count := 7
  parameter := [
    { name := some "Num_responses", length := 1, repeat_param_num := 6, display_type := .INT_DEC },
    { name := some "BD_ADDR", length := 6, display_type := .TEXT_BD_ADDR },
    { name := some "Page_Scan_Repetition_Mode", length := 1, display_type := .TEXT_SPECIAL_DISPLAY_PARAM, index_of_special_display_param := PAGE_SCAN_REPETITION_MODE },
    { name := some "Reserved", length := 1, display_type := .INT_HEX },
    { name := some "Class_Of_Device", length := 3, display_type := .INT_HEX },
    { name := some "Clock_Offset", length := 2, display_type := .INT_HEX },
    { name := some "RSSI", length := 1, display_type := .TEXT_SPECIAL_DISPLAY_PARAM, index_of_special_display_param := RSSI } ]
  return_parameter_count := 0
  return_parameter := []

def HCI_EVENTS_0x23 : HCI_UNIT_REPR where
  name := some "Read Remote Extended Features Complete"
  opcode := 0x23
  parameter_count := 5
  parameter := [
    { name := some "Status", length := 1, display_type := .TEXT_REASON_STATUS_CODE },
    { name := some "Connection_Handle", length := 2, display_type := .INT_HANDLE },
    { name := some "Page_Number", length := 1, display_type := .INT_DEC },
    { name := some "Maximum_Page_Number", length := 1, display_type := .INT_DEC },
    { name := some "Extended_LMP_Features", length := 8, display_type := .SEQ_HEX } ]
  return_parameter_count := 0
  return_parameter := []

def HCI_EVENTS_0x2c : HCI_UNIT_REPR where
  name := some "Synchronous Connection Complete"
  opcode := 0x2c
  parameter_count := 9
  parameter := [
    { name := some "Status", length := 1, display_type := .TEXT_REASON_STATUS_CODE },
    { name := some "Connection_Handle", length := 2, display_type := .INT_HANDLE },
    { name := some "BD_ADDR", length := 6, display_type := .TEXT_BD_ADDR },
    { name := some "Link_Type", length := 1, display_type := .INT_HEX },
    { name := some "Transmission_Interval", length := 1, display_type := .INT_DEC },
    { name := some "Retransmission_Window", length := 1, display_type := .INT_DEC },
    { name := some "Rx_Packet_Length", length := 2, display_type := .INT_DEC },
    { name := some "Tx_Packet_Length", length := 2, display_type := .INT_DEC },
    { name := some "Air_Mode", length := 1, display_type := .INT_HEX } ]
  return_parameter_count := 0
  return_parameter := []

def HCI_EVENTS_0x2d : HCI_UNIT_REPR where
  name := some "Synchronous Connection Changed"
  opcode := 0x2d
  parameter_count := 6
  parameter := [
    { name := some "Status", length := 1, display_type := .TEXT_REASON_STATUS_CODE },
    { name := some "Connection_Handle", length := 2, display_type := .INT_HANDLE },
    { name := some "Transmission_Interval", length := 1, display_type := .INT_DEC },
    { name := some "Retransmission_Window", length := 1, display_type := .INT_DEC },
    { name := some "Rx_Packet_Length", length := 2, display_type := .INT_DEC },
    { name := some "Tx_Packet_Length", length := 2, display_type := .INT_DEC } ]
  return_parameter_count := 0
  return_parameter := []

def HCI_EVENTS_0x2e : HCI_UNIT_REPR where
  name := some "Sniff Subrating"
  opcode := 0x2e
  parameter_count := 6
  parameter := [
    { name := some "Status", length := 1, display_type := .TEXT_REASON_STATUS_CODE },
    { name := some "Connection_Handle", length := 2, display_type := .INT_HANDLE },
    { name := some "Maximum_Transmit_Latency", length := 2, display_type := .TIME_CLK1 },
    { name := some "Maximum_Receive_Latency", length := 2, display_type := .TIME_CLK1 },
    { name := some "Minimum_Remote_Timeout", length := 2, display_type := .TIME_CLK1 },
    { name := some "Minimum_Local_Timeout", length := 2, display_type := .TIME_CLK1 } ]
  return_parameter_count := 0
  return_parameter := []

def HCI_EVENTS_0x2f : HCI_UNIT_REPR where
  name := some "Extended Inquiry Result"
  opcode := 0x2f
  parameter_count := 8
  parameter := [
    { name := some "Num_Responses", length := 1, display_type := .INT_DEC },
    { name := some "BD_ADDR", length := 6, display_type := .TEXT_BD_ADDR },
    { name := some "Page_Scan_Repetition_Mode", length := 1, display_type := .TEXT_SPECIAL_DISPLAY_PARAM, index_of_special_display_param := PAGE_SCAN_REPETITION_MODE },
    { name := some "Reserved", length := 1, display_type := .INT_HEX },
    { name := some "Class_Of_Device", length := 3, display_type := .INT_HEX },
    { name := some "Clock_Offset", length := 2, display_type := .INT_HEX },
    { name := some "RSSI", length := 1, display_type := .TEXT_SPECIAL_DISPLAY_PARAM, index_of_special_display_param := RSSI },
    { name := some "Extended_Inquiry_Response", length := 240, display_type := .SEQ_HEX } ]
  return_parameter_count := 0
  return_parameter := []

def HCI_EVENTS_0x30 : HCI_UNIT_REPR where
  name := some "Encryption Key Refresh Complete"
  opcode := 0x30
  parameter_count := 2
  parameter := [
    { name := some "Status", length := 1, display_type := .TEXT_REASON_STATUS_CODE },
    { name := some "Connection_Handle", length := 2, display_type := .INT_HANDLE } ]
  return_parameter_count := 0
  return_parameter := []

def HCI_EVENTS_0x31 : HCI_UNIT_REPR where
  name := some "IO Capability Request"
  opcode := 0x31
  parameter_count := 1
  parameter := [
    { name := some "BD_ADDR", length := 6, display_type := .TEXT_BD_ADDR } ]
  return_parameter_count := 0
  return_parameter := []

def HCI_EVENTS_0x32 : HCI_UNIT_REPR where
  name := some "IO Capability Response"
  opcode := 0x32
  parameter_count := 4
  parameter := [
    { name := some "BD_ADDR", length := 6, display_type := .TEXT_BD_ADDR },
    { name := some "IO_Capability", length := 1, display_type := .INT_HEX },
    { name := some "OOB_Data_Present", length := 1, display_type := .INT_HEX },
    { name := some "Authenticatioin_requirements", length := 1, display_type := .INT_HEX } ]
  return_parameter_count := 0
  return_parameter := []

def HCI_EVENTS_0x33 : HCI_UNIT_REPR where
  name := some "User Confirmation Request"
  opcode := 0x33
  parameter_count := 2
  parameter := [
    { name := some "BD_ADDR", length := 6, display_type := .TEXT_BD_ADDR },
    { name := some "Numeric_Value", length := 4, display_type := .INT_HEX } ]
  return_parameter_count := 0
  return_parameter := []

def HCI_EVENTS_0x34 : HCI_UNIT_REPR where
  name := some "User Passkey Request"
  opcode := 0x34
  parameter_count := 1
  parameter := [
    { name := some "BD_ADDR", length := 6, display_type := .TEXT_BD_ADDR } ]
  return_parameter_count := 0
  return_parameter := []

def HCI_EVENTS_0x35 : HCI_UNIT_REPR where
  name := some "Remote OOB Data Request"
  opcode := 0x35
  parameter_count := 1
  parameter := [
    { name := some "BD_ADDR", length := 6, display_type := .TEXT_BD_ADDR } ]
  return_parameter_count := 0
  return_parameter := []

def HCI_EVENTS_0x36 : HCI_UNIT_REPR where
  name := some "Simple Pairing Complete"
  opcode := 0x36
  parameter_count := 2
  parameter := [
    { name := some "Status", length := 1, display_type := .TEXT_REASON_STATUS_CODE },
    { name := some "BD_ADDR", length := 6, display_type := .TEXT_BD_ADDR } ]
  return_parameter_count := 0
  return_parameter := []

def HCI_EVENTS_0x38 : HCI_UNIT_REPR where
  name := some "Link Supervision Timeout Changed"
  opcode := 0x38
  parameter_count := 2
  parameter := [
    { name := some "Connection_Handle", length := 2, display_type := .INT_HANDLE },
    { name := some "Link_Supervision_Timeout", length := 2, display_type := .INT_HEX } ]
  return_parameter_count := 0
  return_parameter := []

def HCI_EVENTS_0x39 : HCI_UNIT_REPR where
  name := some "Enhanced Flush Complete"
  opcode := 0x39
  parameter_count := 1
  parameter := [
    { name := some "Handle", length := 2, display_type := .INT_HEX } ]
  return_parameter_count := 0
  return_parameter := []

def HCI_EVENTS_0x3b : HCI_UNIT_REPR where
  name := some "User Passkey Notification"
  opcode := 0x3b
  parameter_count := 2
  parameter := [
    { name := some "BD_ADDR", length := 6, display_type := .TEXT_BD_ADDR },
    { name := some "Passkey", length := 4, display_type := .TEXT_SPECIAL_DISPLAY_PARAM, index_of_special_display_param := SECURITY_PASSKEY_TYPE } ]
  return_parameter_count := 0
  return_parameter := []

def HCI_EVENTS_0x3c : HCI_UNIT_REPR where
  name := some "Keypress Notification"
  opcode := 0x3c
  parameter_count := 2
  parameter := [
    { name := some "BD_ADDR", length := 6, display_type := .TEXT_BD_ADDR },
    { name := some "Notification_Type", length := 1, display_type := .INT_HEX } ]
  return_parameter_count := 0
  return_parameter := []

def HCI_EVENTS_0x3d : HCI_UNIT_REPR where
  name := some "Remote Host Supported Features Notification"
  opcode := 0x3d
  parameter_count := 2
  parameter := [
    { name := some "BD_ADDR", length := 6, display_type := .TEXT_BD_ADDR },
    { name := some "Host_Supported_Features", length := 8, display_type := .SEQ_HEX } ]
  return_parameter_count := 0
  return_parameter := []

def HCI_EVENTS_0x3e : HCI_UNIT_REPR where
  name := some "LE Meta Event"
  opcode := 0x3e
  parameter_count := 0
  parameter := []
  return_parameter_count := 0
  return_parameter := []

def HCI_EVENTS_0x40 : HCI_UNIT_REPR where
  name := some "Physical Link Complete"
  opcode := 0x40
  parameter_count := 2
  parameter := [
    { name := some "Status", length := 1, display_type := .TEXT_REASON_STATUS_CODE },
    { name := some "Physical_Link_Handle", length := 1, display_type := .INT_HEX } ]
  return_parameter_count := 0
  return_parameter := []

def HCI_EVENTS_0x41 : HCI_UNIT_REPR where
  name := some "Channel Selected"
  opcode := 0x41
  parameter_count := 1
  parameter := [
    { name := some "Physical_Link_Handle", length := 1, display_type := .INT_HEX } ]
  return_parameter_count := 0
  return_parameter := []

def HCI_EVENTS_0x42 : HCI_UNIT_REPR where
  name := some "Disconnection Physical Link Complete"
  opcode := 0x42
  parameter_count := 3
  parameter := [
    { name := some "Status", length := 1, display_type := .TEXT_REASON_STATUS_CODE },
    { name := some "Physical_Link_Handle", length := 1, display_type := .INT_HEX },
    { name := some "Reason", length := 1, display_type := .TEXT_REASON_STATUS_CODE } ]
  return_parameter_count := 0
  return_parameter := []

def HCI_EVENTS_0x43 : HCI_UNIT_REPR where
  name := some "Physical Link Loss Early Warning"
  opcode := 0x43
  parameter_count := 2
  parameter := [
    { name := some "Physical_Link_Handle", length := 1, display_type := .INT_HEX },
    { name := some "Link_Loss_Reason", length := 1, display_type := .INT_HEX } ]
  return_parameter_count := 0
  return_parameter := []

def HCI_EVENTS_0x44 : HCI_UNIT_REPR where
  name := some "Physical Link Recovery"
  opcode := 0x44
  parameter_count := 1
  parameter := [
    { name := some "Physical_Link_Handle", length := 1, display_type := .INT_HEX } ]
  return_parameter_count := 0
  return_parameter := []

def HCI_EVENTS_0x45 : HCI_UNIT_REPR where
  name := some "Logical Link Complete"
  opcode := 0x45
  parameter_count := 4
  parameter := [
    { name := some "Status", length := 1, display_type := .TEXT_REASON_STATUS_CODE },
    { name := some "Logical_Link_Handle", length := 2, display_type := .INT_HEX },
    { name := some "Physical_Link_Handle", length := 1, display_type := .INT_HEX },
    { name := some "Tx_Flow_Spec_ID", length := 1, display_type := .INT_HEX } ]
  return_parameter_count := 0
  return_parameter := []

def HCI_EVENTS_0x46 : HCI_UNIT_REPR where
  name := some "Disconnection Logical Link Complete"
  opcode := 0x46
  parameter_count := 3
  parameter := [
    { name := some "Status", length := 1, display_type := .TEXT_REASON_STATUS_CODE },
    { name := some "Logical_Link_Handle", length := 2, display_type := .INT_HEX },
    { name := some "Reason", length := 1, display_type := .TEXT_REASON_STATUS_CODE } ]
  return_parameter_count := 0
  return_parameter := []

def HCI_EVENTS_0x47 : HCI_UNIT_REPR where
  name := some "Flow Spec Modify Complete"
  opcode := 0x47
  parameter_count := 2
  parameter := [
    { name := some "Status", length := 1, display_type := .TEXT_REASON_STATUS_CODE },
    { name := some "Handle", length := 2, display_type := .INT_HEX } ]
  return_parameter_count := 0
  return_parameter := []

def HCI_EVENTS_0x48 : HCI_UNIT_REPR where
  name := some "Number Of Completed Data Blocks"
  opcode := 0x48
  parameter_count := 5
  parameter := [
    { name := some "Total_Num_Data_Blocks", length := 2, display_type := .INT_DEC },
    { name := some "Number_Of_Handles", length := 1, repeat_param_num := 3, display_type := .INT_DEC },
    { name := some "Handle", length := 2, display_type := .INT_HEX },
    { name := some "Num_Of_Completed_Pakcets", length := 2, display_type := .INT_DEC },
    { name := some "Num_Of_Completed_Blocks", length := 2, display_type := .INT_DEC } ]
  return_parameter_count := 0
  return_parameter := []

def HCI_EVENTS_0x49 : HCI_UNIT_REPR where
  name := some "AMP Start Test"
  opcode := 0x49
  parameter_count := 2
  parameter := [
    { name := some "Status", length := 1, display_type := .TEXT_REASON_STATUS_CODE },
    { name := some "Test Scenario", length := 1, display_type := .INT_HEX } ]
  return_parameter_count := 0
  return_parameter := []

def HCI_EVENTS_0x4a : HCI_UNIT_REPR where
  name := some "AMP Test End"
  opcode := 0x4a
  parameter_count := 2
  parameter := [
    { name := some "Status", length := 1, display_type := .TEXT_REASON_STATUS_CODE },
    { name := some "Test Scenario", length := 1, display_type := .INT_HEX } ]
  return_parameter_count := 0
  return_parameter := []

def HCI_EVENTS_0x4b : HCI_UNIT_REPR where
  name := some "AMP Receiver Report"
  opcode := 0x4b
  parameter_count := 7
  parameter := [
    { name := some "Controller_Type", length := 1, display_type := .INT_HEX },
    { name := some "Reason", length := 1, display_type := .INT_HEX },
    { name := some "Event_type", length := 4, display_type := .INT_HEX },
    { name := some "Number_Of_Frames", length := 2, display_type := .INT_DEC },
    { name := some "Number_Of_Error_Frames", length := 2, display_type := .INT_DEC },
    { name := some "Number_Of_Bits", length := 4, display_type := .INT_DEC },
    { name := some "Number_Of_Error_Bits", length := 4, display_type := .INT_DEC } ]
  return_parameter_count := 0
  return_parameter := []

def HCI_EVENTS_0x4c : HCI_UNIT_REPR where
  name := some "Short_Range_Mode_Change_Complete"
  opcode := 0x4c
  parameter_count := 3
  parameter := [
    { name := some "Status", length := 1, display_type := .TEXT_REASON_STATUS_CODE },
    { name := some "Physical_Link_Handle", length := 1, display_type := .INT_HEX },
    { name := some "Short_Range_Mode_State", length := 1, display_type := .INT_HEX } ]
  return_parameter_count := 0
  return_parameter := []

def HCI_EVENTS_0x4d : HCI_UNIT_REPR where
  name := some "AMP_Status_Change"
  opcode := 0x4d
  parameter_count := 2
  parameter := [
    { name := some "Status", length := 1, display_type := .TEXT_REASON_STATUS_CODE },
    { name := some "AMP_Status", length := 1, display_type := .INT_HEX } ]
  return_parameter_count := 0
  return_parameter := []

def HCI_EVENTS_0x4e : HCI_UNIT_REPR where
  name := some "Triggered Clock Capture"
  opcode := 0x4e
  parameter_count := 4
  parameter := [
    { name := some "Connection_Handle", length := 2, display_type := .INT_HANDLE },
    { name := some "Which_Clock", length := 1, display_type := .INT_HEX },
    { name := some "Clock", length := 4, display_type := .INT_HEX },
    { name := some "Slot_Offset", length := 2, display_type := .INT_HEX } ]
  return_parameter_count := 0
  return_parameter := []

def HCI_EVENTS_0x4f : HCI_UNIT_REPR where
  name := some "Synchronization Train Complete"
  opcode := 0x4f
  parameter_count := 1
  parameter := [
    { name := some "Status", length := 1, display_type := .TEXT_REASON_STATUS_CODE } ]
  return_parameter_count := 0
  return_parameter := []

def HCI_EVENTS_0x50 : HCI_UNIT_REPR where
  name := some "Synchronization Train Received"
  opcode := 0x50
  parameter_count := 8
  parameter := [
    { name := some "Status", length := 1, display_type := .TEXT_REASON_STATUS_CODE },
    { name := some "BD_ADDR", length := 6, display_type := .TEXT_BD_ADDR },
    { name := some "Clock_Offset", length := 4, display_type := .INT_HEX },
    { name := some "AFH_Channel_Map", length := 10, display_type := .SEQ_HEX },
    { name := some "LT_ADDR", length := 1, display_type := .INT_HEX },
    { name := some "Next_Broadcast_Instant", length := 4, display_type := .INT_HEX },
    { name := some "Connectionless_Slave_Broadcast_Interval", length := 2, display_type := .INT_HEX },
    { name := some "Service_Data", length := 1, display_type := .INT_HEX } ]
  return_parameter_count := 0
  return_parameter := []

def HCI_EVENTS_0x51 : HCI_UNIT_REPR where
  name := some "Connectionless Slave Broadcast Receive"
  opcode := 0x51
  parameter_count := 8
  parameter := [
    { name := some "BD_ADDR", length := 6, display_type := .TEXT_BD_ADDR },
    { name := some "LT_ADDR", length := 1, display_type := .INT_HEX },
    { name := some "CLK", length := 4, display_type := .INT_HEX },
    { name := some "Offset", length := 4, display_type := .INT_HEX },
    { name := some "Receive_Status", length := 1, display_type := .INT_HEX },
    { name := some "Fragment", length := 1, display_type := .INT_HEX },
    { name := some "Data_Length", length := 1, display_type := .INT_DEC },
    { name := some "Data", length := -1, display_type := .SEQ_HEX } ]
  return_parameter_count := 0
  return_parameter := []

def HCI_EVENTS_0x52 : HCI_UNIT_REPR where
  name := some "Connectionless Slave Broadcast Timeout"
  opcode := 0x52
  parameter_count := 2
  parameter := [
    { name := some "BD_ADDR", length := 6, display_type := .TEXT_BD_ADDR },
    { name := some "LT_ADDR", length := 1, display_type := .INT_HEX } ]
  return_parameter_count := 0
  return_parameter := []

def HCI_EVENTS_0x53 : HCI_UNIT_REPR where
  name := some "Truncated Page Complete"
  opcode := 0x53
  parameter_count := 2
  parameter := [
    { name := some "Status", length := 1, display_type := .TEXT_REASON_STATUS_CODE },
    { name := some "BD_ADDR", length := 6, display_type := .TEXT_BD_ADDR } ]
  return_parameter_count := 0
  return_parameter := []

def HCI_EVENTS_0x54 : HCI_UNIT_REPR where
  name := some "Slave Page Response Timeout"
  opcode := 0x54
  parameter_count := 0
  parameter := []
  return_parameter_count := 0
  return_parameter := []

def HCI_EVENTS_0x55 : HCI_UNIT_REPR where
  name := some "Connectionless Slave Broadcast Channel Map Change"
  opcode := 0x55
  parameter_count := 1
  parameter := [
    { name := some "Channel_Map", length := 10, display_type := .SEQ_HEX } ]
  return_parameter_count := 0
  return_parameter := []

def HCI_EVENTS_0x56 : HCI_UNIT_REPR where
  name := some "Inquiry Response Notification"
  opcode := 0x56
  parameter_count := 2
  parameter := [
    { name := some "LAP", length := 3, display_type := .TEXT_SPECIAL_DISPLAY_PARAM, index_of_special_display_param := LAP_IAC },
    { name := some "RSSI", length := 1, display_type := .TEXT_SPECIAL_DISPLAY_PARAM, index_of_special_display_param := RSSI } ]
  return_parameter_count := 0
  return_parameter := []

def HCI_EVENTS_0x57 : HCI_UNIT_REPR where
  name := some "Authenticated Payload Timeout Expired"
  opcode := 0x57
  parameter_count := 1
  parameter := [
    { name := some "Connection_Handle", length := 2, display_type := .INT_HANDLE } ]
  return_parameter_count := 0
  return_parameter := []

/-- The table `HCI_EVENTS[HCI_EVENT_NUMBER + 1]`: events, indexed by event code. -/
def HCI_EVENTS : List (Nat × HCI_UNIT_REPR) := [
  (0x01, HCI_EVENTS_0x01), (0x02, HCI_EVENTS_0x02), (0x03, HCI_EVENTS_0x03),
  (0x04, HCI_EVENTS_0x04), (0x05, HCI_EVENTS_0x05), (0x06, HCI_EVENTS_0x06),
  (0x07, HCI_EVENTS_0x07), (0x08, HCI_EVENTS_0x08), (0x09, HCI_EVENTS_0x09),
  (0x0a, HCI_EVENTS_0x0a), (0x0b, HCI_EVENTS_0x0b), (0x0c, HCI_EVENTS_0x0c),
  (0x0d, HCI_EVENTS_0x0d), (0x0e, HCI_EVENTS_0x0e), (0x0f, HCI_EVENTS_0x0f),
  (0x10, HCI_EVENTS_0x10), (0x11, HCI_EVENTS_0x11), (0x12, HCI_EVENTS_0x12),
  (0x13, HCI_EVENTS_0x13), (0x14, HCI_EVENTS_0x14), (0x15, HCI_EVENTS_0x15),
  (0x16, HCI_EVENTS_0x16), (0x17, HCI_EVENTS_0x17), (0x18, HCI_EVENTS_0x18),
  (0x19, HCI_EVENTS_0x19), (0x1a, HCI_EVENTS_0x1a), (0x1b, HCI_EVENTS_0x1b),
  (0x1c, HCI_EVENTS_0x1c), (0x1d, HCI_EVENTS_0x1d), (0x1e, HCI_EVENTS_0x1e),
  (0x20, HCI_EVENTS_0x20), (0x21, HCI_EVENTS_0x21), (0x22, HCI_EVENTS_0x22),
  (0x23, HCI_EVENTS_0x23), (0x2c, HCI_EVENTS_0x2c), (0x2d, HCI_EVENTS_0x2d),
  (0x2e, HCI_EVENTS_0x2e), (0x2f, HCI_EVENTS_0x2f), (0x30, HCI_EVENTS_0x30),
  (0x31, HCI_EVENTS_0x31), (0x32, HCI_EVENTS_0x32), (0x33, HCI_EVENTS_0x33),
  (0x34, HCI_EVENTS_0x34), (0x35, HCI_EVENTS_0x35), (0x36, HCI_EVENTS_0x36),
  (0x38, HCI_EVENTS_0x38), (0x39, HCI_EVENTS_0x39), (0x3b, HCI_EVENTS_0x3b),
  (0x3c, HCI_EVENTS_0x3c), (0x3d, HCI_EVENTS_0x3d), (0x3e, HCI_EVENTS_0x3e),
  (0x40, HCI_EVENTS_0x40), (0x41, HCI_EVENTS_0x41), (0x42, HCI_EVENTS_0x42),
  (0x43, HCI_EVENTS_0x43), (0x44, HCI_EVENTS_0x44), (0x45, HCI_EVENTS_0x45),
  (0x46, HCI_EVENTS_0x46), (0x47, HCI_EVENTS_0x47), (0x48, HCI_EVENTS_0x48),
  (0x49, HCI_EVENTS_0x49), (0x4a, HCI_EVENTS_0x4a), (0x4b, HCI_EVENTS_0x4b),
  (0x4c, HCI_EVENTS_0x4c), (0x4d, HCI_EVENTS_0x4d), (0x4e, HCI_EVENTS_0x4e),
  (0x4f, HCI_EVENTS_0x4f), (0x50, HCI_EVENTS_0x50), (0x51, HCI_EVENTS_0x51),
  (0x52, HCI_EVENTS_0x52), (0x53, HCI_EVENTS_0x53), (0x54, HCI_EVENTS_0x54),
  (0x55, HCI_EVENTS_0x55), (0x56, HCI_EVENTS_0x56), (0x57, HCI_EVENTS_0x57) ]

def HCI_LE_META_EVENT_SUBEVENT_NUMBER : Nat := 11

def LE_META_EVENTS_0x01 : HCI_UNIT_REPR where
  name := some "LE Connection Complete"
  opcode := 0x01
  parameter_count := 9
  parameter := [
    { name := some "Status", length := 1, display_type := .TEXT_REASON_STATUS_CODE },
    { name := some "Connection_Handle", length := 2, display_type := .INT_HANDLE },
    { name := some "Role", length := 1, display_type := .INT_HEX },
    { name := some "Peer_Address_Type", length := 1, display_type := .TEXT_SPECIAL_DISPLAY_PARAM, index_of_special_display_param := PEER_ADDRESS_TYPE },
    { name := some "Peer_Address", length := 6, display_type := .TEXT_BD_ADDR },
    { name := some "Conn_Interval", length := 2, display_type := .TIME_CLK2 },
    { name := some "Conn_Latency", length := 2, display_type := .INT_HEX },
    { name := some "Supervision_Timeout", length := 2, display_type := .TIME_CLK5 },
    { name := some "Master_Clock_Accuracy", length := 1, display_type := .INT_HEX } ]
  return_parameter_count := 0
  return_parameter := []

def LE_META_EVENTS_0x02 : HCI_UNIT_REPR where
  name := some "LE Advertising Report"
  opcode := 0x02
  parameter_count := 7
  parameter := [
    { name := some "Num_Reports", length := 1, repeat_param_num := 6, display_type := .INT_DEC },
    { name := some "Event_Type", length := 1, display_type := .TEXT_SPECIAL_DISPLAY_PARAM, index_of_special_display_param := LE_META_EVENT_ADVERTISING_REPORT_EVENT_TYPE },
    { name := some "Address_Type", length := 1, display_type := .TEXT_SPECIAL_DISPLAY_PARAM, index_of_special_display_param := LE_META_EVENT_ADVERTISING_REPORT_ADDRESS_TYPE },
    { name := some "Address", length := 6, display_type := .TEXT_BD_ADDR },
    { name := some "Length_Data", length := 1, display_type := .INT_DEC },
    { name := some "Data", length := -1, display_type := .SEQ_HEX },
    { name := some "RSSI", length := 1, display_type := .TEXT_SPECIAL_DISPLAY_PARAM, index_of_special_display_param := RSSI } ]
  return_parameter_count := 0
  return_parameter := []

def LE_META_EVENTS_0x03 : HCI_UNIT_REPR where
  name := some "LE Connection Update Complete"
  opcode := 0x03
  parameter_count := 5
  parameter := [
    { name := some "Status", length := 1, display_type := .TEXT_REASON_STATUS_CODE },
    { name := some "Connection_Handle", length := 2, display_type := .INT_HANDLE },
    { name := some "Conn_Interval", length := 2, display_type := .TIME_CLK2 },
    { name := some "Conn_Latency", length := 2, display_type := .INT_HEX },
    { name := some "Supervision_Timeout", length := 2, display_type := .TIME_CLK5 } ]
  return_parameter_count := 0
  return_parameter := []

def LE_META_EVENTS_0x04 : HCI_UNIT_REPR where
  name := some "LE Read Remote Used Features Complete"
  opcode := 0x04
  parameter_count := 3
  parameter := [
    { name := some "Status", length := 1, display_type := .TEXT_REASON_STATUS_CODE },
    { name := some "Connection_Handle", length := 2, display_type := .INT_HANDLE },
    { name := some "LE_Features", length := 8, display_type := .SEQ_HEX } ]
  return_parameter_count := 0
  return_parameter := []

def LE_META_EVENTS_0x05 : HCI_UNIT_REPR where
  name := some "LE Long Term Key Request"
  opcode := 0x05
  parameter_count := 3
  parameter := [
    { name := some "Connection_Handle", length := 2, display_type := .INT_HANDLE },
    { name := some "Random_Number", length := 8, display_type := .SEQ_HEX },
    { name := some "Encrypted_Diversifier", length := 2, display_type := .INT_HEX } ]
  return_parameter_count := 0
  return_parameter := []

def LE_META_EVENTS_0x06 : HCI_UNIT_REPR where
  name := some "LE Remote Connection Parameter Request"
  opcode := 0x06
  parameter_count := 5
  parameter := [
    { name := some "Connection_Handle", length := 2, display_type := .INT_HANDLE },
    { name := some "Interval_Min", length := 2, display_type := .TIME_CLK2 },
    { name := some "Interval_Max", length := 2, display_type := .TIME_CLK2 },
    { name := some "Latency", length := 2, display_type := .INT_HEX },
    { name := some "Timeout", length := 2, display_type := .TIME_CLK5 } ]
  return_parameter_count := 0
  return_parameter := []

def LE_META_EVENTS_0x07 : HCI_UNIT_REPR where
  name := some "LE Data Length Changes"
  opcode := 0x07
  parameter_count := 5
  parameter := [
    { name := some "Connection_Handle", length := 2, display_type := .INT_HANDLE },
    { name := some "MaxTxOctets", length := 2, display_type := .INT_HEX },
    { name := some "MaxTxTime", length := 2, display_type := .INT_HEX },
    { name := some "MaxRxOctets", length := 2, display_type := .INT_HEX },
    { name := some "MaxRxTime", length := 2, display_type := .INT_HEX } ]
  return_parameter_count := 0
  return_parameter := []

def LE_META_EVENTS_0x08 : HCI_UNIT_REPR where
  name := some "LE Read Local P-256 Public Key Complete"
  opcode := 0x08
  parameter_count := 2
  parameter := [
    { name := some "Status", length := 1, display_type := .TEXT_REASON_STATUS_CODE },
    { name := some "Local_P-256_Public_Key", length := 64, display_type := .SEQ_HEX } ]
  return_parameter_count := 0
  return_parameter := []

def LE_META_EVENTS_0x09 : HCI_UNIT_REPR where
  name := some "LE Generate DHKey Complete"
  opcode := 0x09
  parameter_count := 2
  parameter := [
    { name := some "Status", length := 1, display_type := .TEXT_REASON_STATUS_CODE },
    { name := some "DHKey", length := 32, display_type := .SEQ_HEX } ]
  return_parameter_count := 0
  return_parameter := []

def LE_META_EVENTS_0x0a : HCI_UNIT_REPR where
  name := some "LE Enhanced Connection Complete"
  opcode := 0x0a
  parameter_count := 11
  parameter := [
    { name := some "Status", length := 1, display_type := .TEXT_REASON_STATUS_CODE },
    { name := some "Connection_Handle", length := 2, display_type := .INT_HANDLE },
    { name := some "Role", length := 1, display_type := .INT_HEX },
    { name := some "Peer_Address_Type", length := 1, display_type := .TEXT_SPECIAL_DISPLAY_PARAM, index_of_special_display_param := PEER_ADDRESS_TYPE },
    { name := some "Peer_Address", length := 6, display_type := .TEXT_BD_ADDR },
    { name := some "Local_Resolvable_Private_Address", length := 6, display_type := .TEXT_BD_ADDR },
    { name := some "Peer_Resolvable_Private_Address", length := 6, display_type := .TEXT_BD_ADDR },
    { name := some "Conn_Interval", length := 2, display_type := .TIME_CLK2 },
    { name := some "Conn_Latency", length := 2, display_type := .INT_HEX },
    { name := some "Supervision_Timeout", length := 2, display_type := .TIME_CLK5 },
    { name := some "Master_Clock_Accuracy", length := 1, display_type := .INT_HEX } ]
  return_parameter_count := 0
  return_parameter := []

def LE_META_EVENTS_0x0b : HCI_UNIT_REPR where
  name := some "LE Direct Advertising Report"
  opcode := 0x0b
  parameter_count := 7
  parameter := [
    { name := some "Num_Reports", length := 1, repeat_param_num := 6, display_type := .INT_DEC },
    { name := some "Event_Type", length := 1, display_type := .TEXT_SPECIAL_DISPLAY_PARAM, index_of_special_display_param := LE_META_EVENT_ADVERTISING_REPORT_EVENT_TYPE },
    { name := some "Address_Type", length := 1, display_type := .TEXT_SPECIAL_DISPLAY_PARAM, index_of_special_display_param := LE_META_EVENT_ADVERTISING_REPORT_ADDRESS_TYPE },
    { name := some "Address", length := 6, display_type := .TEXT_BD_ADDR },
    { name := some "Direct_Address_Type", length := 1, display_type := .INT_HEX },
    { name := some "Direct_Address", length := 6, display_type := .TEXT_BD_ADDR },
    { name := some "RSSI", length := 1, display_type := .TEXT_SPECIAL_DISPLAY_PARAM, index_of_special_display_param := RSSI } ]
  return_parameter_count := 0
  return_parameter := []

/-- The table `LE_META_EVENTS[HCI_LE_META_EVENT_SUBEVENT_NUMBER + 1]`: LE meta sub-events, indexed by sub-event code. -/
def LE_META_EVENTS : List (Nat × HCI_UNIT_REPR) := [
  (0x01, LE_META_EVENTS_0x01), (0x02, LE_META_EVENTS_0x02), (0x03, LE_META_EVENTS_0x03),
  (0x04, LE_META_EVENTS_0x04), (0x05, LE_META_EVENTS_0x05), (0x06, LE_META_EVENTS_0x06),
  (0x07, LE_META_EVENTS_0x07), (0x08, LE_META_EVENTS_0x08), (0x09, LE_META_EVENTS_0x09),
  (0x0a, LE_META_EVENTS_0x0a), (0x0b, LE_META_EVENTS_0x0b) ]

/-- The array `EVENT_STATUS_TEXT`: the text of each status code `0x00 .. 0x40`. -/
def EVENT_STATUS_TEXT : List String := [
  "Success",
  "Unknown HCI Command",
  "Unknown Connection Identifier",
  "Hardware Failure",
  "Page Timeout",
  "Authentication Failure",
  "PIN or Key Missing",
  "Memory Capacity Exceeded",
  "Connection Timeout",
  "Connection Limit Exceeded",
  "Synchronous Connection Limit To A Device Exceeded",
  "ACL Connection Already Exists",
  "Command Disallowed",
  "Connection Rejected due to Limited Resources",
  "Connection Rejected Due To Security Reasons",
  "Connection Rejected due to Unacceptable BD_ADDR",
  "Connection Accept Timeout Exceeded",
  "Unsupported Feature or Parameter Value",
  "Invalid HCI Command Parameters",
  "Remote User Terminated Connection",
  "Remote Device Terminated Connection due to Low Resources",
  "Remote Device Terminated Connection due to Power Off",
  "Connection Terminated By Local Host",
  "Repeated Attempts",
  "Pairing Not Allowed",
  "Unknown LMP PDU",
  "Unsupported Remote Feature / Unsupported LMP Feature",
  "SCO Offset Rejected",
  "SCO Interval Rejected",
  "SCO Air Mode Rejected",
  "Invalid LMP Parameters / Invalid LL Parameters",
  "Unspecified Error",
  "Unsupported LMP Parameter Value / Unsupported LL Parameter Value",
  "Role Change Not Allowed",
  "LMP Response Timeout / LL Response Timeout",
  "LMP Error Transaction Collision",
  "LMP PDU Not Allowed",
  "Encryption Mode Not Acceptable",
  "Link Key cannot be Changed",
  "Requested QoS Not Supported",
  "Instant Passed",
  "Pairing With Unit Key Not Supported",
  "Different Transaction Collision",
  "Reserved",
  "QoS Unacceptable Parameter",
  "QoS Rejected",
  "Channel Classification Not Supported",
  "Insufficient Security",
  "Parameter Out Of Mandatory Range",
  "Reserved",
  "Role Switch Pending",
  "Reserved",
  "Reserved Slot Violation",
  "Role Switch Failed",
  "Extended Inquiry Response Too Large",
  "Secure Simple Pairing Not Supported By Host",
  "Host Busy - Pairing",
  "Connection Rejected due to No Suitable Channel Found",
  "Controller Busy",
  "Unacceptable Connection Parameters",
  "Directed Advertising Timeout",
  "Connection Terminated due to MIC Failure",
  "Connection Failed to be Established",
  "MAC Connection Failed",
  "Coarse Clock Adjustment Rejected but Will Try to Adjust Using Clock Dragging" ]

/-! ## Opcode resolver -/

/-- The macro `GET_CMD_AT(cmd_group, group_len, index)`: `NULL` when the index is
above `group_len`, the address of the slot otherwise. -/
def GET_CMD_AT (cmd_group : List (Nat × HCI_UNIT_REPR)) (group_len index : Nat) :
    Option HCI_UNIT_REPR :=
  if index > group_len then none else some (table_slot cmd_group index)

/-- The function `get_matched_hci_cmd_repr(uint16_t opcode)`; `none` is `NULL`. -/
def get_matched_hci_cmd_repr (opcode : Nat) : Option HCI_UNIT_REPR :=
  let ogf := HCI_OGF (opcode % 65536) % 256
  let ocf := HCI_OCF (opcode % 65536) % 65536
  if ogf = HCI_CMD_GRP_LINK_CONTROL then
    GET_CMD_AT HCI_LINK_CONTROL_COMMANDS LING_CONTROL_NUM ocf
  else if ogf = HCI_CMD_GRP_LINK_POLICY then
    GET_CMD_AT HCI_LINK_POLICY_COMMANDS LINK_POLICY_NUM ocf
  else if ogf = HCI_CMD_GRP_CONTROLLER_BASEBAND then
    GET_CMD_AT HCI_CONTROLLER_BASEBAND_COMMANDS CONTROLLER_BASEBAND_NUM ocf
  else if ogf = HCI_CMD_GRP_INFORMATIONAL_PARAMETERS then
    GET_CMD_AT HCI_INFORMATIONAL_PARAMETERS INFORMATIONAL_PARAMETERS_NUM ocf
  else if ogf = HCI_CMD_GRP_STATUS_PARAMETERS then
    GET_CMD_AT HCI_STATUS_PARAMETERS STATUS_PARAMETERS_NUM ocf
  else if ogf = HCI_CMD_GRP_TESTING then
    GET_CMD_AT HCI_TESTING_COMMANDS TESTING_NUM ocf
  else if ogf = HCI_CMD_GRP_LE_CONTROLLER then
    GET_CMD_AT HCI_LE_CONTROLLER_COMMANDS LE_CONTROLLER_NUM ocf
  else if ogf = HCI_CMD_GRP_VENDOR_SPECIFIC then
    match GET_CMD_AT VENDOR_SPECIFIC_COMMAND VENDOR_SPECIFIC_COMMAND_NUM ocf with
    | none => some (table_slot VENDOR_SPECIFIC_COMMAND 0)
    | some vendor_cmd => some vendor_cmd
  else none

/-! ## Decoded instance -/

/-- One decoded field (`HCI_PARAM_VALUE`); `value` is the text in the buffer
`char value[255 * 3]`. -/
structure HCI_PARAM_VALUE where
  name : Option String := none
  seq_num : Int := 0
  value : String := ""
  indent_level : Nat := 0
  deriving DecidableEq

/-- The per-packet record `HCI_INSTANCE`. The array `value[MAX_HCI_PARAM_NUM]` is
the function `value` on the indices below `MAX_HCI_PARAM_NUM`; every access goes
through `value_at` or `value_update`, which check the index. The members
`extra_count` and `extra_value` are never used by the source and are left out. -/
structure HCI_INSTANCE where
  name : Option String := none
  opcode : Nat := 0
  parameter_length : Nat := 0
  parameter_count : Nat := 0
  value_index : Nat := 0
  value : Nat → HCI_PARAM_VALUE := fun _ => {}

/-- The read `instance->value[k]` for an index computed in `int` or `size_t`. -/
def value_at (inst : HCI_INSTANCE) (k : Int) : Except Fault HCI_PARAM_VALUE :=
  if 0 ≤ k ∧ k < MAX_HCI_PARAM_NUM then .ok (inst.value k.toNat)
  else .error .value_slot_out_of_range

/-- A write to members of `instance->value[k]`. -/
def value_update (inst : HCI_INSTANCE) (k : Int)
    (f : HCI_PARAM_VALUE → HCI_PARAM_VALUE) : Except Fault HCI_INSTANCE :=
  if 0 ≤ k ∧ k < MAX_HCI_PARAM_NUM then
    .ok { inst with value := fun j => if j = k.toNat then f (inst.value j) else inst.value j }
  else .error .value_slot_out_of_range

/-- The fields written so far: `value[0 .. value_index - 1]`. -/
def fields (inst : HCI_INSTANCE) : List HCI_PARAM_VALUE :=
  (List.range inst.value_index).map inst.value

/-- The text a run of `sprintf` calls starting at the beginning of a buffer leaves
in it: the characters written, or the old content when no call was made. -/
def sprintf_into (old text : String) : String :=
  if text.data = [] then old else text

/-! ## Special display renderers -/

/-- What the pointer `val_in` of `parse_special_displayed_parameters` points at:
the local `uint32_t param_value` of `parse_parameter`, or the packet at a cursor. -/
inductive ValIn where
  | word (param_value : Nat)
  | stream (pos : Int)

/-- The read `*((uintN_t*) val_in)` of `n` octets on a little-endian target (every
Android ABI): the low octets of the word, or the octets under the cursor. -/
def val_read (data : List Nat) (val_in : ValIn) (n : Nat) : Except Fault Nat :=
  match val_in with
  | .word param_value => .ok (param_value % 4294967296 % 256 ^ n)
  | .stream pos =>
    match octets_at data pos n with
    | some bs => .ok (le_value bs)
    | none => .error .read_outside_packet

/-- The text of `sprintf(buf, "(0x%02x) <text>", value)`. -/
def hex8_text (value : Nat) (text : String) : String :=
  "(0x" ++ fmt_x 2 value ++ ") " ++ text

/-- One line of the bit lists of `PACKET_TYPE_ACL` and `PACKET_TYPE_SCO`:
`sprintf(buf, "%s<text>", LINE_INDENT[INDENT_LEVEL_4])` with the text chosen by a bit test. -/
def bit_line (value mask : Nat) (set_text clear_text : String) : String :=
  LINE_INDENT.getD INDENT_LEVEL_4 "" ++ (if value &&& mask ≠ 0 then set_text else clear_text)

/-- The cases `SCAN_ENABLE .. SECURE_CONNECTIONS_HOST_SUPPORT` (and the bare
cases up to 42) of the switch of `parse_special_displayed_parameters`: the HCI
configuration parameters. The result is the returned flag and the text written;
`none` means that no case of this range matches. -/
def special_configuration_parameter (specific_index : Int) (data : List Nat)
    (val_in : ValIn) : Option (Except Fault (Bool × String)) :=
  if specific_index = SCAN_ENABLE then some do
    let value ← val_read data val_in 1
    match value with
    | 0 => .ok (true, hex8_text value "No Scans enabled.")
    | 1 => .ok (true, hex8_text value "Inquiry Scan enabled. Page Scan always disabled.")
    | 2 => .ok (true, hex8_text value "Inquiry Scan disabled. Page Scan enabled.")
    | 3 => .ok (true, hex8_text value "Inquiry Scan enabled. Page Scan enabled.")
    | _ => .ok (false, "")
  else if specific_index = 2 ∨ specific_index = 3 then some (.ok (false, ""))
  else if specific_index = INQUIRY_SCAN_TYPE ∨ specific_index = PAGE_SCAN_TYPE then some do
    let value ← val_read data val_in 1
    match value with
    | 0 => .ok (true, hex8_text value "Mandatory: Standard Scan(default)")
    | 1 => .ok (true, hex8_text value "Optional: Interlaced Scan")
    | _ => .ok (true, hex8_text value "Reserved")
  else if specific_index = INQUIRY_MODE then some do
    let value ← val_read data val_in 1
    match value with
    | 0 => .ok (true, hex8_text value "Standard Inquiry Result event format")
    | 1 => .ok (true, hex8_text value "Inquiry Result format with RSSI")
    | 2 => .ok (true, hex8_text value
        "Inquiry Result with RSSI format or Extended Inquiry Result format")
    | _ => .ok (true, hex8_text value "Reserved")
  else if specific_index = 6 ∨ specific_index = 7 ∨ specific_index = 8 ∨ specific_index = 9 then
    some (.ok (false, ""))
  else if specific_index = 10 then some do
    let value ← val_read data val_in 1
    match value with
    | 0 => .ok (true, hex8_text value "P0")
    | 1 => .ok (true, hex8_text value "P1")
    | 2 => .ok (true, hex8_text value "P2")
    | _ => .ok (true, hex8_text value "Reserved")
  else if specific_index = VOICE_SETTING then some do
    let value ← val_read data val_in 2
    let indent := LINE_INDENT.getD INDENT_LEVEL_4 ""
    let input_coding := ((value &&& 0x0300) >>> 8) % 256
    let input_data_format := ((value &&& 0x00A0) >>> 6) % 256
    let input_sample_size := ((value &&& 0x0020) >>> 5) % 256
    let linear_pcm_bit_pos := ((value &&& 0x001A) >>> 2) % 256
    let air_coding_format := (value &&& 0x0003) % 256
    .ok (true,
      "(0x" ++ fmt_x 4 value ++ ")\n"
      ++ (match input_coding with
          | 0 => indent ++ "Input Coding: Linear\n"
          | 1 => indent ++ "Input Coding: u-law Input Coding\n"
          | 2 => indent ++ "Input Coding: A-law Input Coding\n"
          | 3 => indent ++ "Reserved for future use\n"
          | _ => "")
      ++ (match input_data_format with
          | 0 => indent ++ "Input Data Format: 1's complement\n"
          | 1 => indent ++ "Input Data Format: 2's complement\n"
          | 2 => indent ++ "Input Data Format: Sign-Magnitude\n"
          | 3 => indent ++ "Input Data Format: Unsigned\n"
          | _ => "")
      ++ (match input_sample_size with
          | 0 => indent ++ "Input Sample Size: 8-bit(only for linear PCM)\n"
          | 1 => indent ++ "Input Sample Size: 16-bit(only for linear PCM)\n"
          | _ => "")
      ++ indent ++ "Linear_PCM_Bit_Pos: " ++ fmt_u linear_pcm_bit_pos
      ++ " bit positions that MSB of sample is away from starting at MSB(only for Linear PCM)\n"
      ++ (match air_coding_format with
          | 0 => indent ++ "Air Coding Format: CVSD\n"
          | 1 => indent ++ "Air Coding Format: u-law\n"
          | 2 => indent ++ "Air Coding Format: A-law\n"
          | 3 => indent ++ "Air Coding Format: Transparent Data\n"
          | _ => ""))
  else if specific_index = PIN_TYPE then some do
    let value ← val_read data val_in 1
    match value with
    | 0 => .ok (true, hex8_text value "Variable PIN")
    | 1 => .ok (true, hex8_text value "Fixed PIN")
    | _ => .ok (false, "")
  else if specific_index = 14 ∨ specific_index = 15 ∨ specific_index = AUTHENTICATION_ENABLE then
    some do
    let value ← val_read data val_in 1
    match value with
    | 0 => .ok (true, hex8_text value "Authentication not required")
    | 1 => .ok (true, hex8_text value "Authentication required for all connections")
    | _ => .ok (true, hex8_text value "Reserved")
  else if specific_index = HOLD_MODE_ACTIVITY then some do
    let value ← val_read data val_in 1
    .ok (true,
      "(0x" ++ fmt_x 2 value ++ ") "
      ++ (if value = 0x00 then " Maintain current Power State"
          else if value &&& 0x01 ≠ 0 ∨ value &&& 0x02 ≠ 0 ∨ value &&& 0x04 ≠ 0 then
            (if value &&& 0x01 ≠ 0 then "| Suspend Page Scan " else "")
            ++ (if value &&& 0x02 ≠ 0 then "| Suspend Inquiry Scan" else "")
            ++ (if value &&& 0x04 ≠ 0 then "| Suspend Periodic Inquiries" else "")
          else hex8_text value "Reserved for future use"))
  else if specific_index = LINK_POLICY_SETTING then some do
    let value ← val_read data val_in 2
    .ok (true,
      "(0x" ++ fmt_x 4 value ++ ") "
      ++ (if value = 0x0000 then " Disable All LM Modes Default"
          else if value &&& 0x01 ≠ 0 ∨ value &&& 0x02 ≠ 0 ∨ value &&& 0x04 ≠ 0
              ∨ value &&& 0x08 ≠ 0 then
            (if value &&& 0x0001 ≠ 0 then " Role switch: Enable " else " Role switch: Disable")
            ++ (if value &&& 0x0002 ≠ 0 then "| Hold Mode: Enable" else "| Hold Mode: Disable")
            ++ (if value &&& 0x0004 ≠ 0 then "| Sniff Mode: Enable" else "| Sniff Mode: Disable")
            ++ (if value &&& 0x0008 ≠ 0 then "| Park State: Enable" else "| Park State: Disable")
          else hex8_text value "Reserved for future use"))
  else if specific_index = 19 ∨ specific_index = 20 ∨ specific_index = 21 then
    some (.ok (false, ""))
  else if specific_index = SYNCHRONOUS_FLOW_CONTROL_ENABLE then some do
    let value ← val_read data val_in 1
    match value with
    | 0 => .ok (true, hex8_text value "Synchronous Flow Control is disabled")
    | 1 => .ok (true, hex8_text value "Synchronous Flow Control is enabled")
    | _ => .ok (true, hex8_text value "Reserved")
  else if specific_index = 23 ∨ specific_index = 24 then some (.ok (false, ""))
  else if specific_index = ERRONEOUS_DATA_REPORTING then some do
    let value ← val_read data val_in 1
    match value with
    | 0 => .ok (true, hex8_text value "Erroneous data reporting disabled")
    | 1 => .ok (true, hex8_text value "Erroneous data reporting enabled")
    | _ => .ok (true, hex8_text value "Reserved")
  else if specific_index = 26 ∨ specific_index = 27 ∨ specific_index = 28 then
    some (.ok (false, ""))
  else if specific_index = LOCATION_DOMAIN_AWARE then some do
    let value ← val_read data val_in 1
    match value with
    | 0 => .ok (true, hex8_text value "Regulatory domain unknown")
    | 1 => .ok (true, hex8_text value "Regulatory domain known")
    | _ => .ok (true, hex8_text value "Reserved for future use")
  else if specific_index = 30 ∨ specific_index = LOCATION_DOMAIN_OPTIONS then some do
    let value ← val_read data val_in 1
    if value &&& 0x20 ≠ 0 then
      .ok (true, hex8_text value "'space' indicates that the code applies to the entire country")
    else if value &&& 0x4F ≠ 0 then
      .ok (true, hex8_text value "'O' indicates for use outdoors only")
    else if value &&& 0x49 ≠ 0 then
      .ok (true, hex8_text value "'I' indicates for use indoors only")
    else if value &&& 0x58 ≠ 0 then
      .ok (true, hex8_text value "'X' indicates a non-country entity")
    else .ok (true, hex8_text value "Reserved for future use")
  else if specific_index = LOCATION_OPTIONS then some do
    let value ← val_read data val_in 1
    match value with
    | 0 => .ok (true, hex8_text value "Not mains-powered")
    | 1 => .ok (true, hex8_text value "Mains powered")
    | _ => .ok (true, hex8_text value "Reserved for future use")
  else if specific_index = FLOW_CONTROL_MODE then some do
    let value ← val_read data val_in 1
    match value with
    | 0 => .ok (true, hex8_text value "Packet based data flow control mode")
    | 1 => .ok (true, hex8_text value "Data block based data flow control mode")
    | _ => .ok (true, hex8_text value "Reserved for future use")
  else if specific_index = LE_SUPPORTED_HOST then some do
    let value ← val_read data val_in 1
    match value with
    | 0 => .ok (true, hex8_text value "LE Supported(Host) disabled(default)")
    | 1 => .ok (true, hex8_text value "LE Supported(Host) enabled")
    | _ => .ok (true, hex8_text value "Reserved")
  else if specific_index = 35 ∨ specific_index = 36 ∨ specific_index = 37
      ∨ specific_index = 38 then
    some (.ok (false, ""))
  else if specific_index = SECURE_CONNECTIONS_HOST_SUPPORT then some do
    let value ← val_read data val_in 1
    match value with
    | 0 => .ok (true, hex8_text value
        "Secure_Connections_Host_Support is 'disabled'. Host does not support secure connection(default)")
    | 1 => .ok (true, hex8_text value
        "Secure_Connection_Host_Support is 'enabled'. Host supports secure connections")
    | _ => .ok (true, hex8_text value "Reserved")
  else if specific_index = 40 ∨ specific_index = 41 ∨ specific_index = 42 then
    some (.ok (false, ""))
  else none

/-- The cases `PAGE_SCAN_REPETITION_MODE .. DELETE_ALL_FLAG` (100 and above) of
the switch of `parse_special_displayed_parameters`. -/
def special_other_parameter (specific_index : Int) (data : List Nat)
    (val_in : ValIn) : Option (Except Fault (Bool × String)) :=
  if specific_index = PAGE_SCAN_REPETITION_MODE then some do
    let value ← val_read data val_in 1
    match value with
    | 0 => .ok (true, hex8_text value "R0")
    | 1 => .ok (true, hex8_text value "R1")
    | 2 => .ok (true, hex8_text value "R2")
    | _ => .ok (true, hex8_text value "Reserved")
  else if specific_index = LAP_IAC then some do
    let value ← val_read data val_in 4
    if value = 0x009E8B33 then
      .ok (true, "(0x" ++ fmt_x 8 value ++ ") General/Unlimited Inquiry Access Code(GIAC)")
    else .ok (true, "0x" ++ fmt_x 8 value)
  else if specific_index = PACKET_TYPE_ACL then some do
    let value ← val_read data val_in 2
    .ok (true,
      "0x" ++ fmt_x 4 value ++ "\n"
      ++ bit_line value 0x0002 "2-DH1 may not be used\n" "2-DH1 may be used\n"
      ++ bit_line value 0x0004 "3-DH1 may not be used\n" "3-DH1 may be used\n"
      ++ bit_line value 0x0008 "  DM1 may be used \n" "  DM1 may not be used\n"
      ++ bit_line value 0x0010 "  DH1 may be used\n" "  DH1 may not be used\n"
      ++ bit_line value 0x0100 "2-DH3 may not be used\n" "2-DH3 may be used\n"
      ++ bit_line value 0x0200 "3-DH3 may not be used\n" "3-DH3 may be used\n"
      ++ bit_line value 0x0400 "  DM3 may be used\n" "  DM3 may not be used\n"
      ++ bit_line value 0x0800 "  DH3 may be used\n" "  DH3 may not be used\n"
      ++ bit_line value 0x1000 "2-DH5 may not be used\n" "2-DH5 may be used\n"
      ++ bit_line value 0x2000 "3-DH5 may not be used\n" "3-DH5 may be used\n"
      ++ bit_line value 0x4000 "  DM5 may be used\n" "  DM5 may not be used\n"
      ++ bit_line value 0x8000 "  DH5 may be used" "  DH5 may not be used")
  else if specific_index = PACKET_TYPE_SCO then some do
    let value ← val_read data val_in 2
    .ok (true,
      "0x" ++ fmt_x 4 value ++ "\n"
      ++ bit_line value 0x0001 "  HV1 may be used\n" "  HV1 may not be used\n"
      ++ bit_line value 0x0002 "  HV2 may be used\n" "  HV2 may not be used\n"
      ++ bit_line value 0x0004 "  HV3 may be used\n" "  HV3 may not be used\n"
      ++ bit_line value 0x0008 "  EV3 may be used\n" "  EV3 may not be used\n"
      ++ bit_line value 0x0010 "  EV4 may be used\n" "  EV4 may not be used\n"
      ++ bit_line value 0x0020 "  EV5 may be used\n" "  EV5 may not be used\n"
      ++ bit_line value 0x0040 "2-EV3 may not be used\n" "2-EV3 may be used\n"
      ++ bit_line value 0x0080 "3-EV3 may not be used\n" "3-EV3 may be used\n"
      ++ bit_line value 0x0100 "2-EV5 may not be used\n" "2-EV5 may be used\n"
      ++ bit_line value 0x0200 "3-EV5 may not be used" "3-EV5 may be used")
  else if specific_index = SIMPLE_PAIRING_MODE then some do
    let value ← val_read data val_in 1
    match value with
    | 0 => .ok (true, hex8_text value "Simple Pairing mode disabled(default)")
    | 1 => .ok (true, hex8_text value "Simple Pairing mode enabled")
    | _ => .ok (true, hex8_text value "Reserved for future use")
  else if specific_index = SIMPLE_PAIRING_DEBUG_MODE then some do
    let value ← val_read data val_in 1
    match value with
    | 0 => .ok (true, hex8_text value "Simple Pairing debug mode disabled(default)")
    | 1 => .ok (true, hex8_text value "Simple Pairing debug mode enabled")
    | _ => .ok (true, hex8_text value "Reserved for future use")
  else if specific_index = FEC_REQUIRED then some do
    let value ← val_read data val_in 1
    match value with
    | 0 => .ok (true, hex8_text value "FEC is not required")
    | 1 => .ok (true, hex8_text value "FEC is required")
    | _ => .ok (true, hex8_text value "Reserved")
  else if specific_index = RSSI then some do
    let octet ← val_read data val_in 1
    let value : Int := if octet < 128 then (octet : Int) else (octet : Int) - 256
    if value = 127 then .ok (true, hex8_text octet "RSSI is not available")
    else if value > 21 ∧ value < 126 then .ok (true, hex8_text octet "Reserved for future use")
    else .ok (true, hex8_text octet (fmt_d value ++ " dBm"))
  else if specific_index = DELETE_ALL_FLAG then some do
    let value ← val_read data val_in 1
    match value with
    | 0 => .ok (true, hex8_text value "Delete only the Link Key for specified BD_ADDR")
    | 1 => .ok (true, hex8_text value "Delete all stored Link Keys.")
    | _ => .ok (true, hex8_text value "Reserved for future use")
  else none

/-- The cases `LE_META_EVENT_ADVERTISING_REPORT_EVENT_TYPE .. PEER_ADDRESS_TYPE`
(200 and above) of the switch of `parse_special_displayed_parameters`. -/
def special_le_parameter (specific_index : Int) (data : List Nat)
    (val_in : ValIn) : Option (Except Fault (Bool × String)) :=
  if specific_index = LE_META_EVENT_ADVERTISING_REPORT_EVENT_TYPE then some do
    let value ← val_read data val_in 1
    match value with
    | 0 => .ok (true, hex8_text value "Connectable undirected advertising(ADV_IND)")
    | 1 => .ok (true, hex8_text value "Connectable directed advertising(ADV_DIRECT_IND)")
    | 2 => .ok (true, hex8_text value "Scannable undirected advertising(ADV_SCAN_IND)")
    | 3 => .ok (true, hex8_text value "Non connectable undirected advertising(ADV_NONCONN_IND)")
    | 4 => .ok (true, hex8_text value "Scan Response(SCAN_RSP)")
    | _ => .ok (true, hex8_text value "Reserved for future use")
  else if specific_index = LE_META_EVENT_ADVERTISING_REPORT_ADDRESS_TYPE then some do
    let value ← val_read data val_in 1
    match value with
    | 0 => .ok (true, hex8_text value "Public Device Address")
    | 1 => .ok (true, hex8_text value "Random Device Address")
    | 2 => .ok (true, hex8_text value
        "Public Identity Address(Corresponds to Resolved Private Address)")
    | 3 => .ok (true, hex8_text value
        "Random(static) Identity Address(Corresponds to Resolved Private Address)")
    | _ => .ok (true, hex8_text value "Reserved for future use")
  else if specific_index = ADVERTISING_TYPE then some do
    let value ← val_read data val_in 1
    match value with
    | 0 => .ok (true, hex8_text value "Connectable undirected advertising(ADV_IND)(default)")
    | 1 => .ok (true, hex8_text value
        "Connectable high duty cycle directed advertising(ADV_DIRECT_IND, high duty cycle)")
    | 2 => .ok (true, hex8_text value "Scannable undirected advertising(ADV_SCAN_IND)")
    | 3 => .ok (true, hex8_text value "Non connectable undirected advertising(ADV_NONCONN_IND)")
    | 4 => .ok (true, hex8_text value
        "Connectable low duty cycle directed advertising(ADV_DIRECT_IND, low duty cycle)")
    | _ => .ok (true, hex8_text value "Reserved for future use")
  else if specific_index = ADVERTISING_ENABLE then some do
    let value ← val_read data val_in 1
    match value with
    | 0 => .ok (true, hex8_text value "Advertising is disabled(default)")
    | 1 => .ok (true, hex8_text value "Advertising is enabled")
    | _ => .ok (true, hex8_text value "Reserved for future use")
  else if specific_index = LE_SCAN_TYPE then some do
    let value ← val_read data val_in 1
    match value with
    | 0 => .ok (true, hex8_text value
        "Passive Scanning. No SCAN_REQ packets shall be sent.(default)")
    | 1 => .ok (true, hex8_text value "Active scanning. SCAN_REQ packets may be sent.")
    | _ => .ok (true, hex8_text value "Reserved for future use")
  else if specific_index = LE_SCAN_ENABLE then some do
    let value ← val_read data val_in 1
    match value with
    | 0 => .ok (true, hex8_text value "Scanning disabled")
    | 1 => .ok (true, hex8_text value "Scanning enabled")
    | _ => .ok (true, hex8_text value "Reserved for future use")
  else if specific_index = FILTER_DUPLICATES then some do
    let value ← val_read data val_in 1
    match value with
    | 0 => .ok (true, hex8_text value "Duplicate filtering disabled")
    | 1 => .ok (true, hex8_text value "Duplicate filtering  enabled")
    | _ => .ok (true, hex8_text value "Reserved for future use")
  else if specific_index = ADDRESS_TYPE then some do
    let value ← val_read data val_in 1
    match value with
    | 0 => .ok (true, hex8_text value "Public Device Address")
    | 1 => .ok (true, hex8_text value "Random Device Address")
    | _ => .ok (true, hex8_text value "Reserved for future use")
  else if specific_index = OWN_ADDRESS_TYPE then some do
    let value ← val_read data val_in 1
    match value with
    | 0 => .ok (true, hex8_text value "Public Device Address(default)")
    | 1 => .ok (true, hex8_text value "Random Device Address")
    | 2 => .ok (true, hex8_text value
        "Controller generates Resolvable Private Address based on the local IRK from resolving list. If resolving list contains no matching entry, use public address")
    | 3 => .ok (true, hex8_text value
        "Controller generates Resolvable Private Address based on the local IRK from resolving list. If resolving list contains no matching entry, use random address from LE_Set_Random_Address")
    | _ => .ok (true, hex8_text value "Reserved for future use")
  else if specific_index = PEER_IDENTITY_ADDRESS_TYPE then some do
    let value ← val_read data val_in 1
    match value with
    | 0 => .ok (true, hex8_text value "Public Identity Address")
    | 1 => .ok (true, hex8_text value "Random(static) Identity Address")
    | _ => .ok (true, hex8_text value "Reserved for future use")
  else if specific_index = PEER_ADDRESS_TYPE then some do
    let value ← val_read data val_in 1
    match value with
    | 0 => .ok (true, hex8_text value
        "Public Device Address(default) or Public Identity Address")
    | 1 => .ok (true, hex8_text value
        "Random Device Address or Random(static) Identity Address")
    | _ => .ok (true, hex8_text value "Reserved for future use")
  else none

/-- The macro `HCI_HIDE_SECURITY_DATA`, defined `TRUE`. -/
def HCI_HIDE_SECURITY_DATA : Bool := true

/-- The function `parse_special_displayed_parameters(specific_index, val_in,
val_len, display_buf)`: the returned flag and the text written to `display_buf`.
A `break` out of the switch leaves the buffer untouched and returns `false`. -/
def parse_special_displayed_parameters (specific_index : Int) (data : List Nat)
    (val_in : ValIn) : Except Fault (Bool × String) :=
  match special_configuration_parameter specific_index data val_in with
  | some r => r
  | none =>
    match special_other_parameter specific_index data val_in with
    | some r => r
    | none =>
      match special_le_parameter specific_index data val_in with
      | some r => r
      | none =>
        if HCI_HIDE_SECURITY_DATA = true ∧
            (specific_index = SECURITY_KEY_TYPE ∨ specific_index = SECURITY_PASSKEY_TYPE) then
          .ok (true, "(Security Data is Hidden)")
        else .ok (false, "")

/-! ## Field interpreter -/

/-- The text of a loop of `sprintf(buf_ptr, "%02x ", octet)` over `bs`. -/
def hex_dump : List Nat → String
  | [] => ""
  | b :: bs => fmt_x 2 b ++ " " ++ hex_dump bs

/-- The text of a loop of `sprintf(buf_ptr, "%c", octet)` over `bs`. -/
def char_dump : List Nat → String
  | [] => ""
  | b :: bs => fmt_c b ++ char_dump bs

/-- The text of the loop `while (--i >= 0) sprintf(buf_ptr, "-%02x", addr[i])`
over the octets given in the order in which the loop visits them. -/
def dash_dump : List Nat → String
  | [] => ""
  | b :: bs => "-" ++ fmt_x 2 b ++ dash_dump bs

/-- The address text written from `uint8_t addr[6]` (given in stream order):
`"0x%02x"` of `addr[5]`, then `"-%02x"` of `addr[4]` down to `addr[0]`. -/
def bd_addr_text (addr : List Nat) : String :=
  "0x" ++ fmt_x 2 (addr.getD 5 0) ++ dash_dump (addr.take 5).reverse

/-- A loop `for (n = 0; n < param_length; n++) STREAM_TO_UINT8(param_value, data)`:
the octets read and the cursor after the loop. -/
def read_octets (data : List Nat) (pos : Int) (param_length : Int) :
    Except Fault (List Nat × Int) :=
  match octets_at data pos param_length.toNat with
  | some bs => .ok (bs, pos + param_length.toNat)
  | none => .error .read_outside_packet

/-- The chain `if (param_length == sizeof(uint8_t)) STREAM_TO_UINT8 ... else if
(param_length == sizeof(uint32_t)) STREAM_TO_UINT32`; `none` is the final `else`. -/
def read_by_width (bo : ByteOrder) (data : List Nat) (pos : Int) (param_length : Int) :
    Option (Except Fault (Nat × Int)) :=
  if param_length = 1 then some (STREAM_TO_UINT8 data pos)
  else if param_length = 2 then some (STREAM_TO_UINT bo 2 data pos)
  else if param_length = 3 then some (STREAM_TO_UINT bo 3 data pos)
  else if param_length = 4 then some (STREAM_TO_UINT bo 4 data pos)
  else none

/-- The `default:` case of the switch of `parse_parameter`, which is also the
code of `case SEQ_HEX:`: the octets in `"%02x "` form, then `"(truncated)"` when
the flag is set. The result is the text, the cursor and `param_length`. -/
def dump_parameter (data : List Nat) (pos : Int) (param_length : Int) (data_truncated : Bool) :
    Except Fault (String × Int × Int) :=
  match read_octets data pos param_length with
  | .error e => .error e
  | .ok (bs, pos1) =>
    .ok (hex_dump bs ++ (if data_truncated then "(truncated)" else ""), pos1, param_length)

/-- The switch over `param_type` of `parse_parameter`: the text written to the
value buffer, the cursor after the reads, and `param_length` as the code after
the switch sees it (`case TEXT_BD_ADDR:` assigns it inside its `assert`). -/
def render_parameter (bo : ByteOrder) (param_type : HCI_PARAM_DISPLAY_TYPE)
    (param_repr : HCI_PARAMETER_REPR) (param_length : Int) (data_truncated : Bool)
    (data : List Nat) (pos : Int) : Except Fault (String × Int × Int) :=
  match param_type with
  | .INT_HEX =>
    match read_by_width bo data pos param_length with
    | none => .error .assertion
    | some (.error e) => .error e
    | some (.ok (param_value, pos1)) =>
      .ok ("0x" ++ fmt_x (if param_length = 1 then 2 else if param_length = 2 then 4 else 8)
        param_value, pos1, param_length)
  | .INT_DEC =>
    match read_by_width bo data pos param_length with
    | none => .error .assertion
    | some (.error e) => .error e
    | some (.ok (param_value, pos1)) => .ok (fmt_u param_value, pos1, param_length)
  | .INT_HANDLE =>
    if param_length = 2 then
      match STREAM_TO_UINT bo 2 data pos with
      | .error e => .error e
      | .ok (param_value, pos1) =>
        .ok ("(0x" ++ fmt_x 4 (param_value &&& 0x0fff) ++ ") " ++ fmt_u (param_value &&& 0x0fff),
          pos1, param_length)
    else .error .assertion
  | .SEQ_HEX => dump_parameter data pos param_length data_truncated
  | .SEQ_CHAR =>
    match read_octets data pos param_length with
    | .error e => .error e
    | .ok (bs, pos1) =>
      .ok (char_dump bs ++ (if data_truncated then "(truncated)" else ""), pos1, param_length)
  | .TIME_CLK1 | .TIME_CLK2 | .TIME_CLK5 | .TIME_CLK12 =>
    match (if param_length = 1 then some (STREAM_TO_UINT8 data pos)
           else if param_length = 2 then some (STREAM_TO_UINT bo 2 data pos) else none) with
    | none => .error .assertion
    | some (.error e) => .error e
    | some (.ok (param_value, pos1)) =>
      .ok ("(0x" ++ fmt_x 4 param_value ++ ") " ++
        (match param_type with
         | .TIME_CLK1 => fmt_lf param_value 5 8 ++ " msec."
         | .TIME_CLK2 => fmt_lf param_value 5 4 ++ " msec."
         | .TIME_CLK5 => fmt_lf param_value 10 1 ++ " msec."
         | _ => fmt_lf param_value 32 25 ++ " sec."), pos1, param_length)
  | .TEXT_REASON_STATUS_CODE =>
    match STREAM_TO_UINT8 data pos with
    | .error e => .error e
    | .ok (param_value, pos1) =>
      match EVENT_STATUS_TEXT[param_value]? with
      | none => .error .status_text_out_of_range
      | some text => .ok ("(0x" ++ fmt_x 2 param_value ++ ") " ++ c_str text, pos1, param_length)
  | .TEXT_BD_ADDR =>
    match read_octets data pos 6 with
    | .error e => .error e
    | .ok (addr, pos1) => .ok (bd_addr_text addr, pos1, 6)
  | .TEXT_SPECIAL_DISPLAY_PARAM =>
    match (match read_by_width bo data pos param_length with
           | none => Except.ok (ValIn.stream pos, pos + param_length)
           | some (.error e) => .error e
           | some (.ok (param_value, pos1)) => .ok (ValIn.word param_value, pos1)) with
    | .error e => .error e
    | .ok (param_ptr, pos1) =>
      match parse_special_displayed_parameters param_repr.index_of_special_display_param
          data param_ptr with
      | .error e => .error e
      | .ok (true, text) => .ok (text, pos1, param_length)
      | .ok (false, _) => dump_parameter data (pos1 - param_length) param_length data_truncated
  | .UNSET => dump_parameter data pos param_length data_truncated

/-- The function `parse_parameter(instance, param_repr, param_seq_num, parse_data,
data_left, indent_level)`: the instance, the cursor `*parse_data` and the budget
`*data_left` after the call. -/
def parse_parameter (bo : ByteOrder) (inst : HCI_INSTANCE) (param_repr : HCI_PARAMETER_REPR)
    (param_seq_num : Int) (data : List Nat) (pos : Int) (data_left : Int)
    (indent_level : Nat) : Except Fault (HCI_INSTANCE × Int × Int) :=
  match value_update inst inst.value_index (fun v =>
      { v with name := param_repr.name, seq_num := param_seq_num,
               indent_level := indent_level }) with
  | .error e => .error e
  | .ok inst1 =>
    match (if param_repr.length < 0 then
             match value_at inst1 (inst1.value_index + param_repr.length) with
             | .error e => .error e
             | .ok length_refer => .ok (to_int (strtol length_refer.value))
           else Except.ok param_repr.length) with
    | .error e => .error e
    | .ok param_length =>
      let data_truncated : Bool := decide (param_length > data_left ∧ param_length ≠ INT_MAX)
      let param_type := if param_length > data_left then .SEQ_HEX else param_repr.display_type
      let param_length1 := if param_length > data_left then data_left else param_length
      match render_parameter bo param_type param_repr param_length1 data_truncated data pos with
      | .error e => .error e
      | .ok (text, pos1, param_length2) =>
        match value_update inst1 inst1.value_index (fun v =>
            { v with value := sprintf_into v.value text }) with
        | .error e => .error e
        | .ok inst2 =>
          .ok ({ inst2 with value_index := inst2.value_index + 1 }, pos1,
            data_left - param_length2)

/-! ## Instance walker -/

/-- The state the walker threads through: the instance, the cursor `data` and
the budget `left_len`. -/
abbrev WalkState := HCI_INSTANCE × Int × Int

/-- The innermost loop of `parse_hci_instance`,
`for (repeat_param_index = ..; repeat_param_index <= repeat_param_num && left_len >= 0; ..)`,
with `n` iterations still allowed by the first condition. -/
def repeat_unit (bo : ByteOrder) (hci_param_repr : List HCI_PARAMETER_REPR) (i : Nat)
    (repeat_seq : Int) (data : List Nat) (indent_level : Nat) :
    Nat → Nat → WalkState → Except Fault WalkState
  | 0, _, st => .ok st
  | n + 1, repeat_param_index, (inst, pos, left_len) =>
    if left_len ≥ 0 then
      match descriptor_at hci_param_repr (i + repeat_param_index) with
      | .error e => .error e
      | .ok param_repr =>
        match parse_parameter bo inst param_repr repeat_seq data pos left_len indent_level with
        | .error e => .error e
        | .ok st1 =>
          repeat_unit bo hci_param_repr i repeat_seq data indent_level n
            (repeat_param_index + 1) st1
    else .ok (inst, pos, left_len)

/-- The middle loop of `parse_hci_instance`,
`for (repeat = ..; repeat < repeat_count && left_len >= 0; repeat++)`,
with `n` iterations still allowed by the first condition; `repeat_index` is the
loop variable `repeat`. -/
def repeat_units (bo : ByteOrder) (hci_param_repr : List HCI_PARAMETER_REPR) (i : Nat)
    (repeat_param_num : Nat) (data : List Nat) (indent_level : Nat) :
    Nat → Int → WalkState → Except Fault WalkState
  | 0, _, st => .ok st
  | n + 1, repeat_index, (inst, pos, left_len) =>
    if left_len ≥ 0 then
      match repeat_unit bo hci_param_repr i (repeat_index + 1) data indent_level repeat_param_num 1
          (inst, pos, left_len) with
      | .error e => .error e
      | .ok st1 =>
        repeat_units bo hci_param_repr i repeat_param_num data indent_level n (repeat_index + 1) st1
    else .ok (inst, pos, left_len)

/-- The outer loop of `parse_hci_instance`,
`for (i = ..; i < param_count && left_len >= 0; i++)`. Every iteration increases
`i`, so `param_count - i` iterations are enough; `fuel` counts them. -/
def walk_parameters (bo : ByteOrder) (hci_param_repr : List HCI_PARAMETER_REPR)
    (param_count : Nat) (data : List Nat) (indent_level : Nat) :
    Nat → Nat → WalkState → Except Fault WalkState
  | 0, _, st => .ok st
  | fuel + 1, i, (inst, pos, left_len) =>
    if i < param_count ∧ left_len ≥ 0 then
      match descriptor_at hci_param_repr i with
      | .error e => .error e
      | .ok param_repr =>
        match parse_parameter bo inst param_repr 0 data pos left_len indent_level with
        | .error e => .error e
        | .ok (inst1, pos1, left_len1) =>
          if param_repr.repeat_param_num ≤ 0 then
            walk_parameters bo hci_param_repr param_count data indent_level fuel (i + 1)
              (inst1, pos1, left_len1)
          else
            match value_at inst1 ((inst1.value_index : Int) - 1) with
            | .error e => .error e
            | .ok count_value =>
              let repeat_count := to_int (strtol count_value.value)
              match repeat_units bo hci_param_repr i param_repr.repeat_param_num.toNat data
                  indent_level repeat_count.toNat 0 (inst1, pos1, left_len1) with
              | .error e => .error e
              | .ok st2 =>
                walk_parameters bo hci_param_repr param_count data indent_level fuel
                  (i + param_repr.repeat_param_num.toNat + 1) st2
    else .ok (inst, pos, left_len)

/-- The function `parse_hci_instance(hci_object, hci_param_repr, param_count,
parse_data, length, length_left, indent_level)`. -/
def parse_hci_instance (bo : ByteOrder) (hci_object : HCI_INSTANCE)
    (hci_param_repr : List HCI_PARAMETER_REPR) (param_count : Nat) (data : List Nat)
    (pos : Int) (length_left : Int) (indent_level : Nat) : Except Fault WalkState :=
  walk_parameters bo hci_param_repr param_count data indent_level param_count 0
    (hci_object, pos, length_left)

/-! ## Formatter -/

/-- The indentation string `LINE_INDENT[k]`. -/
def line_indent (k : Nat) : Except Fault String :=
  match LINE_INDENT[k]? with
  | some s => .ok s
  | none => .error .indent_out_of_range

/-- One field line: `"%s[%d] %s: %s"` when `seq_num > 0`, `"%s%s: %s"` otherwise. -/
def field_line (val : HCI_PARAM_VALUE) : Except Fault String :=
  match line_indent val.indent_level with
  | .error e => .error e
  | .ok indent =>
    if val.seq_num > 0 then
      .ok (indent ++ "[" ++ fmt_d val.seq_num ++ "] " ++ fmt_s val.name ++ ": " ++ c_str val.value)
    else .ok (indent ++ fmt_s val.name ++ ": " ++ c_str val.value)

/-- The loop over `value[0 .. value_index - 1]` that logs one line per field. -/
def field_lines : List HCI_PARAM_VALUE → Except Fault (List String)
  | [] => .ok []
  | val :: vals =>
    match field_line val with
    | .error e => .error e
    | .ok line =>
      match field_lines vals with
      | .error e => .error e
      | .ok lines => .ok (line :: lines)

/-- The size of `static char log_buf[255*3]`. -/
def LOG_BUF_SIZE : Nat := 255 * 3

/-- The block `if (left_len > 0) { ... "%sRaw Data: %s" ... }`: the octets
`data[0 .. left_len - 1]` behind the cursor as one line, or no line. Call `i` of
`sprintf(buf_ptr, "%02x ", data[i])` writes three characters and the terminating
NUL to `log_buf[3 * i .. 3 * i + 3]`, so the text of `left_len` octets needs
`3 * left_len + 1` elements; with more than 254 octets the call `i = 254`, which
comes after the reads `data[0 .. 254]`, writes behind the buffer. -/
def raw_data_lines (data : List Nat) (pos : Int) (left_len : Int) : Except Fault (List String) :=
  if left_len > 0 then
    if 3 * left_len + 1 > LOG_BUF_SIZE then
      match read_octets data pos (LOG_BUF_SIZE / 3 : Nat) with
      | .error e => .error e
      | .ok _ => .error .log_buf_out_of_range
    else
      match read_octets data pos left_len with
      | .error e => .error e
      | .ok (bs, _) =>
        match line_indent INDENT_LEVEL_1 with
        | .error e => .error e
        | .ok indent => .ok [indent ++ "Raw Data: " ++ c_str (hex_dump bs)]
  else .ok []

/-- The printing part shared by `parse_hci_command` and `parse_hci_event`: the
records passed to `LOG_DEBUG`, in order. `header` is the first line. -/
def print_instance (header : String) (inst : HCI_INSTANCE) (data : List Nat) (pos : Int)
    (left_len : Int) : Except Fault (List String) :=
  if inst.value_index = 0 ∧ left_len = 0 then .ok [header]
  else
    match field_lines (fields inst) with
    | .error e => .error e
    | .ok lines =>
      match raw_data_lines data pos left_len with
      | .error e => .error e
      | .ok raw => .ok (header :: lines ++ raw)

/-! ## Packet entry points -/

/-- The instance after `memset(&hci_command, 0, sizeof(hci_command))` and the
assignments of the header members. -/
def new_instance (name : Option String) (opcode length parameter_count : Nat) : HCI_INSTANCE :=
  { name := name, opcode := opcode, parameter_length := length,
    parameter_count := parameter_count, value_index := 0 }

/-- The text chosen by the chain of comparisons of `auto_accept_flag`, which the
source writes out three times in the `HCI_Set_Event_Filter` block. -/
def auto_accept_flag_text (auto_accept_flag : Nat) : String :=
  if auto_accept_flag = 0x01 then
    hex8_text auto_accept_flag "Do NOT Auto accept the connection (Auto accept is off)."
  else if auto_accept_flag = 0x02 then
    hex8_text auto_accept_flag
      "Do Auto accept the connection with role switch disabled (Auto accept is on)."
  else if auto_accept_flag = 0x03 then
    hex8_text auto_accept_flag
      "Do Auto accept the connection with role switch enabled (Auto accept is on)."
  else hex8_text auto_accept_flag "Reserved for future use."

/-- A new slot `value[value_index]` of the `HCI_Set_Event_Filter` block and of the
event post-processors: the members the source assigns (`name` only where it does),
then `value_index++`. -/
def push_value (inst : HCI_INSTANCE) (name : Option (Option String)) (indent : Option Nat)
    (text : String) : Except Fault HCI_INSTANCE :=
  match value_update inst inst.value_index (fun v =>
      { v with name := name.getD v.name, indent_level := indent.getD v.indent_level,
               value := sprintf_into v.value text }) with
  | .error e => .error e
  | .ok inst1 => .ok { inst1 with value_index := inst1.value_index + 1 }

/-- The two fields `Class_of_Device` and `Class_of_Device_Mask` of the
`HCI_Set_Event_Filter` block: two `STREAM_TO_UINT24` reads, `left_len -= 3` each. -/
def class_of_device_fields (bo : ByteOrder) (data : List Nat) (st : WalkState) :
    Except Fault WalkState :=
  match STREAM_TO_UINT bo 3 data st.2.1 with
  | .error e => .error e
  | .ok (class_of_device, pos1) =>
    match push_value st.1 (some (some "Class_of_Device")) (some INDENT_LEVEL_1)
        ("0x" ++ fmt_x 8 class_of_device) with
    | .error e => .error e
    | .ok inst1 =>
      match STREAM_TO_UINT bo 3 data pos1 with
      | .error e => .error e
      | .ok (class_of_device_mask, pos2) =>
        match push_value inst1 (some (some "Class_of_Device_Mask")) (some INDENT_LEVEL_1)
            ("0x" ++ fmt_x 8 class_of_device_mask) with
        | .error e => .error e
        | .ok inst2 => .ok (inst2, pos2, st.2.2 - 3 - 3)

/-- The field `BD_ADDR` of the `HCI_Set_Event_Filter` block: six octets, `left_len -= 6`. -/
def bd_addr_field (data : List Nat) (st : WalkState) : Except Fault WalkState :=
  match value_update st.1 st.1.value_index (fun v =>
      { v with name := some "BD_ADDR", indent_level := INDENT_LEVEL_1 }) with
  | .error e => .error e
  | .ok inst1 =>
    match read_octets data st.2.1 6 with
    | .error e => .error e
    | .ok (addr, pos1) =>
      match value_update inst1 inst1.value_index (fun v =>
          { v with value := sprintf_into v.value (bd_addr_text addr) }) with
      | .error e => .error e
      | .ok inst2 => .ok ({ inst2 with value_index := inst2.value_index + 1 }, pos1, st.2.2 - 6)

/-- The field `Auto_Accept_Flag` of the `HCI_Set_Event_Filter` block; `named` tells
whether this branch of the source assigns `name` and `indent_level` of the slot
(the branch for condition type 0x02 does not). -/
def auto_accept_flag_field (named : Bool) (data : List Nat) (st : WalkState) :
    Except Fault WalkState :=
  match STREAM_TO_UINT8 data st.2.1 with
  | .error e => .error e
  | .ok (auto_accept_flag, pos1) =>
    match push_value st.1 (if named then some (some "Auto_Accept_Flag") else none)
        (if named then some INDENT_LEVEL_1 else none) (auto_accept_flag_text auto_accept_flag) with
    | .error e => .error e
    | .ok inst1 => .ok (inst1, pos1, st.2.2 - 1)

/-- The condition-type slot of the `HCI_Set_Event_Filter` block: one octet is read,
`left_len--`, and the slot gets its name and indentation; its text is written
later through the saved buffer pointer, slot `value_index - 1` of the result. -/
def condition_type_field (name : String) (data : List Nat) (st : WalkState) :
    Except Fault (Nat × WalkState) :=
  match STREAM_TO_UINT8 data st.2.1 with
  | .error e => .error e
  | .ok (condition_type, pos1) =>
    match value_update st.1 st.1.value_index (fun v =>
        { v with name := some name, indent_level := INDENT_LEVEL_1 }) with
    | .error e => .error e
    | .ok inst1 =>
      .ok (condition_type, { inst1 with value_index := inst1.value_index + 1 }, pos1, st.2.2 - 1)

/-- A `sprintf` to the start of the buffer of slot `k`. -/
def set_value (inst : HCI_INSTANCE) (k : Int) (text : String) : Except Fault HCI_INSTANCE :=
  value_update inst k (fun v => { v with value := sprintf_into v.value text })

/-- The block `if (hci_cmd_matched->opcode == 0x0C05) { ... }` of `parse_hci_command`
(`HCI_Set_Event_Filter`). -/
def set_event_filter (bo : ByteOrder) (data : List Nat) (st : WalkState) :
    Except Fault WalkState :=
  let curr : Int := (st.1.value_index : Int) - 1
  match value_at st.1 curr with
  | .error e => .error e
  | .ok curr_value =>
    let filter_type := to_uint8 (strtol curr_value.value)
    if filter_type = 0x00 then
      match set_value st.1 curr (hex8_text filter_type "Clear All Filters.") with
      | .error e => .error e
      | .ok inst1 => .ok (inst1, st.2)
    else if filter_type = 0x01 then
      match set_value st.1 curr (hex8_text filter_type "Inquiry Result") with
      | .error e => .error e
      | .ok inst1 =>
        match condition_type_field "Inquiry_Result_Filter_Condition_Type" data (inst1, st.2) with
        | .error e => .error e
        | .ok (condition_type, st1) =>
          let slot : Int := (st1.1.value_index : Int) - 1
          if condition_type = 0x00 then
            match set_value st1.1 slot (hex8_text condition_type
                "Return responses from all devices during the Inquiry process") with
            | .error e => .error e
            | .ok inst2 => .ok (inst2, st1.2)
          else if condition_type = 0x01 then
            match set_value st1.1 slot (hex8_text condition_type
                "A device with a specific Class of Device responded to the Inquiry process") with
            | .error e => .error e
            | .ok inst2 => class_of_device_fields bo data (inst2, st1.2)
          else if condition_type = 0x02 then
            match set_value st1.1 slot (hex8_text condition_type
                "A device with a specific BD_ADDR responded to the Inquiry process") with
            | .error e => .error e
            | .ok inst2 => bd_addr_field data (inst2, st1.2)
          else
            match set_value st1.1 slot (hex8_text condition_type "Reserved for future use") with
            | .error e => .error e
            | .ok inst2 => .ok (inst2, st1.2)
    else if filter_type = 0x02 then
      match set_value st.1 curr (hex8_text filter_type "Connection Setup.") with
      | .error e => .error e
      | .ok inst1 =>
        match condition_type_field "Connection_Setup_Filter_Condition_Type" data
            (inst1, st.2) with
        | .error e => .error e
        | .ok (condition_type, st1) =>
          let slot : Int := (st1.1.value_index : Int) - 1
          if condition_type = 0x00 then
            match set_value st1.1 slot (hex8_text condition_type
                "Allow Connections from all devices") with
            | .error e => .error e
            | .ok inst2 => auto_accept_flag_field true data (inst2, st1.2)
          else if condition_type = 0x01 then
            match set_value st1.1 slot (hex8_text condition_type
                "Allow Connections from a device with a specific Class of Device") with
            | .error e => .error e
            | .ok inst2 =>
              match class_of_device_fields bo data (inst2, st1.2) with
              | .error e => .error e
              | .ok st2 => auto_accept_flag_field true data st2
          else if condition_type = 0x02 then
            match set_value st1.1 slot (hex8_text condition_type
                "Allow Connections from a device with a specific BD_ADDR") with
            | .error e => .error e
            | .ok inst2 =>
              match bd_addr_field data (inst2, st1.2) with
              | .error e => .error e
              | .ok st2 => auto_accept_flag_field false data st2
          else
            match set_value st1.1 slot (hex8_text condition_type "Reserved for future use") with
            | .error e => .error e
            | .ok inst2 => .ok (inst2, st1.2)
    else
      match set_value st.1 curr (hex8_text filter_type "Reserved for future use.") with
      | .error e => .error e
      | .ok inst1 => .ok (inst1, st.2)

/-- The decoding part of `parse_hci_command` after the lookup succeeded: the
generic parameters when `parameter_count > 0`, then the `HCI_Set_Event_Filter` block. -/
def decode_hci_command (bo : ByteOrder) (hci_cmd_matched : HCI_UNIT_REPR) (opcode length : Nat)
    (data : List Nat) (pos : Int) : Except Fault WalkState :=
  let hci_command :=
    new_instance hci_cmd_matched.name opcode length hci_cmd_matched.parameter_count
  match (if hci_cmd_matched.parameter_count > 0 then
           parse_hci_instance bo hci_command hci_cmd_matched.parameter
             hci_cmd_matched.parameter_count data pos length INDENT_LEVEL_1
         else Except.ok (hci_command, pos, (length : Int))) with
  | .error e => .error e
  | .ok st =>
    if hci_cmd_matched.opcode = 0x0C05 then set_event_filter bo data st else .ok st

/-- The header line `"%s HCI Command: %s(0x%04x), Parameter Length: %zu"`. -/
def command_header (time_str : String) (inst : HCI_INSTANCE) : String :=
  fmt_s (some time_str) ++ " HCI Command: " ++ fmt_s inst.name ++ "(0x" ++ fmt_x 4 inst.opcode
    ++ "), Parameter Length: " ++ fmt_u inst.parameter_length

/-- The function `parse_hci_command(parse_command, time_str)`: the records passed
to `LOG_DEBUG`, in order. The packet starts at index 0 of `parse_command`. -/
def parse_hci_command (bo : ByteOrder) (parse_command : List Nat) (time_str : String) :
    Except Fault (List String) :=
  match STREAM_TO_UINT bo 2 parse_command 0 with
  | .error e => .error e
  | .ok (opcode, pos1) =>
    match STREAM_TO_UINT8 parse_command pos1 with
    | .error e => .error e
    | .ok (length, pos2) =>
      match get_matched_hci_cmd_repr opcode with
      | none => .ok []
      | some hci_cmd_matched =>
        if hci_cmd_matched.name = none then .ok []
        else
          match decode_hci_command bo hci_cmd_matched opcode length parse_command pos2 with
          | .error e => .error e
          | .ok (hci_command, pos3, left_len) =>
            print_instance (command_header time_str hci_command) hci_command parse_command
              pos3 left_len

/-- The block `if (eventcode == 0x0E) { ... }` of `parse_hci_event` (Command Complete). -/
def command_complete (bo : ByteOrder) (data : List Nat) (st : WalkState) :
    Except Fault WalkState :=
  match value_at st.1 1 with
  | .error e => .error e
  | .ok opcode_value =>
    let opcode := to_uint16 (strtol opcode_value.value)
    match get_matched_hci_cmd_repr opcode with
    | none => .ok st
    | some hci_cmd_matched =>
      if hci_cmd_matched.name = none then .ok st
      else
        match set_value st.1 1 (fmt_s hci_cmd_matched.name ++ "(0x" ++ fmt_x 4 opcode ++ ")") with
        | .error e => .error e
        | .ok inst1 =>
          if hci_cmd_matched.return_parameter_count ≠ 0 then
            match value_update inst1 inst1.value_index (fun v =>
                { v with name := some "Return Parameter", indent_level := INDENT_LEVEL_1 }) with
            | .error e => .error e
            | .ok inst2 =>
              parse_hci_instance bo { inst2 with value_index := inst2.value_index + 1 }
                hci_cmd_matched.return_parameter hci_cmd_matched.return_parameter_count data
                st.2.1 st.2.2 INDENT_LEVEL_2
          else .ok (inst1, st.2)

/-- The block `else if (eventcode == 0x0F) { ... }` of `parse_hci_event` (Command Status). -/
def command_status (st : WalkState) : Except Fault WalkState :=
  match value_at st.1 2 with
  | .error e => .error e
  | .ok opcode_value =>
    let opcode := to_uint16 (strtol opcode_value.value)
    match get_matched_hci_cmd_repr opcode with
    | none => .ok st
    | some hci_cmd_matched =>
      if hci_cmd_matched.name = none then .ok st
      else
        match set_value st.1 2 (fmt_s hci_cmd_matched.name ++ "(0x" ++ fmt_x 4 opcode ++ ")") with
        | .error e => .error e
        | .ok inst1 => .ok (inst1, st.2)

/-- The block `else if (eventcode == 0x3E) { ... }` of `parse_hci_event` (LE Meta Event). -/
def le_meta_event (bo : ByteOrder) (data : List Nat) (st : WalkState) :
    Except Fault WalkState :=
  match STREAM_TO_UINT8 data st.2.1 with
  | .error e => .error e
  | .ok (subeventcode, pos1) =>
    if subeventcode > HCI_LE_META_EVENT_SUBEVENT_NUMBER then .error .subevent_out_of_range
    else
      let subevent := table_slot LE_META_EVENTS subeventcode
      match push_value st.1 (some (some "Subevent_Code")) (some INDENT_LEVEL_1)
          (fmt_s subevent.name ++ "(0x" ++ fmt_x 2 subeventcode ++ ")") with
      | .error e => .error e
      | .ok inst1 =>
        parse_hci_instance bo inst1 subevent.parameter subevent.parameter_count data pos1
          (st.2.2 - 1) INDENT_LEVEL_1

/-- The decoding part of `parse_hci_event` for an event code inside the table:
the generic parameters, then the `do { ... } while (0)` block of post-processors. -/
def decode_hci_event (bo : ByteOrder) (eventcode length : Nat) (data : List Nat) (pos : Int) :
    Except Fault WalkState :=
  let hci_event_repr := table_slot HCI_EVENTS eventcode
  let hci_event := new_instance hci_event_repr.name eventcode length hci_event_repr.parameter_count
  match parse_hci_instance bo hci_event hci_event_repr.parameter hci_event_repr.parameter_count
      data pos length INDENT_LEVEL_1 with
  | .error e => .error e
  | .ok st =>
    if eventcode = 0x0E then command_complete bo data st
    else if eventcode = 0x0F then command_status st
    else if eventcode = 0x19 then .ok st
    else if eventcode = 0x3E then le_meta_event bo data st
    else .ok st

/-- The header line `"%s HCI Event: %s(0x%02x), Parameter Length: %zu"`. -/
def event_header (time_str : String) (inst : HCI_INSTANCE) : String :=
  fmt_s (some time_str) ++ " HCI Event: " ++ fmt_s inst.name ++ "(0x" ++ fmt_x 2 inst.opcode
    ++ "), Parameter Length: " ++ fmt_u inst.parameter_length

/-- The function `parse_hci_event(parse_event, time_str)`: the records passed to
`LOG_DEBUG`, in order. The packet starts at index 0 of `parse_event`. -/
def parse_hci_event (bo : ByteOrder) (parse_event : List Nat) (time_str : String) :
    Except Fault (List String) :=
  match STREAM_TO_UINT8 parse_event 0 with
  | .error e => .error e
  | .ok (eventcode, pos1) =>
    match STREAM_TO_UINT8 parse_event pos1 with
    | .error e => .error e
    | .ok (length, pos2) =>
      if eventcode > HCI_EVENT_NUMBER then .ok []
      else
        match decode_hci_event bo eventcode length parse_event pos2 with
        | .error e => .error e
        | .ok (hci_event, pos3, left_len) =>
          print_instance (event_header time_str hci_event) hci_event parse_event pos3 left_len

/-! ## Schema validation -/

/-- The value of an enumerator of `HCI_PARAM_DISPLAY_TYPE` (`INT_HEX = 0x01`, the
others counting up). -/
def display_type_code : HCI_PARAM_DISPLAY_TYPE → Nat
  | .UNSET => 0
  | .INT_HEX => 1
  | .INT_DEC => 2
  | .INT_HANDLE => 3
  | .SEQ_HEX => 4
  | .SEQ_CHAR => 5
  | .TIME_CLK1 => 6
  | .TIME_CLK2 => 7
  | .TIME_CLK5 => 8
  | .TIME_CLK12 => 9
  | .TEXT_REASON_STATUS_CODE => 10
  | .TEXT_BD_ADDR => 11
  | .TEXT_SPECIAL_DISPLAY_PARAM => 12

/-- The head `"%s FAIL: %s(0x%04x)->%s: "` of the three failure records of
`check_hci_unit_group`; the first `%s` is `__func__`. -/
def check_failure_text (hci_unit : HCI_UNIT_REPR) (param : HCI_PARAMETER_REPR) : String :=
  "check_hci_unit_group FAIL: " ++ fmt_s hci_unit.name ++ "(0x" ++ fmt_x 4 hci_unit.opcode
    ++ ")->" ++ fmt_s param.name ++ ": "

/-- The three tests of the body of the loops of `check_hci_unit_group` for one
descriptor: the records passed to `DBG_LOG`, in order. -/
def check_parameter (hci_unit : HCI_UNIT_REPR) (param : HCI_PARAMETER_REPR) : List String :=
  (if param.repeat_param_num > 0 ∧ param.display_type ≠ .INT_DEC then
      [check_failure_text hci_unit param
        ++ "repeat_param_num param display type should be INT_DEC "]
    else [])
  ++ (if (param.display_type = .INT_DEC ∨ param.display_type = .INT_HEX) ∧ param.length > 4 then
      [check_failure_text hci_unit param
        ++ "length of INT_DEC/INT_HEX param should be less then " ++ fmt_u 4]
    else [])
  ++ (if (display_type_code param.display_type ≥ display_type_code .TIME_CLK1
        ∧ display_type_code param.display_type ≤ display_type_code .TIME_CLK12)
        ∧ param.length > 2 then
      [check_failure_text hci_unit param
        ++ "length of TIME_* param should be less then " ++ fmt_u 2]
    else [])

/-- One of the two loops `for (size_t ii = 0; ii < count; ii++)` of
`check_hci_unit_group` over a descriptor array, with `n` iterations to go. -/
def check_parameters (hci_unit : HCI_UNIT_REPR) (params : List HCI_PARAMETER_REPR) :
    Nat → Nat → Except Fault (List String)
  | 0, _ => .ok []
  | n + 1, ii =>
    match descriptor_at params ii with
    | .error e => .error e
    | .ok param =>
      match check_parameters hci_unit params n (ii + 1) with
      | .error e => .error e
      | .ok records => .ok (check_parameter hci_unit param ++ records)

/-- The loop `for (int i = 0; i <= group_len; i++)` of `check_hci_unit_group`, with
`n` iterations to go. -/
def check_hci_units (hci_unit_group : List (Nat × HCI_UNIT_REPR)) :
    Nat → Nat → Except Fault (List String)
  | 0, _ => .ok []
  | n + 1, i =>
    let hci_unit := table_slot hci_unit_group i
    match check_parameters hci_unit hci_unit.parameter hci_unit.parameter_count 0 with
    | .error e => .error e
    | .ok records1 =>
      match check_parameters hci_unit hci_unit.return_parameter
          hci_unit.return_parameter_count 0 with
      | .error e => .error e
      | .ok records2 =>
        match check_hci_units hci_unit_group n (i + 1) with
        | .error e => .error e
        | .ok records => .ok (records1 ++ records2 ++ records)

/-- The function `check_hci_unit_group(hci_unit_group, group_len)`: the failure
records it logs. -/
def check_hci_unit_group (hci_unit_group : List (Nat × HCI_UNIT_REPR)) (group_len : Nat) :
    Except Fault (List String) :=
  check_hci_units hci_unit_group (group_len + 1) 0

/-- The tables `validate_const_data_format` checks, each with its `group_len`. -/
def validated_tables : List (List (Nat × HCI_UNIT_REPR) × Nat) :=
  [ (HCI_LINK_CONTROL_COMMANDS, LING_CONTROL_NUM),
    (HCI_LINK_POLICY_COMMANDS, LINK_POLICY_NUM),
    (HCI_CONTROLLER_BASEBAND_COMMANDS, CONTROLLER_BASEBAND_NUM),
    (HCI_INFORMATIONAL_PARAMETERS, INFORMATIONAL_PARAMETERS_NUM),
    (HCI_STATUS_PARAMETERS, STATUS_PARAMETERS_NUM),
    (HCI_TESTING_COMMANDS, TESTING_NUM),
    (HCI_LE_CONTROLLER_COMMANDS, LE_CONTROLLER_NUM),
    (HCI_EVENTS, HCI_EVENT_NUMBER),
    (LE_META_EVENTS, HCI_LE_META_EVENT_SUBEVENT_NUMBER) ]

/-- The calls of `check_hci_unit_group` from `tables` on, in order. -/
def validate_tables : List (List (Nat × HCI_UNIT_REPR) × Nat) → Except Fault (List String)
  | [] => .ok []
  | (hci_unit_group, group_len) :: tables =>
    match check_hci_unit_group hci_unit_group group_len with
    | .error e => .error e
    | .ok records1 =>
      match validate_tables tables with
      | .error e => .error e
      | .ok records => .ok (records1 ++ records)

/-- The function `validate_const_data_format()` on its first call (the flag
`const_data_is_checked` is still `false`): the failure records logged. -/
def validate_const_data_format : Except Fault (List String) :=
  validate_tables validated_tables

/-! ## Firmware logger (`fw_log/fw_logger.c`) -/

/-- The macro `FIRMWARE_LOG_BLOCK_SIZE`. -/
def FIRMWARE_LOG_BLOCK_SIZE : Nat := 8

/-- The macro `FIRMWARE_LOG_HEADER_SIZE`. -/
def FIRMWARE_LOG_HEADER_SIZE : Nat := FIRMWARE_LOG_BLOCK_SIZE * 3

/-- The macro `SUBEVENT_CODE_FW_LOG`. -/
def SUBEVENT_CODE_FW_LOG : Nat := 0x50

/-- The descriptor value `INVALID_FD`, which is what a failing `open` returns. -/
def INVALID_FD : Int := -1

/-- The number of values of `size_t` on an LP64 target. -/
def SIZE_RANGE : Nat := 2 ^ 64

/-- One system call the logger issues on a log file. The header is kept as its
fields: the layout of its `FIRMWARE_LOG_HEADER_SIZE` octets is given by stream
macros of `bt_types.h`. -/
inductive FwLogCall where
  /-- `write(fw_log_fd, fw_log_header, FIRMWARE_LOG_HEADER_SIZE)`. -/
  | write_header (fd : Int) (chip_id sequence_num first_packet_len timestamp : Nat)
  /-- `write(fd, buf, n)` with the `n` octets of `buf`. -/
  | write (fd : Int) (octets : List Nat)
  /-- `close(fd)`. -/
  | close (fd : Int)
  deriving DecidableEq

/-- The static variables of the logger that `event_fw_log_data_ready` uses, and
the system calls issued so far. -/
structure FwLogger where
  s_log_max_size : Nat := 0
  fw_log_fd : Int := INVALID_FD
  fw_log_curr_size : Nat := 0
  fw_log_chip_id : Nat := 0
  fw_log_sequence_num : Nat := 0
  calls : List FwLogCall := []
  deriving DecidableEq

/-- What the file system lets `create_fw_log_file` do: the folder cannot be
made, `open` fails, or `open` returns a descriptor. -/
inductive CreateOutcome where
  | mkdir_failed
  | open_failed
  | opened (fd : Nat)
  deriving DecidableEq

/-- The function `create_fw_log_file(first_packet_len, first_packet_timestamp)`:
the returned descriptor and the logger afterwards. The handling of file names
(index, rename, remove) is not part of the model; `first_packet_len` is a `uint8_t`. -/
def create_fw_log_file (outcome : CreateOutcome) (first_packet_len : Nat)
    (first_packet_timestamp : Nat) (s : FwLogger) : Int × FwLogger :=
  match outcome with
  | .mkdir_failed => (INVALID_FD, s)
  | .open_failed => (INVALID_FD, { s with fw_log_fd := INVALID_FD })
  | .opened fd =>
    ((fd : Int),
      { s with
        fw_log_fd := (fd : Int)
        calls := s.calls ++ [.write_header (fd : Int) s.fw_log_chip_id s.fw_log_sequence_num
          (first_packet_len % 256) first_packet_timestamp] })

/-- The record length of `event_fw_log_data_ready`: `data_len` raised to the
block size, computed in `size_t`. -/
def fw_log_record_len (data_len : Nat) : Nat :=
  let temp := data_len % FIRMWARE_LOG_BLOCK_SIZE
  if temp > 0 then (data_len + (FIRMWARE_LOG_BLOCK_SIZE - temp)) % SIZE_RANGE else data_len

/-- The two blocks of `event_fw_log_data_ready` that choose the log file: a file
is created when none is open, and a new one when the record does not fit. -/
def choose_fw_log_file (log_record_len timestamp : Nat) (first second : CreateOutcome)
    (s : FwLogger) : FwLogger :=
  let s1 :=
    if s.fw_log_fd = INVALID_FD then
      let r := create_fw_log_file first log_record_len timestamp
        { s with fw_log_sequence_num := 0 }
      { r.2 with fw_log_fd := r.1, fw_log_curr_size := 0 }
    else s
  if (s1.fw_log_curr_size + log_record_len) % SIZE_RANGE > s1.s_log_max_size then
    let s2 :=
      if s1.fw_log_fd ≠ INVALID_FD then { s1 with calls := s1.calls ++ [.close s1.fw_log_fd] }
      else s1
    let r := create_fw_log_file second log_record_len timestamp
      { s2 with fw_log_sequence_num := (s2.fw_log_sequence_num + 1) % 65536 }
    { r.2 with fw_log_fd := r.1, fw_log_curr_size := 0 }
  else s1

/-- The function `event_fw_log_data_ready(queue, context)` for the dequeued
packet `packet` (the octets of `log_data->packet->data`) with its time stamp. A
`write` is recorded with the octets it is given; `first` and `second` are the
outcomes of the calls of `create_fw_log_file`, if they happen. -/
def event_fw_log_data_ready (packet : List Nat) (timestamp : Nat) (first second : CreateOutcome)
    (s : FwLogger) : Except Fault FwLogger :=
  match octet_at packet 1 with
  | none => .error .read_outside_packet
  | some length =>
    let data_len : Nat := (((length : Int) - 1) % (SIZE_RANGE : Int)).toNat
    let log_record_len := fw_log_record_len data_len
    let s1 := choose_fw_log_file log_record_len timestamp first second s
    if s1.fw_log_fd ≠ INVALID_FD then
      match octets_at packet 3 data_len with
      | none => .error .read_outside_packet
      | some octets =>
        let s2 : FwLogger := { s1 with calls := s1.calls ++ [.write s1.fw_log_fd octets] }
        match (if log_record_len > data_len then
                 if log_record_len - data_len ≤ FIRMWARE_LOG_BLOCK_SIZE then
                   (Except.ok { s2 with calls := s2.calls ++
                     [.write s2.fw_log_fd (List.replicate (log_record_len - data_len) 0x00)] }
                     : Except Fault FwLogger)
                 else .error .padding_out_of_range
               else .ok s2) with
        | .error e => .error e
        | .ok s3 =>
          .ok { s3 with
            fw_log_curr_size := (s3.fw_log_curr_size + log_record_len) % SIZE_RANGE }
    else .ok s1

/-- The function `filter_fw_log(packet)`: `true` for the packets handed to the
logger queue, which are the vendor events (`0xFF`) with a length octet other than
0 and the sub-event code `SUBEVENT_CODE_FW_LOG`. -/
def filter_fw_log (m_fw_logger_running : Bool) (packet : List Nat) : Except Fault Bool :=
  if !m_fw_logger_running then .ok false
  else
    match STREAM_TO_UINT8 packet 0 with
    | .error e => .error e
    | .ok (event_code, pos1) =>
      if event_code ≠ 0xFF then .ok false
      else
        match STREAM_TO_UINT8 packet pos1 with
        | .error e => .error e
        | .ok (data_length, pos2) =>
          if data_length = 0 then .ok false
          else
            match STREAM_TO_UINT8 packet pos2 with
            | .error e => .error e
            | .ok (subevent_code, _) =>
              if subevent_code ≠ SUBEVENT_CODE_FW_LOG then .ok false else .ok true

/-! ## Vocabulary of the properties -/

/-- The seven command groups the resolver switches over besides the vendor group:
group code, declared capacity (`*_NUM`) and table. -/
def command_groups : List (Nat × Nat × List (Nat × HCI_UNIT_REPR)) :=
  [ (HCI_CMD_GRP_LINK_CONTROL, LING_CONTROL_NUM, HCI_LINK_CONTROL_COMMANDS),
    (HCI_CMD_GRP_LINK_POLICY, LINK_POLICY_NUM, HCI_LINK_POLICY_COMMANDS),
    (HCI_CMD_GRP_CONTROLLER_BASEBAND, CONTROLLER_BASEBAND_NUM, HCI_CONTROLLER_BASEBAND_COMMANDS),
    (HCI_CMD_GRP_INFORMATIONAL_PARAMETERS, INFORMATIONAL_PARAMETERS_NUM,
      HCI_INFORMATIONAL_PARAMETERS),
    (HCI_CMD_GRP_STATUS_PARAMETERS, STATUS_PARAMETERS_NUM, HCI_STATUS_PARAMETERS),
    (HCI_CMD_GRP_TESTING, TESTING_NUM, HCI_TESTING_COMMANDS),
    (HCI_CMD_GRP_LE_CONTROLLER, LE_CONTROLLER_NUM, HCI_LE_CONTROLLER_COMMANDS) ]

/-- The check of one initialiser `[i] = e` of the table of group `g` with capacity
`cap`: a named entry is what the resolver returns for its own opcode, its opcode
is `(g << 10) | i`, and `i` is inside the table. -/
def entry_resolves (g cap i : Nat) (e : HCI_UNIT_REPR) : Bool :=
  e.name = none ||
    (decide (get_matched_hci_cmd_repr e.opcode = some e) && decide (e.opcode = g * 1024 + i)
      && decide (e.opcode = (g <<< 10) ||| i) && decide (i ≤ cap))

/-- The instance with one more field: `f` stored in `value[value_index]` and
`value_index` incremented. -/
def append_field (inst : HCI_INSTANCE) (f : HCI_PARAM_VALUE) : HCI_INSTANCE :=
  { inst with
    value_index := inst.value_index + 1
    value := fun j => if j = inst.value_index then f else inst.value j }

/-- The width `parse_parameter` works with after the truncation check, for a
descriptor of non-negative declared length. -/
def clamped_length (param_length data_left : Int) : Int :=
  if param_length > data_left then data_left else param_length

/-- The display type `parse_parameter` works with after the truncation check. -/
def clamped_type (param_repr : HCI_PARAMETER_REPR) (param_length data_left : Int) :
    HCI_PARAM_DISPLAY_TYPE :=
  if param_length > data_left then .SEQ_HEX else param_repr.display_type

/-- The big-endian encoding of `v` in `w` octets, most significant octet first. -/
def big_endian_octets : Nat → Nat → List Nat
  | 0, _ => []
  | w + 1, v => v / 256 ^ w % 256 :: big_endian_octets w v

/-- The little-endian encoding of `v` in `w` octets, least significant octet first. -/
def little_endian_octets : Nat → Nat → List Nat
  | 0, _ => []
  | w + 1, v => v % 256 :: little_endian_octets w (v / 256)

/-- The instance after a successful write to members of `value[k]`. -/
def with_value (inst : HCI_INSTANCE) (k : Nat) (f : HCI_PARAM_VALUE → HCI_PARAM_VALUE) :
    HCI_INSTANCE :=
  { inst with value := fun j => if j = k then f (inst.value j) else inst.value j }

/-- The descriptor `d` is a field of fixed width `w` with text `T`: called with a
free value slot, a cursor inside `lo .. hi - w` and a budget of at least `w`,
`parse_parameter` appends one field whose text is `T` of the cursor, advances the
cursor by `w` and lowers the budget by `w`. -/
def Consumes (bo : ByteOrder) (data : List Nat) (indent : Nat) (d : HCI_PARAMETER_REPR)
    (w : Nat) (T : Int → String) (lo hi : Int) : Prop :=
  ∀ (inst : HCI_INSTANCE) (seq pos left : Int), inst.value_index < MAX_HCI_PARAM_NUM →
    lo ≤ pos → pos + w ≤ hi → (w : Int) ≤ left →
    parse_parameter bo inst d seq data pos left indent =
      .ok (append_field inst
        { name := d.name, seq_num := seq, value := T pos, indent_level := indent },
        pos + w, left - w)

/-- The fields of `n` copies of a two-descriptor unit, the copies tagged
`r + 1, r + 2, ...`, the first copy starting at cursor `pos`. -/
def unit_fields (d1 d2 : HCI_PARAMETER_REPR) (indent : Nat) (w1 w2 : Nat)
    (T1 T2 : Int → String) : Nat → Int → Int → List HCI_PARAM_VALUE
  | 0, _, _ => []
  | n + 1, r, pos =>
    { name := d1.name, seq_num := r + 1, value := T1 pos, indent_level := indent } ::
    { name := d2.name, seq_num := r + 1, value := T2 (pos + w1), indent_level := indent } ::
    unit_fields d1 d2 indent w1 w2 T1 T2 n (r + 1) (pos + w1 + w2)

/-- The instance with the fields `fs` appended one after the other. -/
def append_fields (inst : HCI_INSTANCE) : List HCI_PARAM_VALUE → HCI_INSTANCE
  | [] => inst
  | f :: fs => append_fields (append_field inst f) fs

/-- The tags of a field: name, sequence number and indentation. -/
def field_tag (f : HCI_PARAM_VALUE) : Option String × Int × Nat :=
  (f.name, f.seq_num, f.indent_level)

/-- The field a fixed-width descriptor produces once the budget is exhausted. -/
def truncated_field (indent : Nat) (d : HCI_PARAMETER_REPR) : HCI_PARAM_VALUE :=
  { name := d.name, seq_num := 0, value := "(truncated)", indent_level := indent }

/-! ## Vocabulary of the schema and renderer properties -/

/-- The nine tables of the schema: the seven command groups, the event table and
the LE meta sub-event table. -/
def schema_tables : List (List (Nat × HCI_UNIT_REPR)) :=
  [ HCI_LINK_CONTROL_COMMANDS, HCI_LINK_POLICY_COMMANDS, HCI_CONTROLLER_BASEBAND_COMMANDS,
    HCI_INFORMATIONAL_PARAMETERS, HCI_STATUS_PARAMETERS, HCI_TESTING_COMMANDS,
    HCI_LE_CONTROLLER_COMMANDS, HCI_EVENTS, LE_META_EVENTS ]

/-- The four duration display types. -/
def is_duration (ty : HCI_PARAM_DISPLAY_TYPE) : Bool :=
  decide (ty = .TIME_CLK1 ∨ ty = .TIME_CLK2 ∨ ty = .TIME_CLK5 ∨ ty = .TIME_CLK12)

/-- The static invariants of one descriptor: an integer field is at most 4 octets
wide, a duration field at most 2, and a repeat count is displayed in decimal. -/
def descriptor_valid (p : HCI_PARAMETER_REPR) : Bool :=
  (!decide (p.display_type = .INT_HEX ∨ p.display_type = .INT_DEC) || decide (p.length ≤ 4))
    && (!is_duration p.display_type || decide (p.length ≤ 2))
    && (!decide (p.repeat_param_num > 0) || decide (p.display_type = .INT_DEC))

/-- None of the `n` descriptors behind position `i` is a repeat count. -/
def unit_is_plain (ps : List HCI_PARAMETER_REPR) (i : Nat) : Nat → Bool
  | 0 => true
  | n + 1 => decide ((ps.getD (i + n + 1) {}).repeat_param_num ≤ 0) && unit_is_plain ps i n

/-- The repeat groups of a descriptor list of declared size `count` are flat: the
unit of every repeat count lies inside the list and holds no repeat count. -/
def repeat_groups_flat (count : Nat) (ps : List HCI_PARAMETER_REPR) : Bool :=
  (List.range ps.length).all (fun i =>
    decide ((ps.getD i {}).repeat_param_num ≤ 0) ||
      (decide (i + (ps.getD i {}).repeat_param_num.toNat < count)
        && unit_is_plain ps i (ps.getD i {}).repeat_param_num.toNat))

/-- The special display ids below 43 whose `case` label ends in a `break`. -/
def ids_without_renderer : List Int :=
  [2, 3, 6, 7, 8, 9, 19, 20, 21, 23, 24, 26, 27, 28, 35, 36, 37, 38, 40, 41, 42]

/-- The `"%lf"` text of `micro` millionths: the integer part, a point and six decimals. -/
def decimal_text (micro : Nat) : String :=
  fmt_u (micro / 1000000) ++ "." ++ String.mk (zeroPad 6 (Nat.toDigits 10 (micro % 1000000)))

/-- The duration of `n` ticks of a duration display type, in millionths of the
unit printed behind it: 0.625 ms, 1.25 ms, 10 ms and 1.28 s per tick. -/
def duration_micro (ty : HCI_PARAM_DISPLAY_TYPE) (n : Nat) : Nat :=
  match ty with
  | .TIME_CLK1 => n * 625000
  | .TIME_CLK2 => n * 1250000
  | .TIME_CLK5 => n * 10000000
  | _ => n * 1280000

/-- The unit printed behind a duration. -/
def duration_unit (ty : HCI_PARAM_DISPLAY_TYPE) : String :=
  match ty with
  | .TIME_CLK1 | .TIME_CLK2 | .TIME_CLK5 => " msec."
  | _ => " sec."

/-- The octet `b` read as a signed 8-bit value. -/
def signed_octet (b : Nat) : Int :=
  if b < 128 then (b : Int) else (b : Int) - 256

/-- The text of an RSSI octet in the words of the specification. -/
def rssi_text (b : Nat) : String :=
  if signed_octet b = 127 then "(0x7f) RSSI is not available"
  else if 22 ≤ signed_octet b ∧ signed_octet b ≤ 125 then
    "(0x" ++ fmt_x 2 b ++ ") Reserved for future use"
  else "(0x" ++ fmt_x 2 b ++ ") " ++ fmt_d (signed_octet b) ++ " dBm"

/-- The slots from `value_index` on are still as `memset` left them. -/
def Fresh (inst : HCI_INSTANCE) : Prop :=
  ∀ j, inst.value_index ≤ j → inst.value j = {}

/-! ## Vocabulary of the output and budget properties -/

/-- The lines of a text: the pieces between the newline characters. -/
def lines_of : List Char → List (List Char)
  | [] => [[]]
  | c :: cs =>
    if c = '\n' then [] :: lines_of cs
    else
      match lines_of cs with
      | [] => [[c]]
      | l :: ls => (c :: l) :: ls

/-- The lines of the text of a field. -/
def text_lines (s : String) : List String := (lines_of s.data).map String.mk

/-- Does the text `p` occur in the text `t`? -/
def occurs_in (p : List Char) : List Char → Bool
  | [] => p.isEmpty
  | c :: cs => p.isPrefixOf (c :: cs) || occurs_in p cs

/-- A line that holds no newline and neither of the two data format texts. -/
def PlainLine (l : String) : Prop :=
  '\n' ∉ l.data ∧ occurs_in "2's complement".data l.data = false
    ∧ occurs_in "Unsigned".data l.data = false

instance (l : String) : Decidable (PlainLine l) := by
  unfold PlainLine
  infer_instance

/-- The instance after the generic walk of a Command Complete event. -/
def command_complete_walked (bo : ByteOrder) (L n o0 o1 : Nat) : HCI_INSTANCE :=
  append_field (append_field (new_instance (some "Command Complete") 0x0E L 2)
    { name := some "Num_HCI_Command_Packets", seq_num := 0, value := fmt_u n,
      indent_level := INDENT_LEVEL_1 })
    { name := some "Command_Opcode", seq_num := 0,
      value := "0x" ++ fmt_x 4 (assemble bo [o0, o1]), indent_level := INDENT_LEVEL_1 }


/-- The line of a field in the words of the specification: four spaces per
indent level, then `"[n] "` if the sequence number `n` is above 0, then the name,
`": "` and the value. -/
def field_line_text (f : HCI_PARAM_VALUE) : String :=
  String.mk (List.replicate (4 * f.indent_level) ' ')
    ++ (if f.seq_num > 0 then "[" ++ fmt_d f.seq_num ++ "] " else "")
    ++ fmt_s f.name ++ ": " ++ c_str f.value

/-- The `HCI_Set_Event_Filter` command with the opcode octets `h0`, `h1`, the
length octet `L` and the octets `body` behind it is decoded without rest: the
decode ends with the cursor behind the `L` parameter octets and a budget of 0,
it yields `count` fields, and the records are the header and one line per field. -/
def DecodedWithoutRest (bo : ByteOrder) (h0 h1 L : Nat) (body : List Nat) (time_str : String)
    (count : Nat) : Prop :=
  ∃ inst : HCI_INSTANCE,
    decode_hci_command bo HCI_CONTROLLER_BASEBAND_COMMANDS_0x0005 0x0C05 L
        (h0 :: h1 :: L :: body) 3 = .ok (inst, 3 + (L : Int), 0) ∧
    inst.value_index = count ∧
    parse_hci_command bo (h0 :: h1 :: L :: body) time_str =
      .ok (command_header time_str inst :: (fields inst).map field_line_text)

/-- What `parse_parameter` hands to the renderer of a special display field as
`val_in`: the address of the local `param_value` after a read of 1 to 4 octets,
the packet at the cursor for every other width. -/
def special_val_in (bo : ByteOrder) (data : List Nat) (pos : Int) (param_length : Int) :
    Except Fault ValIn :=
  match read_by_width bo data pos param_length with
  | none => .ok (.stream pos)
  | some (.error e) => .error e
  | some (.ok (param_value, _)) => .ok (.word param_value)

/-- The fields of `n` copies of a one-descriptor unit, the copies tagged
`r + 1, r + 2, ...`, the first copy starting at cursor `pos`. -/
def single_fields (d : HCI_PARAMETER_REPR) (indent w : Nat) (T : Int → String) :
    Nat → Int → Int → List HCI_PARAM_VALUE
  | 0, _, _ => []
  | n + 1, r, pos =>
    { name := d.name, seq_num := r + 1, value := T pos, indent_level := indent } ::
    single_fields d indent w T n (r + 1) (pos + w)

/-- The fields the return parameters of `HCI_Read_Local_Supported_Codecs` stand
for when the status octet is `s` and the two counts are `A` and `B`: the status,
the first count, one field per codec octet tagged `1 .. A`, the second count and
one field per vendor specific codec (4 octets) tagged `1 .. B`. -/
def supported_codecs_fields (bo : ByteOrder) (data : List Nat) (pos : Int) (indent : Nat)
    (s A B : Nat) : List HCI_PARAM_VALUE :=
  [ { name := some "Status", seq_num := 0,
      value := "(0x" ++ fmt_x 2 s ++ ") " ++ EVENT_STATUS_TEXT.getD s "",
      indent_level := indent },
    { name := some "Number_of_Supported_Codecs", seq_num := 0, value := fmt_u A,
      indent_level := indent } ]
  ++ (List.range A).map (fun k =>
    { name := some "Supported_Codecs", seq_num := (k : Int) + 1,
      value := "0x" ++ fmt_x 2 ((octet_at data (pos + 2 + k)).getD 0),
      indent_level := indent })
  ++ [ { name := some "Number_of_Supported_Vendor_Specific_Codecs", seq_num := 0,
         value := fmt_u B, indent_level := indent } ]
  ++ (List.range B).map (fun k =>
    { name := some "Vendor_Specific_Codecs", seq_num := (k : Int) + 1,
      value := "0x" ++ fmt_x 8 (assemble bo ((octets_at data (pos + 3 + A + 4 * k) 4).getD [])),
      indent_level := indent })

/-- The length `parse_parameter` takes for a descriptor before the truncation
check: the declared length or, for a negative declared length, the integer read
from the text of an earlier field. -/
def param_length_of (inst : HCI_INSTANCE) (d : HCI_PARAMETER_REPR) : Except Fault Int :=
  if d.length < 0 then
    match value_at inst (inst.value_index + d.length) with
    | .error e => .error e
    | .ok length_refer => .ok (to_int (strtol length_refer.value))
  else .ok d.length

/-- The declared length of a descriptor agrees with what its renderer consumes:
an address is declared with 6 octets and a status code with 1. -/
def regular (d : HCI_PARAMETER_REPR) : Bool :=
  (!decide (d.display_type = .TEXT_BD_ADDR) || decide (d.length = 6))
    && (!decide (d.display_type = .TEXT_REASON_STATUS_CODE) || decide (d.length = 1))

/-- A field that a later descriptor may name as its length: a decimal integer of
one or two octets. -/
def is_length_field (d : HCI_PARAMETER_REPR) : Bool :=
  decide (d.display_type = .INT_DEC) && (decide (d.length = 1) || decide (d.length = 2))

/-- How many fields back the descriptor at position `t` of a list reads its
length: `k` for a declared length `-k`, and 0 for a declared length that is not
negative. -/
def refers (ds : List HCI_PARAMETER_REPR) (t : Nat) : Nat :=
  (-(ds.getD t {}).length).toNat

/-- No descriptor at or behind position `b` reads its length from a field of a
descriptor before position `b`. -/
def cut (ds : List HCI_PARAMETER_REPR) (b : Nat) : Bool :=
  (List.range ds.length).all (fun t => decide (t < b) || decide (b + refers ds t ≤ t))

/-- The static conditions under which the walk over a descriptor list keeps the
byte budget: every descriptor is regular; a descriptor that reads its length
from an earlier field finds a length field of the same list there; and no such
reference crosses the start of a repeat unit or the end of one. -/
def budget_safe (ds : List HCI_PARAMETER_REPR) : Bool :=
  cut ds 0 &&
    (List.range ds.length).all (fun t =>
      regular (ds.getD t {})
        && (decide (refers ds t = 0) || is_length_field (ds.getD (t - refers ds t) {}))
        && (decide ((ds.getD t {}).repeat_param_num ≤ 0)
          || (cut ds (t + 1) && cut ds (t + (ds.getD t {}).repeat_param_num.toNat + 1))))

/-- The fields that the descriptors from position `j` on will read their length
from, as far as they are written already, hold a text that reads back as an
integer that is not negative. The descriptor at position `t` with
`refers ds t = k` reads the field of position `t - k`, which lies
`j + k - t` slots behind `value_index` when the walk is at position `j`. -/
def Linked (ds : List HCI_PARAMETER_REPR) (j : Nat) (inst : HCI_INSTANCE) : Prop :=
  ∀ t, j ≤ t → t < j + refers ds t →
    j + refers ds t - t ≤ inst.value_index ∧
      0 ≤ to_int (strtol (inst.value (inst.value_index - (j + refers ds t - t))).value)

/-- The byte budget between two states of a walk: the budget stays between 0 and
what it was, and the cursor has advanced by what the budget has lost. -/
def BudgetKept (st0 st : WalkState) : Prop :=
  0 ≤ st.2.2 ∧ st.2.2 ≤ st0.2.2 ∧ st.2.1 - st0.2.1 = st0.2.2 - st.2.2

/-- The innermost loop of `parse_hci_instance` with the test `left_len >= 0`
taken out of its condition. -/
def repeat_unit_without_guard (bo : ByteOrder) (hci_param_repr : List HCI_PARAMETER_REPR)
    (i : Nat) (repeat_seq : Int) (data : List Nat) (indent_level : Nat) :
    Nat → Nat → WalkState → Except Fault WalkState
  | 0, _, st => .ok st
  | n + 1, repeat_param_index, (inst, pos, left_len) =>
    match descriptor_at hci_param_repr (i + repeat_param_index) with
    | .error e => .error e
    | .ok param_repr =>
      match parse_parameter bo inst param_repr repeat_seq data pos left_len indent_level with
      | .error e => .error e
      | .ok st1 =>
        repeat_unit_without_guard bo hci_param_repr i repeat_seq data indent_level n
          (repeat_param_index + 1) st1

/-- The middle loop of `parse_hci_instance` with the test `left_len >= 0` taken
out of its condition and out of the condition of the innermost loop. -/
def repeat_units_without_guard (bo : ByteOrder) (hci_param_repr : List HCI_PARAMETER_REPR)
    (i : Nat) (repeat_param_num : Nat) (data : List Nat) (indent_level : Nat) :
    Nat → Int → WalkState → Except Fault WalkState
  | 0, _, st => .ok st
  | n + 1, repeat_index, st =>
    match repeat_unit_without_guard bo hci_param_repr i (repeat_index + 1) data indent_level
        repeat_param_num 1 st with
    | .error e => .error e
    | .ok st1 =>
      repeat_units_without_guard bo hci_param_repr i repeat_param_num data indent_level n
        (repeat_index + 1) st1

/-- The outer loop of `parse_hci_instance` with the test `left_len >= 0` taken
out of the conditions of its three loops. -/
def walk_parameters_without_guard (bo : ByteOrder) (hci_param_repr : List HCI_PARAMETER_REPR)
    (param_count : Nat) (data : List Nat) (indent_level : Nat) :
    Nat → Nat → WalkState → Except Fault WalkState
  | 0, _, st => .ok st
  | fuel + 1, i, (inst, pos, left_len) =>
    if i < param_count then
      match descriptor_at hci_param_repr i with
      | .error e => .error e
      | .ok param_repr =>
        match parse_parameter bo inst param_repr 0 data pos left_len indent_level with
        | .error e => .error e
        | .ok (inst1, pos1, left_len1) =>
          if param_repr.repeat_param_num ≤ 0 then
            walk_parameters_without_guard bo hci_param_repr param_count data indent_level fuel
              (i + 1) (inst1, pos1, left_len1)
          else
            match value_at inst1 ((inst1.value_index : Int) - 1) with
            | .error e => .error e
            | .ok count_value =>
              let repeat_count := to_int (strtol count_value.value)
              match repeat_units_without_guard bo hci_param_repr i
                  param_repr.repeat_param_num.toNat data indent_level repeat_count.toNat 0
                  (inst1, pos1, left_len1) with
              | .error e => .error e
              | .ok st2 =>
                walk_parameters_without_guard bo hci_param_repr param_count data indent_level
                  fuel (i + param_repr.repeat_param_num.toNat + 1) st2
    else .ok (inst, pos, left_len)

/-- The function `parse_hci_instance` with the test `left_len >= 0` taken out of
the conditions of its three loops. -/
def parse_hci_instance_without_guard (bo : ByteOrder) (hci_object : HCI_INSTANCE)
    (hci_param_repr : List HCI_PARAMETER_REPR) (param_count : Nat) (data : List Nat)
    (pos : Int) (length_left : Int) (indent_level : Nat) : Except Fault WalkState :=
  walk_parameters_without_guard bo hci_param_repr param_count data indent_level param_count 0
    (hci_object, pos, length_left)

/-- The descriptor lists of the registry: the parameter list and the
return-parameter list of every entry of the nine tables and of the vendor
specific placeholder. -/
def registry_lists : List (List HCI_PARAMETER_REPR) :=
  ((VENDOR_SPECIFIC_COMMAND :: schema_tables).flatten.map (fun e => e.2)).flatMap
    (fun u => [u.parameter, u.return_parameter])


theorem command_groups_resolve :
    command_groups.all (fun gt => gt.2.2.all (fun ie => entry_resolves gt.1 gt.2.1 ie.1 ie.2))
      = true := by
  decide

/-- C1: every named entry `e` written at index `i` of one of the seven command
group tables is returned by `get_matched_hci_cmd_repr e.opcode`, its opcode is
`(group << 10) | i`, and `i` does not exceed the declared capacity of the table. -/
theorem C1_populated_entries_resolve (g cap : Nat) (table : List (Nat × HCI_UNIT_REPR))
    (i : Nat) (e : HCI_UNIT_REPR) (hg : (g, cap, table) ∈ command_groups)
    (he : (i, e) ∈ table) (hname : e.name ≠ none) :
    get_matched_hci_cmd_repr e.opcode = some e ∧ e.opcode = (g <<< 10) ||| i ∧
      e.opcode = g * 1024 + i ∧ i ≤ cap := by
  have h := command_groups_resolve
  rw [List.all_eq_true] at h
  have h1 := h _ hg
  rw [List.all_eq_true] at h1
  have h2 := h1 _ he
  simp only [entry_resolves, Bool.or_eq_true, Bool.and_eq_true, decide_eq_true_eq] at h2
  rcases h2 with h2 | ⟨⟨⟨a, b⟩, c⟩, d⟩
  · exact absurd h2 hname
  · exact ⟨a, c, b, d⟩

theorem C1_populated_entries_resolve_witness :
    get_matched_hci_cmd_repr HCI_CONTROLLER_BASEBAND_COMMANDS_0x0003.opcode
        = some HCI_CONTROLLER_BASEBAND_COMMANDS_0x0003 ∧
      HCI_CONTROLLER_BASEBAND_COMMANDS_0x0003.opcode = (3 <<< 10) ||| 3 ∧
      HCI_CONTROLLER_BASEBAND_COMMANDS_0x0003.opcode = 3 * 1024 + 3 ∧ 3 ≤ 129 :=
  C1_populated_entries_resolve 3 129 HCI_CONTROLLER_BASEBAND_COMMANDS 3
    HCI_CONTROLLER_BASEBAND_COMMANDS_0x0003 (by decide) (by decide) (by decide)

theorem get_matched_hci_cmd_repr_eq (opcode : Nat) (h : opcode < 65536) :
    get_matched_hci_cmd_repr opcode =
      if opcode / 1024 = 1 then GET_CMD_AT HCI_LINK_CONTROL_COMMANDS 69 (opcode % 1024)
      else if opcode / 1024 = 2 then GET_CMD_AT HCI_LINK_POLICY_COMMANDS 17 (opcode % 1024)
      else if opcode / 1024 = 3 then
        GET_CMD_AT HCI_CONTROLLER_BASEBAND_COMMANDS 129 (opcode % 1024)
      else if opcode / 1024 = 4 then GET_CMD_AT HCI_INFORMATIONAL_PARAMETERS 11 (opcode % 1024)
      else if opcode / 1024 = 5 then GET_CMD_AT HCI_STATUS_PARAMETERS 13 (opcode % 1024)
      else if opcode / 1024 = 6 then GET_CMD_AT HCI_TESTING_COMMANDS 10 (opcode % 1024)
      else if opcode / 1024 = 8 then GET_CMD_AT HCI_LE_CONTROLLER_COMMANDS 47 (opcode % 1024)
      else if opcode / 1024 = 63 then some (table_slot VENDOR_SPECIFIC_COMMAND 0)
      else none := by
  have h1 : opcode % 65536 = opcode := Nat.mod_eq_of_lt h
  have h2 : opcode / 1024 % 64 % 256 = opcode / 1024 := by omega
  have h3 : opcode % 1024 % 65536 = opcode % 1024 := by omega
  simp only [get_matched_hci_cmd_repr, HCI_OGF, HCI_OCF, h1, h2, h3, HCI_CMD_GRP_LINK_CONTROL,
    HCI_CMD_GRP_LINK_POLICY, HCI_CMD_GRP_CONTROLLER_BASEBAND,
    HCI_CMD_GRP_INFORMATIONAL_PARAMETERS, HCI_CMD_GRP_STATUS_PARAMETERS, HCI_CMD_GRP_TESTING,
    HCI_CMD_GRP_LE_CONTROLLER, HCI_CMD_GRP_VENDOR_SPECIFIC, LING_CONTROL_NUM, LINK_POLICY_NUM,
    CONTROLLER_BASEBAND_NUM, INFORMATIONAL_PARAMETERS_NUM, STATUS_PARAMETERS_NUM, TESTING_NUM,
    LE_CONTROLLER_NUM, VENDOR_SPECIFIC_COMMAND_NUM]
  split_ifs with a1 a2 a3 a4 a5 a6 a7 a8 <;> first
    | rfl
    | (simp only [GET_CMD_AT]
       split_ifs with a9
       · rfl
       · have a10 : opcode % 1024 = 0 := by omega
         rw [a10])

theorem resolver_in_group (opcode : Nat) (h : opcode < 65536) (g cap : Nat)
    (table : List (Nat × HCI_UNIT_REPR)) (hgt : (g, cap, table) ∈ command_groups)
    (hg : opcode / 1024 = g) :
    get_matched_hci_cmd_repr opcode = GET_CMD_AT table cap (opcode % 1024) := by
  rw [get_matched_hci_cmd_repr_eq opcode h, hg]
  simp only [command_groups, List.mem_cons, List.mem_singleton, List.not_mem_nil, or_false,
    Prod.mk.injEq] at hgt
  rcases hgt with e | e | e | e | e | e | e <;>
    (obtain ⟨rfl, rfl, rfl⟩ := e; rfl)

/-- C2: for a 16-bit opcode the resolver reads the group from the upper 6 bits and
the index from the lower 10 bits; it returns `NULL` exactly when the group is none
of 0x01..0x06, 0x08, 0x3F, or it is one of the seven non-vendor groups and the
index is above the capacity of its table (69, 17, 129, 11, 13, 10, 47); a result
for a non-vendor group is the slot at that index, which is inside the table. -/
theorem C2_resolver_null_iff (opcode : Nat) (h : opcode < 65536) :
    (get_matched_hci_cmd_repr opcode = none ↔
      (opcode / 1024 ∉ [0x01, 0x02, 0x03, 0x04, 0x05, 0x06, 0x08, 0x3F] ∨
        ∃ gt ∈ command_groups, gt.1 = opcode / 1024 ∧ opcode % 1024 > gt.2.1)) ∧
    (command_groups.map (fun gt => (gt.1, gt.2.1))
      = [(0x01, 69), (0x02, 17), (0x03, 129), (0x04, 11), (0x05, 13), (0x06, 10), (0x08, 47)]) ∧
    (∀ gt ∈ command_groups, gt.1 = opcode / 1024 → ∀ u, get_matched_hci_cmd_repr opcode = some u →
      opcode % 1024 ≤ gt.2.1 ∧ u = table_slot gt.2.2 (opcode % 1024)) := by
  rw [get_matched_hci_cmd_repr_eq opcode h]
  have hq : opcode / 1024 < 64 := by omega
  refine ⟨?_, by decide, ?_⟩
  · simp only [command_groups, GET_CMD_AT, HCI_CMD_GRP_LINK_CONTROL,
      HCI_CMD_GRP_LINK_POLICY, HCI_CMD_GRP_CONTROLLER_BASEBAND,
      HCI_CMD_GRP_INFORMATIONAL_PARAMETERS, HCI_CMD_GRP_STATUS_PARAMETERS, HCI_CMD_GRP_TESTING,
      HCI_CMD_GRP_LE_CONTROLLER, LING_CONTROL_NUM, LINK_POLICY_NUM,
      CONTROLLER_BASEBAND_NUM, INFORMATIONAL_PARAMETERS_NUM, STATUS_PARAMETERS_NUM, TESTING_NUM,
      LE_CONTROLLER_NUM, List.mem_cons, List.mem_singleton, List.not_mem_nil, or_false,
      exists_eq_or_imp, exists_eq_left]
    split_ifs <;> simp_all
  · intro gt hgt hg u hu
    rw [← get_matched_hci_cmd_repr_eq opcode h,
      resolver_in_group opcode h gt.1 gt.2.1 gt.2.2 hgt hg.symm] at hu
    simp only [GET_CMD_AT] at hu
    split_ifs at hu with h5
    simp only [Option.some.injEq] at hu
    exact ⟨by omega, hu.symm⟩

theorem C2_resolver_null_iff_witness :
    (get_matched_hci_cmd_repr 0x0C03 = none ↔
      (0x0C03 / 1024 ∉ [0x01, 0x02, 0x03, 0x04, 0x05, 0x06, 0x08, 0x3F] ∨
        ∃ gt ∈ command_groups, gt.1 = 0x0C03 / 1024 ∧ 0x0C03 % 1024 > gt.2.1)) ∧
    (command_groups.map (fun gt => (gt.1, gt.2.1))
      = [(0x01, 69), (0x02, 17), (0x03, 129), (0x04, 11), (0x05, 13), (0x06, 10), (0x08, 47)]) ∧
    (∀ gt ∈ command_groups, gt.1 = 0x0C03 / 1024 → ∀ u, get_matched_hci_cmd_repr 0x0C03 = some u →
      0x0C03 % 1024 ≤ gt.2.1 ∧ u = table_slot gt.2.2 (0x0C03 % 1024)) :=
  C2_resolver_null_iff 0x0C03 (by decide)

/-- C3: every 16-bit opcode whose upper 6 bits are the vendor group 0x3F resolves,
whatever its lower 10 bits, to the one entry named "Vendor Specific Command"
(opcode 0xFC00, no parameters, no return parameters). -/
theorem C3_vendor_group_resolves (opcode : Nat) (h : opcode < 65536)
    (hg : opcode / 1024 = 0x3F) :
    ∃ u, get_matched_hci_cmd_repr opcode = some u ∧ u.name = some "Vendor Specific Command" ∧
      u.opcode = 0xFC00 ∧ u.parameter_count = 0 ∧ u.return_parameter_count = 0 ∧
      u.parameter = [] ∧ u.return_parameter = [] := by
  rw [get_matched_hci_cmd_repr_eq opcode h]
  simp only [hg]
  exact ⟨_, rfl, by decide, by decide, by decide, by decide, by decide, by decide⟩

theorem C3_vendor_group_resolves_witness :
    ∃ u, get_matched_hci_cmd_repr 0xFC6F = some u ∧ u.name = some "Vendor Specific Command" ∧
      u.opcode = 0xFC00 ∧ u.parameter_count = 0 ∧ u.return_parameter_count = 0 ∧
      u.parameter = [] ∧ u.return_parameter = [] :=
  C3_vendor_group_resolves 0xFC6F (by decide) (by decide)

/-! ### Unknown opcodes and event codes -/

/-- C4: a command packet whose opcode the resolver does not find (it returns
`NULL`, or a slot without a name) makes `parse_hci_command` return without a
single record, whatever the length octet and the parameter octets are. -/
theorem C4_unknown_command_is_silent (bo : ByteOrder) (parse_command : List Nat)
    (time_str : String) (opcode : Nat) (pos1 : Int) (length : Nat) (pos2 : Int)
    (h1 : STREAM_TO_UINT bo 2 parse_command 0 = .ok (opcode, pos1))
    (h2 : STREAM_TO_UINT8 parse_command pos1 = .ok (length, pos2))
    (h : get_matched_hci_cmd_repr opcode = none ∨
      ∃ u, get_matched_hci_cmd_repr opcode = some u ∧ u.name = none) :
    parse_hci_command bo parse_command time_str = .ok [] := by
  unfold parse_hci_command
  rw [h1]
  simp only [h2]
  rcases h with h | ⟨u, hu, hn⟩
  · rw [h]
  · rw [hu]
    simp only [hn, if_true]

theorem C4_unknown_command_is_silent_witness :
    parse_hci_command .little [0x00, 0x04, 0x02, 0xAA, 0xBB] "12:00:00.000000" = .ok [] :=
  C4_unknown_command_is_silent .little [0x00, 0x04, 0x02, 0xAA, 0xBB] "12:00:00.000000"
    0x0400 2 2 3 (by decide) (by decide) (Or.inr ⟨{}, by decide, by decide⟩)

theorem c_str_empty : c_str "" = "" := by decide

theorem event_header_eq (time_str : String) (inst : HCI_INSTANCE) :
    event_header time_str inst = c_str time_str ++ event_header "" inst := by
  simp only [event_header, fmt_s, c_str_empty, String.append_assoc, String.empty_append]

theorem command_header_eq (time_str : String) (inst : HCI_INSTANCE) :
    command_header time_str inst = c_str time_str ++ command_header "" inst := by
  simp only [command_header, fmt_s, c_str_empty, String.append_assoc, String.empty_append]

/-- C5: an event code above `HCI_EVENT_NUMBER` (87) makes `parse_hci_event` return
without a record; for a code inside the table whose slot is not populated (0x00,
0x1F, 0x3F) the function does not return early: with a length octet of zero it
logs one header line whose name is the `%s` rendering of a null pointer. -/
theorem C5_event_code_without_entry (bo : ByteOrder) (time_str : String) :
    (∀ (parse_event : List Nat) (eventcode : Nat) (pos1 : Int) (length : Nat) (pos2 : Int),
      STREAM_TO_UINT8 parse_event 0 = .ok (eventcode, pos1) →
      STREAM_TO_UINT8 parse_event pos1 = .ok (length, pos2) →
      eventcode > HCI_EVENT_NUMBER → parse_hci_event bo parse_event time_str = .ok []) ∧
    (table_slot HCI_EVENTS 0x00).name = none ∧ (table_slot HCI_EVENTS 0x1F).name = none ∧
    (table_slot HCI_EVENTS 0x3F).name = none ∧
    parse_hci_event bo [0x00, 0x00] time_str
      = .ok [c_str time_str ++ " HCI Event: (null)(0x00), Parameter Length: 0"] ∧
    parse_hci_event bo [0x1F, 0x00] time_str
      = .ok [c_str time_str ++ " HCI Event: (null)(0x1f), Parameter Length: 0"] ∧
    parse_hci_event bo [0x3F, 0x00] time_str
      = .ok [c_str time_str ++ " HCI Event: (null)(0x3f), Parameter Length: 0"] := by
  refine ⟨?_, by decide, by decide, by decide, ?_, ?_, ?_⟩
  · intro parse_event eventcode pos1 length pos2 h1 h2 h
    unfold parse_hci_event
    rw [h1]
    simp only [h2, h, if_true]
  · have e : parse_hci_event bo [0x00, 0x00] time_str
        = .ok [event_header time_str (new_instance none 0x00 0 0)] := by cases bo <;> rfl
    rw [e, event_header_eq]
    rfl
  · have e : parse_hci_event bo [0x1F, 0x00] time_str
        = .ok [event_header time_str (new_instance none 0x1F 0 0)] := by cases bo <;> rfl
    rw [e, event_header_eq]
    rfl
  · have e : parse_hci_event bo [0x3F, 0x00] time_str
        = .ok [event_header time_str (new_instance none 0x3F 0 0)] := by cases bo <;> rfl
    rw [e, event_header_eq]
    rfl

theorem C5_event_code_without_entry_witness :
    parse_hci_event .little [0x58, 0x01, 0xAA] "12:00:00.000000" = .ok [] ∧
    parse_hci_event .little [0x00, 0x00] "12:00:00.000000"
      = .ok ["12:00:00.000000 HCI Event: (null)(0x00), Parameter Length: 0"] :=
  ⟨(C5_event_code_without_entry .little "12:00:00.000000").1 [0x58, 0x01, 0xAA] 0x58 1 1 2
      (by decide) (by decide) (by decide),
    (C5_event_code_without_entry .little "12:00:00.000000").2.2.2.2.1⟩

/-! ### Field interpreter: general facts -/

theorem fields_append_field (inst : HCI_INSTANCE) (f : HCI_PARAM_VALUE) :
    fields (append_field inst f) = fields inst ++ [f] := by
  simp only [fields, append_field, List.range_succ, List.map_append, List.map_cons, List.map_nil,
    if_true]
  congr 1
  apply List.map_congr_left
  intro j hj
  have : j ≠ inst.value_index := by
    have := List.mem_range.mp hj
    omega
  simp only [this, if_false]

theorem sprintf_into_of_ne (old text : String) (h : text.data ≠ []) :
    sprintf_into old text = text := by
  simp only [sprintf_into, h, if_false]

theorem sprintf_into_empty (text : String) : sprintf_into "" text = text := by
  unfold sprintf_into
  split_ifs with h
  · cases text
    simp only at h
    subst h
    rfl
  · rfl

theorem value_update_ok (inst : HCI_INSTANCE) (k : Nat) (f : HCI_PARAM_VALUE → HCI_PARAM_VALUE)
    (hk : k < MAX_HCI_PARAM_NUM) :
    value_update inst (k : Int) f = .ok (with_value inst k f) := by
  have h1 : (0 : Int) ≤ (k : Int) ∧ (k : Int) < MAX_HCI_PARAM_NUM :=
    ⟨by omega, by exact_mod_cast hk⟩
  simp only [value_update, h1, and_self, if_true, Int.toNat_ofNat, with_value]

theorem value_at_ok (inst : HCI_INSTANCE) (k : Nat) (hk : k < MAX_HCI_PARAM_NUM) :
    value_at inst (k : Int) = .ok (inst.value k) := by
  have h1 : (0 : Int) ≤ (k : Int) ∧ (k : Int) < MAX_HCI_PARAM_NUM :=
    ⟨by omega, by exact_mod_cast hk⟩
  simp only [value_at, h1, and_self, if_true, Int.toNat_ofNat]

/-- The effect of `parse_parameter` for a descriptor of non-negative length in
terms of the switch `render_parameter`: one field is appended, carrying the name
of the descriptor, the sequence number and the indentation passed in. -/
theorem parse_parameter_of_render (bo : ByteOrder) (inst : HCI_INSTANCE)
    (d : HCI_PARAMETER_REPR) (seq : Int) (data : List Nat) (pos left : Int) (indent : Nat)
    (text : String) (pos1 plen2 : Int)
    (hvi : inst.value_index < MAX_HCI_PARAM_NUM) (hlen : 0 ≤ d.length)
    (hr : render_parameter bo (clamped_type d d.length left) d (clamped_length d.length left)
      (decide (d.length > left ∧ d.length ≠ INT_MAX)) data pos = .ok (text, pos1, plen2)) :
    parse_parameter bo inst d seq data pos left indent =
      .ok (append_field inst
        { name := d.name, seq_num := seq,
          value := sprintf_into (inst.value inst.value_index).value text,
          indent_level := indent }, pos1, left - plen2) := by
  have h2 : ¬ d.length < 0 := by omega
  simp only [clamped_type, clamped_length] at hr
  unfold parse_parameter
  rw [value_update_ok _ _ _ hvi]
  simp only [h2, if_false]
  rw [hr]
  simp only []
  rw [value_update_ok _ _ _ (show (with_value inst inst.value_index _).value_index
    < MAX_HCI_PARAM_NUM from hvi)]
  simp only [append_field, with_value]
  congr 3
  funext j
  split_ifs with h
  · subst h
    rfl
  · rfl

theorem octets_at_length (data : List Nat) (pos : Int) (n : Nat) (bs : List Nat)
    (h : octets_at data pos n = some bs) : bs.length = n := by
  induction n generalizing pos bs with
  | zero =>
    simp only [octets_at, Option.some.injEq] at h
    subst h
    rfl
  | succ n ih =>
    simp only [octets_at] at h
    split at h
    · rename_i b bs1 h1 h2
      simp only [Option.some.injEq] at h
      subst h
      simp only [List.length_cons, ih _ _ h2]
    · cases h

theorem value_at_int (inst : HCI_INSTANCE) (k : Int) (h0 : 0 ≤ k) (h30 : k < 30) :
    value_at inst k = .ok (inst.value k.toNat) := by
  have h1 : 0 ≤ k ∧ k < (MAX_HCI_PARAM_NUM : Nat) := ⟨h0, h30⟩
  simp only [value_at, h1, and_self, if_true]

theorem value_update_int (inst : HCI_INSTANCE) (k : Int) (f : HCI_PARAM_VALUE → HCI_PARAM_VALUE)
    (h0 : 0 ≤ k) (h30 : k < 30) : value_update inst k f = .ok (with_value inst k.toNat f) := by
  have h1 : 0 ≤ k ∧ k < (MAX_HCI_PARAM_NUM : Nat) := ⟨h0, h30⟩
  simp only [value_update, h1, and_self, if_true, with_value]

/-! ### Truncation and the unbounded length -/

theorem hex_dump_truncated_ne (bs : List Nat) : (hex_dump bs ++ "(truncated)").data ≠ [] := by
  rw [String.data_append]
  intro h
  have h1 := (List.append_eq_nil.mp h).2
  exact absurd h1 (by decide)

theorem dump_parameter_ok (data : List Nat) (pos r : Int) (t : Bool) (bs : List Nat)
    (hr0 : 0 ≤ r) (hbs : octets_at data pos r.toNat = some bs) :
    dump_parameter data pos r t
      = .ok (hex_dump bs ++ (if t then "(truncated)" else ""), pos + r, r) := by
  have h : ((r.toNat : Nat) : Int) = r := Int.toNat_of_nonneg hr0
  simp only [dump_parameter, read_octets, hbs, h]

theorem clamped_type_gt (d : HCI_PARAMETER_REPR) (r : Int) (h : d.length > r) :
    clamped_type d d.length r = .SEQ_HEX := by
  simp only [clamped_type, h, if_true]

theorem clamped_length_gt (len r : Int) (h : len > r) : clamped_length len r = r := by
  simp only [clamped_length, h, if_true]

theorem clamped_type_le (d : HCI_PARAMETER_REPR) (r : Int) (h : d.length ≤ r) :
    clamped_type d d.length r = d.display_type := by
  have h1 : ¬ d.length > r := by omega
  simp only [clamped_type, h1, if_false]

theorem clamped_length_le (len r : Int) (h : len ≤ r) : clamped_length len r = len := by
  have h1 : ¬ len > r := by omega
  simp only [clamped_length, h1, if_false]

theorem not_truncated_of_le (len r : Int) (h : len ≤ r) :
    decide (len > r ∧ len ≠ INT_MAX) = false :=
  decide_eq_false (fun h1 => absurd h1.1 (by omega))

theorem render_parameter_seq_hex (bo : ByteOrder) (d : HCI_PARAMETER_REPR) (len : Int)
    (t : Bool) (data : List Nat) (pos : Int) :
    render_parameter bo .SEQ_HEX d len t data pos = dump_parameter data pos len t := rfl

/-- A field whose fixed declared width exceeds the budget. -/
theorem parse_parameter_truncated (bo : ByteOrder) (inst : HCI_INSTANCE) (d : HCI_PARAMETER_REPR)
    (seq : Int) (data : List Nat) (pos r : Int) (indent : Nat) (bs : List Nat)
    (hvi : inst.value_index < MAX_HCI_PARAM_NUM) (hW : 0 < d.length)
    (hfixed : d.length ≠ INT_MAX) (hr0 : 0 ≤ r) (hr : r < d.length)
    (hbs : octets_at data pos r.toNat = some bs) :
    parse_parameter bo inst d seq data pos r indent =
      .ok (append_field inst
        { name := d.name, seq_num := seq, value := hex_dump bs ++ "(truncated)",
          indent_level := indent }, pos + r, 0) ∧ bs.length = r.toNat := by
  have hgt : d.length > r := hr
  have hren : render_parameter bo (clamped_type d d.length r) d (clamped_length d.length r)
      (decide (d.length > r ∧ d.length ≠ INT_MAX)) data pos
      = .ok (hex_dump bs ++ "(truncated)", pos + r, r) := by
    have hd : decide (d.length > r ∧ d.length ≠ INT_MAX) = true :=
      decide_eq_true ⟨hgt, hfixed⟩
    rw [clamped_type_gt d r hgt, clamped_length_gt d.length r hgt, hd, render_parameter_seq_hex,
      dump_parameter_ok data pos r true bs hr0 hbs]
    rfl
  have h := parse_parameter_of_render bo inst d seq data pos r indent _ _ _ hvi (by omega) hren
  rw [sprintf_into_of_ne _ _ (hex_dump_truncated_ne bs), sub_self] at h
  exact ⟨h, octets_at_length data pos r.toNat bs hbs⟩

theorem digit_value_digitChar : ∀ d, d < 16 → digit_value (Nat.digitChar d) = some d := by
  decide

theorem is_digit_of_digitChar (b d : Nat) (hb : b ≤ 16) (hd : d < b) :
    is_digit_of b (Nat.digitChar d) = true := by
  simp only [is_digit_of, digit_value_digitChar d (by omega), hd, decide_True]

theorem strtol_digits_digitChar (b d : Nat) (hb : b ≤ 16) (hd : d < b) (cs : List Char)
    (acc : Nat) :
    strtol_digits b (Nat.digitChar d :: cs) acc = strtol_digits b cs (acc * b + d) := by
  simp only [strtol_digits, digit_value_digitChar d (by omega), hd, if_true]

theorem strtol_digits_toDigitsCore (b : Nat) (hb2 : 2 ≤ b) (hb : b ≤ 16) :
    ∀ (fuel n : Nat) (ds : List Char) (acc : Nat), n < fuel →
      ∃ k, strtol_digits b (Nat.toDigitsCore b fuel n ds) acc
        = strtol_digits b ds (acc * b ^ k + n) := by
  intro fuel
  induction fuel with
  | zero => intro n ds acc h; omega
  | succ fuel ih =>
    intro n ds acc h
    have hmod : n % b < b := Nat.mod_lt _ (by omega)
    simp only [Nat.toDigitsCore]
    split_ifs with h0
    · refine ⟨1, ?_⟩
      have hn : n < b := by
        rcases Nat.lt_or_ge n b with h1 | h1
        · exact h1
        · have := Nat.div_pos h1 (by omega : 0 < b)
          omega
      rw [Nat.mod_eq_of_lt hn, strtol_digits_digitChar b n hb hn, pow_one]
    · have hlt : n / b < fuel := by
        have : n / b < n := Nat.div_lt_self (by
          rcases Nat.eq_zero_or_pos n with h1 | h1
          · subst h1
            simp only [Nat.zero_div, not_true_eq_false] at h0
          · exact h1) (by omega)
        omega
      obtain ⟨k, hk⟩ := ih (n / b) (Nat.digitChar (n % b) :: ds) acc hlt
      refine ⟨k + 1, ?_⟩
      rw [hk, strtol_digits_digitChar b (n % b) hb hmod]
      congr 1
      have := Nat.div_add_mod n b
      rw [pow_succ]
      nlinarith [Nat.div_add_mod n b]

theorem strtol_digits_toDigits (b : Nat) (hb2 : 2 ≤ b) (hb : b ≤ 16) (n : Nat) :
    strtol_digits b (Nat.toDigits b n) 0 = n := by
  obtain ⟨k, hk⟩ := strtol_digits_toDigitsCore b hb2 hb (n + 1) n [] 0 (by omega)
  rw [Nat.toDigits, hk]
  simp only [strtol_digits, zero_mul, zero_add]

theorem strtol_digits_zeroPad (b : Nat) (hb : 0 < b) (w : Nat) (l : List Char) :
    strtol_digits b (zeroPad w l) 0 = strtol_digits b l 0 := by
  unfold zeroPad
  induction w - l.length with
  | zero => rfl
  | succ k ih =>
    rw [List.replicate_succ, List.cons_append]
    have h0 : digit_value '0' = some 0 := by decide
    simp only [strtol_digits, h0, hb, if_true, zero_mul, add_zero]
    exact ih

/-- Every character `Nat.toDigits` produces is a digit of the base. -/
theorem toDigitsCore_all_digits (b : Nat) (hb2 : 2 ≤ b) (hb : b ≤ 16) :
    ∀ (fuel n : Nat) (ds : List Char), (∀ c ∈ ds, is_digit_of b c = true) →
      ∀ c ∈ Nat.toDigitsCore b fuel n ds, is_digit_of b c = true := by
  intro fuel
  induction fuel with
  | zero => intro n ds hds c hc; exact hds c hc
  | succ fuel ih =>
    intro n ds hds c hc
    have hmod : n % b < b := Nat.mod_lt _ (by omega)
    have hds1 : ∀ c ∈ Nat.digitChar (n % b) :: ds, is_digit_of b c = true := by
      intro c hc
      rcases List.mem_cons.mp hc with h | h
      · rw [h]
        exact is_digit_of_digitChar b _ hb hmod
      · exact hds c h
    simp only [Nat.toDigitsCore] at hc
    split_ifs at hc with h0
    · exact hds1 c hc
    · exact ih _ _ hds1 c hc

theorem toDigits_all_digits (b : Nat) (hb2 : 2 ≤ b) (hb : b ≤ 16) (n : Nat) :
    ∀ c ∈ Nat.toDigits b n, is_digit_of b c = true :=
  toDigitsCore_all_digits b hb2 hb (n + 1) n [] (fun _ h => absurd h (List.not_mem_nil _))

theorem zeroPad_all_digits (b : Nat) (hb : 0 < b) (w : Nat) (l : List Char)
    (hl : ∀ c ∈ l, is_digit_of b c = true) : ∀ c ∈ zeroPad w l, is_digit_of b c = true := by
  intro c hc
  rcases List.mem_append.mp hc with h | h
  · rw [(List.mem_replicate.mp h).2]
    simp only [is_digit_of, show digit_value '0' = some 0 by decide, hb, decide_True]
  · exact hl c h

/-- A digit is neither NUL, nor white space, nor a sign. -/
theorem digit_is_plain (b : Nat) (c : Char) (h : is_digit_of b c = true) :
    c.toNat ≠ 0 ∧ isspace c = false ∧ c ≠ '-' ∧ c ≠ '+' := by
  have hv : ∃ d, digit_value c = some d := by
    unfold is_digit_of at h
    split at h
    · exact ⟨_, by assumption⟩
    · cases h
  obtain ⟨d, hd⟩ := hv
  have hr : 48 ≤ c.toNat := by
    unfold digit_value at hd
    split_ifs at hd <;> omega
  refine ⟨by omega, ?_, ?_, ?_⟩
  · simp only [isspace, Bool.or_eq_false_iff, decide_eq_false_iff_not, Bool.and_eq_false_imp,
      decide_eq_true_eq]
    exact ⟨by omega, fun _ => by omega⟩
  · intro h1
    rw [h1] at hr
    exact absurd hr (by decide)
  · intro h1
    rw [h1] at hr
    exact absurd hr (by decide)

theorem c_str_of_no_nul (cs : List Char) (h : ∀ c ∈ cs, c.toNat ≠ 0) :
    c_str (String.mk cs) = String.mk cs := by
  unfold c_str
  congr 1
  rw [List.takeWhile_eq_self_iff]
  intro c hc
  simp only [ne_eq, decide_not, Bool.not_eq_true', decide_eq_false_iff_not]
  exact h c hc

theorem strtol_plain (c : Char) (rest : List Char) (hnul : ∀ x ∈ c :: rest, x.toNat ≠ 0)
    (hsp : isspace c = false) (hm : c ≠ '-') (hp : c ≠ '+') :
    strtol (String.mk (c :: rest)) = min (strtol_magnitude (c :: rest) : Int) LONG_MAX := by
  unfold strtol
  rw [c_str_of_no_nul _ hnul]
  have hd : List.dropWhile isspace (c :: rest) = c :: rest := by
    rw [List.dropWhile_cons, hsp]
    rfl
  simp only [hd]
  split
  · rename_i cs heq
    simp only [List.cons.injEq] at heq
    exact absurd heq.1 hm
  · rename_i cs heq
    simp only [List.cons.injEq] at heq
    exact absurd heq.1 hp
  · rfl

theorem strtol_of_digits (b : Nat) (c : Char) (rest : List Char)
    (h : ∀ x ∈ c :: rest, is_digit_of b x = true) :
    strtol (String.mk (c :: rest)) = min (strtol_magnitude (c :: rest) : Int) LONG_MAX := by
  have hc := digit_is_plain b c (h c (List.mem_cons_self _ _))
  exact strtol_plain c rest (fun x hx => (digit_is_plain b x (h x hx)).1) hc.2.1 hc.2.2.1 hc.2.2.2

theorem zeroPad_ne_nil (w : Nat) (l : List Char) (h : l ≠ []) : zeroPad w l ≠ [] := by
  unfold zeroPad
  intro h1
  exact h (List.append_eq_nil.mp h1).2

theorem toDigitsCore_ne_nil (b fuel n : Nat) (ds : List Char) (h : ds ≠ [] ∨ 0 < fuel) :
    Nat.toDigitsCore b fuel n ds ≠ [] := by
  induction fuel generalizing n ds with
  | zero =>
    rcases h with h | h
    · exact h
    · omega
  | succ fuel ih =>
    simp only [Nat.toDigitsCore]
    split_ifs
    · exact List.cons_ne_nil _ _
    · exact ih _ _ (Or.inl (List.cons_ne_nil _ _))

theorem toDigits_ne_nil (b n : Nat) : Nat.toDigits b n ≠ [] :=
  toDigitsCore_ne_nil b (n + 1) n [] (Or.inr (by omega))

/-- The text `"0x%0<w>x"` of a number reads back as that number. -/
theorem strtol_hex_text (w n : Nat) (hn : (n : Int) ≤ LONG_MAX) :
    strtol ("0x" ++ fmt_x w n) = n := by
  have hall := zeroPad_all_digits 16 (by decide) w _ (toDigits_all_digits 16 (by decide)
    (by decide) n)
  obtain ⟨h, rest, heq⟩ := List.exists_cons_of_ne_nil (zeroPad_ne_nil w _ (toDigits_ne_nil 16 n))
  have hs : "0x" ++ fmt_x w n = String.mk ('0' :: 'x' :: h :: rest) := by
    unfold fmt_x
    rw [heq]
    rfl
  rw [hs, strtol_plain '0' _ ?_ (by decide) (by decide) (by decide)]
  · have hh : is_digit_of 16 h = true := by
      apply hall
      rw [heq]
      exact List.mem_cons_self _ _
    have hm : strtol_magnitude ('0' :: 'x' :: h :: rest) = n := by
      simp only [strtol_magnitude, true_or, hh, and_self, if_true]
      rw [← heq, strtol_digits_zeroPad 16 (by decide), strtol_digits_toDigits 16 (by decide)
        (by decide)]
    rw [hm]
    exact min_eq_left hn
  · intro x hx
    rcases List.mem_cons.mp hx with h1 | h1
    · rw [h1]; decide
    · rcases List.mem_cons.mp h1 with h2 | h2
      · rw [h2]; decide
      · rw [← heq] at h2
        exact (digit_is_plain 16 x (hall x h2)).1

theorem toDigitsCore_head (b : Nat) (hb2 : 2 ≤ b) :
    ∀ (fuel n : Nat) (ds : List Char), 0 < n → n < fuel →
      ∃ m rest, 0 < m ∧ m < b ∧ Nat.toDigitsCore b fuel n ds = Nat.digitChar m :: rest := by
  intro fuel
  induction fuel with
  | zero => intro n ds h0 h; omega
  | succ fuel ih =>
    intro n ds hpos h
    simp only [Nat.toDigitsCore]
    split_ifs with h0
    · have hn : n < b := by
        rcases Nat.lt_or_ge n b with h1 | h1
        · exact h1
        · have := Nat.div_pos h1 (by omega : 0 < b)
          omega
      exact ⟨n, ds, hpos, hn, by rw [Nat.mod_eq_of_lt hn]⟩
    · have hlt : n / b < n := Nat.div_lt_self hpos (by omega)
      exact ih (n / b) _ (Nat.pos_of_ne_zero h0) (by omega)

theorem digitChar_ne_zero_char : ∀ m, m < 16 → 0 < m → Nat.digitChar m ≠ '0' := by
  decide

/-- The text `"%u"` of a number reads back as that number. -/
theorem strtol_fmt_u (n : Nat) (hn : (n : Int) ≤ LONG_MAX) : strtol (fmt_u n) = n := by
  rcases Nat.eq_zero_or_pos n with h0 | hpos
  · subst h0
    decide
  · obtain ⟨m, rest, hm0, hm10, heq⟩ := toDigitsCore_head 10 (by decide) (n + 1) n [] hpos
      (by omega)
    have hall := toDigits_all_digits 10 (by decide) (by decide) n
    have hs : fmt_u n = String.mk (Nat.digitChar m :: rest) := by
      unfold fmt_u Nat.toDigits
      rw [heq]
    have hall1 : ∀ x ∈ Nat.digitChar m :: rest, is_digit_of 10 x = true := by
      intro x hx
      apply hall
      unfold Nat.toDigits
      rw [heq]
      exact hx
    rw [hs, strtol_of_digits 10 _ _ hall1]
    have hne := digitChar_ne_zero_char m (by omega) hm0
    have hmag : strtol_magnitude (Nat.digitChar m :: rest) = n := by
      have h3 : strtol_magnitude (Nat.digitChar m :: rest)
          = strtol_digits 10 (Nat.digitChar m :: rest) 0 := by
        unfold strtol_magnitude
        split
        · rename_i heq1
          simp only [List.cons.injEq] at heq1
          exact absurd heq1.1 hne
        · rename_i heq1
          simp only [List.cons.injEq] at heq1
          exact absurd heq1.1 hne
        · rfl
      rw [h3, ← heq]
      exact strtol_digits_toDigits 10 (by decide) (by decide) n
    rw [hmag]
    exact min_eq_left hn

theorem fmt_x_no_nul (w n : Nat) : ∀ c ∈ (fmt_x w n).data, c.toNat ≠ 0 := fun c hc =>
  (digit_is_plain 16 c (zeroPad_all_digits 16 (by decide) w _
    (toDigits_all_digits 16 (by decide) (by decide) n) c hc)).1

theorem hex_dump_no_nul (bs : List Nat) : ∀ c ∈ (hex_dump bs).data, c.toNat ≠ 0 := by
  induction bs with
  | nil => intro c hc; cases hc
  | cons b bs ih =>
    intro c hc
    simp only [hex_dump, String.data_append, List.mem_append] at hc
    rcases hc with (h | h) | h
    · exact fmt_x_no_nul 2 b c h
    · have : c = ' ' := List.mem_singleton.mp h
      rw [this]
      decide
    · exact ih c h

theorem c_str_hex_dump (bs : List Nat) : c_str (hex_dump bs) = hex_dump bs :=
  c_str_of_no_nul (hex_dump bs).data (hex_dump_no_nul bs)

/-! ### Numbers, handles, status codes and addresses -/

theorem append_data_ne (a b : String) (h : a.data ≠ []) : (a ++ b).data ≠ [] := by
  rw [String.data_append]
  intro h1
  exact h (List.append_eq_nil.mp h1).1

theorem fmt_u_data_ne (n : Nat) : (fmt_u n).data ≠ [] := toDigits_ne_nil 10 n

theorem octet_at_of_octets_at (data : List Nat) (pos : Int) (b : Nat)
    (h : octets_at data pos 1 = some [b]) : octet_at data pos = some b := by
  simp only [octets_at] at h
  split at h
  · rename_i b1 bs h1 h2
    simp only [Option.some.injEq, List.cons.injEq] at h
    rw [h1, h.1]
  · cases h

theorem STREAM_TO_UINT8_ok (data : List Nat) (pos : Int) (b : Nat)
    (h : octets_at data pos 1 = some [b]) : STREAM_TO_UINT8 data pos = .ok (b, pos + 1) := by
  simp only [STREAM_TO_UINT8, octet_at_of_octets_at data pos b h]

theorem STREAM_TO_UINT_ok (bo : ByteOrder) (n : Nat) (data : List Nat) (pos : Int)
    (bs : List Nat) (h : octets_at data pos n = some bs) :
    STREAM_TO_UINT bo n data pos = .ok (assemble bo bs, pos + n) := by
  simp only [STREAM_TO_UINT, h]

theorem read_by_width_little (data : List Nat) (pos : Int) (w v : Nat) (hw1 : 1 ≤ w)
    (hw4 : w ≤ 4) (hv : v < 256 ^ w)
    (hdata : octets_at data pos w = some (little_endian_octets w v)) :
    read_by_width .little data pos (w : Int) = some (.ok (v, pos + w)) := by
  interval_cases w
  · simp only [little_endian_octets] at hdata
    simp only [read_by_width, Nat.cast_one, if_true, STREAM_TO_UINT8_ok data pos _ hdata]
    congr 3
    omega
  · simp only [read_by_width, Nat.cast_ofNat, OfNat.ofNat_ne_one, if_false, if_true,
      STREAM_TO_UINT_ok .little 2 data pos _ hdata]
    congr 3
    simp only [assemble, little_endian_octets, le_value]
    omega
  · have e1 : ¬ ((3 : Int) = 1) := by decide
    have e2 : ¬ ((3 : Int) = 2) := by decide
    simp only [read_by_width, Nat.cast_ofNat, e1, e2, if_false, if_true,
      STREAM_TO_UINT_ok .little 3 data pos _ hdata]
    congr 3
    simp only [assemble, little_endian_octets, le_value]
    omega
  · have e1 : ¬ ((4 : Int) = 1) := by decide
    have e2 : ¬ ((4 : Int) = 2) := by decide
    have e3 : ¬ ((4 : Int) = 3) := by decide
    simp only [read_by_width, Nat.cast_ofNat, e1, e2, e3, if_false, if_true,
      STREAM_TO_UINT_ok .little 4 data pos _ hdata]
    congr 3
    simp only [assemble, little_endian_octets, le_value]
    omega

/-- C10, amended: the stream readers assemble integers least significant octet
first, the order in which the packets of the specification are read (the octets
`03 0C` are the opcode 0x0C03). A field of type `INT_HEX` or `INT_DEC` and width
`w` in 1..4 that finds the little-endian encoding of `v < 256^w` under the cursor
(and a budget of at least `w`) consumes `w` octets and writes a text that
`strtol` reads back as `v`: `"0x"` and 2, 4 or 8 hexadecimal digits, or the
decimal digits. -/
theorem C10_numeric_round_trip (inst : HCI_INSTANCE) (d : HCI_PARAMETER_REPR) (seq : Int)
    (data : List Nat) (pos left : Int) (indent : Nat) (w v : Nat)
    (hvi : inst.value_index < MAX_HCI_PARAM_NUM) (hw1 : 1 ≤ w) (hw4 : w ≤ 4)
    (hv : v < 256 ^ w) (hk : d.display_type = .INT_HEX ∨ d.display_type = .INT_DEC)
    (hlen : d.length = w) (hleft : (w : Int) ≤ left)
    (hdata : octets_at data pos w = some (little_endian_octets w v)) :
    ∃ text, parse_parameter .little inst d seq data pos left indent =
        .ok (append_field inst
          { name := d.name, seq_num := seq, value := text, indent_level := indent },
          pos + w, left - w) ∧
      strtol text = v ∧
      (d.display_type = .INT_HEX →
        text = "0x" ++ fmt_x (if w = 1 then 2 else if w = 2 then 4 else 8) v) ∧
      (d.display_type = .INT_DEC → text = fmt_u v) := by
  have hle : d.length ≤ left := by rw [hlen]; exact hleft
  have hread := read_by_width_little data pos w v hw1 hw4 hv hdata
  have hvl : (v : Int) ≤ LONG_MAX := by
    have : v < 256 ^ 4 := lt_of_lt_of_le hv (Nat.pow_le_pow_right (by decide) hw4)
    have h2 : (v : Int) < 4294967296 := by exact_mod_cast this
    unfold LONG_MAX
    omega
  rcases hk with hk | hk
  · refine ⟨"0x" ++ fmt_x (if w = 1 then 2 else if w = 2 then 4 else 8) v, ?_,
      strtol_hex_text _ v hvl, fun _ => rfl, fun h => ?_⟩
    · have hren : render_parameter .little (clamped_type d d.length left) d
          (clamped_length d.length left) (decide (d.length > left ∧ d.length ≠ INT_MAX)) data pos
          = .ok ("0x" ++ fmt_x (if w = 1 then 2 else if w = 2 then 4 else 8) v, pos + w, w) := by
        rw [clamped_type_le d left hle, clamped_length_le _ _ hle, hk, hlen]
        simp only [render_parameter, hread]
        norm_cast
      have h := parse_parameter_of_render .little inst d seq data pos left indent _ _ _ hvi
        (by rw [hlen]; omega) hren
      rw [sprintf_into_of_ne _ _ (append_data_ne _ _ (by decide))] at h
      exact h
    · rw [hk] at h
      cases h
  · refine ⟨fmt_u v, ?_, strtol_fmt_u v hvl, fun h => ?_, fun _ => rfl⟩
    · have hren : render_parameter .little (clamped_type d d.length left) d
          (clamped_length d.length left) (decide (d.length > left ∧ d.length ≠ INT_MAX)) data pos
          = .ok (fmt_u v, pos + w, w) := by
        rw [clamped_type_le d left hle, clamped_length_le _ _ hle, hk, hlen]
        simp only [render_parameter, hread]
      have h := parse_parameter_of_render .little inst d seq data pos left indent _ _ _ hvi
        (by rw [hlen]; omega) hren
      rw [sprintf_into_of_ne _ _ (fmt_u_data_ne v)] at h
      exact h
    · rw [hk] at h
      cases h

theorem C10_numeric_round_trip_witness :
    ∃ text, parse_parameter .little {} HCI_EVENTS_0x0e.parameter[1] 0 [0x03, 0x0C] 0 2 1 =
        .ok (append_field {}
          { name := HCI_EVENTS_0x0e.parameter[1].name, seq_num := 0, value := text,
            indent_level := 1 }, 0 + (2 : Nat), 2 - (2 : Nat)) ∧
      strtol text = (0x0C03 : Nat) ∧
      (HCI_EVENTS_0x0e.parameter[1].display_type = .INT_HEX →
        text = "0x" ++ fmt_x (if 2 = 1 then 2 else if 2 = 2 then 4 else 8) 0x0C03) ∧
      (HCI_EVENTS_0x0e.parameter[1].display_type = .INT_DEC → text = fmt_u 0x0C03) :=
  C10_numeric_round_trip {} HCI_EVENTS_0x0e.parameter[1] 0 [0x03, 0x0C] 0 2 1 2 0x0C03
    (by decide) (by decide) (by decide) (by decide) (Or.inl (by decide)) (by decide)
    (by decide) (by decide)

/-- C10, the claim as it was written: the big-endian encoding `0C 03` of the
opcode 0x0C03 is not decoded as 0x0C03 but as 0x030C, in hexadecimal and in
decimal, and the big-endian encoding `00 01 00 00` of 65536 is decoded as 256.
The command `HCI_Reset` (opcode 0x0C03) is sent as `03 0C 00`; the octets
`0C 03 00` are the opcode 0x030C, which is no command. -/
theorem C10_big_endian_not_reproduced :
    big_endian_octets 2 0x0C03 = [0x0C, 0x03] ∧
    (parse_parameter .little {} HCI_EVENTS_0x0e.parameter[1] 0 [0x0C, 0x03] 0 2 1).map
        (fun st => (fields st.1, st.2))
      = .ok ([{ name := some "Command_Opcode", seq_num := 0, value := "0x030c",
                indent_level := 1 }], 2, 0) ∧
    strtol "0x030c" = 0x030C ∧
    (parse_parameter .little {} HCI_EVENTS_0x13.parameter[2] 1 [0x0C, 0x03] 0 2 1).map
        (fun st => (fields st.1, st.2))
      = .ok ([{ name := some "HC_Num_Of_Completed_Packet", seq_num := 1, value := "780",
                indent_level := 1 }], 2, 0) ∧
    big_endian_octets 4 65536 = [0x00, 0x01, 0x00, 0x00] ∧
    (parse_parameter .little {}
        { name := some "Value", length := 4, display_type := .INT_DEC } 0
        [0x00, 0x01, 0x00, 0x00] 0 4 1).map (fun st => (fields st.1, st.2))
      = .ok ([{ name := some "Value", seq_num := 0, value := "256", indent_level := 1 }], 4, 0) ∧
    parse_hci_command .little [0x03, 0x0C, 0x00] "T"
      = .ok ["T HCI Command: HCI_Reset(0x0c03), Parameter Length: 0"] ∧
    parse_hci_command .little [0x0C, 0x03, 0x00] "T" = .ok [] := by
  refine ⟨by decide, by decide, by decide, by decide, by decide, by decide, by decide, by decide⟩

/-- C11, amended: the stream readers assemble integers least significant octet
first. A field of type `INT_HANDLE` that finds the octets `b0 b1` under the cursor
(and a budget of at least 2) consumes 2 octets and writes `"(0x%04x) %u"` of the
value `(b0 + 256 * b1) mod 4096`; the octets `34 12` give `"(0x0234) 564"`. -/
theorem C11_connection_handle (inst : HCI_INSTANCE) (d : HCI_PARAMETER_REPR) (seq : Int)
    (data : List Nat) (pos left : Int) (indent : Nat) (b0 b1 : Nat)
    (hvi : inst.value_index < MAX_HCI_PARAM_NUM) (hk : d.display_type = .INT_HANDLE)
    (hlen : d.length = 2) (hleft : 2 ≤ left) (hdata : octets_at data pos 2 = some [b0, b1]) :
    parse_parameter .little inst d seq data pos left indent =
        .ok (append_field inst
          { name := d.name, seq_num := seq,
            value := "(0x" ++ fmt_x 4 ((b0 + 256 * b1) % 4096) ++ ") "
              ++ fmt_u ((b0 + 256 * b1) % 4096),
            indent_level := indent }, pos + 2, left - 2) ∧
      "(0x" ++ fmt_x 4 ((0x34 + 256 * 0x12) % 4096) ++ ") " ++ fmt_u ((0x34 + 256 * 0x12) % 4096)
        = "(0x0234) 564" := by
  refine ⟨?_, by decide⟩
  have hle : d.length ≤ left := by rw [hlen]; exact hleft
  have hval : assemble .little [b0, b1] &&& 0x0fff = (b0 + 256 * b1) % 4096 := by
    have h := Nat.and_pow_two_sub_one_eq_mod (assemble .little [b0, b1]) 12
    simp only [assemble, le_value] at h ⊢
    rw [show (0x0fff : Nat) = 2 ^ 12 - 1 by decide, h]
    omega
  have hren : render_parameter .little (clamped_type d d.length left) d
      (clamped_length d.length left) (decide (d.length > left ∧ d.length ≠ INT_MAX)) data pos
      = .ok ("(0x" ++ fmt_x 4 ((b0 + 256 * b1) % 4096) ++ ") "
          ++ fmt_u ((b0 + 256 * b1) % 4096), pos + 2, 2) := by
    rw [clamped_type_le d left hle, clamped_length_le _ _ hle, hk, hlen]
    simp only [render_parameter, if_true, STREAM_TO_UINT_ok .little 2 data pos _ hdata, hval]
    rfl
  have h := parse_parameter_of_render .little inst d seq data pos left indent _ _ _ hvi
    (by rw [hlen]; decide) hren
  rw [sprintf_into_of_ne _ _ (by
    rw [String.append_assoc, String.append_assoc]
    exact append_data_ne _ _ (by decide))] at h
  exact h

theorem C11_connection_handle_witness :
    parse_parameter .little {} HCI_EVENTS_0x13.parameter[1] 1 [0x34, 0x12] 0 2 1 =
        .ok (append_field {}
          { name := HCI_EVENTS_0x13.parameter[1].name, seq_num := 1,
            value := "(0x" ++ fmt_x 4 ((0x34 + 256 * 0x12) % 4096) ++ ") "
              ++ fmt_u ((0x34 + 256 * 0x12) % 4096),
            indent_level := 1 }, 0 + 2, 2 - 2) ∧
      "(0x" ++ fmt_x 4 ((0x34 + 256 * 0x12) % 4096) ++ ") " ++ fmt_u ((0x34 + 256 * 0x12) % 4096)
        = "(0x0234) 564" :=
  C11_connection_handle {} HCI_EVENTS_0x13.parameter[1] 1 [0x34, 0x12] 0 2 1 0x34 0x12
    (by decide) (by decide) (by decide) (by decide) (by decide)

/-- C11, the example as it was written: the octets `12 34` are the handle
0x3412, masked to 0x412, and are logged as `"(0x0412) 1042"`, not as
`"(0x0234) 564"`; so are they in an event Number Of Completed Packets. -/
theorem C11_example_reads_low_octet_first :
    (parse_parameter .little {} HCI_EVENTS_0x13.parameter[1] 1 [0x12, 0x34] 0 2 1).map
        (fun st => (fields st.1, st.2))
      = .ok ([{ name := some "Connection_Handle", seq_num := 1, value := "(0x0412) 1042",
                indent_level := 1 }], 2, 0) ∧
    parse_hci_event .little [0x13, 0x05, 0x01, 0x12, 0x34, 0x02, 0x00] "T"
      = .ok ["T HCI Event: Number Of Completed Packets(0x13), Parameter Length: 5",
             "    Number_of_Handles: 1",
             "    [1] Connection_Handle: (0x0412) 1042",
             "    [1] HC_Num_Of_Completed_Packet: 2"] := by
  exact ⟨by decide, by decide⟩

theorem status_text_plain : ∀ t ∈ EVENT_STATUS_TEXT, c_str t = t := by
  decide

/-- C12: a field of type `TEXT_REASON_STATUS_CODE` (width 1) that finds the octet
`b <= 0x40` under the cursor (and a budget of at least 1) consumes 1 octet and
writes `"(0x%02x) "` followed by entry `b` of the 65-entry table
`EVENT_STATUS_TEXT`; 0x04 gives `"(0x04) Page Timeout"`, 0x00 `"(0x00) Success"`. -/
theorem C12_status_code (bo : ByteOrder) (inst : HCI_INSTANCE) (d : HCI_PARAMETER_REPR)
    (seq : Int) (data : List Nat) (pos left : Int) (indent : Nat) (b : Nat)
    (hvi : inst.value_index < MAX_HCI_PARAM_NUM)
    (hk : d.display_type = .TEXT_REASON_STATUS_CODE) (hlen : d.length = 1) (hleft : 1 ≤ left)
    (hb : b ≤ 0x40) (hdata : octets_at data pos 1 = some [b]) :
    parse_parameter bo inst d seq data pos left indent =
        .ok (append_field inst
          { name := d.name, seq_num := seq,
            value := "(0x" ++ fmt_x 2 b ++ ") " ++ EVENT_STATUS_TEXT.getD b "",
            indent_level := indent }, pos + 1, left - 1) ∧
      EVENT_STATUS_TEXT.length = 65 ∧
      "(0x" ++ fmt_x 2 0x04 ++ ") " ++ EVENT_STATUS_TEXT.getD 0x04 "" = "(0x04) Page Timeout" ∧
      "(0x" ++ fmt_x 2 0x00 ++ ") " ++ EVENT_STATUS_TEXT.getD 0x00 "" = "(0x00) Success" := by
  refine ⟨?_, by decide, by decide, by decide⟩
  have hle : d.length ≤ left := by rw [hlen]; exact hleft
  have hlt : b < EVENT_STATUS_TEXT.length := by
    have : EVENT_STATUS_TEXT.length = 65 := by decide
    omega
  have hget : EVENT_STATUS_TEXT[b]? = some (EVENT_STATUS_TEXT.getD b "") := by
    rw [List.getD_eq_getElem?_getD, List.getElem?_eq_getElem hlt]
    rfl
  have hplain : c_str (EVENT_STATUS_TEXT.getD b "") = EVENT_STATUS_TEXT.getD b "" := by
    apply status_text_plain
    rw [List.getD_eq_getElem?_getD, List.getElem?_eq_getElem hlt]
    exact List.getElem_mem _
  have hren : render_parameter bo (clamped_type d d.length left) d
      (clamped_length d.length left) (decide (d.length > left ∧ d.length ≠ INT_MAX)) data pos
      = .ok ("(0x" ++ fmt_x 2 b ++ ") " ++ EVENT_STATUS_TEXT.getD b "", pos + 1, 1) := by
    rw [clamped_type_le d left hle, clamped_length_le _ _ hle, hk, hlen]
    simp only [render_parameter, STREAM_TO_UINT8_ok data pos b hdata, hget, hplain]
  have h := parse_parameter_of_render bo inst d seq data pos left indent _ _ _ hvi
    (by rw [hlen]; decide) hren
  rw [sprintf_into_of_ne _ _ (by
    rw [String.append_assoc, String.append_assoc]
    exact append_data_ne _ _ (by decide))] at h
  exact h

theorem C12_status_code_witness :
    parse_parameter .little {} HCI_EVENTS_0x0f.parameter[0] 0 [0x04] 0 1 1 =
        .ok (append_field {}
          { name := HCI_EVENTS_0x0f.parameter[0].name, seq_num := 0,
            value := "(0x" ++ fmt_x 2 0x04 ++ ") " ++ EVENT_STATUS_TEXT.getD 0x04 "",
            indent_level := 1 }, 0 + 1, 1 - 1) ∧
      EVENT_STATUS_TEXT.length = 65 ∧
      "(0x" ++ fmt_x 2 0x04 ++ ") " ++ EVENT_STATUS_TEXT.getD 0x04 "" = "(0x04) Page Timeout" ∧
      "(0x" ++ fmt_x 2 0x00 ++ ") " ++ EVENT_STATUS_TEXT.getD 0x00 "" = "(0x00) Success" :=
  C12_status_code .little {} HCI_EVENTS_0x0f.parameter[0] 0 [0x04] 0 1 1 0x04
    (by decide) (by decide) (by decide) (by decide) (by decide) (by decide)

/-- C13: a field of type `TEXT_BD_ADDR` (width 6) that finds the octets `b0 .. b5`
under the cursor (and a budget of at least 6) consumes 6 octets and writes `"0x"`
followed by `b5-b4-b3-b2-b1-b0`, two lower-case hexadecimal digits each; the octets
`01 02 03 04 05 06` give `"0x06-05-04-03-02-01"`. -/
theorem C13_bd_addr (bo : ByteOrder) (inst : HCI_INSTANCE) (d : HCI_PARAMETER_REPR)
    (seq : Int) (data : List Nat) (pos left : Int) (indent : Nat) (b0 b1 b2 b3 b4 b5 : Nat)
    (hvi : inst.value_index < MAX_HCI_PARAM_NUM)
    (hk : d.display_type = .TEXT_BD_ADDR) (hlen : d.length = 6) (hleft : 6 ≤ left)
    (hdata : octets_at data pos 6 = some [b0, b1, b2, b3, b4, b5]) :
    parse_parameter bo inst d seq data pos left indent =
        .ok (append_field inst
          { name := d.name, seq_num := seq,
            value := "0x" ++ fmt_x 2 b5 ++ ("-" ++ fmt_x 2 b4 ++ ("-" ++ fmt_x 2 b3 ++
              ("-" ++ fmt_x 2 b2 ++ ("-" ++ fmt_x 2 b1 ++ ("-" ++ fmt_x 2 b0 ++ ""))))),
            indent_level := indent }, pos + 6, left - 6) ∧
      "0x" ++ fmt_x 2 0x06 ++ ("-" ++ fmt_x 2 0x05 ++ ("-" ++ fmt_x 2 0x04 ++
        ("-" ++ fmt_x 2 0x03 ++ ("-" ++ fmt_x 2 0x02 ++ ("-" ++ fmt_x 2 0x01 ++ "")))))
        = "0x06-05-04-03-02-01" := by
  refine ⟨?_, by decide⟩
  have hle : d.length ≤ left := by rw [hlen]; exact hleft
  have hren : render_parameter bo (clamped_type d d.length left) d
      (clamped_length d.length left) (decide (d.length > left ∧ d.length ≠ INT_MAX)) data pos
      = .ok ("0x" ++ fmt_x 2 b5 ++ ("-" ++ fmt_x 2 b4 ++ ("-" ++ fmt_x 2 b3 ++
          ("-" ++ fmt_x 2 b2 ++ ("-" ++ fmt_x 2 b1 ++ ("-" ++ fmt_x 2 b0 ++ ""))))),
          pos + 6, 6) := by
    rw [clamped_type_le d left hle, clamped_length_le _ _ hle, hk, hlen]
    have h6 : ((6 : Int).toNat) = 6 := by decide
    simp only [render_parameter, read_octets, h6, hdata]
    rfl
  have h := parse_parameter_of_render bo inst d seq data pos left indent _ _ _ hvi
    (by rw [hlen]; decide) hren
  rw [sprintf_into_of_ne _ _ (by
    rw [String.append_assoc]
    exact append_data_ne _ _ (by decide))] at h
  exact h

theorem C13_bd_addr_witness :
    parse_parameter .little {} HCI_LINK_CONTROL_COMMANDS_0x000b.parameter[0] 0
        [0x01, 0x02, 0x03, 0x04, 0x05, 0x06] 0 6 1 =
        .ok (append_field {}
          { name := HCI_LINK_CONTROL_COMMANDS_0x000b.parameter[0].name, seq_num := 0,
            value := "0x" ++ fmt_x 2 0x06 ++ ("-" ++ fmt_x 2 0x05 ++ ("-" ++ fmt_x 2 0x04 ++
              ("-" ++ fmt_x 2 0x03 ++ ("-" ++ fmt_x 2 0x02 ++ ("-" ++ fmt_x 2 0x01 ++ ""))))),
            indent_level := 1 }, 0 + 6, 6 - 6) ∧
      "0x" ++ fmt_x 2 0x06 ++ ("-" ++ fmt_x 2 0x05 ++ ("-" ++ fmt_x 2 0x04 ++
        ("-" ++ fmt_x 2 0x03 ++ ("-" ++ fmt_x 2 0x02 ++ ("-" ++ fmt_x 2 0x01 ++ "")))))
        = "0x06-05-04-03-02-01" :=
  C13_bd_addr .little {} HCI_LINK_CONTROL_COMMANDS_0x000b.parameter[0] 0
    [0x01, 0x02, 0x03, 0x04, 0x05, 0x06] 0 6 1 0x01 0x02 0x03 0x04 0x05 0x06
    (by decide) (by decide) (by decide) (by decide) (by decide)

theorem parse_special_security (idx : Int) (data : List Nat) (val_in : ValIn)
    (hid : idx = SECURITY_KEY_TYPE ∨ idx = SECURITY_PASSKEY_TYPE) :
    parse_special_displayed_parameters idx data val_in = .ok (true, "(Security Data is Hidden)") := by
  rcases hid with h | h <;> subst h <;> rfl

theorem read_by_width_available (bo : ByteOrder) (data : List Nat) (pos len : Int)
    (bs : List Nat) (hbs : octets_at data pos len.toNat = some bs) :
    read_by_width bo data pos len = none ∨
      ∃ v, read_by_width bo data pos len = some (.ok (v, pos + len)) := by
  unfold read_by_width
  split_ifs with h1 h2 h3 h4
  · right
    subst h1
    have hl := octets_at_length _ _ _ _ hbs
    match bs, hl with
    | [b], _ => exact ⟨b, by rw [STREAM_TO_UINT8_ok data pos b hbs]⟩
  · right
    subst h2
    exact ⟨_, by rw [STREAM_TO_UINT_ok bo 2 data pos bs hbs]; rfl⟩
  · right
    subst h3
    exact ⟨_, by rw [STREAM_TO_UINT_ok bo 3 data pos bs hbs]; rfl⟩
  · right
    subst h4
    exact ⟨_, by rw [STREAM_TO_UINT_ok bo 4 data pos bs hbs]; rfl⟩
  · left
    rfl


/-! ### Fields of fixed width -/

theorem octets_at_available (data : List Nat) (n : Nat) :
    ∀ (pos : Int), 0 ≤ pos → pos + n ≤ data.length → ∃ bs, octets_at data pos n = some bs := by
  induction n with
  | zero => intro pos _ _; exact ⟨[], rfl⟩
  | succ n ih =>
    intro pos h0 h1
    obtain ⟨bs, hbs⟩ := ih (pos + 1) (by omega) (by push_cast at h1 ⊢; omega)
    have hlt : pos.toNat < data.length := by push_cast at h1; omega
    refine ⟨data[pos.toNat] % 256 :: bs, ?_⟩
    simp only [octets_at, octet_at, h0, if_true, List.getElem?_eq_getElem hlt, Option.map_some',
      hbs]

theorem bd_addr_text_ne (addr : List Nat) : (bd_addr_text addr).data ≠ [] := by
  unfold bd_addr_text
  rw [String.append_assoc]
  exact append_data_ne _ _ (by decide)

/-- A `TEXT_BD_ADDR` descriptor of length 6 is a field of width 6. -/
theorem consumes_bd_addr (bo : ByteOrder) (data : List Nat) (indent : Nat)
    (d : HCI_PARAMETER_REPR) (hk : d.display_type = .TEXT_BD_ADDR) (hlen : d.length = 6) :
    Consumes bo data indent d 6 (fun pos => bd_addr_text ((octets_at data pos 6).getD []))
      0 data.length := by
  intro inst seq pos left hvi hlo hhi hleft
  obtain ⟨bs, hbs⟩ := octets_at_available data 6 pos hlo hhi
  have hle : d.length ≤ left := by rw [hlen]; exact hleft
  have hren : render_parameter bo (clamped_type d d.length left) d
      (clamped_length d.length left) (decide (d.length > left ∧ d.length ≠ INT_MAX)) data pos
      = .ok (bd_addr_text bs, pos + (6 : Nat), (6 : Nat)) := by
    rw [clamped_type_le d left hle, clamped_length_le _ _ hle, hk, hlen]
    have h6 : ((6 : Int).toNat) = 6 := by decide
    simp only [render_parameter, read_octets, h6, hbs]
    rfl
  have h := parse_parameter_of_render bo inst d seq data pos left indent _ _ _ hvi
    (by rw [hlen]; decide) hren
  rw [sprintf_into_of_ne _ _ (bd_addr_text_ne bs)] at h
  simp only [hbs, Option.getD_some]
  exact h

/-- The field of a descriptor with one of the two security display ids whose
declared width fits the budget. -/
theorem parse_parameter_security (bo : ByteOrder) (inst : HCI_INSTANCE)
    (d : HCI_PARAMETER_REPR) (seq : Int) (data : List Nat) (pos left : Int) (indent : Nat)
    (bs : List Nat) (hvi : inst.value_index < MAX_HCI_PARAM_NUM)
    (hk : d.display_type = .TEXT_SPECIAL_DISPLAY_PARAM)
    (hid : d.index_of_special_display_param = SECURITY_KEY_TYPE ∨
      d.index_of_special_display_param = SECURITY_PASSKEY_TYPE)
    (hlen : 0 ≤ d.length) (hle : d.length ≤ left)
    (hbs : octets_at data pos d.length.toNat = some bs) :
    parse_parameter bo inst d seq data pos left indent =
      .ok (append_field inst
        { name := d.name, seq_num := seq, value := "(Security Data is Hidden)",
          indent_level := indent }, pos + d.length, left - d.length) := by
  have hren : render_parameter bo (clamped_type d d.length left) d
      (clamped_length d.length left) (decide (d.length > left ∧ d.length ≠ INT_MAX)) data pos
      = .ok ("(Security Data is Hidden)", pos + d.length, d.length) := by
    rw [clamped_type_le d left hle, clamped_length_le _ _ hle, hk]
    rcases read_by_width_available bo data pos d.length bs hbs with h | ⟨v, h⟩
    · simp only [render_parameter, h, parse_special_security _ data _ hid]
    · simp only [render_parameter, h, parse_special_security _ data _ hid]
  have h := parse_parameter_of_render bo inst d seq data pos left indent _ _ _ hvi hlen hren
  rw [sprintf_into_of_ne _ _ (by decide)] at h
  exact h

/-- A descriptor with one of the two security display ids and length `w` is a
field of width `w` whose text is the redaction string. -/
theorem consumes_security (bo : ByteOrder) (data : List Nat) (indent : Nat)
    (d : HCI_PARAMETER_REPR) (w : Nat) (hk : d.display_type = .TEXT_SPECIAL_DISPLAY_PARAM)
    (hid : d.index_of_special_display_param = SECURITY_KEY_TYPE ∨
      d.index_of_special_display_param = SECURITY_PASSKEY_TYPE)
    (hlen : d.length = w) :
    Consumes bo data indent d w (fun _ => "(Security Data is Hidden)") 0 data.length := by
  intro inst seq pos left hvi hlo hhi hleft
  obtain ⟨bs, hbs⟩ := octets_at_available data w pos hlo hhi
  have h := parse_parameter_security bo inst d seq data pos left indent bs hvi hk hid
    (by rw [hlen]; omega) (by rw [hlen]; exact hleft) (by rw [hlen]; exact hbs)
  rw [hlen] at h
  exact h

/-- An `INT_HANDLE` descriptor of length 2 is a field of width 2. -/
theorem consumes_handle (bo : ByteOrder) (data : List Nat) (indent : Nat)
    (d : HCI_PARAMETER_REPR) (hk : d.display_type = .INT_HANDLE) (hlen : d.length = 2) :
    Consumes bo data indent d 2
      (fun pos => "(0x" ++ fmt_x 4 (assemble bo ((octets_at data pos 2).getD []) &&& 0x0fff)
        ++ ") " ++ fmt_u (assemble bo ((octets_at data pos 2).getD []) &&& 0x0fff))
      0 data.length := by
  intro inst seq pos left hvi hlo hhi hleft
  obtain ⟨bs, hbs⟩ := octets_at_available data 2 pos hlo hhi
  have hle : d.length ≤ left := by rw [hlen]; exact hleft
  have hren : render_parameter bo (clamped_type d d.length left) d
      (clamped_length d.length left) (decide (d.length > left ∧ d.length ≠ INT_MAX)) data pos
      = .ok ("(0x" ++ fmt_x 4 (assemble bo bs &&& 0x0fff) ++ ") "
          ++ fmt_u (assemble bo bs &&& 0x0fff), pos + (2 : Nat), (2 : Nat)) := by
    rw [clamped_type_le d left hle, clamped_length_le _ _ hle, hk, hlen]
    simp only [render_parameter, if_true, STREAM_TO_UINT_ok bo 2 data pos _ hbs]
    rfl
  have h := parse_parameter_of_render bo inst d seq data pos left indent _ _ _ hvi
    (by rw [hlen]; decide) hren
  rw [sprintf_into_of_ne _ _ (by
    rw [String.append_assoc, String.append_assoc]
    exact append_data_ne _ _ (by decide))] at h
  simp only [hbs, Option.getD_some]
  exact h

/-- An `INT_DEC` descriptor of length 2 is a field of width 2. -/
theorem consumes_int_dec_two (bo : ByteOrder) (data : List Nat) (indent : Nat)
    (d : HCI_PARAMETER_REPR) (hk : d.display_type = .INT_DEC) (hlen : d.length = 2) :
    Consumes bo data indent d 2
      (fun pos => fmt_u (assemble bo ((octets_at data pos 2).getD []))) 0 data.length := by
  intro inst seq pos left hvi hlo hhi hleft
  obtain ⟨bs, hbs⟩ := octets_at_available data 2 pos hlo hhi
  have hle : d.length ≤ left := by rw [hlen]; exact hleft
  have hren : render_parameter bo (clamped_type d d.length left) d
      (clamped_length d.length left) (decide (d.length > left ∧ d.length ≠ INT_MAX)) data pos
      = .ok (fmt_u (assemble bo bs), pos + (2 : Nat), (2 : Nat)) := by
    rw [clamped_type_le d left hle, clamped_length_le _ _ hle, hk, hlen]
    have e1 : ¬ ((2 : Int) = 1) := by decide
    simp only [render_parameter, read_by_width, e1, if_false, if_true,
      STREAM_TO_UINT_ok bo 2 data pos _ hbs]
    rfl
  have h := parse_parameter_of_render bo inst d seq data pos left indent _ _ _ hvi
    (by rw [hlen]; decide) hren
  rw [sprintf_into_of_ne _ _ (fmt_u_data_ne _)] at h
  simp only [hbs, Option.getD_some]
  exact h

/-- What a successful call of `parse_parameter` does to the instance: the slot
`value[value_index]` was inside the array and got the name of the descriptor, the
sequence number and the indentation; the other slots are unchanged; `value_index`
is one higher. -/
theorem parse_parameter_ok_inv (bo : ByteOrder) (inst : HCI_INSTANCE) (d : HCI_PARAMETER_REPR)
    (seq : Int) (data : List Nat) (pos left : Int) (indent : Nat) (st : WalkState)
    (h : parse_parameter bo inst d seq data pos left indent = .ok st) :
    inst.value_index < MAX_HCI_PARAM_NUM ∧ st.1.value_index = inst.value_index + 1 ∧
      (st.1.value inst.value_index).name = d.name ∧
      (st.1.value inst.value_index).seq_num = seq ∧
      (st.1.value inst.value_index).indent_level = indent ∧
      (∀ j, j ≠ inst.value_index → st.1.value j = inst.value j) := by
  by_cases hvi : inst.value_index < MAX_HCI_PARAM_NUM
  · unfold parse_parameter at h
    rw [value_update_ok _ _ _ hvi] at h
    simp only [] at h
    split at h
    · cases h
    · split at h
      · cases h
      · rw [value_update_ok _ _ _ (show (with_value inst inst.value_index _).value_index
          < MAX_HCI_PARAM_NUM from hvi)] at h
        simp only [Except.ok.injEq] at h
        subst h
        refine ⟨hvi, rfl, ?_, ?_, ?_, ?_⟩
        · simp only [with_value, if_true]
        · simp only [with_value, if_true]
        · simp only [with_value, if_true]
        · intro j hj
          simp only [with_value, hj, if_false]
  · exfalso
    unfold parse_parameter at h
    have h1 : ¬ ((0 : Int) ≤ (inst.value_index : Int) ∧
        (inst.value_index : Int) < (MAX_HCI_PARAM_NUM : Nat)) := by
      intro h2
      exact hvi (by exact_mod_cast h2.2)
    simp only [value_update, h1, if_false] at h
    cases h

theorem fields_of_inv (inst inst1 : HCI_INSTANCE)
    (hi : inst1.value_index = inst.value_index + 1)
    (hj : ∀ j, j ≠ inst.value_index → inst1.value j = inst.value j) :
    fields inst1 = fields inst ++ [inst1.value inst.value_index] := by
  simp only [fields, hi, List.range_succ, List.map_append, List.map_cons, List.map_nil]
  congr 1
  apply List.map_congr_left
  intro j hjm
  have : j ≠ inst.value_index := by
    have := List.mem_range.mp hjm
    omega
  exact hj j this

/-- An `INT_DEC` descriptor of length 1 is a field of width 1. -/
theorem consumes_int_dec_one (bo : ByteOrder) (data : List Nat) (indent : Nat)
    (d : HCI_PARAMETER_REPR) (hk : d.display_type = .INT_DEC) (hlen : d.length = 1) :
    Consumes bo data indent d 1 (fun pos => fmt_u ((octet_at data pos).getD 0))
      0 data.length := by
  intro inst seq pos left hvi hlo hhi hleft
  obtain ⟨bs, hbs⟩ := octets_at_available data 1 pos hlo hhi
  have hl := octets_at_length _ _ _ _ hbs
  obtain ⟨b, rfl⟩ : ∃ b, bs = [b] := by
    match bs, hl with
    | [b], _ => exact ⟨b, rfl⟩
  have hle : d.length ≤ left := by rw [hlen]; exact hleft
  have hren : render_parameter bo (clamped_type d d.length left) d
      (clamped_length d.length left) (decide (d.length > left ∧ d.length ≠ INT_MAX)) data pos
      = .ok (fmt_u b, pos + (1 : Nat), (1 : Nat)) := by
    rw [clamped_type_le d left hle, clamped_length_le _ _ hle, hk, hlen]
    simp only [render_parameter, read_by_width, if_true, STREAM_TO_UINT8_ok data pos b hbs]
    rfl
  have h := parse_parameter_of_render bo inst d seq data pos left indent _ _ _ hvi
    (by rw [hlen]; decide) hren
  rw [sprintf_into_of_ne _ _ (fmt_u_data_ne _)] at h
  simp only [octet_at_of_octets_at data pos b hbs, Option.getD_some]
  exact h

/-! ### Security data -/

/-- C7, the part that holds: a field with special display id `SECURITY_KEY_TYPE`
(301) or `SECURITY_PASSKEY_TYPE` (302) whose declared width fits the budget is
written as `"(Security Data is Hidden)"`, whatever the octets are. -/
theorem C7_security_data_hidden_when_complete (bo : ByteOrder) (inst : HCI_INSTANCE)
    (d : HCI_PARAMETER_REPR) (seq : Int) (data : List Nat) (pos left : Int) (indent : Nat)
    (bs : List Nat) (hvi : inst.value_index < MAX_HCI_PARAM_NUM)
    (hk : d.display_type = .TEXT_SPECIAL_DISPLAY_PARAM)
    (hid : d.index_of_special_display_param = SECURITY_KEY_TYPE ∨
      d.index_of_special_display_param = SECURITY_PASSKEY_TYPE)
    (hlen : 0 ≤ d.length) (hle : d.length ≤ left)
    (hbs : octets_at data pos d.length.toNat = some bs) :
    parse_parameter bo inst d seq data pos left indent =
      .ok (append_field inst
        { name := d.name, seq_num := seq, value := "(Security Data is Hidden)",
          indent_level := indent }, pos + d.length, left - d.length) :=
  parse_parameter_security bo inst d seq data pos left indent bs hvi hk hid hlen hle hbs

theorem C7_security_data_hidden_when_complete_witness :
    parse_parameter .little {} HCI_LINK_CONTROL_COMMANDS_0x000b.parameter[1] 0
        [0, 1, 2, 3, 4, 5, 6, 7, 8, 9, 10, 11, 12, 13, 14, 15] 0 16 1 =
      .ok (append_field {}
        { name := HCI_LINK_CONTROL_COMMANDS_0x000b.parameter[1].name, seq_num := 0,
          value := "(Security Data is Hidden)", indent_level := 1 },
        0 + HCI_LINK_CONTROL_COMMANDS_0x000b.parameter[1].length,
        16 - HCI_LINK_CONTROL_COMMANDS_0x000b.parameter[1].length) :=
  C7_security_data_hidden_when_complete .little {}
    HCI_LINK_CONTROL_COMMANDS_0x000b.parameter[1] 0
    [0, 1, 2, 3, 4, 5, 6, 7, 8, 9, 10, 11, 12, 13, 14, 15] 0 16 1
    [0, 1, 2, 3, 4, 5, 6, 7, 8, 9, 10, 11, 12, 13, 14, 15]
    (by decide) (by decide) (Or.inl (by decide)) (by decide) (by decide) (by decide)

/-- C7, the failing input: the command `HCI_Link_Key_Request_Reply` (opcode 0x040B)
with a parameter length of 9, that is the address and only the first three octets
`aa bb cc` of the link key, logs those key octets. -/
theorem C7_truncated_link_key_is_logged :
    parse_hci_command .little
        [0x0B, 0x04, 0x09, 0x01, 0x02, 0x03, 0x04, 0x05, 0x06, 0xAA, 0xBB, 0xCC] "12:00:00.000000"
      = .ok ["12:00:00.000000 HCI Command: HCI_Link_Key_Request_Reply(0x040b), Parameter Length: 9",
             "    BD_ADDR: 0x06-05-04-03-02-01",
             "    Link_Key: aa bb cc (truncated)"] ∧
    (∀ bo, (parse_parameter bo {} HCI_LINK_CONTROL_COMMANDS_0x000b.parameter[1] 0
        [0xAA, 0xBB, 0xCC] 0 3 1).map (fun st => (fields st.1, st.2))
      = .ok ([{ name := some "Link_Key", seq_num := 0, value := "aa bb cc (truncated)",
                indent_level := 1 }], 3, 0)) := by
  refine ⟨by decide, fun bo => ?_⟩
  cases bo <;> decide


/-! ### Summary line and Command Complete -/

theorem fields_length (inst : HCI_INSTANCE) : (fields inst).length = inst.value_index := by
  simp only [fields, List.length_map, List.length_range]

theorem walk_parameters_succ (bo : ByteOrder) (ds : List HCI_PARAMETER_REPR) (pc : Nat)
    (data : List Nat) (indent fuel i : Nat) (inst : HCI_INSTANCE) (pos left : Int) :
    walk_parameters bo ds pc data indent (fuel + 1) i (inst, pos, left) =
    if i < pc ∧ left ≥ 0 then
      match descriptor_at ds i with
      | .error e => .error e
      | .ok param_repr =>
        match parse_parameter bo inst param_repr 0 data pos left indent with
        | .error e => .error e
        | .ok (inst1, pos1, left_len1) =>
          if param_repr.repeat_param_num ≤ 0 then
            walk_parameters bo ds pc data indent fuel (i + 1) (inst1, pos1, left_len1)
          else
            match value_at inst1 ((inst1.value_index : Int) - 1) with
            | .error e => .error e
            | .ok count_value =>
              match repeat_units bo ds i param_repr.repeat_param_num.toNat data
                  indent (to_int (strtol count_value.value)).toNat 0 (inst1, pos1, left_len1) with
              | .error e => .error e
              | .ok st2 =>
                walk_parameters bo ds pc data indent fuel
                  (i + param_repr.repeat_param_num.toNat + 1) st2
    else .ok (inst, pos, left) := rfl

theorem repeat_units_succ (bo : ByteOrder) (ds : List HCI_PARAMETER_REPR) (i rp : Nat)
    (data : List Nat) (indent n : Nat) (repeat_index : Int) (inst : HCI_INSTANCE)
    (pos left : Int) :
    repeat_units bo ds i rp data indent (n + 1) repeat_index (inst, pos, left) =
    if left ≥ 0 then
      match repeat_unit bo ds i (repeat_index + 1) data indent rp 1 (inst, pos, left) with
      | .error e => .error e
      | .ok st1 => repeat_units bo ds i rp data indent n (repeat_index + 1) st1
    else .ok (inst, pos, left) := rfl

theorem repeat_unit_succ (bo : ByteOrder) (ds : List HCI_PARAMETER_REPR) (i : Nat)
    (seq : Int) (data : List Nat) (indent n idx : Nat) (inst : HCI_INSTANCE) (pos left : Int) :
    repeat_unit bo ds i seq data indent (n + 1) idx (inst, pos, left) =
    if left ≥ 0 then
      match descriptor_at ds (i + idx) with
      | .error e => .error e
      | .ok param_repr =>
        match parse_parameter bo inst param_repr seq data pos left indent with
        | .error e => .error e
        | .ok st1 => repeat_unit bo ds i seq data indent n (idx + 1) st1
    else .ok (inst, pos, left) := rfl

theorem walk_parameters_done (bo : ByteOrder) (ds : List HCI_PARAMETER_REPR) (pc : Nat)
    (data : List Nat) (indent fuel i : Nat) (st : WalkState) (h : ¬ (i < pc ∧ st.2.2 ≥ 0)) :
    walk_parameters bo ds pc data indent fuel i st = .ok st := by
  obtain ⟨inst, pos, left⟩ := st
  cases fuel with
  | zero => rfl
  | succ fuel =>
    rw [walk_parameters_succ, if_neg h]

theorem walk_parameters_step (bo : ByteOrder) (ds : List HCI_PARAMETER_REPR) (pc : Nat)
    (data : List Nat) (indent fuel i : Nat) (inst : HCI_INSTANCE) (pos left : Int)
    (d : HCI_PARAMETER_REPR) (st1 : WalkState) (hi : i < pc) (hl : 0 ≤ left)
    (hd : descriptor_at ds i = .ok d) (hrep : d.repeat_param_num ≤ 0)
    (hp : parse_parameter bo inst d 0 data pos left indent = .ok st1) :
    walk_parameters bo ds pc data indent (fuel + 1) i (inst, pos, left)
      = walk_parameters bo ds pc data indent fuel (i + 1) st1 := by
  obtain ⟨inst1, pos1, left1⟩ := st1
  have hg : i < pc ∧ left ≥ 0 := ⟨hi, hl⟩
  rw [walk_parameters_succ, if_pos hg, hd]
  simp only [hp, hrep, if_true]

theorem descriptor_at_getElem (ds : List HCI_PARAMETER_REPR) (i : Nat) (h : i < ds.length)
    (h30 : i < MAX_HCI_PARAM_NUM) : descriptor_at ds i = .ok ds[i] := by
  simp only [descriptor_at, h30, if_true, List.getD_eq_getElem?_getD,
    List.getElem?_eq_getElem h, Option.getD_some]

theorem octets_at_cons (b : Nat) (data : List Nat) (pos : Int) (n : Nat) (h : 0 ≤ pos) :
    octets_at (b :: data) (pos + 1) n = octets_at data pos n := by
  induction n generalizing pos with
  | zero => rfl
  | succ n ih =>
    have h1 : (pos + 1).toNat = pos.toNat + 1 := by omega
    have h2 : (0 : Int) ≤ pos + 1 := by omega
    simp only [octets_at, octet_at, h, h2, if_true, h1, List.getElem?_cons_succ,
      ih (pos + 1) (by omega)]

theorem octets_at_zero_pos (data : List Nat) (n : Nat) :
    octets_at data 0 n = if n ≤ data.length then some ((data.take n).map (· % 256)) else none := by
  induction n generalizing data with
  | zero => simp only [octets_at, Nat.zero_le, if_true, List.take_zero, List.map_nil]
  | succ n ih =>
    cases data with
    | nil =>
      simp only [octets_at, octet_at, le_refl, if_true, Int.toNat_zero, List.getElem?_nil,
        Option.map_none', List.length_nil, Nat.le_zero_eq, Nat.add_one_ne_zero, if_false]
    | cons b data =>
      have h := octets_at_cons b data 0 n (le_refl 0)
      simp only [zero_add] at h
      simp only [octets_at, octet_at, le_refl, if_true, Int.toNat_zero, List.getElem?_cons_zero,
        Option.map_some', zero_add, h, ih data, List.length_cons, Nat.add_le_add_iff_right,
        List.take_succ_cons, List.map_cons]
      split_ifs <;> rfl

/-! ### Command Complete -/

theorem parse_hci_instance_command_complete (bo : ByteOrder) (inst : HCI_INSTANCE)
    (hvi : inst.value_index = 0) (L n o0 o1 : Nat) (rest : List Nat) (hL : 3 ≤ L)
    (hn : n < 256) (ho0 : o0 < 256) (ho1 : o1 < 256) :
    parse_hci_instance bo inst HCI_EVENTS_0x0e.parameter 2 (0x0E :: L :: n :: o0 :: o1 :: rest)
        2 L INDENT_LEVEL_1 =
      .ok (append_field (append_field inst
          { name := some "Num_HCI_Command_Packets", seq_num := 0,
            value := sprintf_into (inst.value 0).value (fmt_u n), indent_level := 1 })
          { name := some "Command_Opcode", seq_num := 0,
            value := sprintf_into (inst.value 1).value ("0x" ++ fmt_x 4 (assemble bo [o0, o1])),
            indent_level := 1 }, 5, L - 3) := by
  have hd0 : descriptor_at HCI_EVENTS_0x0e.parameter 0 = .ok
      { name := some "Num_HCI_Command_Packets", length := 1, display_type := .INT_DEC } := by
    decide
  have hd1 : descriptor_at HCI_EVENTS_0x0e.parameter 1 = .ok
      { name := some "Command_Opcode", length := 2, display_type := .INT_HEX } := by
    decide
  have hL0 : (0 : Int) ≤ L := by omega
  have hL1 : (1 : Int) ≤ L := by omega
  have hL2 : (2 : Int) ≤ (L : Int) - 1 := by omega
  have hoct0 : octets_at (0x0E :: L :: n :: o0 :: o1 :: rest) 2 1 = some [n] := by
    simp only [octets_at, octet_at]
    simp [Nat.mod_eq_of_lt hn]
  have hoct1 : octets_at (0x0E :: L :: n :: o0 :: o1 :: rest) (2 + 1) 2 = some [o0, o1] := by
    simp only [octets_at, octet_at]
    simp [Nat.mod_eq_of_lt ho0, Nat.mod_eq_of_lt ho1]
  have hp0 := parse_parameter_of_render bo inst
    { name := some "Num_HCI_Command_Packets", length := 1, display_type := .INT_DEC } 0
    (0x0E :: L :: n :: o0 :: o1 :: rest) 2 L INDENT_LEVEL_1 (fmt_u n) (2 + 1) 1
    (by rw [hvi]; decide) (by decide) (by
      rw [clamped_type_le _ _ hL1, clamped_length_le _ _ hL1]
      simp only [render_parameter, read_by_width, if_true, STREAM_TO_UINT8_ok _ _ _ hoct0])
  have hp1 := parse_parameter_of_render bo (append_field inst
      { name := some "Num_HCI_Command_Packets", seq_num := 0,
        value := sprintf_into (inst.value inst.value_index).value (fmt_u n),
        indent_level := INDENT_LEVEL_1 })
    { name := some "Command_Opcode", length := 2, display_type := .INT_HEX } 0
    (0x0E :: L :: n :: o0 :: o1 :: rest) (2 + 1) (L - 1) INDENT_LEVEL_1
    ("0x" ++ fmt_x 4 (assemble bo [o0, o1])) (2 + 1 + 2) 2
    (by simp only [append_field, hvi]; decide) (by decide) (by
      rw [clamped_type_le _ _ hL2, clamped_length_le _ _ hL2]
      have e1 : ¬ ((2 : Int) = 1) := by decide
      simp only [render_parameter, read_by_width, e1, if_false, if_true,
        STREAM_TO_UINT_ok bo 2 _ _ _ hoct1]
      rfl)
  unfold parse_hci_instance
  rw [walk_parameters_step bo _ 2 _ _ 1 0 inst 2 L _ _ (by decide) hL0 hd0 (by decide) hp0]
  rw [walk_parameters_step bo _ 2 _ _ 0 1 _ _ _ _ _ (by decide) (by omega) hd1 (by decide) hp1]
  rw [walk_parameters_done _ _ _ _ _ _ _ _ (by simp only [lt_irrefl, false_and, not_false_eq_true])]
  simp only [append_field, hvi, INDENT_LEVEL_1]
  refine congrArg Except.ok (Prod.ext ?_ (Prod.ext ?_ ?_))
  · rfl
  · rfl
  · simp only []
    omega

theorem assemble_two_lt (bo : ByteOrder) (o0 o1 : Nat) (ho0 : o0 < 256) (ho1 : o1 < 256) :
    assemble bo [o0, o1] < 65536 := by
  cases bo <;>
    simp only [assemble, List.reverse_cons, List.reverse_nil, List.nil_append, List.cons_append,
      le_value] <;> omega

theorem command_complete_found (bo : ByteOrder) (data : List Nat) (inst : HCI_INSTANCE)
    (pos left : Int) (u : HCI_UNIT_REPR) (hvi : inst.value_index < MAX_HCI_PARAM_NUM)
    (hu : get_matched_hci_cmd_repr (to_uint16 (strtol (inst.value 1).value)) = some u)
    (hname : u.name ≠ none) (hR : u.return_parameter_count ≠ 0) :
    command_complete bo data (inst, pos, left) =
      parse_hci_instance bo
        { name := inst.name, opcode := inst.opcode, parameter_length := inst.parameter_length,
          parameter_count := inst.parameter_count, value_index := inst.value_index + 1,
          value := (with_value
            (with_value inst 1 (fun v =>
              { v with
                value := sprintf_into v.value (fmt_s u.name ++ "(0x"
                  ++ fmt_x 4 (to_uint16 (strtol (inst.value 1).value)) ++ ")") }))
            inst.value_index
            (fun v =>
              { v with name := some "Return Parameter", indent_level := INDENT_LEVEL_1 })).value }
        u.return_parameter u.return_parameter_count data pos left INDENT_LEVEL_2 := by
  unfold command_complete
  rw [value_at_int inst 1 (by decide) (by decide)]
  simp only [show (1 : Int).toNat = 1 from rfl, hu, hname, if_false, set_value]
  rw [value_update_int inst 1 _ (by decide) (by decide)]
  simp only [show (1 : Int).toNat = 1 from rfl, hR, ne_eq, not_false_eq_true, if_true]
  rw [value_update_ok _ _ _ (show (with_value inst 1 _).value_index < MAX_HCI_PARAM_NUM from hvi)]
  rfl

/-- C15: for a Command Complete event (code 0x0E) with at least the three octets of
its two fixed parameters, whose embedded opcode resolves to a named command with
at least one declared return parameter, the fields are `Num_HCI_Command_Packets`
in decimal, `Command_Opcode` rewritten to `"<name>(0x%04x)"`, a field named
`Return Parameter` at indent level 1 with an empty value, and then the fields that
`parse_hci_instance` decodes from the remaining `L - 3` octets with the return
parameters of the command at indent level 2. The event octets `0E 04 01 03 0C 00`,
the opcode read low octet first, give the five lines of the example. -/
theorem C15_command_complete (bo : ByteOrder) (L n o0 o1 : Nat) (rest : List Nat)
    (u : HCI_UNIT_REPR) (hL : 3 ≤ L) (hn : n < 256) (ho0 : o0 < 256) (ho1 : o1 < 256)
    (hu : get_matched_hci_cmd_repr (assemble bo [o0, o1]) = some u) (hname : u.name ≠ none)
    (hR : 1 ≤ u.return_parameter_count) :
    (∃ inst3 : HCI_INSTANCE,
      fields inst3 =
        [{ name := some "Num_HCI_Command_Packets", seq_num := 0, value := fmt_u n,
           indent_level := INDENT_LEVEL_1 },
         { name := some "Command_Opcode", seq_num := 0,
           value := fmt_s u.name ++ "(0x" ++ fmt_x 4 (assemble bo [o0, o1]) ++ ")",
           indent_level := INDENT_LEVEL_1 },
         { name := some "Return Parameter", seq_num := 0, value := "",
           indent_level := INDENT_LEVEL_1 }] ∧
      decode_hci_event bo 0x0E L (0x0E :: L :: n :: o0 :: o1 :: rest) 2 =
        parse_hci_instance bo inst3 u.return_parameter u.return_parameter_count
          (0x0E :: L :: n :: o0 :: o1 :: rest) 5 (L - 3) INDENT_LEVEL_2) ∧
    (∀ time_str, parse_hci_event .little [0x0E, 0x04, 0x01, 0x03, 0x0C, 0x00] time_str =
      .ok [c_str time_str ++ " HCI Event: Command Complete(0x0e), Parameter Length: 4",
           "    Num_HCI_Command_Packets: 1",
           "    Command_Opcode: HCI_Reset(0x0c03)",
           "    Return Parameter: ",
           "        Status: (0x00) Success"]) := by
  constructor
  · have hv := assemble_two_lt bo o0 o1 ho0 ho1
    have hstr : strtol ("0x" ++ fmt_x 4 (assemble bo [o0, o1])) = (assemble bo [o0, o1] : Nat) :=
      strtol_hex_text 4 _ (by unfold LONG_MAX; omega)
    have h16 : to_uint16 ((assemble bo [o0, o1] : Nat) : Int) = assemble bo [o0, o1] := by
      unfold to_uint16
      omega
    have hslot : table_slot HCI_EVENTS 0x0E = HCI_EVENTS_0x0e := by decide
    have hwalk := parse_hci_instance_command_complete bo
      (new_instance (some "Command Complete") 0x0E L 2) rfl L n o0 o1 rest hL hn ho0 ho1
    have hR0 : u.return_parameter_count ≠ 0 := by omega
    have hne : ("(0x" ++ fmt_x 4 (assemble bo [o0, o1]) ++ ")").data ≠ [] := by
      rw [String.append_assoc]
      exact append_data_ne _ _ (by decide)
    have hne2 : (fmt_s u.name ++ "(0x" ++ fmt_x 4 (assemble bo [o0, o1]) ++ ")").data ≠ [] := by
      rw [String.append_assoc, String.append_assoc, String.data_append]
      intro h
      exact hne (by rw [String.append_assoc]; exact (List.append_eq_nil.mp h).2)
    have e0 : sprintf_into ((new_instance (some "Command Complete") 0x0E L 2).value 0).value
        (fmt_u n) = fmt_u n := sprintf_into_empty _
    have e1 : sprintf_into ((new_instance (some "Command Complete") 0x0E L 2).value 1).value
        ("0x" ++ fmt_x 4 (assemble bo [o0, o1])) = "0x" ++ fmt_x 4 (assemble bo [o0, o1]) :=
      sprintf_into_empty _
    rw [e0, e1] at hwalk
    obtain ⟨inst2, hinst2⟩ : ∃ i : HCI_INSTANCE, i = append_field (append_field
        (new_instance (some "Command Complete") 0x0E L 2)
        { name := some "Num_HCI_Command_Packets", seq_num := 0, value := fmt_u n,
          indent_level := 1 })
        { name := some "Command_Opcode", seq_num := 0,
          value := "0x" ++ fmt_x 4 (assemble bo [o0, o1]), indent_level := 1 } := ⟨_, rfl⟩
    rw [← hinst2] at hwalk
    have hi : inst2.value_index = 2 := by rw [hinst2]; rfl
    have hv0 : inst2.value 0 =
        { name := some "Num_HCI_Command_Packets", seq_num := 0, value := fmt_u n,
          indent_level := 1 } := by rw [hinst2]; rfl
    have hv1 : inst2.value 1 =
        { name := some "Command_Opcode", seq_num := 0,
          value := "0x" ++ fmt_x 4 (assemble bo [o0, o1]), indent_level := 1 } := by
      rw [hinst2]; rfl
    have hv2 : inst2.value 2 = {} := by rw [hinst2]; rfl
    have hfound := command_complete_found bo (0x0E :: L :: n :: o0 :: o1 :: rest) inst2 5 (L - 3) u
      (by rw [hi]; decide) (by rw [hv1]; simp only [hstr, h16]; exact hu) hname hR0
    have hd1 : decode_hci_event bo 0x0E L (0x0E :: L :: n :: o0 :: o1 :: rest) 2
        = command_complete bo (0x0E :: L :: n :: o0 :: o1 :: rest) (inst2, 5, L - 3) := by
      unfold decode_hci_event
      simp only [hslot]
      rw [show HCI_EVENTS_0x0e.name = some "Command Complete" from rfl,
        show HCI_EVENTS_0x0e.parameter_count = 2 from rfl, hwalk]
      simp only [if_true]
    refine ⟨_, ?_, hd1.trans hfound⟩
    · simp only [fields, hi, List.range_succ, List.range_zero, List.nil_append, List.map_append,
        List.map_cons, List.map_nil, List.cons_append, with_value, zero_add, Nat.reduceAdd,
        OfNat.ofNat_ne_one, if_false, if_true, OfNat.ofNat_ne_zero, one_ne_zero, hv0, hv1, hv2,
        Nat.reduceEqDiff, hstr, h16, sprintf_into_of_ne _ _ hne2, OfNat.zero_ne_ofNat,
        OfNat.one_ne_ofNat, zero_ne_one, INDENT_LEVEL_1]
  · intro time_str
    have e : parse_hci_event .little [0x0E, 0x04, 0x01, 0x03, 0x0C, 0x00] time_str
        = .ok [event_header time_str (new_instance (some "Command Complete") 0x0E 4 2),
           "    Num_HCI_Command_Packets: 1",
           "    Command_Opcode: HCI_Reset(0x0c03)",
           "    Return Parameter: ",
           "        Status: (0x00) Success"] := by
      rfl
    rw [e, event_header_eq]
    rfl

theorem C15_command_complete_witness :
    (∃ inst3 : HCI_INSTANCE,
      fields inst3 =
        [{ name := some "Num_HCI_Command_Packets", seq_num := 0, value := fmt_u 1,
           indent_level := INDENT_LEVEL_1 },
         { name := some "Command_Opcode", seq_num := 0,
           value := fmt_s HCI_CONTROLLER_BASEBAND_COMMANDS_0x0003.name ++ "(0x"
             ++ fmt_x 4 (assemble .little [0x03, 0x0C]) ++ ")",
           indent_level := INDENT_LEVEL_1 },
         { name := some "Return Parameter", seq_num := 0, value := "",
           indent_level := INDENT_LEVEL_1 }] ∧
      decode_hci_event .little 0x0E 4 (0x0E :: 4 :: 1 :: 0x03 :: 0x0C :: [0x00]) 2 =
        parse_hci_instance .little inst3 HCI_CONTROLLER_BASEBAND_COMMANDS_0x0003.return_parameter
          HCI_CONTROLLER_BASEBAND_COMMANDS_0x0003.return_parameter_count
          (0x0E :: 4 :: 1 :: 0x03 :: 0x0C :: [0x00]) 5 ((4 : Nat) - 3) INDENT_LEVEL_2) ∧
    (∀ time_str, parse_hci_event .little [0x0E, 0x04, 0x01, 0x03, 0x0C, 0x00] time_str =
      .ok [c_str time_str ++ " HCI Event: Command Complete(0x0e), Parameter Length: 4",
           "    Num_HCI_Command_Packets: 1",
           "    Command_Opcode: HCI_Reset(0x0c03)",
           "    Return Parameter: ",
           "        Status: (0x00) Success"]) :=
  C15_command_complete .little 4 1 0x03 0x0C [0x00] HCI_CONTROLLER_BASEBAND_COMMANDS_0x0003
    (by decide) (by decide) (by decide) (by decide) (by decide) (by decide) (by decide)

/-! ### Repeat groups -/

theorem repeat_unit_zero (bo : ByteOrder) (ds : List HCI_PARAMETER_REPR) (i : Nat) (seq : Int)
    (data : List Nat) (indent idx : Nat) (st : WalkState) :
    repeat_unit bo ds i seq data indent 0 idx st = .ok st := rfl

theorem repeat_units_zero (bo : ByteOrder) (ds : List HCI_PARAMETER_REPR) (i rp : Nat)
    (data : List Nat) (indent : Nat) (r : Int) (st : WalkState) :
    repeat_units bo ds i rp data indent 0 r st = .ok st := rfl

theorem fields_append_fields (inst : HCI_INSTANCE) (fs : List HCI_PARAM_VALUE) :
    fields (append_fields inst fs) = fields inst ++ fs := by
  induction fs generalizing inst with
  | nil => simp only [append_fields, List.append_nil]
  | cons f fs ih =>
    simp only [append_fields, ih, fields_append_field, List.append_assoc, List.singleton_append]

theorem value_index_append_fields (inst : HCI_INSTANCE) (fs : List HCI_PARAM_VALUE) :
    (append_fields inst fs).value_index = inst.value_index + fs.length := by
  induction fs generalizing inst with
  | nil => rfl
  | cons f fs ih =>
    simp only [append_fields, ih, List.length_cons]
    simp only [append_field]
    omega

theorem unit_fields_length (d1 d2 : HCI_PARAMETER_REPR) (indent w1 w2 : Nat)
    (T1 T2 : Int → String) (n : Nat) (r pos : Int) :
    (unit_fields d1 d2 indent w1 w2 T1 T2 n r pos).length = 2 * n := by
  induction n generalizing r pos with
  | zero => rfl
  | succ n ih =>
    simp only [unit_fields, List.length_cons, ih]
    omega

/-- One pass of the innermost loop over a unit of two fixed-width descriptors. -/
theorem repeat_unit_two (bo : ByteOrder) (ds : List HCI_PARAMETER_REPR) (i : Nat) (seq : Int)
    (data : List Nat) (indent : Nat) (d1 d2 : HCI_PARAMETER_REPR) (w1 w2 : Nat)
    (T1 T2 : Int → String) (lo hi : Int) (inst : HCI_INSTANCE) (pos left : Int)
    (h1 : Consumes bo data indent d1 w1 T1 lo hi) (h2 : Consumes bo data indent d2 w2 T2 lo hi)
    (hd1 : descriptor_at ds (i + 1) = .ok d1) (hd2 : descriptor_at ds (i + 2) = .ok d2)
    (hvi : inst.value_index + 2 ≤ MAX_HCI_PARAM_NUM) (hlo : lo ≤ pos)
    (hhi : pos + w1 + w2 ≤ hi) (hleft : (w1 : Int) + w2 ≤ left) :
    repeat_unit bo ds i seq data indent 2 1 (inst, pos, left) =
      .ok (append_field (append_field inst
          { name := d1.name, seq_num := seq, value := T1 pos, indent_level := indent })
          { name := d2.name, seq_num := seq, value := T2 (pos + w1), indent_level := indent },
        pos + w1 + w2, left - w1 - w2) := by
  have hl0 : left ≥ 0 := by omega
  have hl1 : left - w1 ≥ 0 := by omega
  rw [repeat_unit_succ, if_pos hl0, hd1]
  simp only []
  rw [h1 inst seq pos left (by omega) hlo (by omega) (by omega)]
  simp only []
  rw [repeat_unit_succ, if_pos hl1, show i + (1 + 1) = i + 2 from rfl, hd2]
  simp only []
  rw [h2 _ seq (pos + w1) (left - w1) (by simp only [append_field]; omega) (by omega) (by omega)
    (by omega)]
  simp only [repeat_unit_zero]

/-- The middle loop over `n` copies of a unit of two fixed-width descriptors. -/
theorem repeat_units_two (bo : ByteOrder) (ds : List HCI_PARAMETER_REPR) (i : Nat)
    (data : List Nat) (indent : Nat) (d1 d2 : HCI_PARAMETER_REPR) (w1 w2 : Nat)
    (T1 T2 : Int → String) (lo hi : Int)
    (h1 : Consumes bo data indent d1 w1 T1 lo hi) (h2 : Consumes bo data indent d2 w2 T2 lo hi)
    (hd1 : descriptor_at ds (i + 1) = .ok d1) (hd2 : descriptor_at ds (i + 2) = .ok d2) :
    ∀ (n : Nat) (r : Int) (inst : HCI_INSTANCE) (pos left : Int),
      inst.value_index + 2 * n ≤ MAX_HCI_PARAM_NUM → lo ≤ pos →
      pos + n * ((w1 : Int) + w2) ≤ hi → (n : Int) * ((w1 : Int) + w2) ≤ left →
      repeat_units bo ds i 2 data indent n r (inst, pos, left) =
        .ok (append_fields inst (unit_fields d1 d2 indent w1 w2 T1 T2 n r pos),
          pos + n * ((w1 : Int) + w2), left - n * ((w1 : Int) + w2)) := by
  intro n
  induction n with
  | zero =>
    intro r inst pos left _ _ _ _
    simp only [repeat_units_zero, unit_fields, append_fields, Nat.cast_zero, zero_mul, add_zero,
      sub_zero]
  | succ n ih =>
    intro r inst pos left hvi hlo hhi hleft
    have hw : (0 : Int) ≤ (w1 : Int) + w2 := by omega
    have hnw : (0 : Int) ≤ (n : Int) * ((w1 : Int) + w2) := mul_nonneg (by omega) hw
    have hexp : ((n + 1 : Nat) : Int) * ((w1 : Int) + w2) = n * ((w1 : Int) + w2) + (w1 + w2) := by
      push_cast
      ring
    rw [hexp] at hhi hleft
    have hl0 : left ≥ 0 := by omega
    rw [repeat_units_succ, if_pos hl0,
      repeat_unit_two bo ds i (r + 1) data indent d1 d2 w1 w2 T1 T2 lo hi inst pos left h1 h2
        hd1 hd2 (by omega) hlo (by omega) (by omega)]
    simp only []
    rw [ih (r + 1) _ (pos + w1 + w2) (left - w1 - w2) (by simp only [append_field]; omega)
      (by omega) (by omega) (by omega)]
    simp only [unit_fields, append_fields, hexp]
    refine congrArg Except.ok (Prod.ext rfl (Prod.ext ?_ ?_))
    · simp only []
      ring
    · simp only []
      ring

/-! ### Repeat groups: expansion within the capacity of the instance -/

/-- The walk over a count field followed by its unit of two fixed-width
descriptors, when the count read back from the count field is `N` and the
instance has room for the `2 * N` fields. -/
theorem walk_repeat_group (bo : ByteOrder) (inst : HCI_INSTANCE) (c d1 d2 : HCI_PARAMETER_REPR)
    (data : List Nat) (pos left : Int) (indent : Nat) (w1 w2 N : Nat) (T1 T2 : Int → String)
    (lo hi : Int) (inst1 : HCI_INSTANCE) (pos1 left1 : Int)
    (hc : c.repeat_param_num = 2)
    (h1 : Consumes bo data indent d1 w1 T1 lo hi) (h2 : Consumes bo data indent d2 w2 T2 lo hi)
    (hleft0 : 0 ≤ left)
    (hcount : parse_parameter bo inst c 0 data pos left indent = .ok (inst1, pos1, left1))
    (hN : to_int (strtol (inst1.value inst.value_index).value) = N)
    (hcap : inst1.value_index + 2 * N ≤ MAX_HCI_PARAM_NUM) (hlo : lo ≤ pos1)
    (hhi : pos1 + N * ((w1 : Int) + w2) ≤ hi) (hleft : (N : Int) * ((w1 : Int) + w2) ≤ left1) :
    parse_hci_instance bo inst [c, d1, d2] 3 data pos left indent =
      .ok (append_fields inst1 (unit_fields d1 d2 indent w1 w2 T1 T2 N 0 pos1),
        pos1 + N * ((w1 : Int) + w2), left1 - N * ((w1 : Int) + w2)) := by
  have hinv := parse_parameter_ok_inv bo inst c 0 data pos left indent _ hcount
  have hvi1 : inst1.value_index = inst.value_index + 1 := hinv.2.1
  have hg : 0 < 3 ∧ left ≥ 0 := ⟨by decide, hleft0⟩
  have hrep : ¬ (c.repeat_param_num ≤ 0) := by rw [hc]; decide
  have hidx : ((inst1.value_index : Int) - 1) = ((inst.value_index : Nat) : Int) := by
    rw [hvi1]
    push_cast
    ring
  unfold parse_hci_instance
  rw [walk_parameters_succ, if_pos hg,
    show descriptor_at [c, d1, d2] 0 = .ok c from rfl]
  simp only [hcount, hrep, if_false, hidx]
  rw [value_at_ok inst1 inst.value_index hinv.1]
  simp only [hN, Int.toNat_ofNat, hc, show (2 : Int).toNat = 2 from rfl]
  rw [repeat_units_two bo [c, d1, d2] 0 data indent d1 d2 w1 w2 T1 T2 lo hi h1 h2 rfl rfl N 0
    inst1 pos1 left1 hcap hlo hhi hleft]
  simp only []
  rw [walk_parameters_done]
  simp only [Nat.lt_irrefl, false_and, not_false_eq_true]

/-- C8, within the capacity of the instance: a count field with
`repeat_param_num = 2` whose text reads back as `N`, followed by its unit of two
fixed-width descriptors, with room for `2 * N` more fields and at least
`N * (w1 + w2)` octets left, makes `parse_hci_instance` append after the count
field (tagged 0) exactly `N` copies of the two fields, copy `k` tagged `k`, and
advance the cursor by `N * (w1 + w2)`. -/
theorem C8_repeat_group_within_capacity (bo : ByteOrder) (inst : HCI_INSTANCE)
    (c d1 d2 : HCI_PARAMETER_REPR) (data : List Nat) (pos left : Int) (indent : Nat)
    (w1 w2 N : Nat) (T1 T2 : Int → String) (lo hi : Int) (inst1 : HCI_INSTANCE)
    (pos1 left1 : Int) (hc : c.repeat_param_num = 2)
    (h1 : Consumes bo data indent d1 w1 T1 lo hi) (h2 : Consumes bo data indent d2 w2 T2 lo hi)
    (hleft0 : 0 ≤ left)
    (hcount : parse_parameter bo inst c 0 data pos left indent = .ok (inst1, pos1, left1))
    (hN : to_int (strtol (inst1.value inst.value_index).value) = N)
    (hcap : inst1.value_index + 2 * N ≤ MAX_HCI_PARAM_NUM) (hlo : lo ≤ pos1)
    (hhi : pos1 + N * ((w1 : Int) + w2) ≤ hi) (hleft : (N : Int) * ((w1 : Int) + w2) ≤ left1) :
    ∃ instN, parse_hci_instance bo inst [c, d1, d2] 3 data pos left indent =
        .ok (instN, pos1 + N * ((w1 : Int) + w2), left1 - N * ((w1 : Int) + w2)) ∧
      fields instN = fields inst ++ [inst1.value inst.value_index]
        ++ unit_fields d1 d2 indent w1 w2 T1 T2 N 0 pos1 ∧
      (inst1.value inst.value_index).name = c.name ∧
      (inst1.value inst.value_index).seq_num = 0 ∧
      (unit_fields d1 d2 indent w1 w2 T1 T2 N 0 pos1).length = 2 * N := by
  have hinv := parse_parameter_ok_inv bo inst c 0 data pos left indent _ hcount
  refine ⟨_, walk_repeat_group bo inst c d1 d2 data pos left indent w1 w2 N T1 T2 lo hi inst1
    pos1 left1 hc h1 h2 hleft0 hcount hN hcap hlo hhi hleft, ?_, hinv.2.2.1, hinv.2.2.2.1,
    unit_fields_length _ _ _ _ _ _ _ _ _ _⟩
  rw [fields_append_fields, fields_of_inv inst inst1 hinv.2.1 hinv.2.2.2.2.2]

theorem C8_repeat_group_within_capacity_witness :
    ∃ instN, parse_hci_instance .little {}
        [HCI_EVENTS_0x13.parameter[0], HCI_EVENTS_0x13.parameter[1],
          HCI_EVENTS_0x13.parameter[2]] 3
        [0x13, 0x09, 0x02, 0x01, 0x00, 0x05, 0x00, 0x02, 0x00, 0x07, 0x00] 2 9 1 =
        .ok (instN, (2 + (1 : Nat)) + (2 : Nat) * (((2 : Nat) : Int) + (2 : Nat)),
          (9 - (1 : Nat)) - (2 : Nat) * (((2 : Nat) : Int) + (2 : Nat))) ∧
      fields instN = fields {} ++ [(append_field {}
          { name := HCI_EVENTS_0x13.parameter[0].name, seq_num := 0,
            value := fmt_u ((octet_at
              [0x13, 0x09, 0x02, 0x01, 0x00, 0x05, 0x00, 0x02, 0x00, 0x07, 0x00] 2).getD 0),
            indent_level := 1 }).value ({} : HCI_INSTANCE).value_index]
        ++ unit_fields HCI_EVENTS_0x13.parameter[1] HCI_EVENTS_0x13.parameter[2] 1 2 2
          (fun pos => "(0x" ++ fmt_x 4 (assemble .little ((octets_at
            [0x13, 0x09, 0x02, 0x01, 0x00, 0x05, 0x00, 0x02, 0x00, 0x07, 0x00] pos 2).getD [])
              &&& 0x0fff)
            ++ ") " ++ fmt_u (assemble .little ((octets_at
              [0x13, 0x09, 0x02, 0x01, 0x00, 0x05, 0x00, 0x02, 0x00, 0x07, 0x00] pos 2).getD [])
                &&& 0x0fff))
          (fun pos => fmt_u (assemble .little ((octets_at
            [0x13, 0x09, 0x02, 0x01, 0x00, 0x05, 0x00, 0x02, 0x00, 0x07, 0x00] pos 2).getD [])))
          2 0 (2 + (1 : Nat)) ∧
      ((append_field {}
          { name := HCI_EVENTS_0x13.parameter[0].name, seq_num := 0,
            value := fmt_u ((octet_at
              [0x13, 0x09, 0x02, 0x01, 0x00, 0x05, 0x00, 0x02, 0x00, 0x07, 0x00] 2).getD 0),
            indent_level := 1 }).value ({} : HCI_INSTANCE).value_index).name
        = HCI_EVENTS_0x13.parameter[0].name ∧
      ((append_field {}
          { name := HCI_EVENTS_0x13.parameter[0].name, seq_num := 0,
            value := fmt_u ((octet_at
              [0x13, 0x09, 0x02, 0x01, 0x00, 0x05, 0x00, 0x02, 0x00, 0x07, 0x00] 2).getD 0),
            indent_level := 1 }).value ({} : HCI_INSTANCE).value_index).seq_num = 0 ∧
      (unit_fields HCI_EVENTS_0x13.parameter[1] HCI_EVENTS_0x13.parameter[2] 1 2 2
          (fun pos => "(0x" ++ fmt_x 4 (assemble .little ((octets_at
            [0x13, 0x09, 0x02, 0x01, 0x00, 0x05, 0x00, 0x02, 0x00, 0x07, 0x00] pos 2).getD [])
              &&& 0x0fff)
            ++ ") " ++ fmt_u (assemble .little ((octets_at
              [0x13, 0x09, 0x02, 0x01, 0x00, 0x05, 0x00, 0x02, 0x00, 0x07, 0x00] pos 2).getD [])
                &&& 0x0fff))
          (fun pos => fmt_u (assemble .little ((octets_at
            [0x13, 0x09, 0x02, 0x01, 0x00, 0x05, 0x00, 0x02, 0x00, 0x07, 0x00] pos 2).getD [])))
          2 0 (2 + (1 : Nat))).length = 2 * 2 :=
  C8_repeat_group_within_capacity .little {} HCI_EVENTS_0x13.parameter[0]
    HCI_EVENTS_0x13.parameter[1] HCI_EVENTS_0x13.parameter[2]
    [0x13, 0x09, 0x02, 0x01, 0x00, 0x05, 0x00, 0x02, 0x00, 0x07, 0x00] 2 9 1 2 2 2 _ _ 0
    (([0x13, 0x09, 0x02, 0x01, 0x00, 0x05, 0x00, 0x02, 0x00, 0x07, 0x00] : List Nat).length : Int)
    _ _ _ (by decide)
    (consumes_handle .little _ 1 _ (by decide) (by decide))
    (consumes_int_dec_two .little _ 1 _ (by decide) (by decide))
    (by decide)
    (consumes_int_dec_one .little _ 1 _ (by decide) (by decide) {} 0 2 9 (by decide) (by decide)
      (by decide) (by decide))
    (by decide) (by decide) (by decide) (by decide) (by decide)

/-! ### HCI_Write_Stored_Link_Key -/

/-- C16: the command `HCI_Write_Stored_Link_Key` (opcode 0x0C11) with the parameter
octets `N` followed by `N <= 11` pairs of a 6-octet address and a 16-octet link
key decodes to `1 + 2 N` fields: `Num_Keys_To_Write` with the decimal text of `N`,
then for `k = 1 .. N` a `BD_ADDR` field with the text of the `k`-th address and a
`Link_Key` field with the redaction string, both tagged `k`; the budget that is
left is 0, so no raw data line follows. With `N = 2`, the opcode read low octet
first, the log has the header and five field lines. -/
theorem C16_write_stored_link_key (bo : ByteOrder) (N h0 h1 : Nat) (body : List Nat)
    (hN : N ≤ 11) (hbody : body.length = 22 * N) :
    get_matched_hci_cmd_repr 0x0C11 = some HCI_CONTROLLER_BASEBAND_COMMANDS_0x0011 ∧
    (∃ inst, decode_hci_command bo HCI_CONTROLLER_BASEBAND_COMMANDS_0x0011 0x0C11 (1 + 22 * N)
        (h0 :: h1 :: (1 + 22 * N) :: N :: body) 3 = .ok (inst, 4 + 22 * (N : Int), 0) ∧
      fields inst =
        { name := some "Num_Keys_To_Write", seq_num := 0, value := fmt_u N,
          indent_level := INDENT_LEVEL_1 } ::
        unit_fields { name := some "BD_ADDR", length := 6, display_type := .TEXT_BD_ADDR }
          { name := some "Link_Key", length := 16, display_type := .TEXT_SPECIAL_DISPLAY_PARAM,
            index_of_special_display_param := SECURITY_KEY_TYPE } INDENT_LEVEL_1 6 16
          (fun pos => bd_addr_text
            ((octets_at (h0 :: h1 :: (1 + 22 * N) :: N :: body) pos 6).getD []))
          (fun _ => "(Security Data is Hidden)") N 0 4 ∧
      (fields inst).length = 1 + 2 * N) ∧
    (∀ time_str, parse_hci_command .little
        [0x11, 0x0C, 45, 2,
          0x01, 0x02, 0x03, 0x04, 0x05, 0x06, 0, 1, 2, 3, 4, 5, 6, 7, 8, 9, 10, 11, 12, 13, 14, 15,
          0x11, 0x12, 0x13, 0x14, 0x15, 0x16, 0, 1, 2, 3, 4, 5, 6, 7, 8, 9, 10, 11, 12, 13, 14, 15]
        time_str =
      .ok [c_str time_str
             ++ " HCI Command: HCI_Write_Stored_Link_Key(0x0c11), Parameter Length: 45",
           "    Num_Keys_To_Write: 2",
           "    [1] BD_ADDR: 0x06-05-04-03-02-01",
           "    [1] Link_Key: (Security Data is Hidden)",
           "    [2] BD_ADDR: 0x16-15-14-13-12-11",
           "    [2] Link_Key: (Security Data is Hidden)"]) := by
  refine ⟨by decide, ?_, ?_⟩
  · have hlen : ((h0 :: h1 :: (1 + 22 * N) :: N :: body).length : Int) = 4 + 22 * (N : Int) := by
      simp only [List.length_cons, hbody]
      push_cast
      ring
    have hc := consumes_int_dec_one bo (h0 :: h1 :: (1 + 22 * N) :: N :: body) INDENT_LEVEL_1
      { name := some "Num_Keys_To_Write", length := 1, repeat_param_num := 2,
        display_type := .INT_DEC } rfl rfl
      (new_instance (some "HCI_Write_Stored_Link_Key") 0x0C11 (1 + 22 * N) 3) 0 3
      ((1 + 22 * N : Nat) : Int) (show 0 < MAX_HCI_PARAM_NUM by decide) (by decide)
      (by rw [hlen]; omega) (by push_cast; omega)
    have ho : (octet_at (h0 :: h1 :: (1 + 22 * N) :: N :: body) 3).getD 0 = N := by
      simp only [octet_at, le_refl, if_true]
      simp
      omega
    simp only [ho] at hc
    have hstr : to_int (strtol (fmt_u N)) = N := by
      rw [strtol_fmt_u N (by unfold LONG_MAX; omega)]
      unfold to_int
      omega
    have hw := walk_repeat_group bo
      (new_instance (some "HCI_Write_Stored_Link_Key") 0x0C11 (1 + 22 * N) 3)
      { name := some "Num_Keys_To_Write", length := 1, repeat_param_num := 2,
        display_type := .INT_DEC }
      { name := some "BD_ADDR", length := 6, display_type := .TEXT_BD_ADDR }
      { name := some "Link_Key", length := 16, display_type := .TEXT_SPECIAL_DISPLAY_PARAM,
        index_of_special_display_param := SECURITY_KEY_TYPE }
      (h0 :: h1 :: (1 + 22 * N) :: N :: body) 3 ((1 + 22 * N : Nat) : Int) INDENT_LEVEL_1 6 16 N
      _ _ 0 ((h0 :: h1 :: (1 + 22 * N) :: N :: body).length : Int) _ _ _ rfl
      (consumes_bd_addr bo _ _ _ rfl rfl)
      (consumes_security bo _ _ _ 16 rfl (Or.inl rfl) rfl)
      (by omega) hc hstr (show 0 + 1 + 2 * N ≤ 24 + 6 by omega)
      (by omega) (by rw [hlen]; push_cast; omega) (by push_cast; omega)
    have e4 : (3 : Int) + ((1 : Nat) : Int) = 4 := by norm_num
    rw [e4] at hw
    refine ⟨append_fields
      (append_field (new_instance (some "HCI_Write_Stored_Link_Key") 0x0C11 (1 + 22 * N) 3)
        { name := some "Num_Keys_To_Write", seq_num := 0, value := fmt_u N,
          indent_level := INDENT_LEVEL_1 })
      (unit_fields { name := some "BD_ADDR", length := 6, display_type := .TEXT_BD_ADDR }
        { name := some "Link_Key", length := 16, display_type := .TEXT_SPECIAL_DISPLAY_PARAM,
          index_of_special_display_param := SECURITY_KEY_TYPE } INDENT_LEVEL_1 6 16
        (fun pos => bd_addr_text
          ((octets_at (h0 :: h1 :: (1 + 22 * N) :: N :: body) pos 6).getD []))
        (fun _ => "(Security Data is Hidden)") N 0 4), ?_, ?_, ?_⟩
    · unfold decode_hci_command
      rw [show HCI_CONTROLLER_BASEBAND_COMMANDS_0x0011.parameter_count = 3 from rfl,
        show HCI_CONTROLLER_BASEBAND_COMMANDS_0x0011.name
          = some "HCI_Write_Stored_Link_Key" from rfl,
        show HCI_CONTROLLER_BASEBAND_COMMANDS_0x0011.opcode = 0x0c11 from rfl]
      simp only [show (3 : Nat) > 0 from by decide, if_true,
        show ¬ ((0x0c11 : Nat) = 0x0C05) from by decide, if_false]
      rw [show HCI_CONTROLLER_BASEBAND_COMMANDS_0x0011.parameter =
        [{ name := some "Num_Keys_To_Write", length := 1, repeat_param_num := 2,
           display_type := .INT_DEC },
         { name := some "BD_ADDR", length := 6, display_type := .TEXT_BD_ADDR },
         { name := some "Link_Key", length := 16, display_type := .TEXT_SPECIAL_DISPLAY_PARAM,
           index_of_special_display_param := SECURITY_KEY_TYPE }] from rfl, hw]
      refine congrArg Except.ok (Prod.ext rfl (Prod.ext ?_ ?_))
      · simp only []
        push_cast
        ring
      · simp only []
        push_cast
        ring
    · rw [fields_append_fields, fields_append_field]
      rfl
    · rw [fields_append_fields, fields_append_field, List.length_append, unit_fields_length]
      simp only [fields, new_instance, List.range_zero, List.map_nil, List.nil_append,
        List.length_singleton]
  · intro time_str
    have e : parse_hci_command .little
        [0x11, 0x0C, 45, 2,
          0x01, 0x02, 0x03, 0x04, 0x05, 0x06, 0, 1, 2, 3, 4, 5, 6, 7, 8, 9, 10, 11, 12, 13, 14, 15,
          0x11, 0x12, 0x13, 0x14, 0x15, 0x16, 0, 1, 2, 3, 4, 5, 6, 7, 8, 9, 10, 11, 12, 13, 14, 15]
        time_str =
      .ok [command_header time_str (new_instance (some "HCI_Write_Stored_Link_Key") 0x0C11 45 3),
           "    Num_Keys_To_Write: 2",
           "    [1] BD_ADDR: 0x06-05-04-03-02-01",
           "    [1] Link_Key: (Security Data is Hidden)",
           "    [2] BD_ADDR: 0x16-15-14-13-12-11",
           "    [2] Link_Key: (Security Data is Hidden)"] := by
      rfl
    rw [e, command_header_eq]
    rfl

theorem C16_write_stored_link_key_witness :
    get_matched_hci_cmd_repr 0x0C11 = some HCI_CONTROLLER_BASEBAND_COMMANDS_0x0011 ∧
    (∃ inst, decode_hci_command .little HCI_CONTROLLER_BASEBAND_COMMANDS_0x0011 0x0C11 (1 + 22 * 1)
        (0x11 :: 0x0C :: (1 + 22 * 1) :: 1 ::
          [0x01, 0x02, 0x03, 0x04, 0x05, 0x06, 0, 1, 2, 3, 4, 5, 6, 7, 8, 9, 10, 11, 12, 13, 14, 15])
        3 = .ok (inst, 4 + 22 * ((1 : Nat) : Int), 0) ∧
      fields inst =
        { name := some "Num_Keys_To_Write", seq_num := 0, value := fmt_u 1,
          indent_level := INDENT_LEVEL_1 } ::
        unit_fields { name := some "BD_ADDR", length := 6, display_type := .TEXT_BD_ADDR }
          { name := some "Link_Key", length := 16, display_type := .TEXT_SPECIAL_DISPLAY_PARAM,
            index_of_special_display_param := SECURITY_KEY_TYPE } INDENT_LEVEL_1 6 16
          (fun pos => bd_addr_text
            ((octets_at (0x11 :: 0x0C :: (1 + 22 * 1) :: 1 ::
              [0x01, 0x02, 0x03, 0x04, 0x05, 0x06, 0, 1, 2, 3, 4, 5, 6, 7, 8, 9, 10, 11, 12, 13, 14,
                15]) pos 6).getD []))
          (fun _ => "(Security Data is Hidden)") 1 0 4 ∧
      (fields inst).length = 1 + 2 * 1) ∧
    (∀ time_str, parse_hci_command .little
        [0x11, 0x0C, 45, 2,
          0x01, 0x02, 0x03, 0x04, 0x05, 0x06, 0, 1, 2, 3, 4, 5, 6, 7, 8, 9, 10, 11, 12, 13, 14, 15,
          0x11, 0x12, 0x13, 0x14, 0x15, 0x16, 0, 1, 2, 3, 4, 5, 6, 7, 8, 9, 10, 11, 12, 13, 14, 15]
        time_str =
      .ok [c_str time_str
             ++ " HCI Command: HCI_Write_Stored_Link_Key(0x0c11), Parameter Length: 45",
           "    Num_Keys_To_Write: 2",
           "    [1] BD_ADDR: 0x06-05-04-03-02-01",
           "    [1] Link_Key: (Security Data is Hidden)",
           "    [2] BD_ADDR: 0x16-15-14-13-12-11",
           "    [2] Link_Key: (Security Data is Hidden)"]) :=
  C16_write_stored_link_key .little 1 0x11 0x0C
    [0x01, 0x02, 0x03, 0x04, 0x05, 0x06, 0, 1, 2, 3, 4, 5, 6, 7, 8, 9, 10, 11, 12, 13, 14, 15]
    (by decide) (by decide)
/-! ### Walks over descriptors without repeat counts -/
/-! ### Truncation does not end the walk -/

theorem render_parameter_length (bo : ByteOrder) (ty : HCI_PARAM_DISPLAY_TYPE)
    (d : HCI_PARAMETER_REPR) (len : Int) (t : Bool) (data : List Nat) (pos : Int)
    (text : String) (pos1 plen2 : Int)
    (h : render_parameter bo ty d len t data pos = .ok (text, pos1, plen2)) :
    plen2 = len ∨ (ty = .TEXT_BD_ADDR ∧ plen2 = 6) := by
  cases ty <;> simp only [render_parameter, dump_parameter] at h <;>
    (repeat' split at h) <;>
    simp_all

/-- A successful `parse_parameter` for a descriptor of non-negative length (and of
length 6 if it is an address) leaves a budget between 0 and the budget it got. -/
theorem parse_parameter_left (bo : ByteOrder) (inst : HCI_INSTANCE) (d : HCI_PARAMETER_REPR)
    (seq : Int) (data : List Nat) (pos left : Int) (indent : Nat) (st : WalkState)
    (hlen : 0 ≤ d.length) (hbd : d.display_type = .TEXT_BD_ADDR → d.length = 6)
    (hleft : 0 ≤ left)
    (h : parse_parameter bo inst d seq data pos left indent = .ok st) :
    0 ≤ st.2.2 ∧ st.2.2 ≤ left := by
  have hvi := (parse_parameter_ok_inv bo inst d seq data pos left indent st h).1
  unfold parse_parameter at h
  rw [value_update_ok _ _ _ hvi] at h
  have h2 : ¬ d.length < 0 := by omega
  simp only [h2, if_false] at h
  split at h
  · cases h
  · rename_i text pos1 plen2 hren
    rw [value_update_ok _ _ _ (show (with_value inst inst.value_index _).value_index
      < MAX_HCI_PARAM_NUM from hvi)] at h
    simp only [Except.ok.injEq] at h
    subst h
    simp only []
    have hl := render_parameter_length _ _ _ _ _ _ _ _ _ _ hren
    by_cases hgt : d.length > left
    · simp only [hgt, if_true] at hl
      rcases hl with hl | ⟨hl, _⟩
      · omega
      · cases hl
    · simp only [hgt, if_false] at hl
      rcases hl with hl | ⟨hl, hl6⟩
      · omega
      · have := hbd hl
        omega

/-- The walk over descriptors without repeat counts, when it does not fault:
every descriptor from `i` on yields one field, in order. -/
theorem walk_plain (bo : ByteOrder) (ds : List HCI_PARAMETER_REPR) (data : List Nat)
    (indent : Nat) (hrep : ∀ d ∈ ds, d.repeat_param_num ≤ 0) (hlen : ∀ d ∈ ds, 0 ≤ d.length)
    (hbd : ∀ d ∈ ds, d.display_type = .TEXT_BD_ADDR → d.length = 6) :
    ∀ (fuel i : Nat) (inst : HCI_INSTANCE) (pos left : Int) (st : WalkState),
      ds.length ≤ i + fuel → 0 ≤ left →
      walk_parameters bo ds ds.length data indent fuel i (inst, pos, left) = .ok st →
      (fields st.1).map field_tag
        = (fields inst).map field_tag ++ (ds.drop i).map (fun d => (d.name, 0, indent)) ∧
      0 ≤ st.2.2 := by
  intro fuel
  induction fuel with
  | zero =>
    intro i inst pos left st hi hleft h
    have h1 : walk_parameters bo ds ds.length data indent 0 i (inst, pos, left)
        = .ok (inst, pos, left) := rfl
    rw [h1] at h
    simp only [Except.ok.injEq] at h
    subst h
    rw [List.drop_eq_nil_of_le (by omega)]
    simp only [List.map_nil, List.append_nil, true_and]
    exact hleft
  | succ fuel ih =>
    intro i inst pos left st hi hleft h
    rw [walk_parameters_succ] at h
    by_cases hg : i < ds.length
    · have hg2 : i < ds.length ∧ left ≥ 0 := ⟨hg, hleft⟩
      rw [if_pos hg2] at h
      by_cases h30 : i < MAX_HCI_PARAM_NUM
      · rw [descriptor_at_getElem ds i hg h30] at h
        simp only [] at h
        have hmem : ds[i] ∈ ds := List.getElem_mem _
        split at h
        · cases h
        · rename_i inst1 pos1 left1 hp
          simp only [hrep _ hmem, if_true] at h
          have hinv := parse_parameter_ok_inv bo inst ds[i] 0 data pos left indent _ hp
          have hl1 := parse_parameter_left bo inst ds[i] 0 data pos left indent _
            (hlen _ hmem) (hbd _ hmem) hleft hp
          obtain ⟨ht, hl⟩ := ih (i + 1) inst1 pos1 left1 st (by omega) hl1.1 h
          refine ⟨?_, hl⟩
          rw [ht, fields_of_inv inst inst1 hinv.2.1 hinv.2.2.2.2.2, List.map_append,
            List.append_assoc, List.drop_eq_getElem_cons hg]
          have hn : (inst1.value inst.value_index).name = ds[i].name := hinv.2.2.1
          have hs : (inst1.value inst.value_index).seq_num = 0 := hinv.2.2.2.1
          have hind : (inst1.value inst.value_index).indent_level = indent := hinv.2.2.2.2.1
          simp only [List.map_cons, List.map_nil, List.singleton_append, field_tag, hn, hs, hind]
      · simp only [descriptor_at, h30, if_false] at h
        cases h
    · have hg2 : ¬ (i < ds.length ∧ left ≥ 0) := fun h3 => hg h3.1
      rw [if_neg hg2] at h
      simp only [Except.ok.injEq] at h
      subst h
      rw [List.drop_eq_nil_of_le (by omega)]
      simp only [List.map_nil, List.append_nil, true_and]
      exact hleft

/-- The walk over fixed-width descriptors without repeat counts once the budget
is 0: it cannot fault, and every descriptor yields the field `"(truncated)"`. -/
theorem walk_truncated (bo : ByteOrder) (ds : List HCI_PARAMETER_REPR) (data : List Nat)
    (indent : Nat) (hrep : ∀ d ∈ ds, d.repeat_param_num ≤ 0)
    (hw : ∀ d ∈ ds, 0 < d.length ∧ d.length ≠ INT_MAX) (h30 : ds.length ≤ MAX_HCI_PARAM_NUM) :
    ∀ (fuel i : Nat) (inst : HCI_INSTANCE) (pos : Int),
      ds.length ≤ i + fuel → inst.value_index + (ds.length - i) ≤ MAX_HCI_PARAM_NUM →
      walk_parameters bo ds ds.length data indent fuel i (inst, pos, 0) =
        .ok (append_fields inst ((ds.drop i).map (truncated_field indent)), pos, 0) := by
  intro fuel
  induction fuel with
  | zero =>
    intro i inst pos hi _
    rw [List.drop_eq_nil_of_le (by omega)]
    rfl
  | succ fuel ih =>
    intro i inst pos hi hcap
    by_cases hg : i < ds.length
    · have hmem : ds[i] ∈ ds := List.getElem_mem _
      have hp := parse_parameter_truncated bo inst ds[i] 0 data pos 0 indent []
        (by omega) (hw _ hmem).1 (hw _ hmem).2 (le_refl 0) (hw _ hmem).1 rfl
      rw [add_zero] at hp
      rw [walk_parameters_step bo ds ds.length data indent fuel i inst pos 0 ds[i] _ hg
        (le_refl 0) (descriptor_at_getElem ds i hg (by omega)) (hrep _ hmem) hp.1,
        ih (i + 1) _ pos (by omega) (by simp only [append_field]; omega),
        List.drop_eq_getElem_cons hg]
      rfl
    · rw [walk_parameters_done _ _ _ _ _ _ _ _ (fun h3 => hg h3.1),
        List.drop_eq_nil_of_le (by omega)]
      rfl

/-! ### Inputs that abort the decoder -/

/-- C19, the failing input: the fourth parameter of `HCI_Write_Remote_AMP_ASSOC`
(opcode 0x140B) has type `INT_HEX` and takes its width from the preceding
`AMP_ASSOC_Remaining_Length`; a command whose remaining length is 0, or 5 with
five octets following, reaches the `assert(0)` of the `INT_HEX` case. -/
theorem C19_width_assertion_reached :
    HCI_STATUS_PARAMETERS_0x000b.parameter[3]? =
      some { name := some "AMP_ASSOC_fragment", length := -1, display_type := .INT_HEX } ∧
    (∀ bo, (parse_hci_instance bo (new_instance (some "HCI_Write_Remote_AMP_ASSOC") 0x140B 5 4)
        HCI_STATUS_PARAMETERS_0x000b.parameter 4 [0x01, 0x00, 0x00, 0x00, 0x00] 0 5
        INDENT_LEVEL_1).map (fun st => (fields st.1, st.2)) = .error .assertion) ∧
    parse_hci_command .little [0x0B, 0x14, 0x05, 0x01, 0x00, 0x00, 0x00, 0x00] "12:00:00.000000"
      = .error .assertion ∧
    parse_hci_command .little
        [0x0B, 0x14, 0x0A, 0x01, 0x00, 0x00, 0x05, 0x00, 0x01, 0x02, 0x03, 0x04, 0x05]
        "12:00:00.000000"
      = .error .assertion := by
  refine ⟨by decide, fun bo => ?_, by decide, by decide⟩
  cases bo <;> decide

/-- C20 (and C8), the failing input: the event Number Of Completed Packets (code
0x13) with a parameter length of 61 and a handle count of 15 needs 31 fields; the
write of the 31st goes to `value[30]`, outside the array of `MAX_HCI_PARAM_NUM`
slots. With a count of 14 the 29 fields fit. -/
theorem C20_value_array_overrun (bo : ByteOrder) :
    parse_hci_event bo
        [0x13, 61, 15,
          1, 0, 1, 0, 2, 0, 1, 0, 3, 0, 1, 0, 4, 0, 1, 0, 5, 0, 1, 0,
          6, 0, 1, 0, 7, 0, 1, 0, 8, 0, 1, 0, 9, 0, 1, 0, 10, 0, 1, 0,
          11, 0, 1, 0, 12, 0, 1, 0, 13, 0, 1, 0, 14, 0, 1, 0, 15, 0, 1, 0] "12:00:00.000000"
      = .error .value_slot_out_of_range ∧
    (parse_hci_event bo
        [0x13, 57, 14,
          1, 0, 1, 0, 2, 0, 1, 0, 3, 0, 1, 0, 4, 0, 1, 0, 5, 0, 1, 0,
          6, 0, 1, 0, 7, 0, 1, 0, 8, 0, 1, 0, 9, 0, 1, 0, 10, 0, 1, 0,
          11, 0, 1, 0, 12, 0, 1, 0, 13, 0, 1, 0, 14, 0, 1, 0] "12:00:00.000000").map List.length
      = .ok 30 := by
  cases bo <;> exact ⟨by decide, by decide⟩

/-- C8, the failing input: for the unit of the event Number Of Completed Packets
(a handle and a 16-bit count, 4 octets per copy) a count field of 15 with the 60
octets of the 15 copies behind it does not yield 15 copies: under either byte
order the walk stops with an access outside the value array. -/
theorem C8_repeat_group_beyond_capacity :
    (parse_hci_instance .little (new_instance (some "Number Of Completed Packets") 0x13 61 3)
        HCI_EVENTS_0x13.parameter 3
        [0x13, 61, 15,
          1, 0, 1, 0, 2, 0, 1, 0, 3, 0, 1, 0, 4, 0, 1, 0, 5, 0, 1, 0,
          6, 0, 1, 0, 7, 0, 1, 0, 8, 0, 1, 0, 9, 0, 1, 0, 10, 0, 1, 0,
          11, 0, 1, 0, 12, 0, 1, 0, 13, 0, 1, 0, 14, 0, 1, 0, 15, 0, 1, 0] 2 61
        INDENT_LEVEL_1).map (fun st => (fields st.1, st.2))
      = .error .value_slot_out_of_range ∧
    (parse_hci_instance .big (new_instance (some "Number Of Completed Packets") 0x13 61 3)
        HCI_EVENTS_0x13.parameter 3
        [0x13, 61, 15,
          1, 0, 1, 0, 2, 0, 1, 0, 3, 0, 1, 0, 4, 0, 1, 0, 5, 0, 1, 0,
          6, 0, 1, 0, 7, 0, 1, 0, 8, 0, 1, 0, 9, 0, 1, 0, 10, 0, 1, 0,
          11, 0, 1, 0, 12, 0, 1, 0, 13, 0, 1, 0, 14, 0, 1, 0, 15, 0, 1, 0] 2 61
        INDENT_LEVEL_1).map (fun st => (fields st.1, st.2))
      = .error .value_slot_out_of_range := by
  exact ⟨by decide, by decide⟩
/-! ### Static invariants of the schema -/

set_option maxRecDepth 1000000 in
/-- C21: the schema passes its own validation. `validate_const_data_format`, which
runs `check_hci_unit_group` over the seven command groups, the event table and the
LE meta sub-event table, logs no failure; and in every descriptor written in a
parameter or return-parameter list of these nine tables an `INT_HEX` or `INT_DEC`
field has a declared length of at most 4, a duration field (`TIME_CLK1/2/5/12`) of
at most 2, and a field with `repeat_param_num > 0` has display type `INT_DEC`. -/
theorem C21_schema_passes_validation :
    validate_const_data_format = .ok [] ∧
    (∀ table ∈ schema_tables, ∀ e ∈ table, ∀ p ∈ e.2.parameter ++ e.2.return_parameter,
      ((p.display_type = .INT_HEX ∨ p.display_type = .INT_DEC) → p.length ≤ 4) ∧
      ((p.display_type = .TIME_CLK1 ∨ p.display_type = .TIME_CLK2 ∨ p.display_type = .TIME_CLK5
          ∨ p.display_type = .TIME_CLK12) → p.length ≤ 2) ∧
      (p.repeat_param_num > 0 → p.display_type = .INT_DEC)) ∧
    validated_tables.map (fun t => t.1) = schema_tables := by
  refine ⟨by decide, by decide, by decide⟩
/-! ### Repeat groups of the schema -/

set_option maxRecDepth 1000000 in
/-- C22, the part that holds: in every parameter list of the nine tables, and in
every return-parameter list except the one of `HCI_Get_MWS_Transport_Layer_Configuration`
(`HCI_STATUS_PARAMETERS[0x000C]`), a descriptor at position `i` with
`repeat_param_num = N > 0` has `i + N` below the declared count and none of the
`N` descriptors behind it has a positive `repeat_param_num`. -/
theorem C22_repeat_groups_flat :
    ∀ table ∈ schema_tables, ∀ e ∈ table,
      repeat_groups_flat e.2.parameter_count e.2.parameter = true ∧
      (e.2 ≠ HCI_STATUS_PARAMETERS_0x000c →
        repeat_groups_flat e.2.return_parameter_count e.2.return_parameter = true) := by
  decide

theorem C22_repeat_groups_flat_witness :
    repeat_groups_flat (0x13, HCI_EVENTS_0x13).2.parameter_count
        (0x13, HCI_EVENTS_0x13).2.parameter = true ∧
      ((0x13, HCI_EVENTS_0x13).2 ≠ HCI_STATUS_PARAMETERS_0x000c →
        repeat_groups_flat (0x13, HCI_EVENTS_0x13).2.return_parameter_count
          (0x13, HCI_EVENTS_0x13).2.return_parameter = true) :=
  C22_repeat_groups_flat HCI_EVENTS (by decide) (0x13, HCI_EVENTS_0x13) (by decide)

/-- C22, the failing entry: the return parameters of
`HCI_Get_MWS_Transport_Layer_Configuration` (opcode 0x140C), an entry of the table
of group 0x05, declare `Num_Transports` with a unit of two descriptors, and the
second descriptor of that unit, `Num_Baud_Rates`, has `repeat_param_num = 2`
itself. The walker decodes `Num_Baud_Rates` as a plain field of each copy and the
two baud-rate descriptors once, behind the copies. -/
theorem C22_nested_repeat_group :
    (0x000C, HCI_STATUS_PARAMETERS_0x000c) ∈ HCI_STATUS_PARAMETERS ∧
    HCI_STATUS_PARAMETERS_0x000c.return_parameter_count = 6 ∧
    HCI_STATUS_PARAMETERS_0x000c.return_parameter.map (fun p => (p.name, p.repeat_param_num))
      = [(some "Status", 0), (some "Num_Transports", 2), (some "Transport_Layer", 0),
         (some "Num_Baud_Rates", 2), (some "To_MWS_Baud_Rate", 0),
         (some "From_MWS_Baud_Rate", 0)] ∧
    repeat_groups_flat HCI_STATUS_PARAMETERS_0x000c.return_parameter_count
      HCI_STATUS_PARAMETERS_0x000c.return_parameter = false ∧
    parse_hci_event .little
        [0x0E, 0x0B, 0x01, 0x0C, 0x14, 0x00, 0x02, 0x05, 0x03, 0x06, 0x04, 0xAA, 0xBB, 0xCC]
        "12:00:00.000000"
      = .ok ["12:00:00.000000 HCI Event: Command Complete(0x0e), Parameter Length: 11",
             "    Num_HCI_Command_Packets: 1",
             "    Command_Opcode: HCI_Get_MWS_Transport_Layer_Configuration(0x140c)",
             "    Return Parameter: ",
             "        Status: (0x00) Success",
             "        Num_Transports: 2",
             "        [1] Transport_Layer: 0x05",
             "        [1] Num_Baud_Rates: 3",
             "        [2] Transport_Layer: 0x06",
             "        [2] Num_Baud_Rates: 4",
             "        To_MWS_Baud_Rate: 0xaa",
             "        From_MWS_Baud_Rate: 0xbb"] := by
  refine ⟨by decide, by decide, by decide, by decide, by decide⟩

/-! ### Event tables -/

set_option maxRecDepth 1000000 in
/-- C23: every entry written in `HCI_EVENTS` is named, sits at the index equal to
its `opcode`, which is at most `HCI_EVENT_NUMBER = 87`, and every slot `c <= 87`
of the table that is populated has `opcode = c`; the same holds for
`LE_META_EVENTS` with `HCI_LE_META_EVENT_SUBEVENT_NUMBER = 11`. `parse_hci_event`
returns without output, before it reads the event table, for every event code
above 87, and for a code `c <= 87` its output is that of the decoder working on
the slot `c`. -/
theorem C23_event_tables_indexed_by_code :
    HCI_EVENT_NUMBER = 87 ∧ HCI_LE_META_EVENT_SUBEVENT_NUMBER = 11 ∧
    (∀ e ∈ HCI_EVENTS, e.2.name ≠ none ∧ e.2.opcode = e.1 ∧ e.1 ≤ HCI_EVENT_NUMBER ∧
      table_slot HCI_EVENTS e.1 = e.2) ∧
    (∀ c < HCI_EVENT_NUMBER + 1, (table_slot HCI_EVENTS c).name ≠ none →
      (table_slot HCI_EVENTS c).opcode = c) ∧
    (∀ e ∈ LE_META_EVENTS, e.2.name ≠ none ∧ e.2.opcode = e.1 ∧
      e.1 ≤ HCI_LE_META_EVENT_SUBEVENT_NUMBER ∧ table_slot LE_META_EVENTS e.1 = e.2) ∧
    (∀ s < HCI_LE_META_EVENT_SUBEVENT_NUMBER + 1, (table_slot LE_META_EVENTS s).name ≠ none →
      (table_slot LE_META_EVENTS s).opcode = s) ∧
    (∀ (bo : ByteOrder) (c l : Nat) (rest : List Nat) (time_str : String),
      HCI_EVENT_NUMBER < c % 256 → parse_hci_event bo (c :: l :: rest) time_str = .ok []) ∧
    (∀ (bo : ByteOrder) (c l : Nat) (rest : List Nat) (time_str : String),
      c % 256 ≤ HCI_EVENT_NUMBER →
      parse_hci_event bo (c :: l :: rest) time_str =
        match decode_hci_event bo (c % 256) (l % 256) (c :: l :: rest) 2 with
        | .error e => .error e
        | .ok (hci_event, pos, left_len) =>
          print_instance (event_header time_str hci_event) hci_event (c :: l :: rest) pos
            left_len) := by
  refine ⟨by decide, by decide, by decide, by decide, by decide, by decide, ?_, ?_⟩
  · intro bo c l rest time_str h
    have h0 : STREAM_TO_UINT8 (c :: l :: rest) 0 = .ok (c % 256, 1) := rfl
    have h1 : STREAM_TO_UINT8 (c :: l :: rest) 1 = .ok (l % 256, 2) := by
      simp [STREAM_TO_UINT8, octet_at]
    unfold parse_hci_event
    rw [h0]
    simp only [h1, h, if_true]
  · intro bo c l rest time_str h
    have h0 : STREAM_TO_UINT8 (c :: l :: rest) 0 = .ok (c % 256, 1) := rfl
    have h1 : STREAM_TO_UINT8 (c :: l :: rest) 1 = .ok (l % 256, 2) := by
      simp [STREAM_TO_UINT8, octet_at]
    have h2 : ¬ (c % 256 > HCI_EVENT_NUMBER) := by omega
    unfold parse_hci_event
    rw [h0]
    simp only [h1, h2, if_false]
/-! ### Special display ids without a renderer -/

theorem parse_special_no_renderer (data : List Nat) (val_in : ValIn) :
    ∀ idx ∈ ids_without_renderer,
      parse_special_displayed_parameters idx data val_in = .ok (false, "") := by
  intro idx h
  fin_cases h <;> rfl

theorem octet_at_lt (data : List Nat) (pos : Int) (b : Nat) (h : octet_at data pos = some b) :
    b < 256 := by
  unfold octet_at at h
  split_ifs at h
  cases hd : data[pos.toNat]? with
  | none => rw [hd] at h; cases h
  | some x =>
    rw [hd] at h
    simp only [Option.map_some', Option.some.injEq] at h
    omega

theorem rssi_renderer (data : List Nat) (b : Nat) (hb : b < 256) :
    parse_special_displayed_parameters RSSI data (.word b) = .ok (true, rssi_text b) := by
  interval_cases b <;> rfl

theorem rssi_text_ne (b : Nat) (hb : b < 256) : (rssi_text b).data ≠ [] := by
  interval_cases b <;> decide

theorem rssi_not_available_iff (b : Nat) (hb : b < 256) :
    rssi_text b = "(0x" ++ fmt_x 2 b ++ ") RSSI is not available" ↔ b = 0x7F := by
  interval_cases b <;> decide

/-- C30: the RSSI renderer reads the octet `b` as a signed 8-bit value `v`. For
`v = 127` the text is `"(0x7f) RSSI is not available"`, for `22 <= v <= 125` it is
`"(0xbb) Reserved for future use"`, and for every other `v` (-128 .. 21 and 126) it
is `"(0xbb) v dBm"` with `v` in signed decimal and `bb` the octet in hexadecimal;
the text `"RSSI is not available"` is written for the octet 0x7F only. A field of
width 1 with the display id `RSSI` carries this text for the octet under the cursor. -/
theorem C30_rssi (bo : ByteOrder) (inst : HCI_INSTANCE) (d : HCI_PARAMETER_REPR) (seq : Int)
    (data : List Nat) (pos left : Int) (indent : Nat) (b : Nat)
    (hvi : inst.value_index < MAX_HCI_PARAM_NUM)
    (hk : d.display_type = .TEXT_SPECIAL_DISPLAY_PARAM)
    (hid : d.index_of_special_display_param = RSSI) (hlen : d.length = 1) (hleft : 1 ≤ left)
    (hb : octets_at data pos 1 = some [b]) :
    b < 256 ∧
    parse_special_displayed_parameters RSSI data (.word b) = .ok (true, rssi_text b) ∧
    parse_parameter bo inst d seq data pos left indent =
      .ok (append_field inst
        { name := d.name, seq_num := seq, value := rssi_text b, indent_level := indent },
        pos + 1, left - 1) ∧
    (rssi_text b = "(0x" ++ fmt_x 2 b ++ ") RSSI is not available" ↔ b = 0x7F) ∧
    rssi_text 0x7F = "(0x7f) RSSI is not available" ∧
    rssi_text 0x16 = "(0x16) Reserved for future use" ∧
    rssi_text 0x7D = "(0x7d) Reserved for future use" ∧
    rssi_text 0x15 = "(0x15) 21 dBm" ∧ rssi_text 0x7E = "(0x7e) 126 dBm" ∧
    rssi_text 0x80 = "(0x80) -128 dBm" ∧ rssi_text 0xC4 = "(0xc4) -60 dBm" ∧
    rssi_text 0x00 = "(0x00) 0 dBm" := by
  have hb256 : b < 256 := octet_at_lt data pos b (octet_at_of_octets_at data pos b hb)
  have hr := rssi_renderer data b hb256
  have hle : d.length ≤ left := by rw [hlen]; exact hleft
  have hren : render_parameter bo (clamped_type d d.length left) d
      (clamped_length d.length left) (decide (d.length > left ∧ d.length ≠ INT_MAX)) data pos
      = .ok (rssi_text b, pos + 1, 1) := by
    rw [clamped_type_le d left hle, clamped_length_le _ _ hle, hk, hlen]
    simp only [render_parameter, read_by_width, if_true, STREAM_TO_UINT8_ok data pos b hb, hid,
      hr]
  have h := parse_parameter_of_render bo inst d seq data pos left indent _ _ _ hvi
    (by rw [hlen]; decide) hren
  rw [sprintf_into_of_ne _ _ (rssi_text_ne b hb256)] at h
  exact ⟨hb256, hr, h, rssi_not_available_iff b hb256, by decide, by decide, by decide, by decide,
    by decide, by decide, by decide, by decide⟩

theorem C30_rssi_witness :
    0xC4 < 256 ∧
    parse_special_displayed_parameters RSSI [0xC4] (.word 0xC4) = .ok (true, rssi_text 0xC4) ∧
    parse_parameter .little {} LE_META_EVENTS_0x02.parameter[6] 1 [0xC4] 0 1 1 =
      .ok (append_field {}
        { name := LE_META_EVENTS_0x02.parameter[6].name, seq_num := 1,
          value := rssi_text 0xC4, indent_level := 1 },
        0 + 1, 1 - 1) ∧
    (rssi_text 0xC4 = "(0x" ++ fmt_x 2 0xC4 ++ ") RSSI is not available" ↔ 0xC4 = 0x7F) ∧
    rssi_text 0x7F = "(0x7f) RSSI is not available" ∧
    rssi_text 0x16 = "(0x16) Reserved for future use" ∧
    rssi_text 0x7D = "(0x7d) Reserved for future use" ∧
    rssi_text 0x15 = "(0x15) 21 dBm" ∧ rssi_text 0x7E = "(0x7e) 126 dBm" ∧
    rssi_text 0x80 = "(0x80) -128 dBm" ∧ rssi_text 0xC4 = "(0xc4) -60 dBm" ∧
    rssi_text 0x00 = "(0x00) 0 dBm" :=
  C30_rssi .little {} LE_META_EVENTS_0x02.parameter[6] 1 [0xC4] 0 1 1 0xC4
    (by decide) (by decide) (by decide) (by decide) (by decide) (by decide)
/-! ### Durations -/

theorem fmt_lf_eq (n num den k : Nat) (hden : 0 < den) (hk : num * 1000000 = k * den) :
    fmt_lf n num den = decimal_text (n * k) := by
  have h : n * num * 1000000 / den = n * k := by
    rw [Nat.mul_assoc, hk, ← Nat.mul_assoc]
    exact Nat.mul_div_cancel _ hden
  simp only [fmt_lf, decimal_text, h]

theorem assemble_one (bo : ByteOrder) (b : Nat) : assemble bo [b] = b := by
  cases bo <;> rfl

theorem duration_text_ne (n : Nat) (s : String) :
    ("(0x" ++ fmt_x 4 n ++ ") " ++ s).data ≠ [] := by
  rw [String.append_assoc, String.append_assoc]
  exact append_data_ne _ _ (by decide)

/-- The switch of `parse_parameter` for a duration type and a width of 1 or 2. -/
theorem render_parameter_duration (bo : ByteOrder) (ty : HCI_PARAM_DISPLAY_TYPE)
    (d : HCI_PARAMETER_REPR) (t : Bool) (data : List Nat) (pos : Int) (w : Nat) (bs : List Nat)
    (hty : is_duration ty = true) (hw : w = 1 ∨ w = 2) (hbs : octets_at data pos w = some bs) :
    render_parameter bo ty d (w : Int) t data pos =
      .ok ("(0x" ++ fmt_x 4 (assemble bo bs) ++ ") "
        ++ (decimal_text (duration_micro ty (assemble bo bs)) ++ duration_unit ty),
        pos + w, (w : Int)) := by
  have e1 := fmt_lf_eq (assemble bo bs) 5 8 625000 (by decide) (by decide)
  have e2 := fmt_lf_eq (assemble bo bs) 5 4 1250000 (by decide) (by decide)
  have e5 := fmt_lf_eq (assemble bo bs) 10 1 10000000 (by decide) (by decide)
  have e12 := fmt_lf_eq (assemble bo bs) 32 25 1280000 (by decide) (by decide)
  have hread : (if (w : Int) = 1 then some (STREAM_TO_UINT8 data pos)
      else if (w : Int) = 2 then some (STREAM_TO_UINT bo 2 data pos) else none)
      = some (.ok (assemble bo bs, pos + w)) := by
    rcases hw with h | h
    · subst h
      have hl := octets_at_length _ _ _ _ hbs
      match bs, hl, hbs with
      | [b], _, hbs =>
        simp only [Nat.cast_one, if_true, STREAM_TO_UINT8_ok data pos b hbs, assemble_one]
    · subst h
      have e : ¬ ((2 : Int) = 1) := by decide
      simp only [Nat.cast_ofNat, e, if_false, if_true, STREAM_TO_UINT_ok bo 2 data pos bs hbs]
  cases ty <;> first
    | (exfalso; revert hty; decide)
    | (simp only [render_parameter, hread, duration_micro, duration_unit, e1, e2, e5, e12])

/-- C29: a duration field of width 1 or 2 with raw value `n` is written as
`"(0x%04x) "` of `n`, then the duration with six decimals, then the unit. The
duration is exactly `n * 0.625` with unit `" msec."` for `TIME_CLK1`, `n * 1.25`
with `" msec."` for `TIME_CLK2`, `n * 10` with `" msec."` for `TIME_CLK5` and
`n * 1.28` with `" sec."` for `TIME_CLK12`: the number printed is
`duration_micro` millionths, integer part and six decimals, without rounding. -/
theorem C29_duration (bo : ByteOrder) (inst : HCI_INSTANCE) (d : HCI_PARAMETER_REPR) (seq : Int)
    (data : List Nat) (pos left : Int) (indent : Nat) (w : Nat) (bs : List Nat)
    (hvi : inst.value_index < MAX_HCI_PARAM_NUM) (hk : is_duration d.display_type = true)
    (hw : w = 1 ∨ w = 2) (hlen : d.length = w) (hleft : (w : Int) ≤ left)
    (hbs : octets_at data pos w = some bs) :
    parse_parameter bo inst d seq data pos left indent =
      .ok (append_field inst
        { name := d.name, seq_num := seq,
          value := "(0x" ++ fmt_x 4 (assemble bo bs) ++ ") "
            ++ (decimal_text (duration_micro d.display_type (assemble bo bs))
              ++ duration_unit d.display_type),
          indent_level := indent }, pos + w, left - w) ∧
    (∀ n : Nat,
      ((duration_micro .TIME_CLK1 n : ℚ) / 1000000 = n * (625 / 1000) ∧
        duration_unit .TIME_CLK1 = " msec.") ∧
      ((duration_micro .TIME_CLK2 n : ℚ) / 1000000 = n * (125 / 100) ∧
        duration_unit .TIME_CLK2 = " msec.") ∧
      ((duration_micro .TIME_CLK5 n : ℚ) / 1000000 = n * 10 ∧
        duration_unit .TIME_CLK5 = " msec.") ∧
      ((duration_micro .TIME_CLK12 n : ℚ) / 1000000 = n * (128 / 100) ∧
        duration_unit .TIME_CLK12 = " sec.")) ∧
    (∀ micro : Nat, ∃ frac : List Char, frac.length = 6 ∧
      decimal_text micro = fmt_u (micro / 1000000) ++ "." ++ String.mk frac ∧
      strtol_digits 10 frac 0 = micro % 1000000) ∧
    decimal_text (duration_micro .TIME_CLK1 3) = "1.875000" ∧
    decimal_text (duration_micro .TIME_CLK2 6) = "7.500000" ∧
    decimal_text (duration_micro .TIME_CLK5 500) = "5000.000000" ∧
    decimal_text (duration_micro .TIME_CLK12 0xFFFF) = "83884.800000" := by
  have hle : d.length ≤ left := by rw [hlen]; exact hleft
  have hren : render_parameter bo (clamped_type d d.length left) d
      (clamped_length d.length left) (decide (d.length > left ∧ d.length ≠ INT_MAX)) data pos
      = .ok ("(0x" ++ fmt_x 4 (assemble bo bs) ++ ") "
          ++ (decimal_text (duration_micro d.display_type (assemble bo bs))
            ++ duration_unit d.display_type), pos + w, (w : Int)) := by
    rw [clamped_type_le d left hle, clamped_length_le _ _ hle, hlen]
    exact render_parameter_duration bo _ d _ data pos w bs hk hw hbs
  have h := parse_parameter_of_render bo inst d seq data pos left indent _ _ _ hvi
    (by rw [hlen]; omega) hren
  rw [sprintf_into_of_ne _ _ (duration_text_ne _ _)] at h
  refine ⟨h, ?_, ?_, by decide, by decide, by decide, by decide⟩
  · intro n
    simp only [duration_micro, duration_unit, Nat.cast_mul, Nat.cast_ofNat, and_true]
    refine ⟨?_, ?_, ?_, ?_⟩ <;> ring
  · intro micro
    refine ⟨zeroPad 6 (Nat.toDigits 10 (micro % 1000000)), ?_, rfl, ?_⟩
    · have hlt : micro % 1000000 < 10 ^ 6 := Nat.mod_lt _ (by decide)
      have hl : (Nat.toDigits 10 (micro % 1000000)).length ≤ 6 :=
        Nat.toDigitsCore_length 10 (by decide) _ _ 6 hlt (by decide)
      simp only [zeroPad, List.length_append, List.length_replicate]
      omega
    · rw [strtol_digits_zeroPad 10 (by decide) 6, strtol_digits_toDigits 10 (by decide) (by decide)]

theorem C29_duration_witness :
    parse_parameter .little {} LE_META_EVENTS_0x03.parameter[2] 0 [0x06, 0x00] 0 2 1 =
      .ok (append_field {}
        { name := LE_META_EVENTS_0x03.parameter[2].name, seq_num := 0,
          value := "(0x" ++ fmt_x 4 (assemble .little [0x06, 0x00]) ++ ") "
            ++ (decimal_text (duration_micro LE_META_EVENTS_0x03.parameter[2].display_type
                (assemble .little [0x06, 0x00]))
              ++ duration_unit LE_META_EVENTS_0x03.parameter[2].display_type),
          indent_level := 1 }, 0 + (2 : Nat), 2 - (2 : Nat)) ∧
    (∀ n : Nat,
      ((duration_micro .TIME_CLK1 n : ℚ) / 1000000 = n * (625 / 1000) ∧
        duration_unit .TIME_CLK1 = " msec.") ∧
      ((duration_micro .TIME_CLK2 n : ℚ) / 1000000 = n * (125 / 100) ∧
        duration_unit .TIME_CLK2 = " msec.") ∧
      ((duration_micro .TIME_CLK5 n : ℚ) / 1000000 = n * 10 ∧
        duration_unit .TIME_CLK5 = " msec.") ∧
      ((duration_micro .TIME_CLK12 n : ℚ) / 1000000 = n * (128 / 100) ∧
        duration_unit .TIME_CLK12 = " sec.")) ∧
    (∀ micro : Nat, ∃ frac : List Char, frac.length = 6 ∧
      decimal_text micro = fmt_u (micro / 1000000) ++ "." ++ String.mk frac ∧
      strtol_digits 10 frac 0 = micro % 1000000) ∧
    decimal_text (duration_micro .TIME_CLK1 3) = "1.875000" ∧
    decimal_text (duration_micro .TIME_CLK2 6) = "7.500000" ∧
    decimal_text (duration_micro .TIME_CLK5 500) = "5000.000000" ∧
    decimal_text (duration_micro .TIME_CLK12 0xFFFF) = "83884.800000" :=
  C29_duration .little {} LE_META_EVENTS_0x03.parameter[2] 0 [0x06, 0x00] 0 2 1 2 [0x06, 0x00]
    (by decide) (by decide) (by decide) (by decide) (by decide) (by decide)
/-! ### Back-referenced widths -/

theorem render_parameter_congr (bo : ByteOrder) (ty : HCI_PARAM_DISPLAY_TYPE)
    (d1 d2 : HCI_PARAMETER_REPR) (len : Int) (t : Bool) (data : List Nat) (pos : Int)
    (h : d1.index_of_special_display_param = d2.index_of_special_display_param) :
    render_parameter bo ty d1 len t data pos = render_parameter bo ty d2 len t data pos := by
  cases ty <;> simp only [render_parameter, h]

theorem to_int_of_lt (n : Nat) (h : n < 2147483648) : to_int (n : Int) = n := by
  unfold to_int
  omega

/-- A descriptor of negative length `-k` is handled like the same descriptor with
the length that `strtol` reads from the text of the field `k` slots back. -/
theorem parse_parameter_back_reference (bo : ByteOrder) (inst : HCI_INSTANCE)
    (d : HCI_PARAMETER_REPR) (seq : Int) (data : List Nat) (pos left : Int) (indent : Nat)
    (k n : Nat) (hvi : inst.value_index < MAX_HCI_PARAM_NUM) (hk : 0 < k)
    (hlen : d.length = -(k : Int)) (hkv : k ≤ inst.value_index)
    (hn : to_int (strtol (inst.value (inst.value_index - k)).value) = (n : Int)) :
    parse_parameter bo inst d seq data pos left indent =
      parse_parameter bo inst { d with length := (n : Int) } seq data pos left indent := by
  have hneg : d.length < 0 := by omega
  have hnn : ¬ ((n : Int) < 0) := by omega
  have hidx0 : (0 : Int) ≤ (inst.value_index : Int) + d.length := by omega
  have hidx30 : (inst.value_index : Int) + d.length < 30 := by
    have : inst.value_index < 30 := hvi
    omega
  have htn : ((inst.value_index : Int) + d.length).toNat = inst.value_index - k := by omega
  have hne : inst.value_index - k ≠ inst.value_index := by omega
  unfold parse_parameter
  rw [value_update_ok _ _ _ hvi]
  simp only [hneg, hnn, if_true, if_false]
  rw [value_at_int _ _ (by simpa only [with_value] using hidx0)
    (by simpa only [with_value] using hidx30)]
  simp only [with_value, htn, hne, if_false, hn]
  rw [render_parameter_congr bo _ d { d with length := (n : Int) } _ _ data pos rfl]

theorem hex_dump_ne (b : Nat) (bs : List Nat) : (hex_dump (b :: bs)).data ≠ [] := by
  unfold hex_dump
  rw [String.append_assoc]
  exact append_data_ne _ _ (by
    unfold fmt_x
    exact zeroPad_ne_nil 2 _ (toDigits_ne_nil 16 b))

/-- C28: for a descriptor of negative length `-k`, `parse_parameter` works with the
integer `n` that was decoded for the field `k` positions earlier in the field list
(written there in decimal, or in hexadecimal behind `0x`): the call is the call
for the same descriptor with length `n`. A `SEQ_HEX` field of this kind with at
least `n` octets in the budget consumes exactly `n` octets. In the reports of an
LE Advertising Report the field `Data` takes `Length_Data` octets, and in
`HCI_Create_Physical_Link` the field `Dedicated_AMP_Key` takes
`Dedicated_AMP_Key_Length` octets. -/
theorem C28_back_reference (bo : ByteOrder) (inst : HCI_INSTANCE) (d : HCI_PARAMETER_REPR)
    (seq : Int) (data : List Nat) (pos left : Int) (indent : Nat) (k n : Nat) (bs : List Nat)
    (hvi : inst.value_index < MAX_HCI_PARAM_NUM) (hk : 0 < k) (hlen : d.length = -(k : Int))
    (hkv : k ≤ inst.value_index) (hn : n < 2147483648)
    (htext : (inst.value (inst.value_index - k)).value = fmt_u n ∨
      ∃ w, (inst.value (inst.value_index - k)).value = "0x" ++ fmt_x w n) :
    parse_parameter bo inst d seq data pos left indent =
      parse_parameter bo inst { d with length := (n : Int) } seq data pos left indent ∧
    (d.display_type = .SEQ_HEX → (n : Int) ≤ left → octets_at data pos n = some bs →
      parse_parameter bo inst d seq data pos left indent =
        .ok (append_field inst
          { name := d.name, seq_num := seq,
            value := sprintf_into (inst.value inst.value_index).value (hex_dump bs),
            indent_level := indent }, pos + n, left - n)) ∧
    (∀ time_str, parse_hci_event bo
        [0x3E, 0x18, 0x02, 0x02, 0x00, 0x01, 1, 2, 3, 4, 5, 6, 0x02, 0xAA, 0xBB, 0xC4,
          0x04, 0x00, 6, 5, 4, 3, 2, 1, 0x00, 0x7F] time_str =
      .ok [c_str time_str ++ " HCI Event: LE Meta Event(0x3e), Parameter Length: 24",
           "    Subevent_Code: LE Advertising Report(0x02)",
           "    Num_Reports: 2",
           "    [1] Event_Type: (0x00) Connectable undirected advertising(ADV_IND)",
           "    [1] Address_Type: (0x01) Random Device Address",
           "    [1] Address: 0x06-05-04-03-02-01",
           "    [1] Length_Data: 2",
           "    [1] Data: aa bb ",
           "    [1] RSSI: (0xc4) -60 dBm",
           "    [2] Event_Type: (0x04) Scan Response(SCAN_RSP)",
           "    [2] Address_Type: (0x00) Public Device Address",
           "    [2] Address: 0x01-02-03-04-05-06",
           "    [2] Length_Data: 0",
           "    [2] Data: ",
           "    [2] RSSI: (0x7f) RSSI is not available"]) ∧
    (∀ time_str, parse_hci_command .little
        [0x35, 0x04, 0x06, 0x01, 0x03, 0x04, 0xA1, 0xA2, 0xA3] time_str =
      .ok [c_str time_str ++ " HCI Command: HCI_Create_Physical_Link(0x0435), Parameter Length: 6",
           "    Physical_Link_Handle: 0x01",
           "    Dedicated_AMP_Key_Length: 3",
           "    Dedicated_AMP_Key_Type: 0x04",
           "    Dedicated_AMP_Key: a1 a2 a3 "]) := by
  have hto : to_int (strtol (inst.value (inst.value_index - k)).value) = (n : Int) := by
    have hL : (n : Int) ≤ LONG_MAX := by unfold LONG_MAX; omega
    rcases htext with h | ⟨w, h⟩
    · rw [h, strtol_fmt_u n hL, to_int_of_lt n hn]
    · rw [h, strtol_hex_text w n hL, to_int_of_lt n hn]
  have hback := parse_parameter_back_reference bo inst d seq data pos left indent k n hvi hk hlen
    hkv hto
  refine ⟨hback, ?_, ?_, ?_⟩
  · intro hty hle hbs
    rw [hback]
    have hbs1 : octets_at data pos ((n : Int).toNat) = some bs := by
      rw [Int.toNat_ofNat]
      exact hbs
    have hdump := dump_parameter_ok data pos (n : Int) false bs (by omega) hbs1
    have he : hex_dump bs ++ (if false = true then "(truncated)" else "") = hex_dump bs := by
      simp only [Bool.false_eq_true, if_false, String.append_empty]
    rw [he] at hdump
    have hren : render_parameter bo
        (clamped_type { d with length := (n : Int) } (n : Int) left) { d with length := (n : Int) }
        (clamped_length (n : Int) left)
        (decide ((n : Int) > left ∧ (n : Int) ≠ INT_MAX)) data pos
        = .ok (hex_dump bs, pos + n, (n : Int)) := by
      rw [clamped_type_le { d with length := (n : Int) } left hle, clamped_length_le _ _ hle,
        not_truncated_of_le _ _ hle]
      simp only [hty, render_parameter_seq_hex, hdump]
    exact parse_parameter_of_render bo inst { d with length := (n : Int) } seq data pos left
      indent _ _ _ hvi (by simp only; omega) hren
  · intro time_str
    cases bo with
    | little =>
      have e : parse_hci_event .little
          [0x3E, 0x18, 0x02, 0x02, 0x00, 0x01, 1, 2, 3, 4, 5, 6, 0x02, 0xAA, 0xBB, 0xC4,
            0x04, 0x00, 6, 5, 4, 3, 2, 1, 0x00, 0x7F] time_str
          = .ok [event_header time_str (new_instance (some "LE Meta Event") 0x3E 24 0),
             "    Subevent_Code: LE Advertising Report(0x02)",
             "    Num_Reports: 2",
             "    [1] Event_Type: (0x00) Connectable undirected advertising(ADV_IND)",
             "    [1] Address_Type: (0x01) Random Device Address",
             "    [1] Address: 0x06-05-04-03-02-01",
             "    [1] Length_Data: 2",
             "    [1] Data: aa bb ",
             "    [1] RSSI: (0xc4) -60 dBm",
             "    [2] Event_Type: (0x04) Scan Response(SCAN_RSP)",
             "    [2] Address_Type: (0x00) Public Device Address",
             "    [2] Address: 0x01-02-03-04-05-06",
             "    [2] Length_Data: 0",
             "    [2] Data: ",
             "    [2] RSSI: (0x7f) RSSI is not available"] := by
        rfl
      rw [e, event_header_eq]
      rfl
    | big =>
      have e : parse_hci_event .big
          [0x3E, 0x18, 0x02, 0x02, 0x00, 0x01, 1, 2, 3, 4, 5, 6, 0x02, 0xAA, 0xBB, 0xC4,
            0x04, 0x00, 6, 5, 4, 3, 2, 1, 0x00, 0x7F] time_str
          = .ok [event_header time_str (new_instance (some "LE Meta Event") 0x3E 24 0),
             "    Subevent_Code: LE Advertising Report(0x02)",
             "    Num_Reports: 2",
             "    [1] Event_Type: (0x00) Connectable undirected advertising(ADV_IND)",
             "    [1] Address_Type: (0x01) Random Device Address",
             "    [1] Address: 0x06-05-04-03-02-01",
             "    [1] Length_Data: 2",
             "    [1] Data: aa bb ",
             "    [1] RSSI: (0xc4) -60 dBm",
             "    [2] Event_Type: (0x04) Scan Response(SCAN_RSP)",
             "    [2] Address_Type: (0x00) Public Device Address",
             "    [2] Address: 0x01-02-03-04-05-06",
             "    [2] Length_Data: 0",
             "    [2] Data: ",
             "    [2] RSSI: (0x7f) RSSI is not available"] := by
        rfl
      rw [e, event_header_eq]
      rfl
  · intro time_str
    have e : parse_hci_command .little
        [0x35, 0x04, 0x06, 0x01, 0x03, 0x04, 0xA1, 0xA2, 0xA3] time_str
        = .ok [command_header time_str (new_instance (some "HCI_Create_Physical_Link") 0x0435 6 4),
           "    Physical_Link_Handle: 0x01",
           "    Dedicated_AMP_Key_Length: 3",
           "    Dedicated_AMP_Key_Type: 0x04",
           "    Dedicated_AMP_Key: a1 a2 a3 "] := by
      rfl
    rw [e, command_header_eq]
    rfl

theorem C28_back_reference_witness :
    parse_parameter .little
        (append_field {} { name := some "Length_Data", seq_num := 1, value := fmt_u 2,
                           indent_level := 1 })
        LE_META_EVENTS_0x02.parameter[5] 1 [0xAA, 0xBB, 0xC4] 0 3 1 =
      parse_parameter .little
        (append_field {} { name := some "Length_Data", seq_num := 1, value := fmt_u 2,
                           indent_level := 1 })
        { LE_META_EVENTS_0x02.parameter[5] with length := ((2 : Nat) : Int) } 1
        [0xAA, 0xBB, 0xC4] 0 3 1 ∧
    (LE_META_EVENTS_0x02.parameter[5].display_type = .SEQ_HEX → ((2 : Nat) : Int) ≤ 3 →
      octets_at [0xAA, 0xBB, 0xC4] 0 2 = some [0xAA, 0xBB] →
      parse_parameter .little
          (append_field {} { name := some "Length_Data", seq_num := 1, value := fmt_u 2,
                             indent_level := 1 })
          LE_META_EVENTS_0x02.parameter[5] 1 [0xAA, 0xBB, 0xC4] 0 3 1 =
        .ok (append_field
          (append_field {} { name := some "Length_Data", seq_num := 1, value := fmt_u 2,
                             indent_level := 1 })
          { name := LE_META_EVENTS_0x02.parameter[5].name, seq_num := 1,
            value := sprintf_into
              ((append_field {} { name := some "Length_Data", seq_num := 1, value := fmt_u 2,
                                  indent_level := 1 }).value
                (append_field {} { name := some "Length_Data", seq_num := 1, value := fmt_u 2,
                                   indent_level := 1 }).value_index).value
              (hex_dump [0xAA, 0xBB]),
            indent_level := 1 }, 0 + (2 : Nat), 3 - (2 : Nat))) ∧
    (∀ time_str, parse_hci_event .little
        [0x3E, 0x18, 0x02, 0x02, 0x00, 0x01, 1, 2, 3, 4, 5, 6, 0x02, 0xAA, 0xBB, 0xC4,
          0x04, 0x00, 6, 5, 4, 3, 2, 1, 0x00, 0x7F] time_str =
      .ok [c_str time_str ++ " HCI Event: LE Meta Event(0x3e), Parameter Length: 24",
           "    Subevent_Code: LE Advertising Report(0x02)",
           "    Num_Reports: 2",
           "    [1] Event_Type: (0x00) Connectable undirected advertising(ADV_IND)",
           "    [1] Address_Type: (0x01) Random Device Address",
           "    [1] Address: 0x06-05-04-03-02-01",
           "    [1] Length_Data: 2",
           "    [1] Data: aa bb ",
           "    [1] RSSI: (0xc4) -60 dBm",
           "    [2] Event_Type: (0x04) Scan Response(SCAN_RSP)",
           "    [2] Address_Type: (0x00) Public Device Address",
           "    [2] Address: 0x01-02-03-04-05-06",
           "    [2] Length_Data: 0",
           "    [2] Data: ",
           "    [2] RSSI: (0x7f) RSSI is not available"]) ∧
    (∀ time_str, parse_hci_command .little
        [0x35, 0x04, 0x06, 0x01, 0x03, 0x04, 0xA1, 0xA2, 0xA3] time_str =
      .ok [c_str time_str ++ " HCI Command: HCI_Create_Physical_Link(0x0435), Parameter Length: 6",
           "    Physical_Link_Handle: 0x01",
           "    Dedicated_AMP_Key_Length: 3",
           "    Dedicated_AMP_Key_Type: 0x04",
           "    Dedicated_AMP_Key: a1 a2 a3 "]) :=
  C28_back_reference .little
    (append_field {} { name := some "Length_Data", seq_num := 1, value := fmt_u 2,
                       indent_level := 1 })
    LE_META_EVENTS_0x02.parameter[5] 1 [0xAA, 0xBB, 0xC4] 0 3 1 1 2 [0xAA, 0xBB]
    (by decide) (by decide) (by decide) (by decide) (by decide) (Or.inl (by decide))
/-! ### Command Status -/

/-- A status field whose octet is inside `EVENT_STATUS_TEXT`. -/
theorem parse_parameter_status (bo : ByteOrder) (inst : HCI_INSTANCE) (d : HCI_PARAMETER_REPR)
    (seq : Int) (data : List Nat) (pos left : Int) (indent : Nat) (b : Nat)
    (hvi : inst.value_index < MAX_HCI_PARAM_NUM)
    (hk : d.display_type = .TEXT_REASON_STATUS_CODE) (hlen : d.length = 1) (hleft : 1 ≤ left)
    (hb : b ≤ 0x40) (hdata : octets_at data pos 1 = some [b]) :
    parse_parameter bo inst d seq data pos left indent =
      .ok (append_field inst
        { name := d.name, seq_num := seq,
          value := "(0x" ++ fmt_x 2 b ++ ") " ++ EVENT_STATUS_TEXT.getD b "",
          indent_level := indent }, pos + 1, left - 1) := by
  have hle : d.length ≤ left := by rw [hlen]; exact hleft
  have hlt : b < EVENT_STATUS_TEXT.length := by
    have : EVENT_STATUS_TEXT.length = 65 := by decide
    omega
  have hget : EVENT_STATUS_TEXT[b]? = some (EVENT_STATUS_TEXT.getD b "") := by
    rw [List.getD_eq_getElem?_getD, List.getElem?_eq_getElem hlt]
    rfl
  have hplain : c_str (EVENT_STATUS_TEXT.getD b "") = EVENT_STATUS_TEXT.getD b "" := by
    apply status_text_plain
    rw [List.getD_eq_getElem?_getD, List.getElem?_eq_getElem hlt]
    exact List.getElem_mem _
  have hren : render_parameter bo (clamped_type d d.length left) d
      (clamped_length d.length left) (decide (d.length > left ∧ d.length ≠ INT_MAX)) data pos
      = .ok ("(0x" ++ fmt_x 2 b ++ ") " ++ EVENT_STATUS_TEXT.getD b "", pos + 1, 1) := by
    rw [clamped_type_le d left hle, clamped_length_le _ _ hle, hk, hlen]
    simp only [render_parameter, STREAM_TO_UINT8_ok data pos b hdata, hget, hplain]
  have h := parse_parameter_of_render bo inst d seq data pos left indent _ _ _ hvi
    (by rw [hlen]; decide) hren
  rw [sprintf_into_of_ne _ _ (by
    rw [String.append_assoc, String.append_assoc]
    exact append_data_ne _ _ (by decide))] at h
  exact h

/-- An `INT_DEC` field of width 1. -/
theorem parse_parameter_int_dec_one (bo : ByteOrder) (inst : HCI_INSTANCE)
    (d : HCI_PARAMETER_REPR) (seq : Int) (data : List Nat) (pos left : Int) (indent : Nat)
    (b : Nat) (hvi : inst.value_index < MAX_HCI_PARAM_NUM) (hk : d.display_type = .INT_DEC)
    (hlen : d.length = 1) (hleft : 1 ≤ left) (hdata : octets_at data pos 1 = some [b]) :
    parse_parameter bo inst d seq data pos left indent =
      .ok (append_field inst
        { name := d.name, seq_num := seq, value := fmt_u b, indent_level := indent },
        pos + 1, left - 1) := by
  have hle : d.length ≤ left := by rw [hlen]; exact hleft
  have hren : render_parameter bo (clamped_type d d.length left) d
      (clamped_length d.length left) (decide (d.length > left ∧ d.length ≠ INT_MAX)) data pos
      = .ok (fmt_u b, pos + 1, 1) := by
    rw [clamped_type_le d left hle, clamped_length_le _ _ hle, hk, hlen]
    simp only [render_parameter, read_by_width, if_true, STREAM_TO_UINT8_ok data pos b hdata]
  have h := parse_parameter_of_render bo inst d seq data pos left indent _ _ _ hvi
    (by rw [hlen]; decide) hren
  rw [sprintf_into_of_ne _ _ (fmt_u_data_ne _)] at h
  exact h

theorem hex_text_ne (w n : Nat) : ("0x" ++ fmt_x w n).data ≠ [] :=
  append_data_ne _ _ (by decide)

/-- An `INT_HEX` field of width 1. -/
theorem parse_parameter_int_hex_one (bo : ByteOrder) (inst : HCI_INSTANCE)
    (d : HCI_PARAMETER_REPR) (seq : Int) (data : List Nat) (pos left : Int) (indent : Nat)
    (b : Nat) (hvi : inst.value_index < MAX_HCI_PARAM_NUM) (hk : d.display_type = .INT_HEX)
    (hlen : d.length = 1) (hleft : 1 ≤ left) (hdata : octets_at data pos 1 = some [b]) :
    parse_parameter bo inst d seq data pos left indent =
      .ok (append_field inst
        { name := d.name, seq_num := seq, value := "0x" ++ fmt_x 2 b, indent_level := indent },
        pos + 1, left - 1) := by
  have hle : d.length ≤ left := by rw [hlen]; exact hleft
  have hren : render_parameter bo (clamped_type d d.length left) d
      (clamped_length d.length left) (decide (d.length > left ∧ d.length ≠ INT_MAX)) data pos
      = .ok ("0x" ++ fmt_x 2 b, pos + 1, 1) := by
    rw [clamped_type_le d left hle, clamped_length_le _ _ hle, hk, hlen]
    simp only [render_parameter, read_by_width, if_true, STREAM_TO_UINT8_ok data pos b hdata]
  have h := parse_parameter_of_render bo inst d seq data pos left indent _ _ _ hvi
    (by rw [hlen]; decide) hren
  rw [sprintf_into_of_ne _ _ (hex_text_ne _ _)] at h
  exact h

/-- An `INT_HEX` field of width 2. -/
theorem parse_parameter_int_hex_two (bo : ByteOrder) (inst : HCI_INSTANCE)
    (d : HCI_PARAMETER_REPR) (seq : Int) (data : List Nat) (pos left : Int) (indent : Nat)
    (bs : List Nat) (hvi : inst.value_index < MAX_HCI_PARAM_NUM) (hk : d.display_type = .INT_HEX)
    (hlen : d.length = 2) (hleft : 2 ≤ left) (hdata : octets_at data pos 2 = some bs) :
    parse_parameter bo inst d seq data pos left indent =
      .ok (append_field inst
        { name := d.name, seq_num := seq, value := "0x" ++ fmt_x 4 (assemble bo bs),
          indent_level := indent }, pos + 2, left - 2) := by
  have hle : d.length ≤ left := by rw [hlen]; exact hleft
  have hren : render_parameter bo (clamped_type d d.length left) d
      (clamped_length d.length left) (decide (d.length > left ∧ d.length ≠ INT_MAX)) data pos
      = .ok ("0x" ++ fmt_x 4 (assemble bo bs), pos + 2, 2) := by
    rw [clamped_type_le d left hle, clamped_length_le _ _ hle, hk, hlen]
    have e1 : ¬ ((2 : Int) = 1) := by decide
    simp only [render_parameter, read_by_width, e1, if_false, if_true,
      STREAM_TO_UINT_ok bo 2 data pos _ hdata]
    rfl
  have h := parse_parameter_of_render bo inst d seq data pos left indent _ _ _ hvi
    (by rw [hlen]; decide) hren
  rw [sprintf_into_of_ne _ _ (hex_text_ne _ _)] at h
  exact h

/-- The generic walk of a Command Status event with a status inside the table. -/
theorem parse_hci_instance_command_status (bo : ByteOrder) (inst : HCI_INSTANCE)
    (hvi : inst.value_index = 0) (L s n o0 o1 : Nat) (rest : List Nat) (hL : 4 ≤ L)
    (hs : s ≤ 0x40) (hn : n < 256) (ho0 : o0 < 256) (ho1 : o1 < 256) :
    parse_hci_instance bo inst HCI_EVENTS_0x0f.parameter 3 (0x0F :: L :: s :: n :: o0 :: o1 :: rest)
        2 L INDENT_LEVEL_1 =
      .ok (append_field (append_field (append_field inst
          { name := some "Status", seq_num := 0,
            value := "(0x" ++ fmt_x 2 s ++ ") " ++ EVENT_STATUS_TEXT.getD s "",
            indent_level := 1 })
          { name := some "Num_HCI_Command_Packets", seq_num := 0, value := fmt_u n,
            indent_level := 1 })
          { name := some "Command_Opcode", seq_num := 0,
            value := "0x" ++ fmt_x 4 (assemble bo [o0, o1]), indent_level := 1 }, 6, L - 4) := by
  have hd0 : descriptor_at HCI_EVENTS_0x0f.parameter 0 = .ok
      { name := some "Status", length := 1, display_type := .TEXT_REASON_STATUS_CODE } := by
    decide
  have hd1 : descriptor_at HCI_EVENTS_0x0f.parameter 1 = .ok
      { name := some "Num_HCI_Command_Packets", length := 1, display_type := .INT_DEC } := by
    decide
  have hd2 : descriptor_at HCI_EVENTS_0x0f.parameter 2 = .ok
      { name := some "Command_Opcode", length := 2, display_type := .INT_HEX } := by
    decide
  have hoct0 : octets_at (0x0F :: L :: s :: n :: o0 :: o1 :: rest) 2 1 = some [s] := by
    simp only [octets_at, octet_at]
    simp [Nat.mod_eq_of_lt (show s < 256 by omega)]
  have hoct1 : octets_at (0x0F :: L :: s :: n :: o0 :: o1 :: rest) (2 + 1) 1 = some [n] := by
    simp only [octets_at, octet_at]
    simp [Nat.mod_eq_of_lt hn]
  have hoct2 : octets_at (0x0F :: L :: s :: n :: o0 :: o1 :: rest) (2 + 1 + 1) 2
      = some [o0, o1] := by
    simp only [octets_at, octet_at]
    simp [Nat.mod_eq_of_lt ho0, Nat.mod_eq_of_lt ho1]
  have hp0 := parse_parameter_status bo inst
    { name := some "Status", length := 1, display_type := .TEXT_REASON_STATUS_CODE } 0
    (0x0F :: L :: s :: n :: o0 :: o1 :: rest) 2 L INDENT_LEVEL_1 s (by rw [hvi]; decide) rfl rfl
    (by omega) hs hoct0
  have hp1 := parse_parameter_int_dec_one bo (append_field inst
      { name := some "Status", seq_num := 0,
        value := "(0x" ++ fmt_x 2 s ++ ") " ++ EVENT_STATUS_TEXT.getD s "",
        indent_level := INDENT_LEVEL_1 })
    { name := some "Num_HCI_Command_Packets", length := 1, display_type := .INT_DEC } 0 _ (2 + 1)
    (L - 1) INDENT_LEVEL_1 n (by simp only [append_field, hvi]; decide) rfl rfl (by omega) hoct1
  have hp2 := parse_parameter_int_hex_two bo (append_field (append_field inst
      { name := some "Status", seq_num := 0,
        value := "(0x" ++ fmt_x 2 s ++ ") " ++ EVENT_STATUS_TEXT.getD s "",
        indent_level := INDENT_LEVEL_1 })
      { name := some "Num_HCI_Command_Packets", seq_num := 0, value := fmt_u n,
        indent_level := INDENT_LEVEL_1 })
    { name := some "Command_Opcode", length := 2, display_type := .INT_HEX } 0 _ (2 + 1 + 1)
    (L - 1 - 1) INDENT_LEVEL_1 [o0, o1] (by simp only [append_field, hvi]; decide) rfl rfl
    (by omega) hoct2
  unfold parse_hci_instance
  rw [walk_parameters_step bo _ 3 _ _ 2 0 inst 2 L _ _ (by decide) (by omega) hd0 (by decide) hp0]
  rw [walk_parameters_step bo _ 3 _ _ 1 1 _ _ _ _ _ (by decide) (by omega) hd1 (by decide) hp1]
  rw [walk_parameters_step bo _ 3 _ _ 0 2 _ _ _ _ _ (by decide) (by omega) hd2 (by decide) hp2]
  rw [walk_parameters_done _ _ _ _ _ _ _ _ (by simp only [lt_irrefl, false_and, not_false_eq_true])]
  refine congrArg Except.ok (Prod.ext ?_ (Prod.ext ?_ ?_))
  · rfl
  · rfl
  · simp only []
    omega

theorem command_status_found (inst : HCI_INSTANCE) (pos left : Int) (u : HCI_UNIT_REPR)
    (hu : get_matched_hci_cmd_repr (to_uint16 (strtol (inst.value 2).value)) = some u)
    (hname : u.name ≠ none) :
    command_status (inst, pos, left) =
      .ok (with_value inst 2 (fun v =>
        { v with
          value := sprintf_into v.value (fmt_s u.name ++ "(0x"
            ++ fmt_x 4 (to_uint16 (strtol (inst.value 2).value)) ++ ")") }), pos, left) := by
  unfold command_status
  rw [value_at_int inst 2 (by decide) (by decide)]
  simp only [show (2 : Int).toNat = 2 from rfl, hu, hname, if_false, set_value]
  rw [value_update_int inst 2 _ (by decide) (by decide)]
  rfl

theorem enriched_opcode_ne (name : Option String) (opcode : Nat) :
    (fmt_s name ++ "(0x" ++ fmt_x 4 opcode ++ ")").data ≠ [] := by
  have hne : ("(0x" ++ fmt_x 4 opcode ++ ")").data ≠ [] := by
    rw [String.append_assoc]
    exact append_data_ne _ _ (by decide)
  rw [String.append_assoc, String.append_assoc, String.data_append]
  intro h
  exact hne (by rw [String.append_assoc]; exact (List.append_eq_nil.mp h).2)

/-- C25: for a Command Status event (code 0x0F) with at least the four octets of its
three parameters, a status octet inside the status table (at most 0x40) and an
embedded opcode that resolves to a named command, the generic walk yields the
fields `Status`, `Num_HCI_Command_Packets` and `Command_Opcode`, and the decode
yields the same three fields with the text of `Command_Opcode` replaced by
`"<name>(0x%04x)"`; no field is added, the first two fields are those of the
walk, and the cursor and budget are those of the walk. -/
theorem C25_command_status (bo : ByteOrder) (L s n o0 o1 : Nat) (rest : List Nat)
    (u : HCI_UNIT_REPR) (hL : 4 ≤ L) (hs : s ≤ 0x40) (hn : n < 256) (ho0 : o0 < 256)
    (ho1 : o1 < 256) (hu : get_matched_hci_cmd_repr (assemble bo [o0, o1]) = some u)
    (hname : u.name ≠ none) :
    (parse_hci_instance bo (new_instance (some "Command Status") 0x0F L 3)
        HCI_EVENTS_0x0f.parameter 3 (0x0F :: L :: s :: n :: o0 :: o1 :: rest) 2 L
        INDENT_LEVEL_1).map (fun st => (fields st.1, st.2)) =
      .ok ([{ name := some "Status", seq_num := 0,
              value := "(0x" ++ fmt_x 2 s ++ ") " ++ EVENT_STATUS_TEXT.getD s "",
              indent_level := INDENT_LEVEL_1 },
            { name := some "Num_HCI_Command_Packets", seq_num := 0, value := fmt_u n,
              indent_level := INDENT_LEVEL_1 },
            { name := some "Command_Opcode", seq_num := 0,
              value := "0x" ++ fmt_x 4 (assemble bo [o0, o1]),
              indent_level := INDENT_LEVEL_1 }], 6, (L : Int) - 4) ∧
    (decode_hci_event bo 0x0F L (0x0F :: L :: s :: n :: o0 :: o1 :: rest) 2).map
        (fun st => (fields st.1, st.2)) =
      .ok ([{ name := some "Status", seq_num := 0,
              value := "(0x" ++ fmt_x 2 s ++ ") " ++ EVENT_STATUS_TEXT.getD s "",
              indent_level := INDENT_LEVEL_1 },
            { name := some "Num_HCI_Command_Packets", seq_num := 0, value := fmt_u n,
              indent_level := INDENT_LEVEL_1 },
            { name := some "Command_Opcode", seq_num := 0,
              value := fmt_s u.name ++ "(0x" ++ fmt_x 4 (assemble bo [o0, o1]) ++ ")",
              indent_level := INDENT_LEVEL_1 }], 6, (L : Int) - 4) ∧
    (∀ time_str, parse_hci_event .little [0x0F, 0x04, 0x00, 0x01, 0x03, 0x0C] time_str =
      .ok [c_str time_str ++ " HCI Event: Command Status(0x0f), Parameter Length: 4",
           "    Status: (0x00) Success",
           "    Num_HCI_Command_Packets: 1",
           "    Command_Opcode: HCI_Reset(0x0c03)"]) := by
  have hv := assemble_two_lt bo o0 o1 ho0 ho1
  have hstr : strtol ("0x" ++ fmt_x 4 (assemble bo [o0, o1])) = (assemble bo [o0, o1] : Nat) :=
    strtol_hex_text 4 _ (by unfold LONG_MAX; omega)
  have h16 : to_uint16 ((assemble bo [o0, o1] : Nat) : Int) = assemble bo [o0, o1] := by
    unfold to_uint16
    omega
  have hslot : table_slot HCI_EVENTS 0x0F = HCI_EVENTS_0x0f := by decide
  have hwalk := parse_hci_instance_command_status bo
    (new_instance (some "Command Status") 0x0F L 3) rfl L s n o0 o1 rest hL hs hn ho0 ho1
  obtain ⟨inst3, hinst3⟩ : ∃ i : HCI_INSTANCE, i = append_field (append_field (append_field
      (new_instance (some "Command Status") 0x0F L 3)
      { name := some "Status", seq_num := 0,
        value := "(0x" ++ fmt_x 2 s ++ ") " ++ EVENT_STATUS_TEXT.getD s "",
        indent_level := 1 })
      { name := some "Num_HCI_Command_Packets", seq_num := 0, value := fmt_u n,
        indent_level := 1 })
      { name := some "Command_Opcode", seq_num := 0,
        value := "0x" ++ fmt_x 4 (assemble bo [o0, o1]), indent_level := 1 } := ⟨_, rfl⟩
  rw [← hinst3] at hwalk
  have hi : inst3.value_index = 3 := by rw [hinst3]; rfl
  have hv0 : inst3.value 0 =
      { name := some "Status", seq_num := 0,
        value := "(0x" ++ fmt_x 2 s ++ ") " ++ EVENT_STATUS_TEXT.getD s "",
        indent_level := 1 } := by rw [hinst3]; rfl
  have hv1 : inst3.value 1 =
      { name := some "Num_HCI_Command_Packets", seq_num := 0, value := fmt_u n,
        indent_level := 1 } := by rw [hinst3]; rfl
  have hv2 : inst3.value 2 =
      { name := some "Command_Opcode", seq_num := 0,
        value := "0x" ++ fmt_x 4 (assemble bo [o0, o1]), indent_level := 1 } := by
    rw [hinst3]; rfl
  have hfound := command_status_found inst3 6 (L - 4) u
    (by rw [hv2]; simp only [hstr, h16]; exact hu) hname
  have hd1 : decode_hci_event bo 0x0F L (0x0F :: L :: s :: n :: o0 :: o1 :: rest) 2
      = command_status (inst3, 6, L - 4) := by
    unfold decode_hci_event
    simp only [hslot]
    rw [show HCI_EVENTS_0x0f.name = some "Command Status" from rfl,
      show HCI_EVENTS_0x0f.parameter_count = 3 from rfl, hwalk]
    have e1 : ¬ ((0x0F : Nat) = 0x0E) := by decide
    simp only [e1, if_false, if_true]
  refine ⟨?_, ?_, ?_⟩
  · rw [hwalk]
    simp only [Except.map, fields, hi, List.range_succ, List.range_zero, List.nil_append,
      List.map_append, List.map_cons, List.map_nil, List.cons_append, hv0, hv1, hv2,
      INDENT_LEVEL_1]
  · rw [hd1, hfound]
    simp only [Except.map, fields, with_value, hi, List.range_succ, List.range_zero,
      List.nil_append, List.map_append, List.map_cons, List.map_nil, List.cons_append, hv0, hv1,
      hv2, hstr, h16, sprintf_into_of_ne _ _ (enriched_opcode_ne _ _), INDENT_LEVEL_1,
      OfNat.zero_ne_ofNat, OfNat.one_ne_ofNat, if_false, if_true]
  · intro time_str
    have e : parse_hci_event .little [0x0F, 0x04, 0x00, 0x01, 0x03, 0x0C] time_str
        = .ok [event_header time_str (new_instance (some "Command Status") 0x0F 4 3),
           "    Status: (0x00) Success",
           "    Num_HCI_Command_Packets: 1",
           "    Command_Opcode: HCI_Reset(0x0c03)"] := by
      rfl
    rw [e, event_header_eq]
    rfl

theorem C25_command_status_witness :
    (parse_hci_instance .little (new_instance (some "Command Status") 0x0F 4 3)
        HCI_EVENTS_0x0f.parameter 3 (0x0F :: 4 :: 0x00 :: 0x01 :: 0x03 :: 0x0C :: []) 2 (4 : Nat)
        INDENT_LEVEL_1).map (fun st => (fields st.1, st.2)) =
      .ok ([{ name := some "Status", seq_num := 0,
              value := "(0x" ++ fmt_x 2 0x00 ++ ") " ++ EVENT_STATUS_TEXT.getD 0x00 "",
              indent_level := INDENT_LEVEL_1 },
            { name := some "Num_HCI_Command_Packets", seq_num := 0, value := fmt_u 0x01,
              indent_level := INDENT_LEVEL_1 },
            { name := some "Command_Opcode", seq_num := 0,
              value := "0x" ++ fmt_x 4 (assemble .little [0x03, 0x0C]),
              indent_level := INDENT_LEVEL_1 }], 6, ((4 : Nat) : Int) - 4) ∧
    (decode_hci_event .little 0x0F 4 (0x0F :: 4 :: 0x00 :: 0x01 :: 0x03 :: 0x0C :: []) 2).map
        (fun st => (fields st.1, st.2)) =
      .ok ([{ name := some "Status", seq_num := 0,
              value := "(0x" ++ fmt_x 2 0x00 ++ ") " ++ EVENT_STATUS_TEXT.getD 0x00 "",
              indent_level := INDENT_LEVEL_1 },
            { name := some "Num_HCI_Command_Packets", seq_num := 0, value := fmt_u 0x01,
              indent_level := INDENT_LEVEL_1 },
            { name := some "Command_Opcode", seq_num := 0,
              value := fmt_s HCI_CONTROLLER_BASEBAND_COMMANDS_0x0003.name ++ "(0x"
                ++ fmt_x 4 (assemble .little [0x03, 0x0C]) ++ ")",
              indent_level := INDENT_LEVEL_1 }], 6, ((4 : Nat) : Int) - 4) ∧
    (∀ time_str, parse_hci_event .little [0x0F, 0x04, 0x00, 0x01, 0x03, 0x0C] time_str =
      .ok [c_str time_str ++ " HCI Event: Command Status(0x0f), Parameter Length: 4",
           "    Status: (0x00) Success",
           "    Num_HCI_Command_Packets: 1",
           "    Command_Opcode: HCI_Reset(0x0c03)"]) :=
  C25_command_status .little 4 0x00 0x01 0x03 0x0C [] HCI_CONTROLLER_BASEBAND_COMMANDS_0x0003
    (by decide) (by decide) (by decide) (by decide) (by decide) (by decide) (by decide)

/-- C25, the failing input: a Command Status event whose status octet is 0x41. The
text of the field `Status` is read from `EVENT_STATUS_TEXT[0x41]`, behind the 65
entries of the table, before the post-processor runs; the decode does not yield
the three fields. -/
theorem C25_status_outside_table :
    EVENT_STATUS_TEXT.length = 65 ∧
    parse_hci_event .little [0x0F, 0x04, 0x41, 0x01, 0x03, 0x0C] "12:00:00.000000"
      = .error .status_text_out_of_range ∧
    parse_hci_event .big [0x0F, 0x04, 0x41, 0x01, 0x0C, 0x03] "12:00:00.000000"
      = .error .status_text_out_of_range ∧
    decode_hci_event .little 0x0F 4 [0x0F, 0x04, 0x41, 0x01, 0x03, 0x0C] 2
      = .error .status_text_out_of_range := by
  refine ⟨by decide, by decide, by decide, ?_⟩
  rfl
/-! ### The walk keeps the fields already written -/

theorem parse_parameter_keeps (bo : ByteOrder) (inst : HCI_INSTANCE) (d : HCI_PARAMETER_REPR)
    (seq : Int) (data : List Nat) (pos left : Int) (indent : Nat) (st : WalkState) (m : Nat)
    (hm : m ≤ inst.value_index)
    (h : parse_parameter bo inst d seq data pos left indent = .ok st) :
    m ≤ st.1.value_index ∧ ∀ j, j < m → st.1.value j = inst.value j := by
  obtain ⟨_, hi, _, _, _, hj⟩ := parse_parameter_ok_inv bo inst d seq data pos left indent st h
  exact ⟨by omega, fun j hjm => hj j (by omega)⟩

theorem repeat_unit_keeps (bo : ByteOrder) (ds : List HCI_PARAMETER_REPR) (i : Nat) (seq : Int)
    (data : List Nat) (indent : Nat) :
    ∀ (n idx : Nat) (st0 st : WalkState) (m : Nat), m ≤ st0.1.value_index →
      repeat_unit bo ds i seq data indent n idx st0 = .ok st →
      m ≤ st.1.value_index ∧ ∀ j, j < m → st.1.value j = st0.1.value j := by
  intro n
  induction n with
  | zero =>
    intro idx st0 st m hm h
    rw [repeat_unit_zero, Except.ok.injEq] at h
    subst h
    exact ⟨hm, fun _ _ => rfl⟩
  | succ n ih =>
    intro idx st0 st m hm h
    obtain ⟨inst, pos, left⟩ := st0
    rw [repeat_unit_succ] at h
    split_ifs at h with hl
    · split at h
      · cases h
      · rename_i d hd
        split at h
        · cases h
        · rename_i st1 hp
          have h1 := parse_parameter_keeps bo inst d seq data pos left indent st1 m hm hp
          have h2 := ih (idx + 1) st1 st m h1.1 h
          exact ⟨h2.1, fun j hj => (h2.2 j hj).trans (h1.2 j hj)⟩
    · simp only [Except.ok.injEq] at h
      subst h
      exact ⟨hm, fun _ _ => rfl⟩

theorem repeat_units_keeps (bo : ByteOrder) (ds : List HCI_PARAMETER_REPR) (i rp : Nat)
    (data : List Nat) (indent : Nat) :
    ∀ (n : Nat) (r : Int) (st0 st : WalkState) (m : Nat), m ≤ st0.1.value_index →
      repeat_units bo ds i rp data indent n r st0 = .ok st →
      m ≤ st.1.value_index ∧ ∀ j, j < m → st.1.value j = st0.1.value j := by
  intro n
  induction n with
  | zero =>
    intro r st0 st m hm h
    rw [repeat_units_zero, Except.ok.injEq] at h
    subst h
    exact ⟨hm, fun _ _ => rfl⟩
  | succ n ih =>
    intro r st0 st m hm h
    obtain ⟨inst, pos, left⟩ := st0
    rw [repeat_units_succ] at h
    split_ifs at h with hl
    · split at h
      · cases h
      · rename_i st1 hp
        have h1 := repeat_unit_keeps bo ds i (r + 1) data indent rp 1 (inst, pos, left) st1 m
          hm hp
        have h2 := ih (r + 1) st1 st m h1.1 h
        exact ⟨h2.1, fun j hj => (h2.2 j hj).trans (h1.2 j hj)⟩
    · simp only [Except.ok.injEq] at h
      subst h
      exact ⟨hm, fun _ _ => rfl⟩

theorem walk_parameters_keeps (bo : ByteOrder) (ds : List HCI_PARAMETER_REPR) (pc : Nat)
    (data : List Nat) (indent : Nat) :
    ∀ (fuel i : Nat) (st0 st : WalkState) (m : Nat), m ≤ st0.1.value_index →
      walk_parameters bo ds pc data indent fuel i st0 = .ok st →
      m ≤ st.1.value_index ∧ ∀ j, j < m → st.1.value j = st0.1.value j := by
  intro fuel
  induction fuel with
  | zero =>
    intro i st0 st m hm h
    have e : walk_parameters bo ds pc data indent 0 i st0 = .ok st0 := rfl
    rw [e, Except.ok.injEq] at h
    subst h
    exact ⟨hm, fun _ _ => rfl⟩
  | succ fuel ih =>
    intro i st0 st m hm h
    obtain ⟨inst, pos, left⟩ := st0
    rw [walk_parameters_succ] at h
    split_ifs at h with hl
    · split at h
      · cases h
      · rename_i d hd
        split at h
        · cases h
        · rename_i inst1 pos1 left1 hp
          have h1 := parse_parameter_keeps bo inst d 0 data pos left indent (inst1, pos1, left1)
            m hm hp
          split_ifs at h with hrep
          · have h2 := ih (i + 1) (inst1, pos1, left1) st m h1.1 h
            exact ⟨h2.1, fun j hj => (h2.2 j hj).trans (h1.2 j hj)⟩
          · split at h
            · cases h
            · rename_i cv hcv
              split at h
              · cases h
              · rename_i st2 hru
                have h2 := repeat_units_keeps bo ds i d.repeat_param_num.toNat data indent _ 0
                  (inst1, pos1, left1) st2 m h1.1 hru
                have h3 := ih _ st2 st m h2.1 h
                exact ⟨h3.1, fun j hj => ((h3.2 j hj).trans (h2.2 j hj)).trans (h1.2 j hj)⟩
    · simp only [Except.ok.injEq] at h
      subst h
      exact ⟨hm, fun _ _ => rfl⟩

theorem parse_hci_instance_keeps (bo : ByteOrder) (inst : HCI_INSTANCE)
    (ds : List HCI_PARAMETER_REPR) (pc : Nat) (data : List Nat) (pos left : Int) (indent : Nat)
    (st : WalkState) (h : parse_hci_instance bo inst ds pc data pos left indent = .ok st) :
    inst.value_index ≤ st.1.value_index ∧
      ∀ j, j < inst.value_index → st.1.value j = inst.value j :=
  walk_parameters_keeps bo ds pc data indent pc 0 (inst, pos, left) st inst.value_index
    (le_refl _) h

theorem fields_head (inst : HCI_INSTANCE) (h : 1 ≤ inst.value_index) :
    (fields inst).head? = some (inst.value 0) := by
  obtain ⟨k, hk⟩ : ∃ k, inst.value_index = k + 1 := ⟨inst.value_index - 1, by omega⟩
  simp only [fields, hk, List.range_succ_eq_map, List.map_cons, List.head?_cons]

theorem push_value_ok (inst : HCI_INSTANCE) (name : Option (Option String))
    (indent : Option Nat) (text : String) (hvi : inst.value_index < MAX_HCI_PARAM_NUM) :
    push_value inst name indent text =
      .ok (append_field inst
        { name := name.getD (inst.value inst.value_index).name,
          seq_num := (inst.value inst.value_index).seq_num,
          value := sprintf_into (inst.value inst.value_index).value text,
          indent_level := indent.getD (inst.value inst.value_index).indent_level }) := by
  unfold push_value
  rw [value_update_ok _ _ _ hvi]
  simp only [append_field, with_value]
  congr 2
  funext j
  split_ifs with h
  · subst h
    rfl
  · rfl

/-! ### LE Meta Event -/

/-- C26: for an LE Meta Event (code 0x3E) whose first body octet `s` is a sub-event
code from 1 to 11, the sub-event is a named entry of `LE_META_EVENTS`; the decode
is the walk of the parameter list of that sub-event, started behind the octet `s`
with a budget of `L - 1`, on the instance that holds the one field
`Subevent_Code` with the text `"<sub-event name>(0x%02x)"` at indent level 1; and
whenever the walk returns, that field is still the first field of the list. The
event octets of an LE Connection Update Complete give the lines of the example. -/
theorem C26_le_meta_event (bo : ByteOrder) (L s : Nat) (rest : List Nat) (hL : 1 ≤ L)
    (hs1 : 1 ≤ s) (hs : s ≤ 11) :
    (table_slot LE_META_EVENTS s).name ≠ none ∧
    decode_hci_event bo 0x3E L (0x3E :: L :: s :: rest) 2 =
      parse_hci_instance bo
        (append_field (new_instance (some "LE Meta Event") 0x3E L 0)
          { name := some "Subevent_Code", seq_num := 0,
            value := fmt_s (table_slot LE_META_EVENTS s).name ++ "(0x" ++ fmt_x 2 s ++ ")",
            indent_level := INDENT_LEVEL_1 })
        (table_slot LE_META_EVENTS s).parameter (table_slot LE_META_EVENTS s).parameter_count
        (0x3E :: L :: s :: rest) 3 ((L : Int) - 1) INDENT_LEVEL_1 ∧
    (∀ st, decode_hci_event bo 0x3E L (0x3E :: L :: s :: rest) 2 = .ok st →
      (fields st.1).head? = some
        { name := some "Subevent_Code", seq_num := 0,
          value := fmt_s (table_slot LE_META_EVENTS s).name ++ "(0x" ++ fmt_x 2 s ++ ")",
          indent_level := INDENT_LEVEL_1 }) ∧
    0 ≤ (L : Int) - 1 ∧
    (∀ time_str, parse_hci_event .little
        [0x3E, 0x0A, 0x03, 0x00, 0x40, 0x00, 0x06, 0x00, 0x00, 0x00, 0xF4, 0x01] time_str =
      .ok [c_str time_str ++ " HCI Event: LE Meta Event(0x3e), Parameter Length: 10",
           "    Subevent_Code: LE Connection Update Complete(0x03)",
           "    Status: (0x00) Success",
           "    Connection_Handle: (0x0040) 64",
           "    Conn_Interval: (0x0006) 7.500000 msec.",
           "    Conn_Latency: 0x0000",
           "    Supervision_Timeout: (0x01f4) 5000.000000 msec."]) := by
  have hname : (table_slot LE_META_EVENTS s).name ≠ none := by
    interval_cases s <;> decide
  have hslot : table_slot HCI_EVENTS 0x3E = HCI_EVENTS_0x3e := by decide
  have hread : STREAM_TO_UINT8 (0x3E :: L :: s :: rest) 2 = .ok (s, 3) := by
    simp [STREAM_TO_UINT8, octet_at, Nat.mod_eq_of_lt (show s < 256 by omega)]
  have hgen : parse_hci_instance bo (new_instance (some "LE Meta Event") 0x3E L 0)
      HCI_EVENTS_0x3e.parameter 0 (0x3E :: L :: s :: rest) 2 L INDENT_LEVEL_1
      = .ok (new_instance (some "LE Meta Event") 0x3E L 0, 2, L) := rfl
  have hpush : push_value (new_instance (some "LE Meta Event") 0x3E L 0)
      (some (some "Subevent_Code")) (some INDENT_LEVEL_1)
      (fmt_s (table_slot LE_META_EVENTS s).name ++ "(0x" ++ fmt_x 2 s ++ ")") =
      .ok (append_field (new_instance (some "LE Meta Event") 0x3E L 0)
        { name := some "Subevent_Code", seq_num := 0,
          value := fmt_s (table_slot LE_META_EVENTS s).name ++ "(0x" ++ fmt_x 2 s ++ ")",
          indent_level := INDENT_LEVEL_1 }) := by
    rw [push_value_ok _ _ _ _ (show 0 < MAX_HCI_PARAM_NUM by decide)]
    simp only [new_instance, Option.getD_some, sprintf_into_empty]
  have hdec : decode_hci_event bo 0x3E L (0x3E :: L :: s :: rest) 2 =
      parse_hci_instance bo
        (append_field (new_instance (some "LE Meta Event") 0x3E L 0)
          { name := some "Subevent_Code", seq_num := 0,
            value := fmt_s (table_slot LE_META_EVENTS s).name ++ "(0x" ++ fmt_x 2 s ++ ")",
            indent_level := INDENT_LEVEL_1 })
        (table_slot LE_META_EVENTS s).parameter (table_slot LE_META_EVENTS s).parameter_count
        (0x3E :: L :: s :: rest) 3 ((L : Int) - 1) INDENT_LEVEL_1 := by
    unfold decode_hci_event
    simp only [hslot]
    rw [show HCI_EVENTS_0x3e.name = some "LE Meta Event" from rfl,
      show HCI_EVENTS_0x3e.parameter_count = 0 from rfl, hgen]
    have e1 : ¬ ((0x3E : Nat) = 0x0E) := by decide
    have e2 : ¬ ((0x3E : Nat) = 0x0F) := by decide
    have e3 : ¬ ((0x3E : Nat) = 0x19) := by decide
    have e4 : ¬ (s > HCI_LE_META_EVENT_SUBEVENT_NUMBER) := by
      have : HCI_LE_META_EVENT_SUBEVENT_NUMBER = 11 := rfl
      omega
    simp only [e1, e2, e3, if_false, if_true, le_meta_event, hread, e4, hpush]
  refine ⟨hname, hdec, ?_, by omega, ?_⟩
  · intro st hst
    rw [hdec] at hst
    have hp := parse_hci_instance_keeps bo _ _ _ _ _ _ _ st hst
    have h1 : 1 ≤ st.1.value_index := hp.1
    rw [fields_head st.1 h1, hp.2 0 (Nat.succ_pos _)]
    rfl
  · intro time_str
    have e : parse_hci_event .little
        [0x3E, 0x0A, 0x03, 0x00, 0x40, 0x00, 0x06, 0x00, 0x00, 0x00, 0xF4, 0x01] time_str
        = .ok [event_header time_str (new_instance (some "LE Meta Event") 0x3E 10 0),
           "    Subevent_Code: LE Connection Update Complete(0x03)",
           "    Status: (0x00) Success",
           "    Connection_Handle: (0x0040) 64",
           "    Conn_Interval: (0x0006) 7.500000 msec.",
           "    Conn_Latency: 0x0000",
           "    Supervision_Timeout: (0x01f4) 5000.000000 msec."] := by
      rfl
    rw [e, event_header_eq]
    rfl

theorem C26_le_meta_event_witness :
    (table_slot LE_META_EVENTS 3).name ≠ none ∧
    decode_hci_event .little 0x3E 10
        (0x3E :: 10 :: 3 :: [0x00, 0x40, 0x00, 0x06, 0x00, 0x00, 0x00, 0xF4, 0x01]) 2 =
      parse_hci_instance .little
        (append_field (new_instance (some "LE Meta Event") 0x3E 10 0)
          { name := some "Subevent_Code", seq_num := 0,
            value := fmt_s (table_slot LE_META_EVENTS 3).name ++ "(0x" ++ fmt_x 2 3 ++ ")",
            indent_level := INDENT_LEVEL_1 })
        (table_slot LE_META_EVENTS 3).parameter (table_slot LE_META_EVENTS 3).parameter_count
        (0x3E :: 10 :: 3 :: [0x00, 0x40, 0x00, 0x06, 0x00, 0x00, 0x00, 0xF4, 0x01]) 3
        (((10 : Nat) : Int) - 1) INDENT_LEVEL_1 ∧
    (∀ st, decode_hci_event .little 0x3E 10
        (0x3E :: 10 :: 3 :: [0x00, 0x40, 0x00, 0x06, 0x00, 0x00, 0x00, 0xF4, 0x01]) 2 = .ok st →
      (fields st.1).head? = some
        { name := some "Subevent_Code", seq_num := 0,
          value := fmt_s (table_slot LE_META_EVENTS 3).name ++ "(0x" ++ fmt_x 2 3 ++ ")",
          indent_level := INDENT_LEVEL_1 }) ∧
    0 ≤ ((10 : Nat) : Int) - 1 ∧
    (∀ time_str, parse_hci_event .little
        [0x3E, 0x0A, 0x03, 0x00, 0x40, 0x00, 0x06, 0x00, 0x00, 0x00, 0xF4, 0x01] time_str =
      .ok [c_str time_str ++ " HCI Event: LE Meta Event(0x3e), Parameter Length: 10",
           "    Subevent_Code: LE Connection Update Complete(0x03)",
           "    Status: (0x00) Success",
           "    Connection_Handle: (0x0040) 64",
           "    Conn_Interval: (0x0006) 7.500000 msec.",
           "    Conn_Latency: 0x0000",
           "    Supervision_Timeout: (0x01f4) 5000.000000 msec."]) :=
  C26_le_meta_event .little 10 3 [0x00, 0x40, 0x00, 0x06, 0x00, 0x00, 0x00, 0xF4, 0x01]
    (by decide) (by decide) (by decide)
/-! ### HCI_Set_Event_Filter -/

theorem fresh_new_instance (name : Option String) (opcode length parameter_count : Nat) :
    Fresh (new_instance name opcode length parameter_count) :=
  fun _ _ => rfl

theorem fresh_append_field (inst : HCI_INSTANCE) (f : HCI_PARAM_VALUE) (h : Fresh inst) :
    Fresh (append_field inst f) := by
  intro j hj
  have hj1 : inst.value_index + 1 ≤ j := hj
  have hne : j ≠ inst.value_index := by omega
  simp only [append_field, hne, if_false]
  exact h j (by omega)

theorem push_value_fresh (inst : HCI_INSTANCE) (name : Option String) (indent : Nat)
    (text : String) (hvi : inst.value_index < MAX_HCI_PARAM_NUM) (hf : Fresh inst) :
    push_value inst (some name) (some indent) text =
      .ok (append_field inst
        { name := name, seq_num := 0, value := text, indent_level := indent }) := by
  rw [push_value_ok inst _ _ _ hvi, hf _ (le_refl _)]
  simp only [Option.getD_some, sprintf_into_empty]

theorem push_value_unnamed (inst : HCI_INSTANCE) (text : String)
    (hvi : inst.value_index < MAX_HCI_PARAM_NUM) (hf : Fresh inst) :
    push_value inst none none text =
      .ok (append_field inst { name := none, seq_num := 0, value := text, indent_level := 0 }) := by
  rw [push_value_ok inst _ _ _ hvi, hf _ (le_refl _)]
  simp only [Option.getD_none, sprintf_into_empty]

/-- A `sprintf` to the buffer of the field appended last. -/
theorem set_value_last (inst : HCI_INSTANCE) (f : HCI_PARAM_VALUE) (text : String)
    (hvi : inst.value_index < MAX_HCI_PARAM_NUM) (hne : text.data ≠ []) :
    set_value (append_field inst f) (((append_field inst f).value_index : Int) - 1) text =
      .ok (append_field inst { f with value := text }) := by
  have hidx : (((append_field inst f).value_index : Int) - 1) = (inst.value_index : Int) := by
    simp only [append_field, Nat.cast_add, Nat.cast_one, add_sub_cancel_right]
  rw [hidx]
  unfold set_value
  rw [value_update_ok _ _ _ hvi]
  simp only [append_field, with_value, sprintf_into_of_ne _ _ hne]
  congr 2
  funext j
  split_ifs with h
  · rfl
  · rfl

theorem value_at_last (inst : HCI_INSTANCE) (f : HCI_PARAM_VALUE)
    (hvi : inst.value_index < MAX_HCI_PARAM_NUM) :
    value_at (append_field inst f) (((append_field inst f).value_index : Int) - 1) = .ok f := by
  have hidx : (((append_field inst f).value_index : Int) - 1) = (inst.value_index : Int) := by
    simp only [append_field, Nat.cast_add, Nat.cast_one, add_sub_cancel_right]
  rw [hidx, value_at_ok _ _ hvi]
  simp only [append_field, if_true]

theorem condition_type_field_ok (name : String) (data : List Nat) (inst : HCI_INSTANCE)
    (pos left : Int) (ct : Nat) (hvi : inst.value_index < MAX_HCI_PARAM_NUM) (hf : Fresh inst)
    (hread : STREAM_TO_UINT8 data pos = .ok (ct, pos + 1)) :
    condition_type_field name data (inst, pos, left) =
      .ok (ct, append_field inst
        { name := some name, seq_num := 0, value := "", indent_level := INDENT_LEVEL_1 },
        pos + 1, left - 1) := by
  unfold condition_type_field
  simp only [hread]
  rw [value_update_ok _ _ _ hvi]
  simp only [append_field, with_value]
  congr 4
  funext j
  split_ifs with h
  · rw [h, hf _ (le_refl _)]
  · rfl

theorem class_of_device_fields_ok (bo : ByteOrder) (data : List Nat) (inst : HCI_INSTANCE)
    (pos left : Int) (c m : Nat) (hvi : inst.value_index + 1 < MAX_HCI_PARAM_NUM)
    (hf : Fresh inst) (hc : STREAM_TO_UINT bo 3 data pos = .ok (c, pos + 3))
    (hm : STREAM_TO_UINT bo 3 data (pos + 3) = .ok (m, pos + 3 + 3)) :
    class_of_device_fields bo data (inst, pos, left) =
      .ok (append_field (append_field inst
          { name := some "Class_of_Device", seq_num := 0, value := "0x" ++ fmt_x 8 c,
            indent_level := INDENT_LEVEL_1 })
          { name := some "Class_of_Device_Mask", seq_num := 0, value := "0x" ++ fmt_x 8 m,
            indent_level := INDENT_LEVEL_1 }, pos + 3 + 3, left - 3 - 3) := by
  unfold class_of_device_fields
  simp only [hc]
  rw [push_value_fresh inst _ _ _ (by omega) hf]
  simp only [hm]
  rw [push_value_fresh _ _ _ _ (show (append_field inst _).value_index < MAX_HCI_PARAM_NUM from hvi)
    (fresh_append_field _ _ hf)]

theorem bd_addr_field_ok (data : List Nat) (inst : HCI_INSTANCE) (pos left : Int)
    (addr : List Nat) (hvi : inst.value_index < MAX_HCI_PARAM_NUM) (hf : Fresh inst)
    (hread : read_octets data pos 6 = .ok (addr, pos + 6)) :
    bd_addr_field data (inst, pos, left) =
      .ok (append_field inst
        { name := some "BD_ADDR", seq_num := 0, value := bd_addr_text addr,
          indent_level := INDENT_LEVEL_1 }, pos + 6, left - 6) := by
  unfold bd_addr_field
  rw [value_update_ok _ _ _ hvi]
  simp only [hread]
  rw [value_update_ok _ _ _ (show (with_value inst inst.value_index _).value_index
    < MAX_HCI_PARAM_NUM from hvi)]
  simp only [append_field, with_value]
  congr 3
  funext j
  split_ifs with h
  · rw [h, hf _ (le_refl _)]
    simp only [sprintf_into_empty]
  · rfl

theorem auto_accept_flag_field_ok (named : Bool) (data : List Nat) (inst : HCI_INSTANCE)
    (pos left : Int) (f : Nat) (hvi : inst.value_index < MAX_HCI_PARAM_NUM) (hf : Fresh inst)
    (hread : STREAM_TO_UINT8 data pos = .ok (f, pos + 1)) :
    auto_accept_flag_field named data (inst, pos, left) =
      .ok (append_field inst
        { name := if named then some "Auto_Accept_Flag" else none, seq_num := 0,
          value := auto_accept_flag_text f,
          indent_level := if named then INDENT_LEVEL_1 else 0 }, pos + 1, left - 1) := by
  unfold auto_accept_flag_field
  simp only [hread]
  cases named
  · rw [show (if false = true then some (some "Auto_Accept_Flag") else none)
        = (none : Option (Option String)) from rfl,
      show (if false = true then some INDENT_LEVEL_1 else none) = (none : Option Nat) from rfl,
      push_value_unnamed inst _ hvi hf]
    rfl
  · rw [show (if true = true then some (some "Auto_Accept_Flag") else none)
        = (some (some "Auto_Accept_Flag") : Option (Option String)) from rfl,
      show (if true = true then some INDENT_LEVEL_1 else none) = (some INDENT_LEVEL_1 : Option Nat)
        from rfl,
      push_value_fresh inst _ _ _ hvi hf]
    rfl

theorem filter_type_read (F0 : HCI_PARAM_VALUE) (ft : Nat) (hft : ft < 256)
    (hF0 : F0.value = "0x" ++ fmt_x 2 ft) : to_uint8 (strtol F0.value) = ft := by
  rw [hF0, strtol_hex_text 2 ft (by unfold LONG_MAX; omega)]
  unfold to_uint8
  omega

/-- Filter type 0x00. -/
theorem set_event_filter_clear (bo : ByteOrder) (data : List Nat) (inst : HCI_INSTANCE)
    (F0 : HCI_PARAM_VALUE) (pos left : Int) (hvi : inst.value_index + 1 ≤ MAX_HCI_PARAM_NUM)
    (hF0 : F0.value = "0x" ++ fmt_x 2 0x00) :
    set_event_filter bo data (append_field inst F0, pos, left) =
      .ok (append_field inst { F0 with value := "(0x00) Clear All Filters." }, pos, left) := by
  have hft := filter_type_read F0 0 (by decide) hF0
  have t1 : hex8_text 0 "Clear All Filters." = "(0x00) Clear All Filters." := by decide
  unfold set_event_filter
  simp only []
  rw [value_at_last _ _ (by omega)]
  simp only [hft, if_true, t1]
  rw [set_value_last _ _ _ (by omega) (by decide)]

/-- Filter type 0x01 with condition type 0x00. -/
theorem set_event_filter_inquiry_all (bo : ByteOrder) (data : List Nat) (inst : HCI_INSTANCE)
    (F0 : HCI_PARAM_VALUE) (pos left : Int)
    (hvi : inst.value_index + 2 ≤ MAX_HCI_PARAM_NUM) (hfr : Fresh inst)
    (hF0 : F0.value = "0x" ++ fmt_x 2 0x01)
    (hct : STREAM_TO_UINT8 data pos = .ok (0x00, pos + 1)) :
    set_event_filter bo data (append_field inst F0, pos, left) =
      .ok (append_field (append_field inst
          { F0 with value := "(0x01) Inquiry Result" })
          { name := some "Inquiry_Result_Filter_Condition_Type", seq_num := 0,
            value := "(0x00) Return responses from all devices during the Inquiry process",
            indent_level := INDENT_LEVEL_1 },
        pos + 1, left - 1) := by
  have hft := filter_type_read F0 1 (by decide) hF0
  have e0 : ¬ ((1 : Nat) = 0) := by decide
  have t1 : hex8_text 1 "Inquiry Result" = "(0x01) Inquiry Result" := by decide
  have t2 : hex8_text 0 "Return responses from all devices during the Inquiry process"
      = "(0x00) Return responses from all devices during the Inquiry process" := by decide
  have fr1 := fresh_append_field inst { F0 with value := "(0x01) Inquiry Result" } hfr
  have hct1 := condition_type_field_ok "Inquiry_Result_Filter_Condition_Type" data
    (append_field inst { F0 with value := "(0x01) Inquiry Result" }) pos left 0
    (show inst.value_index + 1 < MAX_HCI_PARAM_NUM by omega) fr1 hct
  unfold set_event_filter
  simp only []
  rw [value_at_last _ _ (by omega)]
  simp only [hft, e0, if_false, if_true, t1]
  rw [set_value_last _ _ _ (by omega) (by decide)]
  simp only [hct1, t2, if_false, if_true]
  rw [set_value_last _ _ _ (show inst.value_index + 1 < MAX_HCI_PARAM_NUM by omega)
    (by decide)]

/-- Filter type 0x01 with condition type 0x01. -/
theorem set_event_filter_inquiry_class (bo : ByteOrder) (data : List Nat) (inst : HCI_INSTANCE)
    (F0 : HCI_PARAM_VALUE) (pos left : Int) (c m : Nat)
    (hvi : inst.value_index + 4 ≤ MAX_HCI_PARAM_NUM) (hfr : Fresh inst)
    (hF0 : F0.value = "0x" ++ fmt_x 2 0x01)
    (hct : STREAM_TO_UINT8 data pos = .ok (0x01, pos + 1))
    (hc : STREAM_TO_UINT bo 3 data (pos + 1) = .ok (c, pos + 1 + 3))
    (hm : STREAM_TO_UINT bo 3 data (pos + 1 + 3) = .ok (m, pos + 1 + 3 + 3)) :
    set_event_filter bo data (append_field inst F0, pos, left) =
      .ok (append_field (append_field (append_field (append_field inst
          { F0 with value := "(0x01) Inquiry Result" })
          { name := some "Inquiry_Result_Filter_Condition_Type", seq_num := 0,
            value := "(0x01) A device with a specific Class of Device responded to the Inquiry process",
            indent_level := INDENT_LEVEL_1 })
          { name := some "Class_of_Device", seq_num := 0, value := "0x" ++ fmt_x 8 c,
            indent_level := INDENT_LEVEL_1 })
          { name := some "Class_of_Device_Mask", seq_num := 0, value := "0x" ++ fmt_x 8 m,
            indent_level := INDENT_LEVEL_1 },
        pos + 1 + 3 + 3, left - 1 - 3 - 3) := by
  have hft := filter_type_read F0 1 (by decide) hF0
  have e0 : ¬ ((1 : Nat) = 0) := by decide
  have c0 : ¬ ((1 : Nat) = 0) := by decide
  have t1 : hex8_text 1 "Inquiry Result" = "(0x01) Inquiry Result" := by decide
  have t2 : hex8_text 1 "A device with a specific Class of Device responded to the Inquiry process"
      = "(0x01) A device with a specific Class of Device responded to the Inquiry process" := by
    decide
  have fr1 := fresh_append_field inst { F0 with value := "(0x01) Inquiry Result" } hfr
  have hct1 := condition_type_field_ok "Inquiry_Result_Filter_Condition_Type" data
    (append_field inst { F0 with value := "(0x01) Inquiry Result" }) pos left 1
    (show inst.value_index + 1 < MAX_HCI_PARAM_NUM by omega) fr1 hct
  unfold set_event_filter
  simp only []
  rw [value_at_last _ _ (by omega)]
  simp only [hft, e0, if_false, if_true, t1]
  rw [set_value_last _ _ _ (by omega) (by decide)]
  simp only [hct1, c0, t2, if_false, if_true]
  rw [set_value_last _ _ _ (show inst.value_index + 1 < MAX_HCI_PARAM_NUM by omega)
    (by decide)]
  simp only []
  have fr2 := fresh_append_field _
    ({ name := some "Inquiry_Result_Filter_Condition_Type", seq_num := 0,
       value := "(0x01) A device with a specific Class of Device responded to the Inquiry process",
       indent_level := INDENT_LEVEL_1 } : HCI_PARAM_VALUE) fr1
  rw [class_of_device_fields_ok bo data _ (pos + 1) (left - 1) c m
    (show inst.value_index + 1 + 1 + 1 < MAX_HCI_PARAM_NUM by omega) fr2 hc hm]

/-- Filter type 0x01 with condition type 0x02. -/
theorem set_event_filter_inquiry_addr (bo : ByteOrder) (data : List Nat) (inst : HCI_INSTANCE)
    (F0 : HCI_PARAM_VALUE) (pos left : Int) (addr : List Nat)
    (hvi : inst.value_index + 3 ≤ MAX_HCI_PARAM_NUM) (hfr : Fresh inst)
    (hF0 : F0.value = "0x" ++ fmt_x 2 0x01)
    (hct : STREAM_TO_UINT8 data pos = .ok (0x02, pos + 1))
    (ha : read_octets data (pos + 1) 6 = .ok (addr, pos + 1 + 6)) :
    set_event_filter bo data (append_field inst F0, pos, left) =
      .ok (append_field (append_field (append_field inst
          { F0 with value := "(0x01) Inquiry Result" })
          { name := some "Inquiry_Result_Filter_Condition_Type", seq_num := 0,
            value := "(0x02) A device with a specific BD_ADDR responded to the Inquiry process",
            indent_level := INDENT_LEVEL_1 })
          { name := some "BD_ADDR", seq_num := 0, value := bd_addr_text addr,
            indent_level := INDENT_LEVEL_1 },
        pos + 1 + 6, left - 1 - 6) := by
  have hft := filter_type_read F0 1 (by decide) hF0
  have e0 : ¬ ((1 : Nat) = 0) := by decide
  have c0 : ¬ ((2 : Nat) = 0) := by decide
  have c1 : ¬ ((2 : Nat) = 1) := by decide
  have t1 : hex8_text 1 "Inquiry Result" = "(0x01) Inquiry Result" := by decide
  have t2 : hex8_text 2 "A device with a specific BD_ADDR responded to the Inquiry process"
      = "(0x02) A device with a specific BD_ADDR responded to the Inquiry process" := by decide
  have fr1 := fresh_append_field inst { F0 with value := "(0x01) Inquiry Result" } hfr
  have hct1 := condition_type_field_ok "Inquiry_Result_Filter_Condition_Type" data
    (append_field inst { F0 with value := "(0x01) Inquiry Result" }) pos left 2
    (show inst.value_index + 1 < MAX_HCI_PARAM_NUM by omega) fr1 hct
  unfold set_event_filter
  simp only []
  rw [value_at_last _ _ (by omega)]
  simp only [hft, e0, if_false, if_true, t1]
  rw [set_value_last _ _ _ (by omega) (by decide)]
  simp only [hct1, c0, c1, t2, if_false, if_true]
  rw [set_value_last _ _ _ (show inst.value_index + 1 < MAX_HCI_PARAM_NUM by omega)
    (by decide)]
  simp only []
  have fr2 := fresh_append_field _
    ({ name := some "Inquiry_Result_Filter_Condition_Type", seq_num := 0,
       value := "(0x02) A device with a specific BD_ADDR responded to the Inquiry process",
       indent_level := INDENT_LEVEL_1 } : HCI_PARAM_VALUE) fr1
  rw [bd_addr_field_ok data _ (pos + 1) (left - 1) addr
    (show inst.value_index + 1 + 1 < MAX_HCI_PARAM_NUM by omega) fr2 ha]

/-- Filter type 0x02 with condition type 0x00. -/
theorem set_event_filter_setup_all (bo : ByteOrder) (data : List Nat) (inst : HCI_INSTANCE)
    (F0 : HCI_PARAM_VALUE) (pos left : Int) (f : Nat)
    (hvi : inst.value_index + 3 ≤ MAX_HCI_PARAM_NUM) (hfr : Fresh inst)
    (hF0 : F0.value = "0x" ++ fmt_x 2 0x02)
    (hct : STREAM_TO_UINT8 data pos = .ok (0x00, pos + 1))
    (hf : STREAM_TO_UINT8 data (pos + 1) = .ok (f, pos + 1 + 1)) :
    set_event_filter bo data (append_field inst F0, pos, left) =
      .ok (append_field (append_field (append_field inst
          { F0 with value := "(0x02) Connection Setup." })
          { name := some "Connection_Setup_Filter_Condition_Type", seq_num := 0,
            value := "(0x00) Allow Connections from all devices",
            indent_level := INDENT_LEVEL_1 })
          { name := some "Auto_Accept_Flag", seq_num := 0, value := auto_accept_flag_text f,
            indent_level := INDENT_LEVEL_1 },
        pos + 1 + 1, left - 1 - 1) := by
  have hft := filter_type_read F0 2 (by decide) hF0
  have e0 : ¬ ((2 : Nat) = 0) := by decide
  have e1 : ¬ ((2 : Nat) = 1) := by decide
  have t1 : hex8_text 2 "Connection Setup." = "(0x02) Connection Setup." := by decide
  have t2 : hex8_text 0 "Allow Connections from all devices"
      = "(0x00) Allow Connections from all devices" := by decide
  have fr1 := fresh_append_field inst { F0 with value := "(0x02) Connection Setup." } hfr
  have hct1 := condition_type_field_ok "Connection_Setup_Filter_Condition_Type" data
    (append_field inst { F0 with value := "(0x02) Connection Setup." }) pos left 0
    (show inst.value_index + 1 < MAX_HCI_PARAM_NUM by omega) fr1 hct
  unfold set_event_filter
  simp only []
  rw [value_at_last _ _ (by omega)]
  simp only [hft, e0, e1, if_false, if_true, t1]
  rw [set_value_last _ _ _ (by omega) (by decide)]
  simp only [hct1, t2, if_false, if_true]
  rw [set_value_last _ _ _ (show inst.value_index + 1 < MAX_HCI_PARAM_NUM by omega)
    (by decide)]
  simp only []
  have fr2 := fresh_append_field _
    ({ name := some "Connection_Setup_Filter_Condition_Type", seq_num := 0,
       value := "(0x00) Allow Connections from all devices",
       indent_level := INDENT_LEVEL_1 } : HCI_PARAM_VALUE) fr1
  rw [auto_accept_flag_field_ok true data _ (pos + 1) (left - 1) f
    (show inst.value_index + 1 + 1 < MAX_HCI_PARAM_NUM by omega) fr2 hf]
  rfl

/-- Filter type 0x02 with condition type 0x01. -/
theorem set_event_filter_setup_class (bo : ByteOrder) (data : List Nat) (inst : HCI_INSTANCE)
    (F0 : HCI_PARAM_VALUE) (pos left : Int) (c m f : Nat)
    (hvi : inst.value_index + 5 ≤ MAX_HCI_PARAM_NUM) (hfr : Fresh inst)
    (hF0 : F0.value = "0x" ++ fmt_x 2 0x02)
    (hct : STREAM_TO_UINT8 data pos = .ok (0x01, pos + 1))
    (hc : STREAM_TO_UINT bo 3 data (pos + 1) = .ok (c, pos + 1 + 3))
    (hm : STREAM_TO_UINT bo 3 data (pos + 1 + 3) = .ok (m, pos + 1 + 3 + 3))
    (hf : STREAM_TO_UINT8 data (pos + 1 + 3 + 3) = .ok (f, pos + 1 + 3 + 3 + 1)) :
    set_event_filter bo data (append_field inst F0, pos, left) =
      .ok (append_field (append_field (append_field (append_field (append_field inst
          { F0 with value := "(0x02) Connection Setup." })
          { name := some "Connection_Setup_Filter_Condition_Type", seq_num := 0,
            value := "(0x01) Allow Connections from a device with a specific Class of Device",
            indent_level := INDENT_LEVEL_1 })
          { name := some "Class_of_Device", seq_num := 0, value := "0x" ++ fmt_x 8 c,
            indent_level := INDENT_LEVEL_1 })
          { name := some "Class_of_Device_Mask", seq_num := 0, value := "0x" ++ fmt_x 8 m,
            indent_level := INDENT_LEVEL_1 })
          { name := some "Auto_Accept_Flag", seq_num := 0, value := auto_accept_flag_text f,
            indent_level := INDENT_LEVEL_1 },
        pos + 1 + 3 + 3 + 1, left - 1 - 3 - 3 - 1) := by
  have hft := filter_type_read F0 2 (by decide) hF0
  have e0 : ¬ ((2 : Nat) = 0) := by decide
  have e1 : ¬ ((2 : Nat) = 1) := by decide
  have c0 : ¬ ((1 : Nat) = 0) := by decide
  have t1 : hex8_text 2 "Connection Setup." = "(0x02) Connection Setup." := by decide
  have t2 : hex8_text 1 "Allow Connections from a device with a specific Class of Device"
      = "(0x01) Allow Connections from a device with a specific Class of Device" := by decide
  have fr1 := fresh_append_field inst { F0 with value := "(0x02) Connection Setup." } hfr
  have hct1 := condition_type_field_ok "Connection_Setup_Filter_Condition_Type" data
    (append_field inst { F0 with value := "(0x02) Connection Setup." }) pos left 1
    (show inst.value_index + 1 < MAX_HCI_PARAM_NUM by omega) fr1 hct
  unfold set_event_filter
  simp only []
  rw [value_at_last _ _ (by omega)]
  simp only [hft, e0, e1, if_false, if_true, t1]
  rw [set_value_last _ _ _ (by omega) (by decide)]
  simp only [hct1, c0, t2, if_false, if_true]
  rw [set_value_last _ _ _ (show inst.value_index + 1 < MAX_HCI_PARAM_NUM by omega)
    (by decide)]
  simp only []
  have fr2 := fresh_append_field _
    ({ name := some "Connection_Setup_Filter_Condition_Type", seq_num := 0,
       value := "(0x01) Allow Connections from a device with a specific Class of Device",
       indent_level := INDENT_LEVEL_1 } : HCI_PARAM_VALUE) fr1
  rw [class_of_device_fields_ok bo data _ (pos + 1) (left - 1) c m
    (show inst.value_index + 1 + 1 + 1 < MAX_HCI_PARAM_NUM by omega) fr2 hc hm]
  simp only []
  rw [auto_accept_flag_field_ok true data _ (pos + 1 + 3 + 3) (left - 1 - 3 - 3) f
    (show inst.value_index + 1 + 1 + 1 + 1 < MAX_HCI_PARAM_NUM by omega)
    (fresh_append_field _ _ (fresh_append_field _ _ fr2)) hf]
  rfl

/-- Filter type 0x02 with condition type 0x02. -/
theorem set_event_filter_setup_addr (bo : ByteOrder) (data : List Nat) (inst : HCI_INSTANCE)
    (F0 : HCI_PARAM_VALUE) (pos left : Int) (f : Nat) (addr : List Nat)
    (hvi : inst.value_index + 4 ≤ MAX_HCI_PARAM_NUM) (hfr : Fresh inst)
    (hF0 : F0.value = "0x" ++ fmt_x 2 0x02)
    (hct : STREAM_TO_UINT8 data pos = .ok (0x02, pos + 1))
    (ha : read_octets data (pos + 1) 6 = .ok (addr, pos + 1 + 6))
    (hf : STREAM_TO_UINT8 data (pos + 1 + 6) = .ok (f, pos + 1 + 6 + 1)) :
    set_event_filter bo data (append_field inst F0, pos, left) =
      .ok (append_field (append_field (append_field (append_field inst
          { F0 with value := "(0x02) Connection Setup." })
          { name := some "Connection_Setup_Filter_Condition_Type", seq_num := 0,
            value := "(0x02) Allow Connections from a device with a specific BD_ADDR",
            indent_level := INDENT_LEVEL_1 })
          { name := some "BD_ADDR", seq_num := 0, value := bd_addr_text addr,
            indent_level := INDENT_LEVEL_1 })
          { name := none, seq_num := 0, value := auto_accept_flag_text f, indent_level := 0 },
        pos + 1 + 6 + 1, left - 1 - 6 - 1) := by
  have hft := filter_type_read F0 2 (by decide) hF0
  have e0 : ¬ ((2 : Nat) = 0) := by decide
  have e1 : ¬ ((2 : Nat) = 1) := by decide
  have c0 : ¬ ((2 : Nat) = 0) := by decide
  have c1 : ¬ ((2 : Nat) = 1) := by decide
  have t1 : hex8_text 2 "Connection Setup." = "(0x02) Connection Setup." := by decide
  have t2 : hex8_text 2 "Allow Connections from a device with a specific BD_ADDR"
      = "(0x02) Allow Connections from a device with a specific BD_ADDR" := by decide
  have fr1 := fresh_append_field inst { F0 with value := "(0x02) Connection Setup." } hfr
  have hct1 := condition_type_field_ok "Connection_Setup_Filter_Condition_Type" data
    (append_field inst { F0 with value := "(0x02) Connection Setup." }) pos left 2
    (show inst.value_index + 1 < MAX_HCI_PARAM_NUM by omega) fr1 hct
  unfold set_event_filter
  simp only []
  rw [value_at_last _ _ (by omega)]
  simp only [hft, e0, e1, if_false, if_true, t1]
  rw [set_value_last _ _ _ (by omega) (by decide)]
  simp only [hct1, c0, c1, t2, if_false, if_true]
  rw [set_value_last _ _ _ (show inst.value_index + 1 < MAX_HCI_PARAM_NUM by omega)
    (by decide)]
  simp only []
  have fr2 := fresh_append_field _
    ({ name := some "Connection_Setup_Filter_Condition_Type", seq_num := 0,
       value := "(0x02) Allow Connections from a device with a specific BD_ADDR",
       indent_level := INDENT_LEVEL_1 } : HCI_PARAM_VALUE) fr1
  rw [bd_addr_field_ok data _ (pos + 1) (left - 1) addr
    (show inst.value_index + 1 + 1 < MAX_HCI_PARAM_NUM by omega) fr2 ha]
  simp only []
  rw [auto_accept_flag_field_ok false data _ (pos + 1 + 6) (left - 1 - 6) f
    (show inst.value_index + 1 + 1 + 1 < MAX_HCI_PARAM_NUM by omega)
    (fresh_append_field _ _ fr2) hf]
  rfl
theorem fields_new_instance (name : Option String) (opcode length parameter_count : Nat) :
    fields (new_instance name opcode length parameter_count) = [] := rfl

/-- The generic walk of `HCI_Set_Event_Filter` with at least one parameter octet,
followed by the post-processor. -/
theorem decode_set_event_filter (bo : ByteOrder) (L h0 h1 h2 ft : Nat) (rest : List Nat)
    (hft : ft < 256) :
    decode_hci_command bo HCI_CONTROLLER_BASEBAND_COMMANDS_0x0005 0x0C05 (L + 1)
        (h0 :: h1 :: h2 :: ft :: rest) 3 =
      set_event_filter bo (h0 :: h1 :: h2 :: ft :: rest)
        (append_field (new_instance (some "HCI_Set_Event_Filter") 0x0C05 (L + 1) 1)
          { name := some "Filter_Type", seq_num := 0, value := "0x" ++ fmt_x 2 ft,
            indent_level := INDENT_LEVEL_1 }, 3 + 1, ((L + 1 : Nat) : Int) - 1) := by
  have hd0 : descriptor_at HCI_CONTROLLER_BASEBAND_COMMANDS_0x0005.parameter 0 = .ok
      { name := some "Filter_Type", length := 1, display_type := .INT_HEX } := by
    decide
  have hoct : octets_at (h0 :: h1 :: h2 :: ft :: rest) 3 1 = some [ft] := by
    simp only [octets_at, octet_at]
    simp [Nat.mod_eq_of_lt hft]
  have hp := parse_parameter_int_hex_one bo
    (new_instance (some "HCI_Set_Event_Filter") 0x0C05 (L + 1) 1)
    { name := some "Filter_Type", length := 1, display_type := .INT_HEX } 0
    (h0 :: h1 :: h2 :: ft :: rest) 3 ((L + 1 : Nat) : Int) INDENT_LEVEL_1 ft
    (show 0 < MAX_HCI_PARAM_NUM by decide) rfl rfl (by push_cast; omega) hoct
  have hwalk : parse_hci_instance bo (new_instance (some "HCI_Set_Event_Filter") 0x0C05 (L + 1) 1)
      HCI_CONTROLLER_BASEBAND_COMMANDS_0x0005.parameter 1 (h0 :: h1 :: h2 :: ft :: rest) 3
      ((L + 1 : Nat) : Int) INDENT_LEVEL_1 =
      .ok (append_field (new_instance (some "HCI_Set_Event_Filter") 0x0C05 (L + 1) 1)
        { name := some "Filter_Type", seq_num := 0, value := "0x" ++ fmt_x 2 ft,
          indent_level := INDENT_LEVEL_1 }, 3 + 1, ((L + 1 : Nat) : Int) - 1) := by
    unfold parse_hci_instance
    rw [walk_parameters_step bo _ 1 _ _ 0 0 _ 3 _ _ _ (by decide) (by push_cast; omega) hd0
      (by decide) hp]
    rw [walk_parameters_done _ _ _ _ _ _ _ _
      (by simp only [lt_irrefl, false_and, not_false_eq_true])]
  unfold decode_hci_command
  rw [show HCI_CONTROLLER_BASEBAND_COMMANDS_0x0005.name = some "HCI_Set_Event_Filter" from rfl,
    show HCI_CONTROLLER_BASEBAND_COMMANDS_0x0005.parameter_count = 1 from rfl,
    show HCI_CONTROLLER_BASEBAND_COMMANDS_0x0005.opcode = 0x0C05 from rfl]
  simp only [Nat.lt_one_iff, gt_iff_lt, zero_lt_one, if_true, hwalk]

/-- C27, the behaviour of the post-processor of `HCI_Set_Event_Filter` (opcode
0x0C05) for a command with at least one parameter octet. Filter type 0x00 yields
the single field `"(0x00) Clear All Filters."`. Filter type 0x01 adds the field
`Inquiry_Result_Filter_Condition_Type` and, for condition 0x01, `Class_of_Device`
and `Class_of_Device_Mask`, for condition 0x02, `BD_ADDR`. Filter type 0x02 adds
`Connection_Setup_Filter_Condition_Type`, the same conditional fields, and a last
field for the auto accept flag: it is named `Auto_Accept_Flag` at indent level 1
for the conditions 0x00 and 0x01, but for condition 0x02 it has no name and
indent level 0. All other fields added have a name and indent level 1. -/
theorem C27_set_event_filter (bo : ByteOrder)
    (L h0 h1 h2 c0 c1 c2 m0 m1 m2 a0 a1 a2 a3 a4 a5 f : Nat) (rest : List Nat) :
    (decode_hci_command bo HCI_CONTROLLER_BASEBAND_COMMANDS_0x0005 0x0C05 (L + 1)
        (h0 :: h1 :: h2 :: 0x00 :: rest) 3).map (fun st => (fields st.1, st.2)) =
      .ok ([{ name := some "Filter_Type", seq_num := 0, value := "(0x00) Clear All Filters.",
              indent_level := INDENT_LEVEL_1 }], 4, (L : Int)) ∧
    (decode_hci_command bo HCI_CONTROLLER_BASEBAND_COMMANDS_0x0005 0x0C05 (L + 1)
        (h0 :: h1 :: h2 :: 0x01 :: 0x00 :: rest) 3).map
        (fun st => (fields st.1, st.2)) =
      .ok ([{ name := some "Filter_Type", seq_num := 0,
              value := "(0x01) Inquiry Result",
              indent_level := INDENT_LEVEL_1 },
            { name := some "Inquiry_Result_Filter_Condition_Type", seq_num := 0,
              value := "(0x00) Return responses from all devices during the Inquiry process",
              indent_level := INDENT_LEVEL_1 }], 5, (L : Int) - 1) ∧
    (decode_hci_command bo HCI_CONTROLLER_BASEBAND_COMMANDS_0x0005 0x0C05 (L + 1)
        (h0 :: h1 :: h2 :: 0x01 :: 0x01 :: c0 :: c1 :: c2 :: m0 :: m1 :: m2 :: rest) 3).map
        (fun st => (fields st.1, st.2)) =
      .ok ([{ name := some "Filter_Type", seq_num := 0,
              value := "(0x01) Inquiry Result",
              indent_level := INDENT_LEVEL_1 },
            { name := some "Inquiry_Result_Filter_Condition_Type", seq_num := 0,
              value := "(0x01) A device with a specific Class of Device responded to the Inquiry process",
              indent_level := INDENT_LEVEL_1 },
            { name := some "Class_of_Device", seq_num := 0,
              value := "0x" ++ fmt_x 8 (assemble bo [c0 % 256, c1 % 256, c2 % 256]),
              indent_level := INDENT_LEVEL_1 },
            { name := some "Class_of_Device_Mask", seq_num := 0,
              value := "0x" ++ fmt_x 8 (assemble bo [m0 % 256, m1 % 256, m2 % 256]),
              indent_level := INDENT_LEVEL_1 }], 11, (L : Int) - 7) ∧
    (decode_hci_command bo HCI_CONTROLLER_BASEBAND_COMMANDS_0x0005 0x0C05 (L + 1)
        (h0 :: h1 :: h2 :: 0x01 :: 0x02 :: a0 :: a1 :: a2 :: a3 :: a4 :: a5 :: rest) 3).map
        (fun st => (fields st.1, st.2)) =
      .ok ([{ name := some "Filter_Type", seq_num := 0,
              value := "(0x01) Inquiry Result",
              indent_level := INDENT_LEVEL_1 },
            { name := some "Inquiry_Result_Filter_Condition_Type", seq_num := 0,
              value := "(0x02) A device with a specific BD_ADDR responded to the Inquiry process",
              indent_level := INDENT_LEVEL_1 },
            { name := some "BD_ADDR", seq_num := 0,
              value := bd_addr_text [a0 % 256, a1 % 256, a2 % 256, a3 % 256, a4 % 256, a5 % 256],
              indent_level := INDENT_LEVEL_1 }], 11, (L : Int) - 7) ∧
    (decode_hci_command bo HCI_CONTROLLER_BASEBAND_COMMANDS_0x0005 0x0C05 (L + 1)
        (h0 :: h1 :: h2 :: 0x02 :: 0x00 :: f :: rest) 3).map
        (fun st => (fields st.1, st.2)) =
      .ok ([{ name := some "Filter_Type", seq_num := 0,
              value := "(0x02) Connection Setup.",
              indent_level := INDENT_LEVEL_1 },
            { name := some "Connection_Setup_Filter_Condition_Type", seq_num := 0,
              value := "(0x00) Allow Connections from all devices",
              indent_level := INDENT_LEVEL_1 },
            { name := some "Auto_Accept_Flag", seq_num := 0,
              value := auto_accept_flag_text (f % 256),
              indent_level := INDENT_LEVEL_1 }], 6, (L : Int) - 2) ∧
    (decode_hci_command bo HCI_CONTROLLER_BASEBAND_COMMANDS_0x0005 0x0C05 (L + 1)
        (h0 :: h1 :: h2 :: 0x02 :: 0x01 :: c0 :: c1 :: c2 :: m0 :: m1 :: m2 :: f :: rest) 3).map
        (fun st => (fields st.1, st.2)) =
      .ok ([{ name := some "Filter_Type", seq_num := 0,
              value := "(0x02) Connection Setup.",
              indent_level := INDENT_LEVEL_1 },
            { name := some "Connection_Setup_Filter_Condition_Type", seq_num := 0,
              value := "(0x01) Allow Connections from a device with a specific Class of Device",
              indent_level := INDENT_LEVEL_1 },
            { name := some "Class_of_Device", seq_num := 0,
              value := "0x" ++ fmt_x 8 (assemble bo [c0 % 256, c1 % 256, c2 % 256]),
              indent_level := INDENT_LEVEL_1 },
            { name := some "Class_of_Device_Mask", seq_num := 0,
              value := "0x" ++ fmt_x 8 (assemble bo [m0 % 256, m1 % 256, m2 % 256]),
              indent_level := INDENT_LEVEL_1 },
            { name := some "Auto_Accept_Flag", seq_num := 0,
              value := auto_accept_flag_text (f % 256),
              indent_level := INDENT_LEVEL_1 }], 12, (L : Int) - 8) ∧
    (decode_hci_command bo HCI_CONTROLLER_BASEBAND_COMMANDS_0x0005 0x0C05 (L + 1)
        (h0 :: h1 :: h2 :: 0x02 :: 0x02 :: a0 :: a1 :: a2 :: a3 :: a4 :: a5 :: f :: rest) 3).map
        (fun st => (fields st.1, st.2)) =
      .ok ([{ name := some "Filter_Type", seq_num := 0,
              value := "(0x02) Connection Setup.",
              indent_level := INDENT_LEVEL_1 },
            { name := some "Connection_Setup_Filter_Condition_Type", seq_num := 0,
              value := "(0x02) Allow Connections from a device with a specific BD_ADDR",
              indent_level := INDENT_LEVEL_1 },
            { name := some "BD_ADDR", seq_num := 0,
              value := bd_addr_text [a0 % 256, a1 % 256, a2 % 256, a3 % 256, a4 % 256, a5 % 256],
              indent_level := INDENT_LEVEL_1 },
            { name := none, seq_num := 0,
              value := auto_accept_flag_text (f % 256),
              indent_level := 0 }], 12, (L : Int) - 8) := by
  refine ⟨?_, ?_, ?_, ?_, ?_, ?_, ?_⟩
  · rw [decode_set_event_filter bo L h0 h1 h2 0 _ (by decide),
      set_event_filter_clear bo _ _ _ _ _ (show 0 + 1 ≤ MAX_HCI_PARAM_NUM by decide) rfl]
    refine congrArg Except.ok (Prod.ext ?_ (Prod.ext ?_ ?_))
    · simp only [fields_append_field, fields_new_instance, List.nil_append]
    · rfl
    · simp only []
      push_cast
      omega
  · have hct : STREAM_TO_UINT8
        (h0 :: h1 :: h2 :: 0x01 :: 0x00 :: rest) (3 + 1)
        = .ok (0x00, 3 + 1 + 1) := by
      simp [STREAM_TO_UINT8, octet_at]
    rw [decode_set_event_filter bo L h0 h1 h2 1 _ (by decide),
      set_event_filter_inquiry_all bo _ _ _ _ _  (show 0 + 2 ≤ MAX_HCI_PARAM_NUM by decide)
        (fresh_new_instance _ _ _ _) rfl hct ]
    refine congrArg Except.ok (Prod.ext ?_ (Prod.ext ?_ ?_))
    · simp only [fields_append_field, fields_new_instance, List.nil_append, List.cons_append,
        List.append_assoc, List.singleton_append]
    · rfl
    · simp only []
      push_cast
      omega
  · have hct : STREAM_TO_UINT8
        (h0 :: h1 :: h2 :: 0x01 :: 0x01 :: c0 :: c1 :: c2 :: m0 :: m1 :: m2 :: rest) (3 + 1)
        = .ok (0x01, 3 + 1 + 1) := by
      simp [STREAM_TO_UINT8, octet_at]
    have hc : STREAM_TO_UINT bo 3
        (h0 :: h1 :: h2 :: 0x01 :: 0x01 :: c0 :: c1 :: c2 :: m0 :: m1 :: m2 :: rest) (3 + 1 + 1)
        = .ok (assemble bo [c0 % 256, c1 % 256, c2 % 256], 3 + 1 + 1 + 3) := by
      simp [STREAM_TO_UINT, octets_at, octet_at]
    have hm : STREAM_TO_UINT bo 3
        (h0 :: h1 :: h2 :: 0x01 :: 0x01 :: c0 :: c1 :: c2 :: m0 :: m1 :: m2 :: rest) (3 + 1 + 1 + 3)
        = .ok (assemble bo [m0 % 256, m1 % 256, m2 % 256], 3 + 1 + 1 + 3 + 3) := by
      simp [STREAM_TO_UINT, octets_at, octet_at]
    rw [decode_set_event_filter bo L h0 h1 h2 1 _ (by decide),
      set_event_filter_inquiry_class bo _ _ _ _ _ _ _ (show 0 + 4 ≤ MAX_HCI_PARAM_NUM by decide)
        (fresh_new_instance _ _ _ _) rfl hct hc hm]
    refine congrArg Except.ok (Prod.ext ?_ (Prod.ext ?_ ?_))
    · simp only [fields_append_field, fields_new_instance, List.nil_append, List.cons_append,
        List.append_assoc, List.singleton_append]
    · rfl
    · simp only []
      push_cast
      omega
  · have hct : STREAM_TO_UINT8
        (h0 :: h1 :: h2 :: 0x01 :: 0x02 :: a0 :: a1 :: a2 :: a3 :: a4 :: a5 :: rest) (3 + 1)
        = .ok (0x02, 3 + 1 + 1) := by
      simp [STREAM_TO_UINT8, octet_at]
    have ha : read_octets
        (h0 :: h1 :: h2 :: 0x01 :: 0x02 :: a0 :: a1 :: a2 :: a3 :: a4 :: a5 :: rest) (3 + 1 + 1)
        6
        = .ok ([a0 % 256, a1 % 256, a2 % 256, a3 % 256, a4 % 256, a5 % 256], 3 + 1 + 1 + 6) := by
      simp [read_octets, octets_at, octet_at]
    rw [decode_set_event_filter bo L h0 h1 h2 1 _ (by decide),
      set_event_filter_inquiry_addr bo _ _ _ _ _ _ (show 0 + 3 ≤ MAX_HCI_PARAM_NUM by decide)
        (fresh_new_instance _ _ _ _) rfl hct ha]
    refine congrArg Except.ok (Prod.ext ?_ (Prod.ext ?_ ?_))
    · simp only [fields_append_field, fields_new_instance, List.nil_append, List.cons_append,
        List.append_assoc, List.singleton_append]
    · rfl
    · simp only []
      push_cast
      omega
  · have hct : STREAM_TO_UINT8
        (h0 :: h1 :: h2 :: 0x02 :: 0x00 :: f :: rest) (3 + 1)
        = .ok (0x00, 3 + 1 + 1) := by
      simp [STREAM_TO_UINT8, octet_at]
    have hf : STREAM_TO_UINT8
        (h0 :: h1 :: h2 :: 0x02 :: 0x00 :: f :: rest) (3 + 1 + 1)
        = .ok (f % 256, 3 + 1 + 1 + 1) := by
      simp [STREAM_TO_UINT8, octet_at]
    rw [decode_set_event_filter bo L h0 h1 h2 2 _ (by decide),
      set_event_filter_setup_all bo _ _ _ _ _ _ (show 0 + 3 ≤ MAX_HCI_PARAM_NUM by decide)
        (fresh_new_instance _ _ _ _) rfl hct hf]
    refine congrArg Except.ok (Prod.ext ?_ (Prod.ext ?_ ?_))
    · simp only [fields_append_field, fields_new_instance, List.nil_append, List.cons_append,
        List.append_assoc, List.singleton_append]
    · rfl
    · simp only []
      push_cast
      omega
  · have hct : STREAM_TO_UINT8
        (h0 :: h1 :: h2 :: 0x02 :: 0x01 :: c0 :: c1 :: c2 :: m0 :: m1 :: m2 :: f :: rest) (3 + 1)
        = .ok (0x01, 3 + 1 + 1) := by
      simp [STREAM_TO_UINT8, octet_at]
    have hc : STREAM_TO_UINT bo 3
        (h0 :: h1 :: h2 :: 0x02 :: 0x01 :: c0 :: c1 :: c2 :: m0 :: m1 :: m2 :: f :: rest) (3 + 1 + 1)
        = .ok (assemble bo [c0 % 256, c1 % 256, c2 % 256], 3 + 1 + 1 + 3) := by
      simp [STREAM_TO_UINT, octets_at, octet_at]
    have hm : STREAM_TO_UINT bo 3
        (h0 :: h1 :: h2 :: 0x02 :: 0x01 :: c0 :: c1 :: c2 :: m0 :: m1 :: m2 :: f :: rest) (3 + 1 + 1 + 3)
        = .ok (assemble bo [m0 % 256, m1 % 256, m2 % 256], 3 + 1 + 1 + 3 + 3) := by
      simp [STREAM_TO_UINT, octets_at, octet_at]
    have hf : STREAM_TO_UINT8
        (h0 :: h1 :: h2 :: 0x02 :: 0x01 :: c0 :: c1 :: c2 :: m0 :: m1 :: m2 :: f :: rest) (3 + 1 + 1 + 3 + 3)
        = .ok (f % 256, 3 + 1 + 1 + 3 + 3 + 1) := by
      simp [STREAM_TO_UINT8, octet_at]
    rw [decode_set_event_filter bo L h0 h1 h2 2 _ (by decide),
      set_event_filter_setup_class bo _ _ _ _ _ _ _ _ (show 0 + 5 ≤ MAX_HCI_PARAM_NUM by decide)
        (fresh_new_instance _ _ _ _) rfl hct hc hm hf]
    refine congrArg Except.ok (Prod.ext ?_ (Prod.ext ?_ ?_))
    · simp only [fields_append_field, fields_new_instance, List.nil_append, List.cons_append,
        List.append_assoc, List.singleton_append]
    · rfl
    · simp only []
      push_cast
      omega
  · have hct : STREAM_TO_UINT8
        (h0 :: h1 :: h2 :: 0x02 :: 0x02 :: a0 :: a1 :: a2 :: a3 :: a4 :: a5 :: f :: rest) (3 + 1)
        = .ok (0x02, 3 + 1 + 1) := by
      simp [STREAM_TO_UINT8, octet_at]
    have ha : read_octets
        (h0 :: h1 :: h2 :: 0x02 :: 0x02 :: a0 :: a1 :: a2 :: a3 :: a4 :: a5 :: f :: rest) (3 + 1 + 1)
        6
        = .ok ([a0 % 256, a1 % 256, a2 % 256, a3 % 256, a4 % 256, a5 % 256], 3 + 1 + 1 + 6) := by
      simp [read_octets, octets_at, octet_at]
    have hf : STREAM_TO_UINT8
        (h0 :: h1 :: h2 :: 0x02 :: 0x02 :: a0 :: a1 :: a2 :: a3 :: a4 :: a5 :: f :: rest) (3 + 1 + 1 + 6)
        = .ok (f % 256, 3 + 1 + 1 + 6 + 1) := by
      simp [STREAM_TO_UINT8, octet_at]
    rw [decode_set_event_filter bo L h0 h1 h2 2 _ (by decide),
      set_event_filter_setup_addr bo _ _ _ _ _ _ _ (show 0 + 4 ≤ MAX_HCI_PARAM_NUM by decide)
        (fresh_new_instance _ _ _ _) rfl hct ha hf]
    refine congrArg Except.ok (Prod.ext ?_ (Prod.ext ?_ ?_))
    · simp only [fields_append_field, fields_new_instance, List.nil_append, List.cons_append,
        List.append_assoc, List.singleton_append]
    · rfl
    · simp only []
      push_cast
      omega

/-- C27, the failing input: `HCI_Set_Event_Filter` with filter type 0x02 and
condition type 0x02 (an address and the auto accept flag). The branch does not
assign `name` and `indent_level` of the slot of the flag, so the last field has a
null name and indent level 0: its line starts with `(null)` at the left margin. -/
theorem C27_unnamed_auto_accept_flag :
    parse_hci_command .little
        [0x05, 0x0C, 0x09, 0x02, 0x02, 0x01, 0x02, 0x03, 0x04, 0x05, 0x06, 0x01]
        "12:00:00.000000" =
      .ok ["12:00:00.000000 HCI Command: HCI_Set_Event_Filter(0x0c05), Parameter Length: 9",
           "    Filter_Type: (0x02) Connection Setup.",
           "    Connection_Setup_Filter_Condition_Type: (0x02) Allow Connections from a device with a specific BD_ADDR",
           "    BD_ADDR: 0x06-05-04-03-02-01",
           "(null): (0x01) Do NOT Auto accept the connection (Auto accept is off)."] ∧
    (decode_hci_command .little HCI_CONTROLLER_BASEBAND_COMMANDS_0x0005 0x0C05 9
        [0x05, 0x0C, 0x09, 0x02, 0x02, 0x01, 0x02, 0x03, 0x04, 0x05, 0x06, 0x01] 3).map
        (fun st => ((fields st.1).map field_tag, st.2)) =
      .ok ([(some "Filter_Type", 0, 1), (some "Connection_Setup_Filter_Condition_Type", 0, 1),
            (some "BD_ADDR", 0, 1), (none, 0, 0)], 12, 0) ∧
    (decode_hci_command .big HCI_CONTROLLER_BASEBAND_COMMANDS_0x0005 0x0C05 9
        [0x0C, 0x05, 0x09, 0x02, 0x02, 0x01, 0x02, 0x03, 0x04, 0x05, 0x06, 0x01] 3).map
        (fun st => ((fields st.1).map field_tag, st.2)) =
      .ok ([(some "Filter_Type", 0, 1), (some "Connection_Setup_Filter_Condition_Type", 0, 1),
            (some "BD_ADDR", 0, 1), (none, 0, 0)], 12, 0) := by
  refine ⟨by decide, by decide, by decide⟩

/-! ### The voice setting renderer -/

set_option maxRecDepth 100000 in
theorem and_low_octet (v m : Nat) (hm : m < 256) : v &&& m = (v % 256) &&& m := by
  have h1 : ∀ k < 256, 255 &&& k = k := by decide
  have h2 : v &&& 255 = v % 256 := Nat.and_pow_two_sub_one_eq_mod v 8
  rw [← h2, Nat.and_assoc, h1 m hm]

set_option maxRecDepth 100000 in
theorem voice_data_format_bits (v : Nat) :
    ((v &&& 0x00A0) >>> 6) % 256 = if v &&& 0x80 = 0 then 0 else 2 := by
  rw [and_low_octet v 0xA0 (by decide), and_low_octet v 0x80 (by decide)]
  have h : ∀ x < 256, ((x &&& 0x00A0) >>> 6) % 256 = if x &&& 0x80 = 0 then 0 else 2 := by
    decide
  exact h _ (Nat.mod_lt _ (by decide))

theorem lines_of_append (a b : List Char) (h : '\n' ∉ a) :
    lines_of (a ++ '\n' :: b) = a :: lines_of b := by
  induction a with
  | nil => simp [lines_of]
  | cons c cs ih =>
    have hc : c ≠ '\n' := fun e => h (by rw [e]; exact List.mem_cons_self _ _)
    have hcs : '\n' ∉ cs := fun e => h (List.mem_cons_of_mem _ e)
    have e : lines_of (c :: (cs ++ '\n' :: b)) = (c :: cs) :: lines_of b := by
      rw [lines_of, if_neg hc, ih hcs]
    exact e

theorem occurs_in_mem (p : List Char) : ∀ (t : List Char), occurs_in p t = true →
    ∀ c ∈ p, c ∈ t := by
  intro t
  induction t with
  | nil =>
    intro h c hc
    simp only [occurs_in, List.isEmpty_iff] at h
    rw [h] at hc
    cases hc
  | cons x xs ih =>
    intro h c hc
    simp only [occurs_in, Bool.or_eq_true] at h
    rcases h with h | h
    · have hp : p <+: x :: xs := List.isPrefixOf_iff_prefix.mp h
      exact hp.subset hc
    · exact List.mem_cons_of_mem _ (ih h c hc)

/-- A line of the voice setting text: no newline inside, and neither of the two
texts the data format line never shows. -/
theorem plain_line_of_chars (l : List Char) (h1 : '\n' ∉ l) (h2 : '\'' ∉ l) (h3 : 'U' ∉ l) :
    '\n' ∉ l ∧ occurs_in "2's complement".data l = false
      ∧ occurs_in "Unsigned".data l = false := by
  refine ⟨h1, ?_, ?_⟩
  · cases h : occurs_in "2's complement".data l with
    | false => rfl
    | true => exact absurd (occurs_in_mem _ l h '\'' (by decide)) h2
  · cases h : occurs_in "Unsigned".data l with
    | false => rfl
    | true => exact absurd (occurs_in_mem _ l h 'U' (by decide)) h3

theorem hex_digit_char (c : Char) (h : is_digit_of 16 c = true) :
    c ≠ '\n' ∧ c ≠ '\'' ∧ c ≠ 'U' := by
  refine ⟨?_, ?_, ?_⟩ <;> intro e <;> rw [e] at h <;> exact absurd h (by decide)

theorem fmt_x_chars (w n : Nat) : ∀ c ∈ (fmt_x w n).data, c ≠ '\n' ∧ c ≠ '\'' ∧ c ≠ 'U' :=
  fun c hc => hex_digit_char c (zeroPad_all_digits 16 (by decide) w _
    (toDigits_all_digits 16 (by decide) (by decide) n) c hc)

/-- A segment of the voice setting text: one plain line and its newline. -/
theorem lines_of_segments (hdr l1 l2 l3 l4 l5 : List Char) (h0 : '\n' ∉ hdr) (h1 : '\n' ∉ l1)
    (h2 : '\n' ∉ l2) (h3 : '\n' ∉ l3) (h4 : '\n' ∉ l4) (h5 : '\n' ∉ l5) :
    lines_of (hdr ++ '\n' :: (l1 ++ '\n' :: (l2 ++ '\n' :: (l3 ++ '\n' :: (l4 ++ '\n' ::
      (l5 ++ '\n' :: [])))))) = [hdr, l1, l2, l3, l4, l5, []] := by
  rw [lines_of_append _ _ h0, lines_of_append _ _ h1, lines_of_append _ _ h2,
    lines_of_append _ _ h3, lines_of_append _ _ h4, lines_of_append _ _ h5]
  rfl

theorem voice_setting_text (data : List Nat) (val_in : ValIn) (value : Nat)
    (h : val_read data val_in 2 = .ok value) :
    ∃ l1 l3 l5 : String,
    parse_special_displayed_parameters VOICE_SETTING data val_in = .ok (true,
      "(0x" ++ fmt_x 4 value ++ ")\n" ++ (l1 ++ "\n")
      ++ ((LINE_INDENT.getD INDENT_LEVEL_4 "" ++ (if value &&& 0x80 = 0 then
            "Input Data Format: 1's complement" else "Input Data Format: Sign-Magnitude")) ++ "\n")
      ++ (l3 ++ "\n")
      ++ LINE_INDENT.getD INDENT_LEVEL_4 "" ++ "Linear_PCM_Bit_Pos: "
      ++ fmt_u (((value &&& 0x001A) >>> 2) % 256)
      ++ " bit positions that MSB of sample is away from starting at MSB(only for Linear PCM)\n"
      ++ (l5 ++ "\n")) ∧ PlainLine l1 ∧ PlainLine l3 ∧ PlainLine l5 := by
  unfold parse_special_displayed_parameters special_configuration_parameter
  simp only [show ¬ VOICE_SETTING = SCAN_ENABLE by decide, show ¬ (VOICE_SETTING = 2 ∨ VOICE_SETTING = 3) by decide,
    show ¬ (VOICE_SETTING = INQUIRY_SCAN_TYPE ∨ VOICE_SETTING = PAGE_SCAN_TYPE) by decide,
    show ¬ VOICE_SETTING = INQUIRY_MODE by decide,
    show ¬ (VOICE_SETTING = 6 ∨ VOICE_SETTING = 7 ∨ VOICE_SETTING = 8 ∨ VOICE_SETTING = 9) by decide,
    show ¬ VOICE_SETTING = 10 by decide, if_false, if_true, h]
  have hc : ((value &&& 0x0300) >>> 8) % 256 < 4 := by
    have := @Nat.and_le_right value 0x0300
    rw [Nat.shiftRight_eq_div_pow]
    omega
  have hs : ((value &&& 0x0020) >>> 5) % 256 < 2 := by
    have := @Nat.and_le_right value 0x0020
    rw [Nat.shiftRight_eq_div_pow]
    omega
  have ha : (value &&& 0x0003) % 256 < 4 := by
    have := @Nat.and_le_right value 0x0003
    omega
  have hf := voice_data_format_bits value
  simp only [bind, Except.bind, hf]
  generalize ((value &&& 768) >>> 8) % 256 = c at hc ⊢
  generalize ((value &&& 32) >>> 5) % 256 = s at hs ⊢
  generalize (value &&& 3) % 256 = a at ha ⊢
  have key : ∀ (H P1 P2 P3 P4 F S1 S2 S3 S5 : String),
      (∃ l, S1 = l ++ "\n" ∧ PlainLine l) → S2 = F ++ "\n" →
      (∃ l, S3 = l ++ "\n" ∧ PlainLine l) → (∃ l, S5 = l ++ "\n" ∧ PlainLine l) →
      ∃ l1 l3 l5 : String,
        (Except.ok (true, H ++ S1 ++ S2 ++ S3 ++ P1 ++ P2 ++ P3 ++ P4 ++ S5) :
            Except Fault (Bool × String)) =
          .ok (true, H ++ (l1 ++ "\n") ++ (F ++ "\n") ++ (l3 ++ "\n") ++ P1 ++ P2 ++ P3 ++ P4
            ++ (l5 ++ "\n"))
        ∧ PlainLine l1 ∧ PlainLine l3 ∧ PlainLine l5 := by
    intro H P1 P2 P3 P4 F S1 S2 S3 S5 ⟨l1, e1, g1⟩ e2 ⟨l3, e3, g3⟩ ⟨l5, e5, g5⟩
    exact ⟨l1, l3, l5, by rw [e1, e2, e3, e5], g1, g3, g5⟩
  refine key _ _ _ _ _ _ _ _ _ _ ?_ ?_ ?_ ?_
  · interval_cases c
    · exact ⟨LINE_INDENT.getD INDENT_LEVEL_4 "" ++ "Input Coding: Linear", by decide, by decide⟩
    · exact ⟨LINE_INDENT.getD INDENT_LEVEL_4 "" ++ "Input Coding: u-law Input Coding",
        by decide, by decide⟩
    · exact ⟨LINE_INDENT.getD INDENT_LEVEL_4 "" ++ "Input Coding: A-law Input Coding",
        by decide, by decide⟩
    · exact ⟨LINE_INDENT.getD INDENT_LEVEL_4 "" ++ "Reserved for future use",
        by decide, by decide⟩
  · by_cases hb : value &&& 128 = 0
    · simp only [hb, if_true]
      decide
    · simp only [hb, if_false]
      decide
  · interval_cases s
    · exact ⟨LINE_INDENT.getD INDENT_LEVEL_4 ""
        ++ "Input Sample Size: 8-bit(only for linear PCM)", by decide, by decide⟩
    · exact ⟨LINE_INDENT.getD INDENT_LEVEL_4 ""
        ++ "Input Sample Size: 16-bit(only for linear PCM)", by decide, by decide⟩
  · interval_cases a
    · exact ⟨LINE_INDENT.getD INDENT_LEVEL_4 "" ++ "Air Coding Format: CVSD", by decide, by decide⟩
    · exact ⟨LINE_INDENT.getD INDENT_LEVEL_4 "" ++ "Air Coding Format: u-law",
        by decide, by decide⟩
    · exact ⟨LINE_INDENT.getD INDENT_LEVEL_4 "" ++ "Air Coding Format: A-law",
        by decide, by decide⟩
    · exact ⟨LINE_INDENT.getD INDENT_LEVEL_4 "" ++ "Air Coding Format: Transparent Data",
        by decide, by decide⟩

theorem dec_digit_char (c : Char) (h : is_digit_of 10 c = true) :
    c ≠ '\n' ∧ c ≠ '\'' ∧ c ≠ 'U' := by
  refine ⟨?_, ?_, ?_⟩ <;> intro e <;> rw [e] at h <;> exact absurd h (by decide)

theorem fmt_u_chars (n : Nat) : ∀ c ∈ (fmt_u n).data, c ≠ '\n' ∧ c ≠ '\'' ∧ c ≠ 'U' :=
  fun c hc => dec_digit_char c (toDigits_all_digits 10 (by decide) (by decide) n c hc)

theorem plain_line_of_parts (a m b : String)
    (ha : ∀ c ∈ a.data, c ≠ '\n' ∧ c ≠ '\'' ∧ c ≠ 'U')
    (hm : ∀ c ∈ m.data, c ≠ '\n' ∧ c ≠ '\'' ∧ c ≠ 'U')
    (hb : ∀ c ∈ b.data, c ≠ '\n' ∧ c ≠ '\'' ∧ c ≠ 'U') : PlainLine (a ++ m ++ b) := by
  have hall : ∀ c ∈ (a ++ m ++ b).data, c ≠ '\n' ∧ c ≠ '\'' ∧ c ≠ 'U' := by
    intro c hc
    simp only [String.data_append, List.mem_append] at hc
    rcases hc with (h | h) | h
    · exact ha c h
    · exact hm c h
    · exact hb c h
  exact plain_line_of_chars _ (fun h => (hall _ h).1 rfl) (fun h => (hall _ h).2.1 rfl)
    (fun h => (hall _ h).2.2 rfl)

/-- C38: the text the `VOICE_SETTING` renderer writes for the 16-bit value it
reads has seven lines (the last one empty); the third line is the data format
line, `"Input Data Format: 1's complement"` when bit 7 of the value is clear and
`"Input Data Format: Sign-Magnitude"` when it is set, whatever the other bits
are; and no line of the text holds `"2's complement"` or `"Unsigned"`. -/
theorem C38_voice_setting_data_format (data : List Nat) (val_in : ValIn) (value : Nat)
    (h : val_read data val_in 2 = .ok value) :
    ∃ text, parse_special_displayed_parameters VOICE_SETTING data val_in = .ok (true, text) ∧
      (text_lines text).length = 7 ∧
      (text_lines text)[2]? = some (LINE_INDENT.getD INDENT_LEVEL_4 "" ++
        (if value &&& 0x80 = 0 then "Input Data Format: 1's complement"
         else "Input Data Format: Sign-Magnitude")) ∧
      ∀ line ∈ text_lines text, occurs_in "2's complement".data line.data = false
        ∧ occurs_in "Unsigned".data line.data = false := by
  obtain ⟨l1, l3, l5, ht, g1, g3, g5⟩ := voice_setting_text data val_in value h
  refine ⟨_, ht, ?_⟩
  have e1 : (")\n" : String) = ")" ++ "\n" := by decide
  have e2 : (" bit positions that MSB of sample is away from starting at MSB(only for Linear PCM)\n"
      : String) = " bit positions that MSB of sample is away from starting at MSB(only for Linear PCM)"
        ++ "\n" := by decide
  have g0 : PlainLine ("(0x" ++ fmt_x 4 value ++ ")") :=
    plain_line_of_parts _ _ _ (by decide) (fmt_x_chars 4 value) (by decide)
  have g4 : PlainLine (LINE_INDENT.getD INDENT_LEVEL_4 "" ++ "Linear_PCM_Bit_Pos: "
      ++ fmt_u (((value &&& 0x001A) >>> 2) % 256)
      ++ " bit positions that MSB of sample is away from starting at MSB(only for Linear PCM)") :=
    plain_line_of_parts _ _ _ (by decide) (fmt_u_chars _) (by decide)
  have g2 : PlainLine (LINE_INDENT.getD INDENT_LEVEL_4 "" ++
        (if value &&& 0x80 = 0 then "Input Data Format: 1's complement"
         else "Input Data Format: Sign-Magnitude")) := by
    by_cases hb : value &&& 0x80 = 0
    · simp only [hb, if_true]
      decide
    · simp only [hb, if_false]
      decide
  have hl : text_lines ("(0x" ++ fmt_x 4 value ++ ")\n" ++ (l1 ++ "\n")
      ++ ((LINE_INDENT.getD INDENT_LEVEL_4 "" ++ (if value &&& 0x80 = 0 then
            "Input Data Format: 1's complement" else "Input Data Format: Sign-Magnitude")) ++ "\n")
      ++ (l3 ++ "\n")
      ++ LINE_INDENT.getD INDENT_LEVEL_4 "" ++ "Linear_PCM_Bit_Pos: "
      ++ fmt_u (((value &&& 0x001A) >>> 2) % 256)
      ++ " bit positions that MSB of sample is away from starting at MSB(only for Linear PCM)\n"
      ++ (l5 ++ "\n")) =
      ["(0x" ++ fmt_x 4 value ++ ")", l1,
        LINE_INDENT.getD INDENT_LEVEL_4 "" ++
          (if value &&& 0x80 = 0 then "Input Data Format: 1's complement"
           else "Input Data Format: Sign-Magnitude"), l3,
        LINE_INDENT.getD INDENT_LEVEL_4 "" ++ "Linear_PCM_Bit_Pos: "
          ++ fmt_u (((value &&& 0x001A) >>> 2) % 256)
          ++ " bit positions that MSB of sample is away from starting at MSB(only for Linear PCM)",
        l5, ""] := by
    unfold text_lines
    have hd : ("(0x" ++ fmt_x 4 value ++ ")\n" ++ (l1 ++ "\n")
      ++ ((LINE_INDENT.getD INDENT_LEVEL_4 "" ++ (if value &&& 0x80 = 0 then
            "Input Data Format: 1's complement" else "Input Data Format: Sign-Magnitude")) ++ "\n")
      ++ (l3 ++ "\n")
      ++ LINE_INDENT.getD INDENT_LEVEL_4 "" ++ "Linear_PCM_Bit_Pos: "
      ++ fmt_u (((value &&& 0x001A) >>> 2) % 256)
      ++ " bit positions that MSB of sample is away from starting at MSB(only for Linear PCM)\n"
      ++ (l5 ++ "\n")).data =
      ("(0x" ++ fmt_x 4 value ++ ")").data ++ '\n' :: (l1.data ++ '\n' ::
        ((LINE_INDENT.getD INDENT_LEVEL_4 "" ++
          (if value &&& 0x80 = 0 then "Input Data Format: 1's complement"
           else "Input Data Format: Sign-Magnitude")).data ++ '\n' :: (l3.data ++ '\n' ::
        ((LINE_INDENT.getD INDENT_LEVEL_4 "" ++ "Linear_PCM_Bit_Pos: "
          ++ fmt_u (((value &&& 0x001A) >>> 2) % 256)
          ++ " bit positions that MSB of sample is away from starting at MSB(only for Linear PCM)").data
          ++ '\n' :: (l5.data ++ '\n' :: []))))) := by
      rw [e1, e2]
      simp only [String.data_append, List.append_assoc, show ("\n" : String).data = ['\n'] from rfl,
        List.singleton_append, List.cons_append, List.nil_append]
    rw [hd, lines_of_segments _ _ _ _ _ _ g0.1 g1.1 g2.1 g3.1 g4.1 g5.1]
    rfl
  rw [hl]
  refine ⟨rfl, rfl, ?_⟩
  intro line hline
  simp only [List.mem_cons, List.mem_singleton, List.not_mem_nil, or_false] at hline
  rcases hline with e | e | e | e | e | e | e <;> rw [e]
  · exact g0.2
  · exact g1.2
  · exact g2.2
  · exact g3.2
  · exact g4.2
  · exact g5.2
  · decide

set_option maxRecDepth 100000 in
theorem C38_voice_setting_data_format_witness :
    (∃ text, parse_special_displayed_parameters VOICE_SETTING [] (.word 0x0040) = .ok (true, text) ∧
      (text_lines text).length = 7 ∧
      (text_lines text)[2]? = some (LINE_INDENT.getD INDENT_LEVEL_4 "" ++
        (if 0x0040 &&& 0x80 = 0 then "Input Data Format: 1's complement"
         else "Input Data Format: Sign-Magnitude")) ∧
      ∀ line ∈ text_lines text, occurs_in "2's complement".data line.data = false
        ∧ occurs_in "Unsigned".data line.data = false) ∧
    parse_hci_command .little [0x26, 0x0C, 0x02, 0x40, 0x00] "T" =
      .ok ["T HCI Command: HCI_Write_Voice_Setting(0x0c26), Parameter Length: 2",
           "    Voice_Setting: (0x0040)\n                Input Coding: Linear\n                Input Data Format: 1's complement\n                Input Sample Size: 8-bit(only for linear PCM)\n                Linear_PCM_Bit_Pos: 0 bit positions that MSB of sample is away from starting at MSB(only for Linear PCM)\n                Air Coding Format: CVSD\n"] :=
  ⟨C38_voice_setting_data_format [] (.word 0x0040) 0x0040 (by decide), by decide⟩

/-! ### The firmware log record -/

/-- The record length is the payload length rounded up to the block size. -/
theorem fw_log_record_len_eq (d : Nat) (hd : d < 256) :
    fw_log_record_len d = 8 * ((d + 7) / 8) := by
  unfold fw_log_record_len FIRMWARE_LOG_BLOCK_SIZE SIZE_RANGE
  simp only []
  split_ifs with h
  · rw [Nat.mod_eq_of_lt (by omega)]
    omega
  · omega

/-- The file chosen for a record: the size member is 0 or the old one, in which
case the record fits below `s_log_max_size`; the limit itself does not change. -/
theorem choose_fw_log_file_size (log_record_len timestamp : Nat) (first second : CreateOutcome)
    (s : FwLogger) :
    (choose_fw_log_file log_record_len timestamp first second s).s_log_max_size
        = s.s_log_max_size ∧
      ((choose_fw_log_file log_record_len timestamp first second s).fw_log_curr_size = 0 ∨
        ((choose_fw_log_file log_record_len timestamp first second s).fw_log_curr_size
            = s.fw_log_curr_size ∧
          (s.fw_log_curr_size + log_record_len) % SIZE_RANGE ≤ s.s_log_max_size)) := by
  unfold choose_fw_log_file
  cases first <;> cases second <;> simp only [create_fw_log_file] <;> split_ifs <;>
    simp_all

theorem filter_fw_log_length (packet : List Nat) (length : Nat)
    (hfilter : filter_fw_log true packet = .ok true) (hlen : octet_at packet 1 = some length) :
    0 < length ∧ length < 256 := by
  have hlt : length < 256 := by
    unfold octet_at at hlen
    simp only [show (0 : Int) ≤ 1 by decide, if_true] at hlen
    cases h : packet[(1 : Int).toNat]? with
    | none => rw [h] at hlen; cases hlen
    | some b =>
      rw [h] at hlen
      simp only [Option.map_some', Option.some.injEq] at hlen
      rw [← hlen]
      exact Nat.mod_lt _ (by decide)
  refine ⟨?_, hlt⟩
  unfold filter_fw_log at hfilter
  simp only [Bool.not_true, Bool.false_eq_true, if_false] at hfilter
  cases h0 : STREAM_TO_UINT8 packet 0 with
  | error e => rw [h0] at hfilter; cases hfilter
  | ok r0 =>
    obtain ⟨event_code, pos1⟩ := r0
    have hpos1 : pos1 = 1 := by
      unfold STREAM_TO_UINT8 at h0
      split at h0
      · simp only [Except.ok.injEq, Prod.mk.injEq] at h0
        omega
      · cases h0
    subst hpos1
    rw [h0] at hfilter
    simp only [] at hfilter
    split_ifs at hfilter with hc
    · cases hfilter
    · have h1 : STREAM_TO_UINT8 packet 1 = .ok (length, 1 + 1) := by
        simp only [STREAM_TO_UINT8, hlen]
      rw [h1] at hfilter
      simp only [] at hfilter
      split_ifs at hfilter with hz
      · cases hfilter
      · omega

/-- C39: for a packet that `filter_fw_log` hands to the logger (a vendor event
with length octet `length > 0` and sub-event code 0x50) whose `length - 1` payload
octets `octets` are in the buffer, and a size member that is at most
`s_log_max_size + 256` (true at start and kept by every record),
`event_fw_log_data_ready` returns. With `r` the record length it computes and
`file` the logger after its choice of the log file: `r` is the smallest multiple of
8 that is at least `length - 1`, and fewer than 8 above it; when a file is open the
only calls added are the `write` of the payload octets and, when `r` is above their
number, the `write` of the missing zero octets, together `r` octets, and the size
member grows by exactly `r`; when no file could be opened nothing is written. -/
theorem C39_fw_log_record (packet : List Nat) (timestamp : Nat) (first second : CreateOutcome)
    (s file : FwLogger) (length r : Nat) (octets : List Nat)
    (hfilter : filter_fw_log true packet = .ok true)
    (hlen : octet_at packet 1 = some length)
    (hdata : octets_at packet 3 (length - 1) = some octets)
    (hsize : s.fw_log_curr_size ≤ s.s_log_max_size + 256)
    (hmax : s.s_log_max_size < 2 ^ 32)
    (hr : r = fw_log_record_len (length - 1))
    (hfile : file = choose_fw_log_file r timestamp first second s) :
    0 < length ∧ length < 256 ∧ octets.length = length - 1 ∧
    r % 8 = 0 ∧ length - 1 ≤ r ∧ r - (length - 1) < 8 ∧
    (∀ m, m % 8 = 0 → length - 1 ≤ m → r ≤ m) ∧
    (octets ++ List.replicate (r - (length - 1)) 0).length = r ∧
    (file.fw_log_fd ≠ INVALID_FD →
      event_fw_log_data_ready packet timestamp first second s =
        .ok { file with
          calls := file.calls ++ [.write file.fw_log_fd octets]
            ++ (if r > length - 1 then
                  [.write file.fw_log_fd (List.replicate (r - (length - 1)) 0)]
                else [])
          fw_log_curr_size := file.fw_log_curr_size + r }) ∧
    (file.fw_log_fd = INVALID_FD →
      event_fw_log_data_ready packet timestamp first second s = .ok file) ∧
    (∀ s1, event_fw_log_data_ready packet timestamp first second s = .ok s1 →
      s1.s_log_max_size = s.s_log_max_size ∧
      s1.fw_log_curr_size ≤ s1.s_log_max_size + 256) := by
  obtain ⟨hpos, hlt⟩ := filter_fw_log_length packet length hfilter hlen
  have hreq := fw_log_record_len_eq (length - 1) (by omega)
  rw [← hr] at hreq
  have holen := octets_at_length _ _ _ _ hdata
  have hdl : (((length : Int) - 1) % (SIZE_RANGE : Int)).toNat = length - 1 := by
    have e : ((SIZE_RANGE : Nat) : Int) = 18446744073709551616 := by
      unfold SIZE_RANGE
      norm_num
    rw [e]
    omega
  obtain ⟨hfmax, hfsize⟩ := choose_fw_log_file_size r timestamp first second s
  rw [← hfile] at hfmax hfsize
  have hnowrap : (file.fw_log_curr_size + r) % SIZE_RANGE = file.fw_log_curr_size + r := by
    unfold SIZE_RANGE
    apply Nat.mod_eq_of_lt
    rcases hfsize with h | ⟨h, _⟩ <;> omega
  have hev : event_fw_log_data_ready packet timestamp first second s =
      if file.fw_log_fd ≠ INVALID_FD then
        .ok { file with
          calls := file.calls ++ [.write file.fw_log_fd octets]
            ++ (if r > length - 1 then
                  [.write file.fw_log_fd (List.replicate (r - (length - 1)) 0)]
                else [])
          fw_log_curr_size := file.fw_log_curr_size + r }
      else .ok file := by
    unfold event_fw_log_data_ready
    simp only [hlen, hdl, ← hr, ← hfile, hdata]
    split_ifs with h1 h2 h3
    · simp only [hnowrap, List.append_assoc]
    · exfalso
      unfold FIRMWARE_LOG_BLOCK_SIZE at h3
      omega
    · simp only [hnowrap, List.append_nil]
    · rfl
  refine ⟨hpos, hlt, holen, by omega, by omega, by omega, fun m h1 h2 => by omega, ?_, ?_, ?_, ?_⟩
  · rw [List.length_append, List.length_replicate, holen]
    omega
  · intro h
    rw [hev, if_pos h]
  · intro h
    rw [hev, if_neg (not_not.mpr h)]
  · intro s1 hs1
    rw [hev] at hs1
    unfold SIZE_RANGE at hfsize
    by_cases h : file.fw_log_fd ≠ INVALID_FD
    · rw [if_pos h] at hs1
      simp only [Except.ok.injEq] at hs1
      subst hs1
      refine ⟨hfmax, ?_⟩
      show file.fw_log_curr_size + r ≤ file.s_log_max_size + 256
      rcases hfsize with h | ⟨h, h2⟩
      · omega
      · rw [Nat.mod_eq_of_lt (by omega)] at h2
        omega
    · rw [if_neg h] at hs1
      simp only [Except.ok.injEq] at hs1
      subst hs1
      refine ⟨hfmax, ?_⟩
      rcases hfsize with h | ⟨h, h2⟩
      · omega
      · omega

theorem C39_fw_log_record_witness :
    event_fw_log_data_ready [0xFF, 0x04, 0x50, 0xAA, 0xBB, 0xCC] 7 (.opened 3) .mkdir_failed
        { s_log_max_size := 1024 } =
      .ok { s_log_max_size := 1024, fw_log_fd := 3, fw_log_curr_size := 8,
            calls := [.write_header 3 0 0 8 7, .write 3 [0xAA, 0xBB, 0xCC],
              .write 3 [0, 0, 0, 0, 0]] } ∧
    fw_log_record_len (4 - 1) = 8 :=
  ⟨(C39_fw_log_record [0xFF, 0x04, 0x50, 0xAA, 0xBB, 0xCC] 7 (.opened 3) .mkdir_failed
      { s_log_max_size := 1024 }
      (choose_fw_log_file 8 7 (.opened 3) .mkdir_failed { s_log_max_size := 1024 }) 4 8
      [0xAA, 0xBB, 0xCC] (by decide) (by decide) (by decide) (by decide) (by decide) (by decide)
      rfl).2.2.2.2.2.2.2.2.1 (by decide), by decide⟩

/-! ### Command Complete without return parameters -/

theorem raw_data_lines_ok (data : List Nat) (pos left_len : Int) (bs : List Nat)
    (hpos : 0 < left_len) (hcap : left_len ≤ 254)
    (hbs : octets_at data pos left_len.toNat = some bs) :
    raw_data_lines data pos left_len = .ok ["    Raw Data: " ++ hex_dump bs] := by
  have hfit : ¬ (3 * left_len + 1 > (LOG_BUF_SIZE : Nat)) := by
    unfold LOG_BUF_SIZE
    omega
  simp only [raw_data_lines, hpos, gt_iff_lt, if_true, read_octets, hbs]
  rw [if_neg (by simpa only [gt_iff_lt] using hfit)]
  rw [show line_indent INDENT_LEVEL_1 = .ok "    " by decide]
  simp only [c_str_hex_dump]
  rfl

theorem raw_data_lines_none (data : List Nat) (pos : Int) :
    raw_data_lines data pos 0 = .ok [] := by
  simp only [raw_data_lines, lt_irrefl, gt_iff_lt, if_false]

theorem c_str_append (a b : String) (ha : c_str a = a) (hb : ∀ c ∈ b.data, c.toNat ≠ 0) :
    c_str (a ++ b) = a ++ b := by
  have hall : ∀ c ∈ a.data, c.toNat ≠ 0 := by
    intro c hc h0
    have h1 : (c_str a).data = a.data := by rw [ha]
    unfold c_str at h1
    simp only at h1
    have h2 := List.takeWhile_eq_self_iff.mp h1 c hc
    simp only [ne_eq, decide_not, Bool.not_eq_true', decide_eq_false_iff_not] at h2
    exact h2 h0
  apply c_str_of_no_nul
  intro c hc
  rcases List.mem_append.mp hc with h | h
  · exact hall c h
  · exact hb c h

theorem fmt_u_no_nul (n : Nat) : ∀ c ∈ (fmt_u n).data, c.toNat ≠ 0 := fun c hc =>
  (digit_is_plain 10 c (toDigits_all_digits 10 (by decide) (by decide) n c hc)).1

theorem c_str_fmt_u (n : Nat) : c_str (fmt_u n) = fmt_u n :=
  c_str_of_no_nul _ (fmt_u_no_nul n)

/-- The line of a field at indent level 1 that is no copy of a repeat unit. -/
theorem field_line_level_one (name value : String) (hn : c_str name = name)
    (hv : c_str value = value) :
    field_line { name := some name, seq_num := 0, value := value, indent_level := INDENT_LEVEL_1 }
      = .ok ("    " ++ name ++ ": " ++ value) := by
  unfold field_line
  rw [show line_indent INDENT_LEVEL_1 = .ok "    " by decide]
  simp only [gt_iff_lt, lt_irrefl, if_false, fmt_s, hn, hv]

/-- The records of `parse_hci_event` for an event code inside the table. -/
theorem parse_hci_event_eq (bo : ByteOrder) (ec L : Nat) (rest : List Nat) (time_str : String)
    (hec : ec ≤ HCI_EVENT_NUMBER) (hL : L < 256) :
    parse_hci_event bo (ec :: L :: rest) time_str =
      match decode_hci_event bo ec L (ec :: L :: rest) 2 with
      | .error e => .error e
      | .ok (hci_event, pos3, left_len) =>
        print_instance (event_header time_str hci_event) hci_event (ec :: L :: rest) pos3
          left_len := by
  have h256 : ec < 256 := by
    unfold HCI_EVENT_NUMBER at hec
    omega
  have h0 : STREAM_TO_UINT8 (ec :: L :: rest) 0 = .ok (ec, 0 + 1) := by
    simp [STREAM_TO_UINT8, octet_at, Nat.mod_eq_of_lt h256]
  have h1 : STREAM_TO_UINT8 (ec :: L :: rest) (0 + 1) = .ok (L, 0 + 1 + 1) := by
    simp [STREAM_TO_UINT8, octet_at, Nat.mod_eq_of_lt hL]
  unfold parse_hci_event
  rw [h0]
  simp only [h1, show ¬ ec > HCI_EVENT_NUMBER by omega, if_false]
  rfl

theorem decode_command_complete (bo : ByteOrder) (L n o0 o1 : Nat) (rest : List Nat)
    (hL : 3 ≤ L) (hn : n < 256) (ho0 : o0 < 256) (ho1 : o1 < 256) :
    decode_hci_event bo 0x0E L (0x0E :: L :: n :: o0 :: o1 :: rest) 2 =
      command_complete bo (0x0E :: L :: n :: o0 :: o1 :: rest)
        (command_complete_walked bo L n o0 o1, 5, (L : Int) - 3) := by
  have hslot : table_slot HCI_EVENTS 0x0E = HCI_EVENTS_0x0e := by decide
  have hwalk := parse_hci_instance_command_complete bo
    (new_instance (some "Command Complete") 0x0E L 2) rfl L n o0 o1 rest hL hn ho0 ho1
  have e0 : sprintf_into ((new_instance (some "Command Complete") 0x0E L 2).value 0).value
      (fmt_u n) = fmt_u n := sprintf_into_empty _
  have e1 : sprintf_into ((new_instance (some "Command Complete") 0x0E L 2).value 1).value
      ("0x" ++ fmt_x 4 (assemble bo [o0, o1])) = "0x" ++ fmt_x 4 (assemble bo [o0, o1]) :=
    sprintf_into_empty _
  rw [e0, e1] at hwalk
  unfold decode_hci_event
  simp only [hslot]
  rw [show HCI_EVENTS_0x0e.name = some "Command Complete" from rfl,
    show HCI_EVENTS_0x0e.parameter_count = 2 from rfl, hwalk]
  simp only [if_true]
  rfl

theorem command_opcode_read (bo : ByteOrder) (o0 o1 : Nat) (ho0 : o0 < 256) (ho1 : o1 < 256) :
    to_uint16 (strtol ("0x" ++ fmt_x 4 (assemble bo [o0, o1]))) = assemble bo [o0, o1] := by
  have hv := assemble_two_lt bo o0 o1 ho0 ho1
  rw [strtol_hex_text 4 _ (by unfold LONG_MAX; omega)]
  unfold to_uint16
  omega

theorem command_complete_walked_fields (bo : ByteOrder) (L n o0 o1 : Nat) :
    fields (command_complete_walked bo L n o0 o1) =
      [{ name := some "Num_HCI_Command_Packets", seq_num := 0, value := fmt_u n,
         indent_level := INDENT_LEVEL_1 },
       { name := some "Command_Opcode", seq_num := 0,
         value := "0x" ++ fmt_x 4 (assemble bo [o0, o1]), indent_level := INDENT_LEVEL_1 }] := by
  unfold command_complete_walked
  rw [fields_append_field, fields_append_field]
  rfl

/-- The post-processor of Command Complete changes nothing when the opcode does
not resolve to a named command. -/
theorem command_complete_not_found (bo : ByteOrder) (data : List Nat) (inst : HCI_INSTANCE)
    (pos left : Int)
    (hnf : ∀ u, get_matched_hci_cmd_repr (to_uint16 (strtol (inst.value 1).value)) = some u →
      u.name = none) :
    command_complete bo data (inst, pos, left) = .ok (inst, pos, left) := by
  unfold command_complete
  rw [value_at_int inst 1 (by decide) (by decide)]
  simp only [show (1 : Int).toNat = 1 from rfl]
  cases h : get_matched_hci_cmd_repr (to_uint16 (strtol (inst.value 1).value)) with
  | none => rfl
  | some u => simp only [hnf u h, if_true]

/-- The post-processor of Command Complete for a named command without return
parameters: the text of the opcode field is replaced, nothing else changes. -/
theorem command_complete_no_return (bo : ByteOrder) (data : List Nat) (inst : HCI_INSTANCE)
    (pos left : Int) (u : HCI_UNIT_REPR)
    (hu : get_matched_hci_cmd_repr (to_uint16 (strtol (inst.value 1).value)) = some u)
    (hname : u.name ≠ none) (hR : u.return_parameter_count = 0) :
    command_complete bo data (inst, pos, left) =
      .ok (with_value inst 1 (fun v =>
        { v with value := sprintf_into v.value (fmt_s u.name ++ "(0x"
            ++ fmt_x 4 (to_uint16 (strtol (inst.value 1).value)) ++ ")") }), pos, left) := by
  unfold command_complete
  rw [value_at_int inst 1 (by decide) (by decide)]
  simp only [show (1 : Int).toNat = 1 from rfl, hu, hname, if_false, set_value]
  rw [value_update_int inst 1 _ (by decide) (by decide)]
  simp only [show (1 : Int).toNat = 1 from rfl, hR, ne_eq, not_true_eq_false, if_false]

theorem hex_text_no_nul (w v : Nat) : c_str ("0x" ++ fmt_x w v) = "0x" ++ fmt_x w v :=
  c_str_append _ _ (by decide) (fmt_x_no_nul w v)

/-- The records of a Command Complete event whose two leading fields are `f1`
(the opcode field, with the text `text`) behind the packet count. -/
theorem print_command_complete (header : String) (inst : HCI_INSTANCE) (data : List Nat)
    (L n : Nat) (text : String) (bs : List Nat) (hL : 3 ≤ L) (hL2 : L < 256)
    (hf : fields inst =
      [{ name := some "Num_HCI_Command_Packets", seq_num := 0, value := fmt_u n,
         indent_level := INDENT_LEVEL_1 },
       { name := some "Command_Opcode", seq_num := 0, value := text,
         indent_level := INDENT_LEVEL_1 }])
    (ht : c_str text = text) (hbs : octets_at data 5 (L - 3) = some bs) :
    print_instance header inst data 5 ((L : Int) - 3) =
      .ok ([header, "    Num_HCI_Command_Packets: " ++ fmt_u n, "    Command_Opcode: " ++ text]
        ++ (if L = 3 then [] else ["    Raw Data: " ++ hex_dump bs])) := by
  have hvi : inst.value_index = 2 := by
    rw [← fields_length, hf]
    rfl
  have hne : ¬ (inst.value_index = 0 ∧ (L : Int) - 3 = 0) := by
    rw [hvi]
    exact fun h => absurd h.1 (by decide)
  have hlines : field_lines (fields inst) =
      .ok ["    Num_HCI_Command_Packets: " ++ fmt_u n, "    Command_Opcode: " ++ text] := by
    have e1 : ("    " ++ "Num_HCI_Command_Packets" ++ ": " : String)
        = "    Num_HCI_Command_Packets: " := by decide
    have e2 : ("    " ++ "Command_Opcode" ++ ": " : String) = "    Command_Opcode: " := by decide
    rw [hf]
    simp only [field_lines, field_line_level_one "Num_HCI_Command_Packets" (fmt_u n) (by decide)
      (c_str_fmt_u n), field_line_level_one "Command_Opcode" text (by decide) ht, e1, e2]
  have hraw : raw_data_lines data 5 ((L : Int) - 3) =
      .ok (if L = 3 then [] else ["    Raw Data: " ++ hex_dump bs]) := by
    by_cases h3 : L = 3
    · subst h3
      exact raw_data_lines_none data 5
    · rw [if_neg h3]
      apply raw_data_lines_ok
      · omega
      · omega
      · rw [show ((L : Int) - 3).toNat = L - 3 by omega]
        exact hbs
  simp only [print_instance, hne, if_false, hlines, hraw]

theorem command_complete_header (time_str : String) (L : Nat) (inst : HCI_INSTANCE)
    (hname : inst.name = some "Command Complete") (hop : inst.opcode = 0x0E)
    (hlen : inst.parameter_length = L) :
    event_header time_str inst =
      c_str time_str ++ " HCI Event: Command Complete(0x0e), Parameter Length: " ++ fmt_u L := by
  unfold event_header
  rw [hname, hop, hlen]
  simp only [fmt_s, String.append_assoc]
  rfl

/-- C34: a Command Complete event (code 0x0E) with at least the three octets of its
two fixed parameters whose embedded opcode does not resolve to a named command
(the resolver returns `NULL` or a slot without name). The post-processor changes
nothing: the decode yields the two fields of the generic walk, `Command_Opcode`
still `"0x%04x"` of the opcode, no field `Return Parameter`, the cursor behind the
opcode and the budget `L - 3`; the records are the header, the two field lines and,
when `L > 3`, the raw data line with the `L - 3` octets behind the opcode. -/
theorem C34_command_complete_unresolved (bo : ByteOrder) (L n o0 o1 : Nat)
    (rest bs : List Nat) (time_str : String) (hL : 3 ≤ L) (hL2 : L < 256) (hn : n < 256)
    (ho0 : o0 < 256) (ho1 : o1 < 256)
    (hnf : ∀ u, get_matched_hci_cmd_repr (assemble bo [o0, o1]) = some u → u.name = none)
    (hbs : octets_at (0x0E :: L :: n :: o0 :: o1 :: rest) 5 (L - 3) = some bs) :
    (decode_hci_event bo 0x0E L (0x0E :: L :: n :: o0 :: o1 :: rest) 2).map
        (fun st => (fields st.1, st.2)) =
      .ok ([{ name := some "Num_HCI_Command_Packets", seq_num := 0, value := fmt_u n,
              indent_level := INDENT_LEVEL_1 },
            { name := some "Command_Opcode", seq_num := 0,
              value := "0x" ++ fmt_x 4 (assemble bo [o0, o1]),
              indent_level := INDENT_LEVEL_1 }], 5, (L : Int) - 3) ∧
    parse_hci_event bo (0x0E :: L :: n :: o0 :: o1 :: rest) time_str =
      .ok ([c_str time_str ++ " HCI Event: Command Complete(0x0e), Parameter Length: " ++ fmt_u L,
            "    Num_HCI_Command_Packets: " ++ fmt_u n,
            "    Command_Opcode: " ++ ("0x" ++ fmt_x 4 (assemble bo [o0, o1]))]
        ++ (if L = 3 then [] else ["    Raw Data: " ++ hex_dump bs])) ∧
    bs.length = L - 3 := by
  have hdec : decode_hci_event bo 0x0E L (0x0E :: L :: n :: o0 :: o1 :: rest) 2 =
      .ok (command_complete_walked bo L n o0 o1, 5, (L : Int) - 3) := by
    rw [decode_command_complete bo L n o0 o1 rest hL hn ho0 ho1]
    apply command_complete_not_found
    intro u hu
    apply hnf u
    rw [← hu]
    congr 1
    exact (command_opcode_read bo o0 o1 ho0 ho1).symm
  refine ⟨?_, ?_, octets_at_length _ _ _ _ hbs⟩
  · rw [hdec]
    simp only [Except.map, command_complete_walked_fields]
  · rw [parse_hci_event_eq bo 0x0E L _ time_str (by decide) hL2, hdec]
    simp only []
    rw [print_command_complete _ _ _ L n _ bs hL hL2 (command_complete_walked_fields bo L n o0 o1)
      (hex_text_no_nul 4 _) hbs, command_complete_header time_str L _ rfl rfl rfl]

theorem C34_command_complete_unresolved_witness :
    parse_hci_event .little [0x0E, 0x04, 0x01, 0x00, 0x00, 0xAB] "T" =
      .ok ["T HCI Event: Command Complete(0x0e), Parameter Length: 4",
           "    Num_HCI_Command_Packets: 1",
           "    Command_Opcode: 0x0000",
           "    Raw Data: ab "] ∧
    get_matched_hci_cmd_repr (assemble .little [0x00, 0x00]) = none ∧
    get_matched_hci_cmd_repr (assemble .little [0x00, 0x04]) = some {} ∧
    parse_hci_event .little [0x0E, 0x03, 0x01, 0x00, 0x04] "T" =
      .ok ["T HCI Event: Command Complete(0x0e), Parameter Length: 3",
           "    Num_HCI_Command_Packets: 1",
           "    Command_Opcode: 0x0400"] :=
  ⟨(C34_command_complete_unresolved .little 4 1 0x00 0x00 [0xAB] [0xAB] "T" (by decide)
      (by decide) (by decide) (by decide) (by decide) (by decide) (by decide)).2.1.trans
    (by decide), by decide, by decide, by decide⟩

/-- C35: a Command Complete event (code 0x0E) with at least the three octets of its
two fixed parameters whose embedded opcode has the group code 0x3F in its upper 6
bits. The decode yields the two fields of the generic walk with the text of
`Command_Opcode` replaced by `"Vendor Specific Command(0x%04x)"` of the opcode
read from the packet, no field `Return Parameter`, the cursor behind the opcode
and the budget `L - 3`; the records are the header, the two field lines and, when
`L > 3`, the raw data line with the `L - 3` octets behind the opcode. -/
theorem C35_command_complete_vendor (bo : ByteOrder) (L n o0 o1 : Nat)
    (rest bs : List Nat) (time_str : String) (hL : 3 ≤ L) (hL2 : L < 256) (hn : n < 256)
    (ho0 : o0 < 256) (ho1 : o1 < 256) (hg : assemble bo [o0, o1] / 1024 = 0x3F)
    (hbs : octets_at (0x0E :: L :: n :: o0 :: o1 :: rest) 5 (L - 3) = some bs) :
    (decode_hci_event bo 0x0E L (0x0E :: L :: n :: o0 :: o1 :: rest) 2).map
        (fun st => (fields st.1, st.2)) =
      .ok ([{ name := some "Num_HCI_Command_Packets", seq_num := 0, value := fmt_u n,
              indent_level := INDENT_LEVEL_1 },
            { name := some "Command_Opcode", seq_num := 0,
              value := "Vendor Specific Command(0x" ++ fmt_x 4 (assemble bo [o0, o1]) ++ ")",
              indent_level := INDENT_LEVEL_1 }], 5, (L : Int) - 3) ∧
    parse_hci_event bo (0x0E :: L :: n :: o0 :: o1 :: rest) time_str =
      .ok ([c_str time_str ++ " HCI Event: Command Complete(0x0e), Parameter Length: " ++ fmt_u L,
            "    Num_HCI_Command_Packets: " ++ fmt_u n,
            "    Command_Opcode: "
              ++ ("Vendor Specific Command(0x" ++ fmt_x 4 (assemble bo [o0, o1]) ++ ")")]
        ++ (if L = 3 then [] else ["    Raw Data: " ++ hex_dump bs])) ∧
    bs.length = L - 3 := by
  have hv := assemble_two_lt bo o0 o1 ho0 ho1
  have hu : get_matched_hci_cmd_repr (assemble bo [o0, o1]) = some VENDOR_SPECIFIC_COMMAND_0x0000 := by
    rw [get_matched_hci_cmd_repr_eq _ hv]
    simp only [hg]
    rfl
  have hrd : to_uint16 (strtol ((command_complete_walked bo L n o0 o1).value 1).value)
      = assemble bo [o0, o1] := command_opcode_read bo o0 o1 ho0 ho1
  have htext : c_str ("Vendor Specific Command(0x" ++ fmt_x 4 (assemble bo [o0, o1]) ++ ")")
      = "Vendor Specific Command(0x" ++ fmt_x 4 (assemble bo [o0, o1]) ++ ")" :=
    c_str_append _ _ (c_str_append _ _ (by decide) (fmt_x_no_nul 4 _)) (by decide)
  have hne : ("Vendor Specific Command(0x" ++ fmt_x 4 (assemble bo [o0, o1]) ++ ")").data ≠ [] := by
    rw [String.append_assoc]
    exact append_data_ne _ _ (by decide)
  have hdec : decode_hci_event bo 0x0E L (0x0E :: L :: n :: o0 :: o1 :: rest) 2 =
      .ok (with_value (command_complete_walked bo L n o0 o1) 1 (fun v =>
        { v with value := "Vendor Specific Command(0x" ++ fmt_x 4 (assemble bo [o0, o1]) ++ ")" }),
        5, (L : Int) - 3) := by
    rw [decode_command_complete bo L n o0 o1 rest hL hn ho0 ho1,
      command_complete_no_return bo _ _ 5 _ VENDOR_SPECIFIC_COMMAND_0x0000 (by rw [hrd]; exact hu)
        (by decide) rfl, hrd]
    have e : fmt_s VENDOR_SPECIFIC_COMMAND_0x0000.name ++ "(0x" = "Vendor Specific Command(0x" := by
      decide
    simp only [e, sprintf_into_of_ne _ _ hne]
  have hfields : fields (with_value (command_complete_walked bo L n o0 o1) 1 (fun v =>
        { v with value := "Vendor Specific Command(0x" ++ fmt_x 4 (assemble bo [o0, o1]) ++ ")" }))
      = [{ name := some "Num_HCI_Command_Packets", seq_num := 0, value := fmt_u n,
              indent_level := INDENT_LEVEL_1 },
            { name := some "Command_Opcode", seq_num := 0,
              value := "Vendor Specific Command(0x" ++ fmt_x 4 (assemble bo [o0, o1]) ++ ")",
              indent_level := INDENT_LEVEL_1 }] := by
    rfl
  refine ⟨?_, ?_, octets_at_length _ _ _ _ hbs⟩
  · rw [hdec]
    simp only [Except.map, hfields]
  · rw [parse_hci_event_eq bo 0x0E L _ time_str (by decide) hL2, hdec]
    simp only []
    rw [print_command_complete _ _ _ L n _ bs hL hL2 hfields htext hbs,
      command_complete_header time_str L _ rfl rfl rfl]

theorem C35_command_complete_vendor_witness :
    parse_hci_event .little [0x0E, 0x06, 0x01, 0x6F, 0xFC, 0x00, 0x01, 0x02] "T" =
      .ok ["T HCI Event: Command Complete(0x0e), Parameter Length: 6",
           "    Num_HCI_Command_Packets: 1",
           "    Command_Opcode: Vendor Specific Command(0xfc6f)",
           "    Raw Data: 00 01 02 "] :=
  (C35_command_complete_vendor .little 6 1 0x6F 0xFC [0x00, 0x01, 0x02] [0x00, 0x01, 0x02] "T"
    (by decide) (by decide) (by decide) (by decide) (by decide) (by decide)
    (by decide)).2.1.trans (by decide)

/-! ### The lines of the multi-line output -/

theorem line_indent_eq (k : Nat) (h : k ≤ 4) :
    line_indent k = .ok (String.mk (List.replicate (4 * k) ' ')) := by
  interval_cases k <;> decide

theorem field_line_eq (f : HCI_PARAM_VALUE) (h : f.indent_level ≤ 4) :
    field_line f = .ok (field_line_text f) := by
  unfold field_line field_line_text
  rw [line_indent_eq _ h]
  simp only []
  split_ifs with hs
  · simp only [String.append_assoc]
  · simp only [String.append_assoc, String.append_empty, String.empty_append]

theorem field_lines_eq (fs : List HCI_PARAM_VALUE) (h : ∀ f ∈ fs, f.indent_level ≤ 4) :
    field_lines fs = .ok (fs.map field_line_text) := by
  induction fs with
  | nil => rfl
  | cons f fs ih =>
    simp only [field_lines, field_line_eq f (h f (List.mem_cons_self _ _)),
      ih (fun g hg => h g (List.mem_cons_of_mem _ hg)), List.map_cons]

theorem print_instance_eq (header : String) (inst : HCI_INSTANCE) (data : List Nat)
    (pos left_len : Int) (raw : List String) (h : ∀ f ∈ fields inst, f.indent_level ≤ 4)
    (hraw : raw_data_lines data pos left_len = .ok raw) :
    print_instance header inst data pos left_len =
      .ok (header :: (fields inst).map field_line_text ++ raw) := by
  unfold print_instance
  split_ifs with h0
  · have hf : fields inst = [] := by
      simp only [fields, h0.1, List.range_zero, List.map_nil]
    have hr : raw = [] := by
      rw [h0.2, raw_data_lines_none] at hraw
      simp only [Except.ok.injEq] at hraw
      exact hraw.symm
    rw [hf, hr]
    rfl
  · simp only [field_lines_eq _ h, hraw]

/-- A property of the walk state that every successful `parse_parameter` keeps is
kept by the innermost loop. -/
theorem repeat_unit_invariant (bo : ByteOrder) (ds : List HCI_PARAMETER_REPR) (i : Nat)
    (seq : Int) (data : List Nat) (indent : Nat) (P : WalkState → Prop)
    (hstep : ∀ inst pos left d sq st, P (inst, pos, left) →
      parse_parameter bo inst d sq data pos left indent = .ok st → P st) :
    ∀ (n idx : Nat) (st0 st : WalkState), P st0 →
      repeat_unit bo ds i seq data indent n idx st0 = .ok st → P st := by
  intro n
  induction n with
  | zero =>
    intro idx st0 st hP h
    rw [repeat_unit_zero, Except.ok.injEq] at h
    subst h
    exact hP
  | succ n ih =>
    intro idx st0 st hP h
    obtain ⟨inst, pos, left⟩ := st0
    rw [repeat_unit_succ] at h
    split_ifs at h with hl
    · split at h
      · cases h
      · rename_i d hd
        split at h
        · cases h
        · rename_i st1 hp
          exact ih (idx + 1) st1 st (hstep inst pos left d seq st1 hP hp) h
    · simp only [Except.ok.injEq] at h
      subst h
      exact hP

theorem repeat_units_invariant (bo : ByteOrder) (ds : List HCI_PARAMETER_REPR) (i rp : Nat)
    (data : List Nat) (indent : Nat) (P : WalkState → Prop)
    (hstep : ∀ inst pos left d sq st, P (inst, pos, left) →
      parse_parameter bo inst d sq data pos left indent = .ok st → P st) :
    ∀ (n : Nat) (r : Int) (st0 st : WalkState), P st0 →
      repeat_units bo ds i rp data indent n r st0 = .ok st → P st := by
  intro n
  induction n with
  | zero =>
    intro r st0 st hP h
    rw [repeat_units_zero, Except.ok.injEq] at h
    subst h
    exact hP
  | succ n ih =>
    intro r st0 st hP h
    obtain ⟨inst, pos, left⟩ := st0
    rw [repeat_units_succ] at h
    split_ifs at h with hl
    · split at h
      · cases h
      · rename_i st1 hp
        exact ih (r + 1) st1 st
          (repeat_unit_invariant bo ds i (r + 1) data indent P hstep rp 1 (inst, pos, left) st1
            hP hp) h
    · simp only [Except.ok.injEq] at h
      subst h
      exact hP

theorem walk_parameters_invariant (bo : ByteOrder) (ds : List HCI_PARAMETER_REPR) (pc : Nat)
    (data : List Nat) (indent : Nat) (P : WalkState → Prop)
    (hstep : ∀ inst pos left d sq st, P (inst, pos, left) →
      parse_parameter bo inst d sq data pos left indent = .ok st → P st) :
    ∀ (fuel i : Nat) (st0 st : WalkState), P st0 →
      walk_parameters bo ds pc data indent fuel i st0 = .ok st → P st := by
  intro fuel
  induction fuel with
  | zero =>
    intro i st0 st hP h
    have e : walk_parameters bo ds pc data indent 0 i st0 = .ok st0 := rfl
    rw [e, Except.ok.injEq] at h
    subst h
    exact hP
  | succ fuel ih =>
    intro i st0 st hP h
    obtain ⟨inst, pos, left⟩ := st0
    rw [walk_parameters_succ] at h
    split_ifs at h with hl
    · split at h
      · cases h
      · rename_i d hd
        split at h
        · cases h
        · rename_i inst1 pos1 left1 hp
          have h1 := hstep inst pos left d 0 (inst1, pos1, left1) hP hp
          split_ifs at h with hrep
          · exact ih (i + 1) (inst1, pos1, left1) st h1 h
          · split at h
            · cases h
            · rename_i cv hcv
              split at h
              · cases h
              · rename_i st2 hru
                exact ih _ st2 st
                  (repeat_units_invariant bo ds i d.repeat_param_num.toNat data indent P hstep _ 0
                    (inst1, pos1, left1) st2 h1 hru) h
    · simp only [Except.ok.injEq] at h
      subst h
      exact hP

/-- Every field that `parse_hci_instance` adds carries the indent level passed in;
the fields written before are kept. -/
theorem parse_hci_instance_indent (bo : ByteOrder) (inst : HCI_INSTANCE)
    (ds : List HCI_PARAMETER_REPR) (pc : Nat) (data : List Nat) (pos left : Int) (indent : Nat)
    (st : WalkState) (h : parse_hci_instance bo inst ds pc data pos left indent = .ok st) :
    inst.value_index ≤ st.1.value_index ∧
      (∀ j, j < inst.value_index → st.1.value j = inst.value j) ∧
      ∀ j, inst.value_index ≤ j → j < st.1.value_index →
        (st.1.value j).indent_level = indent := by
  have hP := walk_parameters_invariant bo ds pc data indent
    (fun s => inst.value_index ≤ s.1.value_index ∧
      (∀ j, j < inst.value_index → s.1.value j = inst.value j) ∧
      ∀ j, inst.value_index ≤ j → j < s.1.value_index → (s.1.value j).indent_level = indent)
    (by
      intro i0 p0 l0 d sq s1 hP hp
      obtain ⟨hvi, hi, _, _, hind, hj⟩ := parse_parameter_ok_inv bo i0 d sq data p0 l0 indent s1 hp
      simp only at hP
      refine ⟨by omega, fun j hjm => ?_, fun j hj1 hj2 => ?_⟩
      · rw [hj j (by omega)]
        exact hP.2.1 j hjm
      · by_cases e : j = i0.value_index
        · rw [e]
          exact hind
        · rw [hj j e]
          exact hP.2.2 j hj1 (by omega))
    pc 0 (inst, pos, left) st ⟨le_refl _, fun _ _ => rfl, fun j h1 h2 => absurd h2 (by
      simp only
      omega)⟩ h
  exact hP

/-- A command other than `HCI_Set_Event_Filter`: every field is at indent level 1. -/
theorem decode_hci_command_indent (bo : ByteOrder) (u : HCI_UNIT_REPR) (opcode length : Nat)
    (data : List Nat) (pos : Int) (st : WalkState) (hu : u.opcode ≠ 0x0C05)
    (h : decode_hci_command bo u opcode length data pos = .ok st) :
    ∀ j, j < st.1.value_index → (st.1.value j).indent_level = INDENT_LEVEL_1 := by
  unfold decode_hci_command at h
  simp only [hu, if_false] at h
  split at h
  · cases h
  · rename_i st1 hw
    simp only [Except.ok.injEq] at h
    subst h
    split_ifs at hw with hc
    · have hi := parse_hci_instance_indent bo _ _ _ _ _ _ _ _ hw
      intro j hj
      exact hi.2.2 j (Nat.zero_le _) hj
    · simp only [Except.ok.injEq] at hw
      subst hw
      intro j hj
      exact absurd hj (Nat.not_lt_zero _)

theorem command_complete_indent (bo : ByteOrder) (data : List Nat) (st0 st : WalkState)
    (hvi : st0.1.value_index = 2)
    (h0 : ∀ j, j < st0.1.value_index → (st0.1.value j).indent_level = INDENT_LEVEL_1)
    (h : command_complete bo data st0 = .ok st) :
    ∀ j, j < st.1.value_index →
      (st.1.value j).indent_level = if 3 ≤ j then INDENT_LEVEL_2 else INDENT_LEVEL_1 := by
  have hkeep : st = st0 → ∀ j, j < st.1.value_index →
      (st.1.value j).indent_level = if 3 ≤ j then INDENT_LEVEL_2 else INDENT_LEVEL_1 := by
    intro e j hj
    rw [e] at hj ⊢
    rw [if_neg (by omega)]
    exact h0 j hj
  obtain ⟨inst, pos, left⟩ := st0
  simp only at hvi h0
  unfold command_complete at h
  rw [value_at_int inst 1 (by decide) (by decide)] at h
  simp only [show (1 : Int).toNat = 1 from rfl] at h
  split at h
  · simp only [Except.ok.injEq] at h
    exact hkeep h.symm
  · rename_i u hu
    split_ifs at h with hn hR
    · simp only [Except.ok.injEq] at h
      exact hkeep h.symm
    · unfold set_value at h
      rw [value_update_int inst 1 _ (by decide) (by decide)] at h
      simp only [show (1 : Int).toNat = 1 from rfl] at h
      rw [value_update_ok _ _ _ (show (with_value inst 1 _).value_index < MAX_HCI_PARAM_NUM by
        show inst.value_index < MAX_HCI_PARAM_NUM
        rw [hvi]
        decide)] at h
      simp only [] at h
      have hi := parse_hci_instance_indent bo _ _ _ _ _ _ _ _ h
      simp only [with_value, hvi] at hi
      intro j hj
      by_cases h3 : 3 ≤ j
      · rw [if_pos h3]
        exact hi.2.2 j h3 hj
      · rw [if_neg h3, hi.2.1 j (by omega)]
        have hj2 : j < 3 := by omega
        interval_cases j
        · simp only [OfNat.zero_ne_ofNat, if_false, zero_ne_one]
          exact h0 0 (by omega)
        · simp only [OfNat.one_ne_ofNat, if_false, if_true]
          exact h0 1 (by omega)
        · simp only [if_true]
    · unfold set_value at h
      rw [value_update_int inst 1 _ (by decide) (by decide)] at h
      simp only [show (1 : Int).toNat = 1 from rfl, Except.ok.injEq] at h
      subst h
      intro j hj
      have hj2 : j < 2 := by
        rw [← hvi]
        exact hj
      rw [if_neg (by omega)]
      simp only [with_value]
      split_ifs with e
      · subst e
        exact h0 1 (by omega)
      · exact h0 j (by omega)

theorem command_status_indent (st0 st : WalkState)
    (h0 : ∀ j, j < st0.1.value_index → (st0.1.value j).indent_level = INDENT_LEVEL_1)
    (h : command_status st0 = .ok st) :
    ∀ j, j < st.1.value_index → (st.1.value j).indent_level = INDENT_LEVEL_1 := by
  obtain ⟨inst, pos, left⟩ := st0
  simp only at h0
  unfold command_status at h
  rw [value_at_int inst 2 (by decide) (by decide)] at h
  simp only [show (2 : Int).toNat = 2 from rfl] at h
  split at h
  · simp only [Except.ok.injEq] at h
    subst h
    exact h0
  · split_ifs at h with hn
    · simp only [Except.ok.injEq] at h
      subst h
      exact h0
    · unfold set_value at h
      rw [value_update_int inst 2 _ (by decide) (by decide)] at h
      simp only [show (2 : Int).toNat = 2 from rfl, Except.ok.injEq] at h
      subst h
      intro j hj
      simp only [with_value]
      split_ifs with e
      · subst e
        exact h0 2 hj
      · exact h0 j hj

theorem le_meta_event_indent (bo : ByteOrder) (data : List Nat) (st0 st : WalkState)
    (h0 : ∀ j, j < st0.1.value_index → (st0.1.value j).indent_level = INDENT_LEVEL_1)
    (h : le_meta_event bo data st0 = .ok st) :
    ∀ j, j < st.1.value_index → (st.1.value j).indent_level = INDENT_LEVEL_1 := by
  obtain ⟨inst, pos, left⟩ := st0
  simp only at h0
  unfold le_meta_event at h
  split at h
  · cases h
  · rename_i s pos1 hs
    by_cases hgt : s > HCI_LE_META_EVENT_SUBEVENT_NUMBER
    · rw [if_pos hgt] at h
      cases h
    · rw [if_neg hgt] at h
      simp only [] at h
      split at h
      · cases h
      · rename_i inst1 hpush
        have hvi : inst.value_index < MAX_HCI_PARAM_NUM := by
          by_contra hc
          unfold push_value at hpush
          have h1 : ¬ ((0 : Int) ≤ (inst.value_index : Int) ∧
              (inst.value_index : Int) < (MAX_HCI_PARAM_NUM : Nat)) := by
            intro h2
            exact hc (by exact_mod_cast h2.2)
          simp only [value_update, h1, if_false] at hpush
          cases hpush
        rw [push_value_ok inst _ _ _ hvi, Except.ok.injEq] at hpush
        subst hpush
        have hi := parse_hci_instance_indent bo _ _ _ _ _ _ _ _ h
        simp only [append_field] at hi
        intro j hj
        by_cases hlt : j < inst.value_index + 1
        · rw [hi.2.1 j hlt]
          split_ifs with e
          · rfl
          · exact h0 j (by omega)
        · exact hi.2.2 j (by omega) hj

/-- An event with a code inside the table: every field is at indent level 1,
except the return parameters of a Command Complete event, which follow the three
fields `Num_HCI_Command_Packets`, `Command_Opcode` and `Return Parameter` and are
at indent level 2. -/
theorem decode_hci_event_indent (bo : ByteOrder) (eventcode length : Nat) (data : List Nat)
    (pos : Int) (st : WalkState) (h : decode_hci_event bo eventcode length data pos = .ok st) :
    ∀ j, j < st.1.value_index →
      (st.1.value j).indent_level =
        if eventcode = 0x0E ∧ 3 ≤ j then INDENT_LEVEL_2 else INDENT_LEVEL_1 := by
  unfold decode_hci_event at h
  simp only [] at h
  split at h
  · cases h
  · rename_i st1 hw
    have hi := parse_hci_instance_indent bo _ _ _ _ _ _ _ _ hw
    have h1 : ∀ j, j < st1.1.value_index → (st1.1.value j).indent_level = INDENT_LEVEL_1 :=
      fun j hj => hi.2.2 j (Nat.zero_le _) hj
    by_cases hE : eventcode = 0x0E
    · subst hE
      simp only [if_true] at h
      have hvi : st1.1.value_index = 2 := by
        have hslot : table_slot HCI_EVENTS 0x0E = HCI_EVENTS_0x0e := by decide
        rw [hslot] at hw
        obtain ⟨inst1, pos1, left1⟩ := st1
        have hp := walk_plain bo HCI_EVENTS_0x0e.parameter data INDENT_LEVEL_1 (by decide)
          (by decide) (by decide) 2 0 _ pos length (inst1, pos1, left1) (by decide)
          (Int.natCast_nonneg _) hw
        have hlen := congrArg List.length hp.1
        simp only [List.length_map, fields_length, List.length_append, List.drop_zero] at hlen
        rw [hlen]
        rfl
      intro j hj
      have := command_complete_indent bo data st1 st hvi h1 h j hj
      simp only [true_and]
      exact this
    · simp only [hE, if_false, false_and] at h ⊢
      split_ifs at h with h2 h3 h4
      · exact command_status_indent st1 st h1 h
      · simp only [Except.ok.injEq] at h
        subst h
        exact h1
      · exact le_meta_event_indent bo data st1 st h1 h
      · simp only [Except.ok.injEq] at h
        subst h
        exact h1

/-- The records of `parse_hci_command` for an opcode that resolves to a named command. -/
theorem parse_hci_command_eq (bo : ByteOrder) (h0 h1 L : Nat) (rest : List Nat)
    (time_str : String) (u : HCI_UNIT_REPR) (hh0 : h0 < 256) (hh1 : h1 < 256) (hL : L < 256)
    (hu : get_matched_hci_cmd_repr (assemble bo [h0, h1]) = some u) (hname : u.name ≠ none) :
    parse_hci_command bo (h0 :: h1 :: L :: rest) time_str =
      match decode_hci_command bo u (assemble bo [h0, h1]) L (h0 :: h1 :: L :: rest) 3 with
      | .error e => .error e
      | .ok (hci_command, pos3, left_len) =>
        print_instance (command_header time_str hci_command) hci_command (h0 :: h1 :: L :: rest)
          pos3 left_len := by
  have e0 : STREAM_TO_UINT bo 2 (h0 :: h1 :: L :: rest) 0 = .ok (assemble bo [h0, h1], 0 + 2) := by
    simp [STREAM_TO_UINT, octets_at, octet_at, Nat.mod_eq_of_lt hh0, Nat.mod_eq_of_lt hh1]
  have e1 : STREAM_TO_UINT8 (h0 :: h1 :: L :: rest) (0 + 2) = .ok (L, 0 + 2 + 1) := by
    simp [STREAM_TO_UINT8, octet_at, Nat.mod_eq_of_lt hL]
  unfold parse_hci_command
  rw [e0]
  simp only [e1, hu, hname, if_false]
  rfl

set_option maxRecDepth 100000 in
/-- C31: the multi-line output. (1) The formatter that ends `parse_hci_command` and
`parse_hci_event` logs, for an instance whose fields have indent levels inside
`LINE_INDENT` (at most 4), the header, then for every field in list order the line
`field_line_text`: four spaces per indent level, `"[n] "` exactly when the
sequence number `n` is above 0, then `"<name>: <value>"`; then the raw data line,
if any. (2) Every field of a command other than `HCI_Set_Event_Filter` is at
indent level 1, and the records of the command are these lines. (3) Every field
of an event is at indent level 1, except the return parameters of a Command
Complete event (the fields behind the third), which are at indent level 2, and
the records of the event are these lines. -/
theorem C31_field_lines :
    (∀ (header : String) (inst : HCI_INSTANCE) (data : List Nat) (pos left_len : Int)
        (raw : List String), (∀ f ∈ fields inst, f.indent_level ≤ 4) →
      raw_data_lines data pos left_len = .ok raw →
      print_instance header inst data pos left_len =
        .ok (header :: (fields inst).map field_line_text ++ raw)) ∧
    (∀ (bo : ByteOrder) (h0 h1 L : Nat) (rest : List Nat) (time_str : String)
        (u : HCI_UNIT_REPR) (st : WalkState) (raw : List String),
      h0 < 256 → h1 < 256 → L < 256 →
      get_matched_hci_cmd_repr (assemble bo [h0, h1]) = some u → u.name ≠ none →
      u.opcode ≠ 0x0C05 →
      decode_hci_command bo u (assemble bo [h0, h1]) L (h0 :: h1 :: L :: rest) 3 = .ok st →
      raw_data_lines (h0 :: h1 :: L :: rest) st.2.1 st.2.2 = .ok raw →
      (∀ j, j < st.1.value_index → (st.1.value j).indent_level = INDENT_LEVEL_1) ∧
      parse_hci_command bo (h0 :: h1 :: L :: rest) time_str =
        .ok (command_header time_str st.1 :: (fields st.1).map field_line_text ++ raw)) ∧
    (∀ (bo : ByteOrder) (eventcode L : Nat) (rest : List Nat) (time_str : String)
        (st : WalkState) (raw : List String),
      eventcode ≤ HCI_EVENT_NUMBER → L < 256 →
      decode_hci_event bo eventcode L (eventcode :: L :: rest) 2 = .ok st →
      raw_data_lines (eventcode :: L :: rest) st.2.1 st.2.2 = .ok raw →
      (∀ j, j < st.1.value_index →
        (st.1.value j).indent_level =
          if eventcode = 0x0E ∧ 3 ≤ j then INDENT_LEVEL_2 else INDENT_LEVEL_1) ∧
      parse_hci_event bo (eventcode :: L :: rest) time_str =
        .ok (event_header time_str st.1 :: (fields st.1).map field_line_text ++ raw)) ∧
    parse_hci_event .little
        [0x13, 0x09, 0x02, 0x01, 0x00, 0x03, 0x00, 0x02, 0x00, 0x05, 0x00] "T" =
      .ok ["T HCI Event: Number Of Completed Packets(0x13), Parameter Length: 9",
           "    Number_of_Handles: 2",
           "    [1] Connection_Handle: (0x0001) 1",
           "    [1] HC_Num_Of_Completed_Packet: 3",
           "    [2] Connection_Handle: (0x0002) 2",
           "    [2] HC_Num_Of_Completed_Packet: 5"] ∧
    parse_hci_event .little
        [0x0E, 0x0C, 0x01, 0x09, 0x10, 0x00, 0x11, 0x22, 0x33, 0x44, 0x55, 0x66, 0x77, 0x88]
        "T" =
      .ok ["T HCI Event: Command Complete(0x0e), Parameter Length: 12",
           "    Num_HCI_Command_Packets: 1",
           "    Command_Opcode: HCI_Read_BD_ADDR(0x1009)",
           "    Return Parameter: ",
           "        Status: (0x00) Success",
           "        BD_ADDR: 0x66-55-44-33-22-11",
           "    Raw Data: 77 88 "] := by
  refine ⟨fun header inst data pos left_len raw h hraw =>
    print_instance_eq header inst data pos left_len raw h hraw, ?_, ?_, by decide, by decide⟩
  · intro bo h0 h1 L rest time_str u st raw hh0 hh1 hL hu hname hop hdec hraw
    have hind := decode_hci_command_indent bo u _ L _ 3 st hop hdec
    refine ⟨hind, ?_⟩
    rw [parse_hci_command_eq bo h0 h1 L rest time_str u hh0 hh1 hL hu hname, hdec]
    obtain ⟨inst, pos3, left⟩ := st
    simp only [] at hraw hind ⊢
    apply print_instance_eq _ _ _ _ _ _ _ hraw
    intro f hf
    simp only [fields, List.mem_map, List.mem_range] at hf
    obtain ⟨j, hj, rfl⟩ := hf
    rw [hind j hj]
    decide
  · intro bo eventcode L rest time_str st raw hec hL hdec hraw
    have hind := decode_hci_event_indent bo eventcode L _ 2 st hdec
    refine ⟨hind, ?_⟩
    rw [parse_hci_event_eq bo eventcode L rest time_str hec hL, hdec]
    obtain ⟨inst, pos3, left⟩ := st
    simp only [] at hraw hind ⊢
    apply print_instance_eq _ _ _ _ _ _ _ hraw
    intro f hf
    simp only [fields, List.mem_map, List.mem_range] at hf
    obtain ⟨j, hj, rfl⟩ := hf
    rw [hind j hj]
    split_ifs <;> decide

/-- C31, the failing input: `HCI_Set_Event_Filter` with filter type 0x02 and
condition type 0x02. The slot of the auto accept flag keeps the indent level 0 of
the cleared instance, so this top-level parameter is logged at the left margin
and not at indent level 1. -/
theorem C31_flag_line_not_indented :
    (decode_hci_command .big HCI_CONTROLLER_BASEBAND_COMMANDS_0x0005 0x0C05 9
        [0x0C, 0x05, 0x09, 0x02, 0x02, 0x11, 0x22, 0x33, 0x44, 0x55, 0x66, 0x02] 3).map
        (fun st => (fields st.1).map (fun f => f.indent_level)) = .ok [1, 1, 1, 0] ∧
    parse_hci_command .big
        [0x0C, 0x05, 0x09, 0x02, 0x02, 0x11, 0x22, 0x33, 0x44, 0x55, 0x66, 0x02] "T" =
      .ok ["T HCI Command: HCI_Set_Event_Filter(0x0c05), Parameter Length: 9",
           "    Filter_Type: (0x02) Connection Setup.",
           "    Connection_Setup_Filter_Condition_Type: (0x02) Allow Connections from a device with a specific BD_ADDR",
           "    BD_ADDR: 0x66-55-44-33-22-11",
           "(null): (0x02) Do Auto accept the connection with role switch disabled (Auto accept is on)."] ∧
    (decode_hci_command .little HCI_CONTROLLER_BASEBAND_COMMANDS_0x0005 0x0C05 9
        [0x05, 0x0C, 0x09, 0x02, 0x02, 0x11, 0x22, 0x33, 0x44, 0x55, 0x66, 0x02] 3).map
        (fun st => (fields st.1).map (fun f => f.indent_level)) = .ok [1, 1, 1, 0] := by
  refine ⟨by decide, by decide, by decide⟩

/-! ### HCI_Set_Event_Filter of exact length -/

theorem decoded_without_rest (bo : ByteOrder) (h0 h1 L : Nat) (body : List Nat)
    (time_str : String) (inst : HCI_INSTANCE) (count : Nat) (hh0 : h0 < 256) (hh1 : h1 < 256)
    (hL : L < 256) (hop : assemble bo [h0, h1] = 0x0C05)
    (hdec : decode_hci_command bo HCI_CONTROLLER_BASEBAND_COMMANDS_0x0005 0x0C05 L
      (h0 :: h1 :: L :: body) 3 = .ok (inst, 3 + (L : Int), 0))
    (hvi : inst.value_index = count) (hind : ∀ f ∈ fields inst, f.indent_level ≤ 4) :
    DecodedWithoutRest bo h0 h1 L body time_str count := by
  refine ⟨inst, hdec, hvi, ?_⟩
  have hu : get_matched_hci_cmd_repr (assemble bo [h0, h1])
      = some HCI_CONTROLLER_BASEBAND_COMMANDS_0x0005 := by
    rw [hop]
    decide
  rw [parse_hci_command_eq bo h0 h1 L body time_str _ hh0 hh1 hL hu (by decide), hop, hdec]
  simp only []
  rw [print_instance_eq _ _ _ _ _ [] hind (raw_data_lines_none _ _), List.append_nil]

theorem level_le_four (fs : List HCI_PARAM_VALUE) (h : fs.all (fun f => decide (f.indent_level ≤ 4)) = true) :
    ∀ f ∈ fs, f.indent_level ≤ 4 := by
  intro f hf
  have := List.all_eq_true.mp h f hf
  exact of_decide_eq_true this

/-- C36: an `HCI_Set_Event_Filter` command (opcode 0x0C05) whose length octet is the
size of the structure its octets select: 1 for filter type 0x00; 2, 8 and 8 for
filter type 0x01 with the condition types 0x00, 0x01 and 0x02; 3, 9 and 9 for
filter type 0x02 with the condition types 0x00, 0x01 and 0x02. For every payload
and whatever follows in the buffer, the decode ends with the cursor behind the
parameter octets and a budget of 0, and the records are the header and one line
per field: there is no raw data line. -/
theorem C36_set_event_filter_exact_length (bo : ByteOrder)
    (h0 h1 c0 c1 c2 m0 m1 m2 a0 a1 a2 a3 a4 a5 f : Nat) (rest : List Nat) (time_str : String)
    (hh0 : h0 < 256) (hh1 : h1 < 256) (hop : assemble bo [h0, h1] = 0x0C05) :
    DecodedWithoutRest bo h0 h1 1 (0x00 :: rest) time_str 1 ∧
    DecodedWithoutRest bo h0 h1 2 (0x01 :: 0x00 :: rest) time_str 2 ∧
    DecodedWithoutRest bo h0 h1 8 (0x01 :: 0x01 :: c0 :: c1 :: c2 :: m0 :: m1 :: m2 :: rest) time_str 4 ∧
    DecodedWithoutRest bo h0 h1 8 (0x01 :: 0x02 :: a0 :: a1 :: a2 :: a3 :: a4 :: a5 :: rest) time_str 3 ∧
    DecodedWithoutRest bo h0 h1 3 (0x02 :: 0x00 :: f :: rest) time_str 3 ∧
    DecodedWithoutRest bo h0 h1 9 (0x02 :: 0x01 :: c0 :: c1 :: c2 :: m0 :: m1 :: m2 :: f :: rest) time_str 5 ∧
    DecodedWithoutRest bo h0 h1 9 (0x02 :: 0x02 :: a0 :: a1 :: a2 :: a3 :: a4 :: a5 :: f :: rest) time_str 4 := by
  refine ⟨?_, ?_, ?_, ?_, ?_, ?_, ?_⟩
  · refine decoded_without_rest bo h0 h1 1 (0x00 :: rest) time_str ?inst1 1 hh0 hh1 (by decide) hop
      ?hdec ?hvi ?hind
    case hdec =>
      show decode_hci_command bo _ 0x0C05 (0 + 1) (h0 :: h1 :: 1 :: 0x00 :: rest) 3 = _
      rw [decode_set_event_filter bo 0 h0 h1 1 0x00 _ (by decide),
        set_event_filter_clear bo _ _ _ _ _ (show 0 + 1 ≤ MAX_HCI_PARAM_NUM by decide) rfl]
      have e1 : (3 : Int) + 1 = 3 + ((1 : Nat) : Int) := by norm_num
      have e2 : ((0 + 1 : Nat) : Int) - 1 = 0 := by norm_num
      rw [e1, e2]
      exact rfl
    case hvi => rfl
    case hind =>
      exact level_le_four _ (by
        simp only [fields_append_field, fields_new_instance, List.nil_append, List.cons_append,
          List.singleton_append]
        rfl)
  · refine decoded_without_rest bo h0 h1 2 (0x01 :: 0x00 :: rest) time_str ?inst2 2 hh0 hh1 (by decide) hop
      ?hdec ?hvi ?hind
    case hdec =>
      show decode_hci_command bo _ 0x0C05 (1 + 1) (h0 :: h1 :: 2 :: 0x01 :: 0x00 :: rest) 3 = _
      have hct : STREAM_TO_UINT8 (h0 :: h1 :: 2 :: 0x01 :: 0x00 :: rest) (3 + 1) = .ok (0x00, 3 + 1 + 1) := by
        simp [STREAM_TO_UINT8, octet_at]
      rw [decode_set_event_filter bo 1 h0 h1 2 0x01 _ (by decide),
        set_event_filter_inquiry_all bo _ _ _ _ _ (show 0 + 2 ≤ MAX_HCI_PARAM_NUM by decide)
          (fresh_new_instance _ _ _ _) rfl hct]
      have e1 : (3 : Int) + 1 + 1 = 3 + ((2 : Nat) : Int) := by norm_num
      have e2 : ((1 + 1 : Nat) : Int) - 1 - 1 = 0 := by norm_num
      rw [e1, e2]
      exact rfl
    case hvi => rfl
    case hind =>
      exact level_le_four _ (by
        simp only [fields_append_field, fields_new_instance, List.nil_append, List.cons_append,
          List.singleton_append]
        rfl)
  · refine decoded_without_rest bo h0 h1 8 (0x01 :: 0x01 :: c0 :: c1 :: c2 :: m0 :: m1 :: m2 :: rest) time_str ?inst3 4 hh0 hh1 (by decide) hop
      ?hdec ?hvi ?hind
    case hdec =>
      show decode_hci_command bo _ 0x0C05 (7 + 1) (h0 :: h1 :: 8 :: 0x01 :: 0x01 :: c0 :: c1 :: c2 :: m0 :: m1 :: m2 :: rest) 3 = _
      have hct : STREAM_TO_UINT8 (h0 :: h1 :: 8 :: 0x01 :: 0x01 :: c0 :: c1 :: c2 :: m0 :: m1 :: m2 :: rest) (3 + 1) = .ok (0x01, 3 + 1 + 1) := by
        simp [STREAM_TO_UINT8, octet_at]
      have hc : STREAM_TO_UINT bo 3 (h0 :: h1 :: 8 :: 0x01 :: 0x01 :: c0 :: c1 :: c2 :: m0 :: m1 :: m2 :: rest) (3 + 1 + 1)
          = .ok (assemble bo [c0 % 256, c1 % 256, c2 % 256], 3 + 1 + 1 + 3) := by
        simp [STREAM_TO_UINT, octets_at, octet_at]
      have hm : STREAM_TO_UINT bo 3 (h0 :: h1 :: 8 :: 0x01 :: 0x01 :: c0 :: c1 :: c2 :: m0 :: m1 :: m2 :: rest) (3 + 1 + 1 + 3)
          = .ok (assemble bo [m0 % 256, m1 % 256, m2 % 256], 3 + 1 + 1 + 3 + 3) := by
        simp [STREAM_TO_UINT, octets_at, octet_at]
      rw [decode_set_event_filter bo 7 h0 h1 8 0x01 _ (by decide),
        set_event_filter_inquiry_class bo _ _ _ _ _ _ _ (show 0 + 4 ≤ MAX_HCI_PARAM_NUM by decide)
          (fresh_new_instance _ _ _ _) rfl hct hc hm]
      have e1 : (3 : Int) + 1 + 1 + 3 + 3 = 3 + ((8 : Nat) : Int) := by norm_num
      have e2 : ((7 + 1 : Nat) : Int) - 1 - 1 - 3 - 3 = 0 := by norm_num
      rw [e1, e2]
      exact rfl
    case hvi => rfl
    case hind =>
      exact level_le_four _ (by
        simp only [fields_append_field, fields_new_instance, List.nil_append, List.cons_append,
          List.singleton_append]
        rfl)
  · refine decoded_without_rest bo h0 h1 8 (0x01 :: 0x02 :: a0 :: a1 :: a2 :: a3 :: a4 :: a5 :: rest) time_str ?inst4 3 hh0 hh1 (by decide) hop
      ?hdec ?hvi ?hind
    case hdec =>
      show decode_hci_command bo _ 0x0C05 (7 + 1) (h0 :: h1 :: 8 :: 0x01 :: 0x02 :: a0 :: a1 :: a2 :: a3 :: a4 :: a5 :: rest) 3 = _
      have hct : STREAM_TO_UINT8 (h0 :: h1 :: 8 :: 0x01 :: 0x02 :: a0 :: a1 :: a2 :: a3 :: a4 :: a5 :: rest) (3 + 1) = .ok (0x02, 3 + 1 + 1) := by
        simp [STREAM_TO_UINT8, octet_at]
      have ha : read_octets (h0 :: h1 :: 8 :: 0x01 :: 0x02 :: a0 :: a1 :: a2 :: a3 :: a4 :: a5 :: rest) (3 + 1 + 1) 6
          = .ok ([a0 % 256, a1 % 256, a2 % 256, a3 % 256, a4 % 256, a5 % 256], 3 + 1 + 1 + 6) := by
        simp [read_octets, octets_at, octet_at]
      rw [decode_set_event_filter bo 7 h0 h1 8 0x01 _ (by decide),
        set_event_filter_inquiry_addr bo _ _ _ _ _ _ (show 0 + 3 ≤ MAX_HCI_PARAM_NUM by decide)
          (fresh_new_instance _ _ _ _) rfl hct ha]
      have e1 : (3 : Int) + 1 + 1 + 6 = 3 + ((8 : Nat) : Int) := by norm_num
      have e2 : ((7 + 1 : Nat) : Int) - 1 - 1 - 6 = 0 := by norm_num
      rw [e1, e2]
      exact rfl
    case hvi => rfl
    case hind =>
      exact level_le_four _ (by
        simp only [fields_append_field, fields_new_instance, List.nil_append, List.cons_append,
          List.singleton_append]
        rfl)
  · refine decoded_without_rest bo h0 h1 3 (0x02 :: 0x00 :: f :: rest) time_str ?inst5 3 hh0 hh1 (by decide) hop
      ?hdec ?hvi ?hind
    case hdec =>
      show decode_hci_command bo _ 0x0C05 (2 + 1) (h0 :: h1 :: 3 :: 0x02 :: 0x00 :: f :: rest) 3 = _
      have hct : STREAM_TO_UINT8 (h0 :: h1 :: 3 :: 0x02 :: 0x00 :: f :: rest) (3 + 1) = .ok (0x00, 3 + 1 + 1) := by
        simp [STREAM_TO_UINT8, octet_at]
      have hf : STREAM_TO_UINT8 (h0 :: h1 :: 3 :: 0x02 :: 0x00 :: f :: rest) (3 + 1 + 1) = .ok (f % 256, 3 + 1 + 1 + 1) := by
        simp [STREAM_TO_UINT8, octet_at]
      rw [decode_set_event_filter bo 2 h0 h1 3 0x02 _ (by decide),
        set_event_filter_setup_all bo _ _ _ _ _ _ (show 0 + 3 ≤ MAX_HCI_PARAM_NUM by decide)
          (fresh_new_instance _ _ _ _) rfl hct hf]
      have e1 : (3 : Int) + 1 + 1 + 1 = 3 + ((3 : Nat) : Int) := by norm_num
      have e2 : ((2 + 1 : Nat) : Int) - 1 - 1 - 1 = 0 := by norm_num
      rw [e1, e2]
      exact rfl
    case hvi => rfl
    case hind =>
      exact level_le_four _ (by
        simp only [fields_append_field, fields_new_instance, List.nil_append, List.cons_append,
          List.singleton_append]
        rfl)
  · refine decoded_without_rest bo h0 h1 9 (0x02 :: 0x01 :: c0 :: c1 :: c2 :: m0 :: m1 :: m2 :: f :: rest) time_str ?inst6 5 hh0 hh1 (by decide) hop
      ?hdec ?hvi ?hind
    case hdec =>
      show decode_hci_command bo _ 0x0C05 (8 + 1) (h0 :: h1 :: 9 :: 0x02 :: 0x01 :: c0 :: c1 :: c2 :: m0 :: m1 :: m2 :: f :: rest) 3 = _
      have hct : STREAM_TO_UINT8 (h0 :: h1 :: 9 :: 0x02 :: 0x01 :: c0 :: c1 :: c2 :: m0 :: m1 :: m2 :: f :: rest) (3 + 1) = .ok (0x01, 3 + 1 + 1) := by
        simp [STREAM_TO_UINT8, octet_at]
      have hc : STREAM_TO_UINT bo 3 (h0 :: h1 :: 9 :: 0x02 :: 0x01 :: c0 :: c1 :: c2 :: m0 :: m1 :: m2 :: f :: rest) (3 + 1 + 1)
          = .ok (assemble bo [c0 % 256, c1 % 256, c2 % 256], 3 + 1 + 1 + 3) := by
        simp [STREAM_TO_UINT, octets_at, octet_at]
      have hm : STREAM_TO_UINT bo 3 (h0 :: h1 :: 9 :: 0x02 :: 0x01 :: c0 :: c1 :: c2 :: m0 :: m1 :: m2 :: f :: rest) (3 + 1 + 1 + 3)
          = .ok (assemble bo [m0 % 256, m1 % 256, m2 % 256], 3 + 1 + 1 + 3 + 3) := by
        simp [STREAM_TO_UINT, octets_at, octet_at]
      have hf : STREAM_TO_UINT8 (h0 :: h1 :: 9 :: 0x02 :: 0x01 :: c0 :: c1 :: c2 :: m0 :: m1 :: m2 :: f :: rest) (3 + 1 + 1 + 3 + 3) = .ok (f % 256, 3 + 1 + 1 + 3 + 3 + 1) := by
        simp [STREAM_TO_UINT8, octet_at]
      rw [decode_set_event_filter bo 8 h0 h1 9 0x02 _ (by decide),
        set_event_filter_setup_class bo _ _ _ _ _ _ _ _ (show 0 + 5 ≤ MAX_HCI_PARAM_NUM by decide)
          (fresh_new_instance _ _ _ _) rfl hct hc hm hf]
      have e1 : (3 : Int) + 1 + 1 + 3 + 3 + 1 = 3 + ((9 : Nat) : Int) := by norm_num
      have e2 : ((8 + 1 : Nat) : Int) - 1 - 1 - 3 - 3 - 1 = 0 := by norm_num
      rw [e1, e2]
      exact rfl
    case hvi => rfl
    case hind =>
      exact level_le_four _ (by
        simp only [fields_append_field, fields_new_instance, List.nil_append, List.cons_append,
          List.singleton_append]
        rfl)
  · refine decoded_without_rest bo h0 h1 9 (0x02 :: 0x02 :: a0 :: a1 :: a2 :: a3 :: a4 :: a5 :: f :: rest) time_str ?inst7 4 hh0 hh1 (by decide) hop
      ?hdec ?hvi ?hind
    case hdec =>
      show decode_hci_command bo _ 0x0C05 (8 + 1) (h0 :: h1 :: 9 :: 0x02 :: 0x02 :: a0 :: a1 :: a2 :: a3 :: a4 :: a5 :: f :: rest) 3 = _
      have hct : STREAM_TO_UINT8 (h0 :: h1 :: 9 :: 0x02 :: 0x02 :: a0 :: a1 :: a2 :: a3 :: a4 :: a5 :: f :: rest) (3 + 1) = .ok (0x02, 3 + 1 + 1) := by
        simp [STREAM_TO_UINT8, octet_at]
      have ha : read_octets (h0 :: h1 :: 9 :: 0x02 :: 0x02 :: a0 :: a1 :: a2 :: a3 :: a4 :: a5 :: f :: rest) (3 + 1 + 1) 6
          = .ok ([a0 % 256, a1 % 256, a2 % 256, a3 % 256, a4 % 256, a5 % 256], 3 + 1 + 1 + 6) := by
        simp [read_octets, octets_at, octet_at]
      have hf : STREAM_TO_UINT8 (h0 :: h1 :: 9 :: 0x02 :: 0x02 :: a0 :: a1 :: a2 :: a3 :: a4 :: a5 :: f :: rest) (3 + 1 + 1 + 6) = .ok (f % 256, 3 + 1 + 1 + 6 + 1) := by
        simp [STREAM_TO_UINT8, octet_at]
      rw [decode_set_event_filter bo 8 h0 h1 9 0x02 _ (by decide),
        set_event_filter_setup_addr bo _ _ _ _ _ _ _ (show 0 + 4 ≤ MAX_HCI_PARAM_NUM by decide)
          (fresh_new_instance _ _ _ _) rfl hct ha hf]
      have e1 : (3 : Int) + 1 + 1 + 6 + 1 = 3 + ((9 : Nat) : Int) := by norm_num
      have e2 : ((8 + 1 : Nat) : Int) - 1 - 1 - 6 - 1 = 0 := by norm_num
      rw [e1, e2]
      exact rfl
    case hvi => rfl
    case hind =>
      exact level_le_four _ (by
        simp only [fields_append_field, fields_new_instance, List.nil_append, List.cons_append,
          List.singleton_append]
        rfl)

theorem C36_set_event_filter_exact_length_witness :
    DecodedWithoutRest .little 0x05 0x0C 9 (0x02 :: 0x01 :: 1 :: 2 :: 3 :: 4 :: 5 :: 6 :: 1 :: [])
      "T" 5 ∧
    parse_hci_command .little [0x05, 0x0C, 0x09, 0x02, 0x01, 1, 2, 3, 4, 5, 6, 1] "T" =
      .ok ["T HCI Command: HCI_Set_Event_Filter(0x0c05), Parameter Length: 9",
           "    Filter_Type: (0x02) Connection Setup.",
           "    Connection_Setup_Filter_Condition_Type: (0x01) Allow Connections from a device with a specific Class of Device",
           "    Class_of_Device: 0x00030201",
           "    Class_of_Device_Mask: 0x00060504",
           "    Auto_Accept_Flag: (0x01) Do NOT Auto accept the connection (Auto accept is off)."] :=
  ⟨(C36_set_event_filter_exact_length .little 0x05 0x0C 1 2 3 4 5 6 0 0 0 0 0 0 1 [] "T"
      (by decide) (by decide) (by decide)).2.2.2.2.2.1, by decide⟩

/-! ### Special display fields -/

theorem ite_some_ok {c : Prop} [Decidable c] (a : Except Fault (Bool × String))
    (b : Option (Except Fault (Bool × String))) (ha : ∃ x, a = .ok x)
    (hb : ∀ r, b = some r → ∃ x, r = .ok x) :
    ∀ r, (if c then some a else b) = some r → ∃ x, r = .ok x := by
  intro r hr
  split_ifs at hr with h
  · simp only [Option.some.injEq] at hr
    rw [← hr]
    exact ha
  · exact hb r hr

theorem none_some_ok (r : Except Fault (Bool × String))
    (h : (none : Option (Except Fault (Bool × String))) = some r) : ∃ x, r = .ok x := by
  cases h

theorem val_read_word (data : List Nat) (v n : Nat) :
    val_read data (.word v) n = .ok (v % 4294967296 % 256 ^ n) := rfl

set_option maxHeartbeats 4000000 in
theorem special_configuration_word_ok (idx : Int) (data : List Nat) (v : Nat) :
    ∀ r, special_configuration_parameter idx data (.word v) = some r → ∃ x, r = .ok x := by
  unfold special_configuration_parameter
  simp only [val_read_word, bind, Except.bind]
  repeat' first
    | exact none_some_ok
    | refine ite_some_ok _ _ ?_ ?_
    | exact ⟨_, rfl⟩
    | (split <;> exact ⟨_, rfl⟩)
    | (split_ifs <;> exact ⟨_, rfl⟩)

set_option maxHeartbeats 4000000 in
theorem special_other_word_ok (idx : Int) (data : List Nat) (v : Nat) :
    ∀ r, special_other_parameter idx data (.word v) = some r → ∃ x, r = .ok x := by
  unfold special_other_parameter
  simp only [val_read_word, bind, Except.bind]
  repeat' first
    | exact none_some_ok
    | refine ite_some_ok _ _ ?_ ?_
    | exact ⟨_, rfl⟩
    | (split <;> exact ⟨_, rfl⟩)
    | (split_ifs <;> exact ⟨_, rfl⟩)

set_option maxHeartbeats 4000000 in
theorem special_le_word_ok (idx : Int) (data : List Nat) (v : Nat) :
    ∀ r, special_le_parameter idx data (.word v) = some r → ∃ x, r = .ok x := by
  unfold special_le_parameter
  simp only [val_read_word, bind, Except.bind]
  repeat' first
    | exact none_some_ok
    | refine ite_some_ok _ _ ?_ ?_
    | exact ⟨_, rfl⟩
    | (split <;> exact ⟨_, rfl⟩)

/-- A renderer that reads the local `param_value` cannot fault. -/
theorem parse_special_word_ok (idx : Int) (data : List Nat) (v : Nat) :
    ∃ x, parse_special_displayed_parameters idx data (.word v) = .ok x := by
  unfold parse_special_displayed_parameters
  cases h1 : special_configuration_parameter idx data (.word v) with
  | some r => exact special_configuration_word_ok idx data v r h1
  | none =>
    cases h2 : special_other_parameter idx data (.word v) with
    | some r => exact special_other_word_ok idx data v r h2
    | none =>
      cases h3 : special_le_parameter idx data (.word v) with
      | some r => exact special_le_word_ok idx data v r h3
      | none =>
        simp only []
        split_ifs <;> exact ⟨_, rfl⟩

/-- The switch case of a special display field once the pointer handed to the
renderer is known. -/
theorem parse_parameter_special_at (bo : ByteOrder) (inst : HCI_INSTANCE)
    (d : HCI_PARAMETER_REPR) (seq : Int) (data : List Nat) (pos left : Int) (indent : Nat)
    (bs : List Nat) (val_in : ValIn) (hvi : inst.value_index < MAX_HCI_PARAM_NUM)
    (hk : d.display_type = .TEXT_SPECIAL_DISPLAY_PARAM)
    (hlen : 0 ≤ d.length) (hle : d.length ≤ left)
    (hbs : octets_at data pos d.length.toNat = some bs)
    (hren : render_parameter bo .TEXT_SPECIAL_DISPLAY_PARAM d d.length false data pos =
      match parse_special_displayed_parameters d.index_of_special_display_param data val_in with
      | .error e => .error e
      | .ok (true, text) => .ok (text, pos + d.length, d.length)
      | .ok (false, _) => dump_parameter data (pos + d.length - d.length) d.length false) :
    parse_parameter bo inst d seq data pos left indent =
      match parse_special_displayed_parameters d.index_of_special_display_param data val_in with
      | .error e => .error e
      | .ok (true, text) =>
        .ok (append_field inst
          { name := d.name, seq_num := seq,
            value := sprintf_into (inst.value inst.value_index).value text,
            indent_level := indent }, pos + d.length, left - d.length)
      | .ok (false, _) =>
        .ok (append_field inst
          { name := d.name, seq_num := seq,
            value := sprintf_into (inst.value inst.value_index).value (hex_dump bs),
            indent_level := indent }, pos + d.length, left - d.length) := by
  have hdump := dump_parameter_ok data pos d.length false bs hlen hbs
  have he : hex_dump bs ++ (if false = true then "(truncated)" else "") = hex_dump bs := by
    simp only [Bool.false_eq_true, if_false, String.append_empty]
  rw [he] at hdump
  have hcl : render_parameter bo (clamped_type d d.length left) d
      (clamped_length d.length left) (decide (d.length > left ∧ d.length ≠ INT_MAX)) data pos
      = render_parameter bo .TEXT_SPECIAL_DISPLAY_PARAM d d.length false data pos := by
    rw [clamped_type_le d left hle, clamped_length_le _ _ hle, hk, not_truncated_of_le _ _ hle]
  cases hsp : parse_special_displayed_parameters d.index_of_special_display_param data val_in with
  | error e =>
    rw [hsp] at hren
    simp only [] at hren ⊢
    unfold parse_parameter
    rw [value_update_ok _ _ _ hvi]
    have h2 : ¬ d.length < 0 := by omega
    simp only [h2, if_false]
    simp only [clamped_type, clamped_length] at hcl
    rw [hcl, hren]
  | ok r =>
    obtain ⟨flag, text⟩ := r
    rw [hsp] at hren
    cases flag with
    | true =>
      simp only [] at hren ⊢
      exact parse_parameter_of_render bo inst d seq data pos left indent _ _ _ hvi hlen
        (hcl.trans hren)
    | false =>
      simp only [add_sub_cancel_right, hdump] at hren ⊢
      exact parse_parameter_of_render bo inst d seq data pos left indent _ _ _ hvi hlen
        (hcl.trans hren)

/-- A special display field whose declared width fits the budget, in terms of the
outcome of its renderer. -/
theorem parse_parameter_special (bo : ByteOrder) (inst : HCI_INSTANCE)
    (d : HCI_PARAMETER_REPR) (seq : Int) (data : List Nat) (pos left : Int) (indent : Nat)
    (bs : List Nat) (hvi : inst.value_index < MAX_HCI_PARAM_NUM)
    (hk : d.display_type = .TEXT_SPECIAL_DISPLAY_PARAM)
    (hlen : 0 ≤ d.length) (hle : d.length ≤ left)
    (hbs : octets_at data pos d.length.toNat = some bs) :
    ∃ val_in, special_val_in bo data pos d.length = .ok val_in ∧
      (1 ≤ d.length ∧ d.length ≤ 4 → ∃ v, val_in = .word v) ∧
      parse_parameter bo inst d seq data pos left indent =
        match parse_special_displayed_parameters d.index_of_special_display_param data val_in with
        | .error e => .error e
        | .ok (true, text) =>
          .ok (append_field inst
            { name := d.name, seq_num := seq,
              value := sprintf_into (inst.value inst.value_index).value text,
              indent_level := indent }, pos + d.length, left - d.length)
        | .ok (false, _) =>
          .ok (append_field inst
            { name := d.name, seq_num := seq,
              value := sprintf_into (inst.value inst.value_index).value (hex_dump bs),
              indent_level := indent }, pos + d.length, left - d.length) := by
  rcases read_by_width_available bo data pos d.length bs hbs with h | ⟨v, h⟩
  · refine ⟨.stream pos, by simp only [special_val_in, h], ?_,
      parse_parameter_special_at bo inst d seq data pos left indent bs _ hvi hk hlen hle hbs ?_⟩
    · intro hw
      exfalso
      unfold read_by_width at h
      split_ifs at h
      omega
    · simp only [render_parameter, h]
  · refine ⟨.word v, by simp only [special_val_in, h], fun _ => ⟨v, rfl⟩,
      parse_parameter_special_at bo inst d seq data pos left indent bs _ hvi hk hlen hle hbs ?_⟩
    simp only [render_parameter, h]

theorem scan_enable_declines (data : List Nat) (v : Nat) (h : 3 < v % 256) :
    parse_special_displayed_parameters SCAN_ENABLE data (.word v) = .ok (false, "") := by
  have e : val_read data (.word v) 1 = .ok (v % 256) := by
    simp only [val_read, pow_one]
    congr 1
    omega
  obtain ⟨k, hk⟩ : ∃ k, v % 256 = k + 4 := ⟨v % 256 - 4, by omega⟩
  unfold parse_special_displayed_parameters special_configuration_parameter
  simp only [if_true, e, hk, bind, Except.bind]

theorem pin_type_declines (data : List Nat) (v : Nat) (h : 1 < v % 256) :
    parse_special_displayed_parameters PIN_TYPE data (.word v) = .ok (false, "") := by
  have e : val_read data (.word v) 1 = .ok (v % 256) := by
    simp only [val_read, pow_one]
    congr 1
    omega
  obtain ⟨k, hk⟩ : ∃ k, v % 256 = k + 2 := ⟨v % 256 - 2, by omega⟩
  unfold parse_special_displayed_parameters special_configuration_parameter
  simp only [show ¬ PIN_TYPE = SCAN_ENABLE by decide, show ¬ (PIN_TYPE = 2 ∨ PIN_TYPE = 3) by decide,
    show ¬ (PIN_TYPE = INQUIRY_SCAN_TYPE ∨ PIN_TYPE = PAGE_SCAN_TYPE) by decide,
    show ¬ PIN_TYPE = INQUIRY_MODE by decide,
    show ¬ (PIN_TYPE = 6 ∨ PIN_TYPE = 7 ∨ PIN_TYPE = 8 ∨ PIN_TYPE = 9) by decide,
    show ¬ PIN_TYPE = 10 by decide, show ¬ PIN_TYPE = VOICE_SETTING by decide,
    if_false, if_true, e, hk, bind, Except.bind]

/-- C33: a `TEXT_SPECIAL_DISPLAY_PARAM` field of declared width `W >= 0` with at
least `W` octets of budget, whose `W` octets `bs` are in the buffer. Whenever
`parse_parameter` returns, the cursor has advanced by `W`, the budget is lower by
`W` and one field was added, whatever the renderer did. When the renderer accepts,
the value is its text; when it declines, the value is `bs` in `"%02x "` form, in
stream order. For a width of 1 to 4 the renderer reads the local word and
`parse_parameter` does return. `SCAN_ENABLE` with a value above 3, `PIN_TYPE` with
a value above 1 and the ids without renderer decline. -/
theorem C33_special_display_width (bo : ByteOrder) (inst : HCI_INSTANCE)
    (d : HCI_PARAMETER_REPR) (seq : Int) (data : List Nat) (pos left : Int) (indent : Nat)
    (bs : List Nat) (hvi : inst.value_index < MAX_HCI_PARAM_NUM)
    (hk : d.display_type = .TEXT_SPECIAL_DISPLAY_PARAM)
    (hlen : 0 ≤ d.length) (hle : d.length ≤ left)
    (hbs : octets_at data pos d.length.toNat = some bs) :
    bs.length = d.length.toNat ∧
    (∀ st, parse_parameter bo inst d seq data pos left indent = .ok st →
      st.2.1 = pos + d.length ∧ st.2.2 = left - d.length ∧
      st.1.value_index = inst.value_index + 1) ∧
    (∃ val_in, special_val_in bo data pos d.length = .ok val_in ∧
      (∀ text, parse_special_displayed_parameters d.index_of_special_display_param data val_in
          = .ok (true, text) →
        parse_parameter bo inst d seq data pos left indent =
          .ok (append_field inst
            { name := d.name, seq_num := seq,
              value := sprintf_into (inst.value inst.value_index).value text,
              indent_level := indent }, pos + d.length, left - d.length)) ∧
      (∀ text, parse_special_displayed_parameters d.index_of_special_display_param data val_in
          = .ok (false, text) →
        parse_parameter bo inst d seq data pos left indent =
          .ok (append_field inst
            { name := d.name, seq_num := seq,
              value := sprintf_into (inst.value inst.value_index).value (hex_dump bs),
              indent_level := indent }, pos + d.length, left - d.length))) ∧
    (1 ≤ d.length ∧ d.length ≤ 4 →
      ∃ st, parse_parameter bo inst d seq data pos left indent = .ok st) ∧
    (∀ v, 3 < v % 256 →
      parse_special_displayed_parameters SCAN_ENABLE data (.word v) = .ok (false, "")) ∧
    (∀ v, 1 < v % 256 →
      parse_special_displayed_parameters PIN_TYPE data (.word v) = .ok (false, "")) ∧
    (∀ idx ∈ ids_without_renderer, ∀ val_in,
      parse_special_displayed_parameters idx data val_in = .ok (false, "")) := by
  obtain ⟨val_in, hptr, hword, hpp⟩ :=
    parse_parameter_special bo inst d seq data pos left indent bs hvi hk hlen hle hbs
  refine ⟨octets_at_length _ _ _ _ hbs, ?_, ⟨val_in, hptr, ?_, ?_⟩, ?_,
    fun v h => scan_enable_declines data v h, fun v h => pin_type_declines data v h,
    fun idx h val_in => parse_special_no_renderer data val_in idx h⟩
  · intro st hst
    rw [hpp] at hst
    cases hsp : parse_special_displayed_parameters d.index_of_special_display_param data
      val_in with
    | error e =>
      rw [hsp] at hst
      cases hst
    | ok r =>
      obtain ⟨flag, text⟩ := r
      rw [hsp] at hst
      cases flag <;>
        (simp only [Except.ok.injEq] at hst
         subst hst
         exact ⟨rfl, rfl, rfl⟩)
  · intro text hsp
    rw [hpp, hsp]
  · intro text hsp
    rw [hpp, hsp]
  · intro hw
    obtain ⟨v, hv⟩ := hword hw
    obtain ⟨r, hr⟩ := parse_special_word_ok d.index_of_special_display_param data v
    rw [hpp, hv, hr]
    obtain ⟨flag, text⟩ := r
    cases flag <;> exact ⟨_, rfl⟩

theorem C33_special_display_width_witness :
    (parse_parameter .little {} HCI_CONTROLLER_BASEBAND_COMMANDS_0x001a.parameter[0] 0
        [0x1A, 0x0C, 0x01, 0x07] 3 1 1).map (fun st => (fields st.1, st.2)) =
      .ok ([{ name := some "Scan_Enable", seq_num := 0, value := "07 ", indent_level := 1 }],
        4, 0) ∧
    parse_hci_command .little [0x1A, 0x0C, 0x01, 0x07] "T" =
      .ok ["T HCI Command: HCI_Write_Scan_Enable(0x0c1a), Parameter Length: 1",
           "    Scan_Enable: 07 "] ∧
    parse_hci_command .little [0x1A, 0x0C, 0x01, 0x03] "T" =
      .ok ["T HCI Command: HCI_Write_Scan_Enable(0x0c1a), Parameter Length: 1",
           "    Scan_Enable: (0x03) Inquiry Scan enabled. Page Scan enabled."] :=
  ⟨by
    obtain ⟨val_in, hv, _, h⟩ := (C33_special_display_width .little {}
      HCI_CONTROLLER_BASEBAND_COMMANDS_0x001a.parameter[0] 0 [0x1A, 0x0C, 0x01, 0x07] 3 1 1 [0x07]
      (by decide) (by decide) (by decide) (by decide) (by decide)).2.2.1
    have hvi : val_in = .word 0x07 := by
      have e : special_val_in .little [0x1A, 0x0C, 0x01, 0x07] 3
          HCI_CONTROLLER_BASEBAND_COMMANDS_0x001a.parameter[0].length = .ok (.word 0x07) := rfl
      rw [e] at hv
      simp only [Except.ok.injEq] at hv
      exact hv.symm
    subst hvi
    rw [h "" (by decide)]
    decide, by decide, by decide⟩
/-! ### Repeat groups with a unit of one descriptor -/

/-- An `INT_HEX` descriptor of length 1 is a field of width 1. -/
theorem consumes_int_hex_one (bo : ByteOrder) (data : List Nat) (indent : Nat)
    (d : HCI_PARAMETER_REPR) (hk : d.display_type = .INT_HEX) (hlen : d.length = 1) :
    Consumes bo data indent d 1 (fun pos => "0x" ++ fmt_x 2 ((octet_at data pos).getD 0))
      0 data.length := by
  intro inst seq pos left hvi hlo hhi hleft
  obtain ⟨bs, hbs⟩ := octets_at_available data 1 pos hlo hhi
  have hl := octets_at_length _ _ _ _ hbs
  obtain ⟨b, rfl⟩ : ∃ b, bs = [b] := by
    match bs, hl with
    | [b], _ => exact ⟨b, rfl⟩
  have h := parse_parameter_int_hex_one bo inst d seq data pos left indent b hvi hk hlen hleft hbs
  simp only [octet_at_of_octets_at data pos b hbs, Option.getD_some]
  exact h

/-- An `INT_HEX` descriptor of length 4 is a field of width 4. -/
theorem consumes_int_hex_four (bo : ByteOrder) (data : List Nat) (indent : Nat)
    (d : HCI_PARAMETER_REPR) (hk : d.display_type = .INT_HEX) (hlen : d.length = 4) :
    Consumes bo data indent d 4
      (fun pos => "0x" ++ fmt_x 8 (assemble bo ((octets_at data pos 4).getD []))) 0
      data.length := by
  intro inst seq pos left hvi hlo hhi hleft
  obtain ⟨bs, hbs⟩ := octets_at_available data 4 pos hlo hhi
  have hle : d.length ≤ left := by rw [hlen]; exact hleft
  have hren : render_parameter bo (clamped_type d d.length left) d
      (clamped_length d.length left) (decide (d.length > left ∧ d.length ≠ INT_MAX)) data pos
      = .ok ("0x" ++ fmt_x 8 (assemble bo bs), pos + (4 : Nat), (4 : Nat)) := by
    rw [clamped_type_le d left hle, clamped_length_le _ _ hle, hk, hlen]
    have e1 : ¬ ((4 : Int) = 1) := by decide
    have e2 : ¬ ((4 : Int) = 2) := by decide
    have e3 : ¬ ((4 : Int) = 3) := by decide
    simp only [render_parameter, read_by_width, e1, e2, e3, if_false, if_true,
      STREAM_TO_UINT_ok bo 4 data pos _ hbs]
    rfl
  have h := parse_parameter_of_render bo inst d seq data pos left indent _ _ _ hvi
    (by rw [hlen]; decide) hren
  rw [sprintf_into_of_ne _ _ (hex_text_ne _ _)] at h
  simp only [hbs, Option.getD_some]
  exact h

theorem single_fields_length (d : HCI_PARAMETER_REPR) (indent w : Nat) (T : Int → String)
    (n : Nat) (r pos : Int) : (single_fields d indent w T n r pos).length = n := by
  induction n generalizing r pos with
  | zero => rfl
  | succ n ih => simp only [single_fields, List.length_cons, ih]

/-- The copies of a one-descriptor unit, listed by their index. -/
theorem single_fields_eq_map (d : HCI_PARAMETER_REPR) (indent w : Nat) (T : Int → String)
    (n : Nat) (r pos : Int) :
    single_fields d indent w T n r pos = (List.range n).map (fun k =>
      { name := d.name, seq_num := r + ((k : Int) + 1), value := T (pos + w * k),
        indent_level := indent }) := by
  induction n generalizing r pos with
  | zero => rfl
  | succ n ih =>
    rw [single_fields, ih, List.range_succ_eq_map, List.map_cons, List.map_map]
    refine congrArg₂ List.cons ?_ ?_
    · simp only [Nat.cast_zero, zero_add, mul_zero, add_zero]
    · apply List.map_congr_left
      intro k _
      simp only [Function.comp, Nat.cast_succ]
      have e1 : r + 1 + ((k : Int) + 1) = r + ((k : Int) + 1 + 1) := by ring
      have e2 : pos + (w : Int) + w * k = pos + w * ((k : Int) + 1) := by ring
      rw [e1, e2]

/-- One pass of the innermost loop over a unit of one fixed-width descriptor. -/
theorem repeat_unit_one (bo : ByteOrder) (ds : List HCI_PARAMETER_REPR) (i : Nat) (seq : Int)
    (data : List Nat) (indent : Nat) (d : HCI_PARAMETER_REPR) (w : Nat) (T : Int → String)
    (lo hi : Int) (inst : HCI_INSTANCE) (pos left : Int)
    (h1 : Consumes bo data indent d w T lo hi) (hd : descriptor_at ds (i + 1) = .ok d)
    (hvi : inst.value_index + 1 ≤ MAX_HCI_PARAM_NUM) (hlo : lo ≤ pos) (hhi : pos + w ≤ hi)
    (hleft : (w : Int) ≤ left) :
    repeat_unit bo ds i seq data indent 1 1 (inst, pos, left) =
      .ok (append_field inst
          { name := d.name, seq_num := seq, value := T pos, indent_level := indent },
        pos + w, left - w) := by
  have hl0 : left ≥ 0 := by omega
  rw [repeat_unit_succ, if_pos hl0, hd]
  simp only []
  rw [h1 inst seq pos left (by omega) hlo hhi hleft]
  simp only [repeat_unit_zero]

/-- The middle loop over `n` copies of a unit of one fixed-width descriptor. -/
theorem repeat_units_one (bo : ByteOrder) (ds : List HCI_PARAMETER_REPR) (i : Nat)
    (data : List Nat) (indent : Nat) (d : HCI_PARAMETER_REPR) (w : Nat) (T : Int → String)
    (lo hi : Int) (h1 : Consumes bo data indent d w T lo hi)
    (hd : descriptor_at ds (i + 1) = .ok d) :
    ∀ (n : Nat) (r : Int) (inst : HCI_INSTANCE) (pos left : Int),
      inst.value_index + n ≤ MAX_HCI_PARAM_NUM → lo ≤ pos →
      pos + (n : Int) * w ≤ hi → (n : Int) * w ≤ left →
      repeat_units bo ds i 1 data indent n r (inst, pos, left) =
        .ok (append_fields inst (single_fields d indent w T n r pos),
          pos + (n : Int) * w, left - (n : Int) * w) := by
  intro n
  induction n with
  | zero =>
    intro r inst pos left _ _ _ _
    simp only [repeat_units_zero, single_fields, append_fields, Nat.cast_zero, zero_mul,
      add_zero, sub_zero]
  | succ n ih =>
    intro r inst pos left hvi hlo hhi hleft
    have hnw : (0 : Int) ≤ (n : Int) * w := mul_nonneg (by omega) (by omega)
    have hexp : ((n + 1 : Nat) : Int) * w = n * w + w := by
      push_cast
      ring
    rw [hexp] at hhi hleft
    have hl0 : left ≥ 0 := by omega
    rw [repeat_units_succ, if_pos hl0,
      repeat_unit_one bo ds i (r + 1) data indent d w T lo hi inst pos left h1 hd (by omega) hlo
        (by omega) (by omega)]
    simp only []
    rw [ih (r + 1) _ (pos + w) (left - w) (by simp only [append_field]; omega)
      (by omega) (by omega) (by omega)]
    simp only [single_fields, append_fields, hexp]
    refine congrArg Except.ok (Prod.ext rfl (Prod.ext ?_ ?_))
    · simp only []
      ring
    · simp only []
      ring

/-- One step of the outer loop at a count field with a unit of one fixed-width
descriptor: the count field, then `N` copies of the unit, and the walk goes on
with the descriptor behind the unit. -/
theorem walk_parameters_repeat_one (bo : ByteOrder) (ds : List HCI_PARAMETER_REPR) (pc : Nat)
    (data : List Nat) (indent fuel i : Nat) (inst : HCI_INSTANCE) (pos left : Int)
    (c d : HCI_PARAMETER_REPR) (w N : Nat) (T : Int → String) (lo hi : Int)
    (hi1 : i < pc) (hl : 0 ≤ left) (hdc : descriptor_at ds i = .ok c)
    (hc : c.repeat_param_num = 1) (hd : descriptor_at ds (i + 1) = .ok d)
    (h1 : Consumes bo data indent d w T lo hi)
    (hvi : inst.value_index + 1 + N ≤ MAX_HCI_PARAM_NUM)
    (hcount : parse_parameter bo inst c 0 data pos left indent =
      .ok (append_field inst
        { name := c.name, seq_num := 0, value := fmt_u N, indent_level := indent },
        pos + 1, left - 1))
    (hN : N < 256) (hlo : lo ≤ pos + 1) (hhi : pos + 1 + (N : Int) * w ≤ hi)
    (hleft : 1 + (N : Int) * w ≤ left) :
    walk_parameters bo ds pc data indent (fuel + 1) i (inst, pos, left) =
      walk_parameters bo ds pc data indent fuel (i + 2)
        (append_fields inst
          ({ name := c.name, seq_num := 0, value := fmt_u N, indent_level := indent } ::
            single_fields d indent w T N 0 (pos + 1)),
          pos + 1 + (N : Int) * w, left - 1 - (N : Int) * w) := by
  have hg : i < pc ∧ left ≥ 0 := ⟨hi1, hl⟩
  have hrep : ¬ (c.repeat_param_num ≤ 0) := by rw [hc]; decide
  have hidx : (((append_field inst
      { name := c.name, seq_num := 0, value := fmt_u N, indent_level := indent }).value_index
        : Nat) : Int) - 1 = ((inst.value_index : Nat) : Int) := by
    simp only [append_field]
    push_cast
    ring
  have hval : (append_field inst
      { name := c.name, seq_num := 0, value := fmt_u N, indent_level := indent }).value
        inst.value_index =
      { name := c.name, seq_num := 0, value := fmt_u N, indent_level := indent } := by
    simp only [append_field, if_true]
  have hstr : to_int (strtol (fmt_u N)) = N := by
    rw [strtol_fmt_u N (by unfold LONG_MAX; omega)]
    exact to_int_of_lt N (by omega)
  rw [walk_parameters_succ, if_pos hg, hdc]
  simp only [hcount, hrep, if_false, hidx]
  rw [value_at_ok _ inst.value_index (by omega), hval]
  simp only [hstr, Int.toNat_ofNat, hc, show (1 : Int).toNat = 1 from rfl]
  rw [repeat_units_one bo ds i data indent d w T lo hi h1 hd N 0 _ (pos + 1) (left - 1)
    (by simp only [append_field]; omega) hlo hhi (by omega)]
  simp only [append_fields]

/-- The fields of the supported codecs walk, with the copies of the two units
written by `single_fields`. -/
theorem supported_codecs_fields_eq (bo : ByteOrder) (data : List Nat) (pos : Int) (indent : Nat)
    (s A B : Nat) :
    supported_codecs_fields bo data pos indent s A B =
      { name := some "Status", seq_num := 0,
        value := "(0x" ++ fmt_x 2 s ++ ") " ++ EVENT_STATUS_TEXT.getD s "",
        indent_level := indent } ::
      ({ name := some "Number_of_Supported_Codecs", seq_num := 0, value := fmt_u A,
         indent_level := indent } ::
        single_fields { name := some "Supported_Codecs", length := 1, display_type := .INT_HEX }
          indent 1 (fun p => "0x" ++ fmt_x 2 ((octet_at data p).getD 0)) A 0 (pos + 1 + 1))
      ++ ({ name := some "Number_of_Supported_Vendor_Specific_Codecs", seq_num := 0,
            value := fmt_u B, indent_level := indent } ::
        single_fields
          { name := some "Vendor_Specific_Codecs", length := 4, display_type := .INT_HEX }
          indent 4 (fun p => "0x" ++ fmt_x 8 (assemble bo ((octets_at data p 4).getD [])))
          B 0 (pos + 1 + 1 + (A : Int) * (1 : Nat) + 1)) := by
  rw [single_fields_eq_map, single_fields_eq_map]
  unfold supported_codecs_fields
  simp only [List.cons_append, List.nil_append, List.append_assoc, List.singleton_append,
    Nat.cast_one, one_mul, mul_one, zero_add, Nat.cast_ofNat]
  refine congrArg₂ List.cons rfl (congrArg₂ List.cons rfl (congrArg₂ HAppend.hAppend ?_
    (congrArg₂ List.cons rfl ?_)))
  · apply List.map_congr_left
    intro k _
    have e : pos + 1 + 1 + (k : Int) = pos + 2 + k := by ring
    rw [e]
  · apply List.map_congr_left
    intro k _
    have e : pos + 1 + 1 + (A : Int) + 1 + 4 * (k : Int) = pos + 3 + A + 4 * k := by ring
    rw [e]

theorem append_fields_append (inst : HCI_INSTANCE) (fs gs : List HCI_PARAM_VALUE) :
    append_fields inst (fs ++ gs) = append_fields (append_fields inst fs) gs := by
  induction fs generalizing inst with
  | nil => rfl
  | cons f fs ih =>
    rw [List.cons_append]
    simp only [append_fields]
    exact ih _

theorem supported_codecs_fields_length (bo : ByteOrder) (data : List Nat) (pos : Int)
    (indent : Nat) (s A B : Nat) :
    (supported_codecs_fields bo data pos indent s A B).length = 3 + A + B := by
  unfold supported_codecs_fields
  simp only [List.length_append, List.length_cons, List.length_nil, List.length_map,
    List.length_range]
  omega

/-- The walk over the return parameters of `HCI_Read_Local_Supported_Codecs`. -/
theorem walk_supported_codecs (bo : ByteOrder) (inst : HCI_INSTANCE) (data : List Nat)
    (pos left : Int) (indent : Nat) (s A B : Nat)
    (hs : octets_at data pos 1 = some [s]) (hs40 : s ≤ 0x40)
    (hA : octets_at data (pos + 1) 1 = some [A])
    (hB : octets_at data (pos + 2 + A) 1 = some [B])
    (hpos : 0 ≤ pos) (hend : pos + 3 + A + 4 * B ≤ data.length)
    (hleft : 3 + (A : Int) + 4 * B ≤ left)
    (hcap : inst.value_index + 3 + A + B ≤ MAX_HCI_PARAM_NUM) :
    parse_hci_instance bo inst HCI_INFORMATIONAL_PARAMETERS_0x000b.return_parameter
        HCI_INFORMATIONAL_PARAMETERS_0x000b.return_parameter_count data pos left indent =
      .ok (append_fields inst (supported_codecs_fields bo data pos indent s A B),
        pos + (3 + A + 4 * B), left - (3 + A + 4 * B)) := by
  have hA256 : A < 256 := octet_at_lt data _ A (octet_at_of_octets_at data _ A hA)
  have hB256 : B < 256 := octet_at_lt data _ B (octet_at_of_octets_at data _ B hB)
  have hcap1 : inst.value_index < MAX_HCI_PARAM_NUM := by omega
  rw [supported_codecs_fields_eq, ← List.singleton_append, append_fields_append,
    append_fields_append]
  unfold parse_hci_instance
  rw [show HCI_INFORMATIONAL_PARAMETERS_0x000b.return_parameter_count = 4 + 1 from rfl]
  rw [walk_parameters_step bo HCI_INFORMATIONAL_PARAMETERS_0x000b.return_parameter (4 + 1) data indent 4 0 inst pos left
    { name := some "Status", length := 1, display_type := .TEXT_REASON_STATUS_CODE } _
    (by decide) (by omega) rfl (by decide)
    (parse_parameter_status bo inst _ 0 data pos left indent s hcap1 rfl rfl (by omega) hs40 hs)]
  rw [show (4 : Nat) = 3 + 1 from rfl]
  rw [walk_parameters_repeat_one bo HCI_INFORMATIONAL_PARAMETERS_0x000b.return_parameter
    (3 + 1 + 1) data indent 3 (0 + 1) _ (pos + 1) (left - 1)
    { name := some "Number_of_Supported_Codecs", length := 1, repeat_param_num := 1,
      display_type := .INT_DEC }
    { name := some "Supported_Codecs", length := 1, display_type := .INT_HEX } 1 A _ 0
    data.length (by decide) (by omega) rfl rfl rfl
    (consumes_int_hex_one bo data indent _ rfl rfl)
    (by simp only [append_field]; omega)
    (parse_parameter_int_dec_one bo _ _ 0 data (pos + 1) (left - 1) indent A
      (by simp only [append_field]; omega) rfl rfl (by omega) hA)
    hA256 (by omega) (by push_cast; omega) (by push_cast; omega)]
  rw [show (3 : Nat) = 2 + 1 from rfl]
  have hB1 : octets_at data (pos + 1 + 1 + (A : Int) * (1 : Nat)) 1 = some [B] := by
    have e : pos + 1 + 1 + (A : Int) * (1 : Nat) = pos + 2 + A := by push_cast; ring
    rw [e]
    exact hB
  have hvi2 : (append_fields (append_field inst
      { name := some "Status", seq_num := 0,
        value := "(0x" ++ fmt_x 2 s ++ ") " ++ EVENT_STATUS_TEXT.getD s "",
        indent_level := indent })
      ({ name := some "Number_of_Supported_Codecs", seq_num := 0, value := fmt_u A,
         indent_level := indent } ::
        single_fields { name := some "Supported_Codecs", length := 1, display_type := .INT_HEX }
          indent 1 (fun p => "0x" ++ fmt_x 2 ((octet_at data p).getD 0)) A 0
          (pos + 1 + 1))).value_index = inst.value_index + 2 + A := by
    rw [value_index_append_fields, List.length_cons, single_fields_length]
    simp only [append_field]
    omega
  rw [walk_parameters_repeat_one bo HCI_INFORMATIONAL_PARAMETERS_0x000b.return_parameter
    (2 + 1 + 1 + 1) data indent 2 (0 + 1 + 2) _
    (pos + 1 + 1 + (A : Int) * (1 : Nat)) (left - 1 - 1 - (A : Int) * (1 : Nat))
    { name := some "Number_of_Supported_Vendor_Specific_Codecs", length := 1,
      repeat_param_num := 1, display_type := .INT_DEC }
    { name := some "Vendor_Specific_Codecs", length := 4, display_type := .INT_HEX } 4 B _ 0
    data.length (by decide) (by push_cast; omega) rfl rfl rfl
    (consumes_int_hex_four bo data indent _ rfl rfl)
    (by rw [hvi2]; omega)
    (parse_parameter_int_dec_one bo _ _ 0 data _ _ indent B
      (by rw [hvi2]; omega) rfl rfl (by push_cast; omega) hB1)
    hB256 (by push_cast; omega) (by push_cast; omega) (by push_cast; omega)]
  rw [walk_parameters_done _ _ _ _ _ _ _ _ (by
    simp only [show ¬ (0 + 1 + 2 + 2 < 2 + 1 + 1 + 1) by decide, false_and, not_false_eq_true])]
  refine congrArg Except.ok (Prod.ext ?_ (Prod.ext ?_ ?_))
  · rfl
  · simp only []
    push_cast
    ring
  · simp only []
    push_cast
    ring

/-! ### The return parameters of HCI_Read_Local_Supported_Codecs -/

/-- C37, within the capacity of the instance: for the return parameters of
`HCI_Read_Local_Supported_Codecs` with a status octet `s` inside the status
table, the counts `A` and `B` under the cursor, the `3 + A + 4 * B` octets
present and room for `3 + A + B` more fields, `parse_hci_instance` appends
exactly the fields Status, Number_of_Supported_Codecs = `A`, `A` fields
Supported_Codecs tagged `1 .. A`, Number_of_Supported_Vendor_Specific_Codecs =
`B` (decoded once, behind all `A` copies) and `B` fields Vendor_Specific_Codecs
tagged `1 .. B`; it advances the cursor by `3 + A + 4 * B` and lowers the budget
by as much. A count of 0 leaves no unit field. -/
theorem C37_supported_codecs (bo : ByteOrder) (inst : HCI_INSTANCE) (data : List Nat)
    (pos left : Int) (indent : Nat) (s A B : Nat)
    (hs : octets_at data pos 1 = some [s]) (hs40 : s ≤ 0x40)
    (hA : octets_at data (pos + 1) 1 = some [A])
    (hB : octets_at data (pos + 2 + A) 1 = some [B])
    (hpos : 0 ≤ pos) (hend : pos + 3 + A + 4 * B ≤ data.length)
    (hleft : 3 + (A : Int) + 4 * B ≤ left)
    (hcap : inst.value_index + 3 + A + B ≤ MAX_HCI_PARAM_NUM) :
    ∃ instN, parse_hci_instance bo inst HCI_INFORMATIONAL_PARAMETERS_0x000b.return_parameter
        HCI_INFORMATIONAL_PARAMETERS_0x000b.return_parameter_count data pos left indent =
        .ok (instN, pos + (3 + A + 4 * B), left - (3 + A + 4 * B)) ∧
      fields instN = fields inst ++ supported_codecs_fields bo data pos indent s A B ∧
      (supported_codecs_fields bo data pos indent s A B).length = 3 + A + B ∧
      (A = 0 → B = 0 → supported_codecs_fields bo data pos indent s A B =
        [ { name := some "Status", seq_num := 0,
            value := "(0x" ++ fmt_x 2 s ++ ") " ++ EVENT_STATUS_TEXT.getD s "",
            indent_level := indent },
          { name := some "Number_of_Supported_Codecs", seq_num := 0, value := "0",
            indent_level := indent },
          { name := some "Number_of_Supported_Vendor_Specific_Codecs", seq_num := 0,
            value := "0", indent_level := indent } ]) := by
  refine ⟨_, walk_supported_codecs bo inst data pos left indent s A B hs hs40 hA hB hpos hend
    hleft hcap, fields_append_fields _ _, supported_codecs_fields_length _ _ _ _ _ _ _, ?_⟩
  intro hA0 hB0
  subst hA0
  subst hB0
  rfl

set_option maxRecDepth 100000 in
theorem C37_supported_codecs_witness :
    (∃ instN, parse_hci_instance .little {}
        HCI_INFORMATIONAL_PARAMETERS_0x000b.return_parameter
        HCI_INFORMATIONAL_PARAMETERS_0x000b.return_parameter_count
        [0x00, 0x02, 0x11, 0x22, 0x01, 0xAA, 0xBB, 0xCC, 0xDD] 0 9 2 =
        .ok (instN, 9, 0) ∧
      fields instN =
        [ { name := some "Status", seq_num := 0, value := "(0x00) Success", indent_level := 2 },
          { name := some "Number_of_Supported_Codecs", seq_num := 0, value := "2",
            indent_level := 2 },
          { name := some "Supported_Codecs", seq_num := 1, value := "0x11", indent_level := 2 },
          { name := some "Supported_Codecs", seq_num := 2, value := "0x22", indent_level := 2 },
          { name := some "Number_of_Supported_Vendor_Specific_Codecs", seq_num := 0,
            value := "1", indent_level := 2 },
          { name := some "Vendor_Specific_Codecs", seq_num := 1, value := "0xddccbbaa",
            indent_level := 2 } ]) ∧
    (∃ instN, parse_hci_instance .little {}
        HCI_INFORMATIONAL_PARAMETERS_0x000b.return_parameter
        HCI_INFORMATIONAL_PARAMETERS_0x000b.return_parameter_count
        [0x00, 0x00, 0x01, 0xAA, 0xBB, 0xCC, 0xDD] 0 7 2 =
        .ok (instN, 7, 0) ∧
      fields instN =
        [ { name := some "Status", seq_num := 0, value := "(0x00) Success", indent_level := 2 },
          { name := some "Number_of_Supported_Codecs", seq_num := 0, value := "0",
            indent_level := 2 },
          { name := some "Number_of_Supported_Vendor_Specific_Codecs", seq_num := 0,
            value := "1", indent_level := 2 },
          { name := some "Vendor_Specific_Codecs", seq_num := 1, value := "0xddccbbaa",
            indent_level := 2 } ]) := by
  constructor
  · obtain ⟨instN, h1, h2, _, _⟩ := C37_supported_codecs .little {}
      [0x00, 0x02, 0x11, 0x22, 0x01, 0xAA, 0xBB, 0xCC, 0xDD] 0 9 2 0 2 1 (by decide) (by decide)
      (by decide) (by decide) (by decide) (by decide) (by decide) (by decide)
    exact ⟨instN, h1, h2.trans (by decide)⟩
  · obtain ⟨instN, h1, h2, _, _⟩ := C37_supported_codecs .little {}
      [0x00, 0x00, 0x01, 0xAA, 0xBB, 0xCC, 0xDD] 0 7 2 0 0 1 (by decide) (by decide)
      (by decide) (by decide) (by decide) (by decide) (by decide) (by decide)
    exact ⟨instN, h1, h2.trans (by decide)⟩

set_option maxRecDepth 100000 in
/-- C37, the failing input: a Command Complete event for
`HCI_Read_Local_Supported_Codecs` that reports 25 codecs and no vendor specific
codec, all 31 parameter octets present. The three fields of the event, Status,
the count and the 25 codec fields fill the 30 slots of the value array, so the
second count is not decoded: the walk stops with an access outside the array.
With 24 codecs the event is decoded into 30 lines behind the header. -/
theorem C37_codecs_beyond_capacity :
    parse_hci_event .little
        [0x0E, 31, 0x01, 0x0B, 0x10, 0x00, 25,
          1, 2, 3, 4, 5, 6, 7, 8, 9, 10, 11, 12, 13, 14, 15, 16, 17, 18, 19, 20, 21, 22, 23, 24,
          25, 0] "12:00:00.000000"
      = .error .value_slot_out_of_range ∧
    parse_hci_event .big
        [0x0E, 31, 0x01, 0x10, 0x0B, 0x00, 25,
          1, 2, 3, 4, 5, 6, 7, 8, 9, 10, 11, 12, 13, 14, 15, 16, 17, 18, 19, 20, 21, 22, 23, 24,
          25, 0] "12:00:00.000000"
      = .error .value_slot_out_of_range ∧
    (parse_hci_event .little
        [0x0E, 30, 0x01, 0x0B, 0x10, 0x00, 24,
          1, 2, 3, 4, 5, 6, 7, 8, 9, 10, 11, 12, 13, 14, 15, 16, 17, 18, 19, 20, 21, 22, 23, 24,
          0] "12:00:00.000000").map List.length
      = .ok 31 := by
  exact ⟨by decide, by decide, by decide⟩
/-! ### The byte budget -/

theorem read_octets_advance (data : List Nat) (pos len : Int) (bs : List Nat) (pos1 : Int)
    (hlen : 0 ≤ len) (h : read_octets data pos len = .ok (bs, pos1)) :
    pos1 = pos + len ∧ bs.length = len.toNat := by
  unfold read_octets at h
  split at h
  · rename_i bs1 hbs
    simp only [Except.ok.injEq, Prod.mk.injEq] at h
    obtain ⟨h1, h2⟩ := h
    subst h1
    refine ⟨?_, octets_at_length _ _ _ _ hbs⟩
    rw [← h2, Int.toNat_of_nonneg hlen]
  · cases h

theorem read_by_width_advance (bo : ByteOrder) (data : List Nat) (pos len : Int) (v : Nat)
    (pos1 : Int) (h : read_by_width bo data pos len = some (.ok (v, pos1))) :
    pos1 = pos + len ∧ 1 ≤ len ∧ len ≤ 4 := by
  unfold read_by_width at h
  split_ifs at h with h1 h2 h3 h4
  · simp only [STREAM_TO_UINT8, Option.some.injEq] at h
    split at h
    · simp only [Except.ok.injEq, Prod.mk.injEq] at h
      omega
    · cases h
  all_goals
    simp only [STREAM_TO_UINT, Option.some.injEq] at h
    split at h
    · simp only [Except.ok.injEq, Prod.mk.injEq] at h
      have := h.2
      push_cast at this
      omega
    · cases h

/-- What the switch of `parse_parameter` does to the cursor and to `param_length`:
for a length that is not negative, 6 for an address and 1 for a status code,
the cursor advances by the length, which is left as it was. -/
theorem render_parameter_advance (bo : ByteOrder) (ty : HCI_PARAM_DISPLAY_TYPE)
    (d : HCI_PARAMETER_REPR) (len : Int) (t : Bool) (data : List Nat) (pos : Int)
    (text : String) (pos1 plen2 : Int)
    (h : render_parameter bo ty d len t data pos = .ok (text, pos1, plen2))
    (hlen : 0 ≤ len) (hbd : ty = .TEXT_BD_ADDR → len = 6)
    (hst : ty = .TEXT_REASON_STATUS_CODE → len = 1) :
    plen2 = len ∧ pos1 = pos + len := by
  cases ty
  case INT_HEX =>
    simp only [render_parameter] at h
    split at h
    · cases h
    · cases h
    · rename_i v p1 hr
      simp only [Except.ok.injEq, Prod.mk.injEq] at h
      have := read_by_width_advance bo data pos len v p1 hr
      omega
  case INT_DEC =>
    simp only [render_parameter] at h
    split at h
    · cases h
    · cases h
    · rename_i v p1 hr
      simp only [Except.ok.injEq, Prod.mk.injEq] at h
      have := read_by_width_advance bo data pos len v p1 hr
      omega
  case INT_HANDLE =>
    simp only [render_parameter] at h
    split_ifs at h with h2
    split at h
    · cases h
    · rename_i v p1 hr
      simp only [Except.ok.injEq, Prod.mk.injEq] at h
      simp only [STREAM_TO_UINT] at hr
      split at hr
      · simp only [Except.ok.injEq, Prod.mk.injEq] at hr
        have := hr.2
        push_cast at this
        omega
      · cases hr
  case SEQ_HEX =>
    simp only [render_parameter, dump_parameter] at h
    split at h
    · cases h
    · rename_i bs p1 hr
      simp only [Except.ok.injEq, Prod.mk.injEq] at h
      have := read_octets_advance data pos len bs p1 hlen hr
      omega
  case SEQ_CHAR =>
    simp only [render_parameter] at h
    split at h
    · cases h
    · rename_i bs p1 hr
      simp only [Except.ok.injEq, Prod.mk.injEq] at h
      have := read_octets_advance data pos len bs p1 hlen hr
      omega
  case UNSET =>
    simp only [render_parameter, dump_parameter] at h
    split at h
    · cases h
    · rename_i bs p1 hr
      simp only [Except.ok.injEq, Prod.mk.injEq] at h
      have := read_octets_advance data pos len bs p1 hlen hr
      omega
  case TEXT_BD_ADDR =>
    have h6 := hbd rfl
    subst h6
    simp only [render_parameter] at h
    split at h
    · cases h
    · rename_i bs p1 hr
      simp only [Except.ok.injEq, Prod.mk.injEq] at h
      have := read_octets_advance data pos 6 bs p1 (by decide) hr
      omega
  case TEXT_REASON_STATUS_CODE =>
    have h1 := hst rfl
    subst h1
    simp only [render_parameter, STREAM_TO_UINT8] at h
    split at h
    · cases h
    · rename_i v p1 hr
      split at hr
      · simp only [Except.ok.injEq, Prod.mk.injEq] at hr
        split at h
        · cases h
        · simp only [Except.ok.injEq, Prod.mk.injEq] at h
          omega
      · cases hr
  case TEXT_SPECIAL_DISPLAY_PARAM =>
    simp only [render_parameter] at h
    split at h
    · cases h
    · rename_i ptr p1 hr
      have hp1 : p1 = pos + len := by
        split at hr
        · simp only [Except.ok.injEq, Prod.mk.injEq] at hr
          omega
        · cases hr
        · rename_i v p2 hw
          simp only [Except.ok.injEq, Prod.mk.injEq] at hr
          have := read_by_width_advance bo data pos len v p2 hw
          omega
      split at h
      · cases h
      · simp only [Except.ok.injEq, Prod.mk.injEq] at h
        omega
      · simp only [dump_parameter] at h
        split at h
        · cases h
        · rename_i bs p3 hro
          simp only [Except.ok.injEq, Prod.mk.injEq] at h
          have := read_octets_advance data (p1 - len) len bs p3 hlen hro
          omega
  all_goals
    simp only [render_parameter] at h
    split at h
    · cases h
    · cases h
    · rename_i v p1 hr
      simp only [Except.ok.injEq, Prod.mk.injEq] at h
      split_ifs at hr with e1 e2
      · simp only [STREAM_TO_UINT8, Option.some.injEq] at hr
        split at hr
        · simp only [Except.ok.injEq, Prod.mk.injEq] at hr
          omega
        · cases hr
      · simp only [STREAM_TO_UINT, Option.some.injEq] at hr
        split at hr
        · simp only [Except.ok.injEq, Prod.mk.injEq] at hr
          have := hr.2
          push_cast at this
          omega
        · cases hr

/-- A successful `parse_parameter` in terms of the switch `render_parameter`. -/
theorem parse_parameter_ok_render (bo : ByteOrder) (inst : HCI_INSTANCE)
    (d : HCI_PARAMETER_REPR) (seq : Int) (data : List Nat) (pos left : Int) (indent : Nat)
    (st : WalkState) (h : parse_parameter bo inst d seq data pos left indent = .ok st) :
    ∃ len text pos1 plen2, param_length_of inst d = .ok len ∧
      render_parameter bo (if len > left then .SEQ_HEX else d.display_type) d
        (if len > left then left else len) (decide (len > left ∧ len ≠ INT_MAX)) data pos
          = .ok (text, pos1, plen2) ∧
      st = (append_field inst
        { name := d.name, seq_num := seq,
          value := sprintf_into (inst.value inst.value_index).value text,
          indent_level := indent }, pos1, left - plen2) := by
  have hvi := (parse_parameter_ok_inv bo inst d seq data pos left indent st h).1
  have hfin : ∀ (text : String),
      ({ with_value (with_value inst inst.value_index (fun v =>
            { v with name := d.name, seq_num := seq, indent_level := indent }))
          inst.value_index (fun v => { v with value := sprintf_into v.value text }) with
        value_index := inst.value_index + 1 } : HCI_INSTANCE) =
      append_field inst
        { name := d.name, seq_num := seq,
          value := sprintf_into (inst.value inst.value_index).value text,
          indent_level := indent } := by
    intro text
    simp only [append_field, with_value]
    congr 1
    funext j
    split_ifs with hj
    · subst hj
      rfl
    · rfl
  unfold parse_parameter at h
  rw [value_update_ok _ _ _ hvi] at h
  simp only [] at h
  by_cases hneg : d.length < 0
  · simp only [hneg, if_true] at h
    split at h
    · cases h
    · rename_i len hlen
      split at hlen
      · cases hlen
      · rename_i lr hva
        simp only [Except.ok.injEq] at hlen
        have hva1 : value_at inst (inst.value_index + d.length) = .ok lr := by
          unfold value_at at hva ⊢
          simp only [with_value] at hva
          by_cases hr : 0 ≤ (inst.value_index : Int) + d.length ∧
              (inst.value_index : Int) + d.length < MAX_HCI_PARAM_NUM
          · rw [if_pos hr] at hva ⊢
            have hne : ((inst.value_index : Int) + d.length).toNat ≠ inst.value_index := by
              omega
            rw [if_neg hne] at hva
            exact hva
          · rw [if_neg hr] at hva
            cases hva
        split at h
        · cases h
        · rename_i text pos1 plen2 hren
          rw [value_update_ok _ _ _ (show (with_value inst inst.value_index _).value_index
            < MAX_HCI_PARAM_NUM from hvi)] at h
          simp only [Except.ok.injEq] at h
          refine ⟨len, text, pos1, plen2, ?_, hren, ?_⟩
          · simp only [param_length_of, hneg, if_true, hva1, hlen]
          · rw [← h]
            exact Prod.ext (hfin text) rfl
  · simp only [hneg, if_false] at h
    split at h
    · cases h
    · rename_i text pos1 plen2 hren
      rw [value_update_ok _ _ _ (show (with_value inst inst.value_index _).value_index
        < MAX_HCI_PARAM_NUM from hvi)] at h
      simp only [Except.ok.injEq] at h
      refine ⟨d.length, text, pos1, plen2, ?_, hren, ?_⟩
      · simp only [param_length_of, hneg, if_false]
      · rw [← h]
        exact Prod.ext (hfin text) rfl

/-- The budget and the cursor after a successful `parse_parameter` that worked
with a length that is not negative. -/
theorem parse_parameter_budget (bo : ByteOrder) (inst : HCI_INSTANCE)
    (d : HCI_PARAMETER_REPR) (seq : Int) (data : List Nat) (pos left : Int) (indent : Nat)
    (st : WalkState) (hreg : regular d = true) (hleft : 0 ≤ left)
    (href : ∀ len, param_length_of inst d = .ok len → 0 ≤ len)
    (h : parse_parameter bo inst d seq data pos left indent = .ok st) :
    0 ≤ st.2.2 ∧ st.2.2 ≤ left ∧ st.2.1 - pos = left - st.2.2 := by
  obtain ⟨len, text, pos1, plen2, hlen, hren, hst⟩ :=
    parse_parameter_ok_render bo inst d seq data pos left indent st h
  have h0 := href len hlen
  subst hst
  simp only []
  simp only [regular, Bool.and_eq_true, Bool.or_eq_true, Bool.not_eq_true', decide_eq_false_iff_not,
    decide_eq_true_eq] at hreg
  by_cases hgt : len > left
  · simp only [hgt, if_true] at hren
    have := render_parameter_advance bo _ d left _ data pos text pos1 plen2 hren hleft
      (fun e => by cases e) (fun e => by cases e)
    omega
  · simp only [hgt, if_false] at hren
    have hdl : d.display_type = .TEXT_BD_ADDR ∨ d.display_type = .TEXT_REASON_STATUS_CODE →
        len = d.length := by
      intro hty
      by_cases hneg : d.length < 0
      · exfalso
        rcases hty with e | e
        · have := hreg.1.resolve_left (fun hn => hn e)
          omega
        · have := hreg.2.resolve_left (fun hn => hn e)
          omega
      · simp only [param_length_of, hneg, if_false, Except.ok.injEq] at hlen
        exact hlen.symm
    have := render_parameter_advance bo _ d len _ data pos text pos1 plen2 hren h0
      (fun e => by
        rw [hdl (Or.inl e)]
        exact hreg.1.resolve_left (fun hn => hn e))
      (fun e => by
        rw [hdl (Or.inr e)]
        exact hreg.2.resolve_left (fun hn => hn e))
    omega

theorem octets_at_all_lt (data : List Nat) (n : Nat) :
    ∀ (pos : Int) (bs : List Nat), octets_at data pos n = some bs → ∀ b ∈ bs, b < 256 := by
  induction n with
  | zero =>
    intro pos bs h b hb
    simp only [octets_at, Option.some.injEq] at h
    subst h
    cases hb
  | succ n ih =>
    intro pos bs h b hb
    simp only [octets_at] at h
    split at h
    · rename_i b1 bs1 h1 h2
      simp only [Option.some.injEq] at h
      subst h
      rcases List.mem_cons.mp hb with e | e
      · subst e
        exact octet_at_lt data pos b h1
      · exact ih (pos + 1) bs1 h2 b e
    · cases h

set_option maxRecDepth 100000 in
theorem truncated_octet_text : ∀ b < 256,
    0 ≤ to_int (strtol (hex_dump [b] ++ "(truncated)")) := by
  decide

/-- The text of a length field reads back as an integer that is not negative,
also when the field is truncated. -/
theorem length_field_text (bo : ByteOrder) (inst : HCI_INSTANCE) (d : HCI_PARAMETER_REPR)
    (seq : Int) (data : List Nat) (pos left : Int) (indent : Nat) (st : WalkState)
    (hd : is_length_field d = true) (hleft : 0 ≤ left)
    (h : parse_parameter bo inst d seq data pos left indent = .ok st) :
    0 ≤ to_int (strtol (st.1.value inst.value_index).value) := by
  obtain ⟨len, text, pos1, plen2, hlen, hren, hst⟩ :=
    parse_parameter_ok_render bo inst d seq data pos left indent st h
  simp only [is_length_field, Bool.and_eq_true, Bool.or_eq_true, decide_eq_true_eq] at hd
  obtain ⟨hty, hl12⟩ := hd
  have hneg : ¬ d.length < 0 := by omega
  simp only [param_length_of, hneg, if_false, Except.ok.injEq] at hlen
  subst hlen
  subst hst
  simp only [append_field, if_true]
  by_cases hgt : d.length > left
  · simp only [hgt, if_true, render_parameter, dump_parameter] at hren
    split at hren
    · cases hren
    · rename_i bs p1 hro
      have hne : d.length ≠ INT_MAX := by
        unfold INT_MAX
        omega
      simp only [hne, ne_eq, not_false_eq_true, and_self, decide_True, if_true, Except.ok.injEq,
        Prod.mk.injEq] at hren
      have hbl := (read_octets_advance data pos left bs p1 hleft hro).2
      have hall : ∀ b ∈ bs, b < 256 := by
        unfold read_octets at hro
        split at hro
        · rename_i bs1 hbs
          simp only [Except.ok.injEq, Prod.mk.injEq] at hro
          rw [← hro.1]
          exact octets_at_all_lt data _ pos bs1 hbs
        · cases hro
      rw [← hren.1]
      have hl : left = 0 ∨ left = 1 := by omega
      rcases hl with e | e
      · subst e
        match bs, hbl with
        | [], _ =>
          rw [sprintf_into_of_ne _ _ (by decide)]
          decide
      · subst e
        match bs, hbl, hall with
        | [b], _, hall =>
          have hb : b < 256 := hall b (List.mem_singleton.mpr rfl)
          rw [sprintf_into_of_ne _ _ (by
            rw [String.data_append]
            intro hc
            have := (List.append_eq_nil.mp hc).2
            revert this
            decide)]
          exact truncated_octet_text b hb
  · simp only [hgt, if_false, hty, render_parameter] at hren
    split at hren
    · cases hren
    · cases hren
    · rename_i v p1 hrw
      simp only [Except.ok.injEq, Prod.mk.injEq] at hren
      have hv : v < 65536 := by
        unfold read_by_width at hrw
        rcases hl12 with e | e
        · have e2 : ¬ d.length = 2 := by omega
          simp only [e, if_true, STREAM_TO_UINT8, Option.some.injEq] at hrw
          split at hrw
          · rename_i b hb
            simp only [Except.ok.injEq, Prod.mk.injEq] at hrw
            have := octet_at_lt data pos b hb
            omega
          · cases hrw
        · have e1 : ¬ d.length = 1 := by omega
          simp only [e, if_true, show ¬ ((2 : Int) = 1) by decide, if_false, STREAM_TO_UINT,
            Option.some.injEq] at hrw
          split at hrw
          · rename_i bs hbs
            simp only [Except.ok.injEq, Prod.mk.injEq] at hrw
            have hbl := octets_at_length _ _ _ _ hbs
            have hall := octets_at_all_lt data 2 pos bs hbs
            match bs, hbl, hall with
            | [o0, o1], _, hall =>
              have := assemble_two_lt bo o0 o1 (hall o0 (List.mem_cons_self _ _))
                (hall o1 (List.mem_cons_of_mem _ (List.mem_singleton.mpr rfl)))
              omega
          · cases hrw
      rw [← hren.1, sprintf_into_of_ne _ _ (fmt_u_data_ne _),
        strtol_fmt_u v (by unfold LONG_MAX; omega), to_int_of_lt v (by omega)]
      omega
set_option maxRecDepth 1000000 in
/-- Every descriptor list of the registry meets the static conditions of the
byte budget. -/
theorem registry_budget_safe : ∀ ds ∈ registry_lists, budget_safe ds = true := by
  decide

theorem repeat_unit_without_guard_succ (bo : ByteOrder) (ds : List HCI_PARAMETER_REPR) (i : Nat)
    (seq : Int) (data : List Nat) (indent n idx : Nat) (inst : HCI_INSTANCE) (pos left : Int) :
    repeat_unit_without_guard bo ds i seq data indent (n + 1) idx (inst, pos, left) =
    match descriptor_at ds (i + idx) with
    | .error e => .error e
    | .ok param_repr =>
      match parse_parameter bo inst param_repr seq data pos left indent with
      | .error e => .error e
      | .ok st1 => repeat_unit_without_guard bo ds i seq data indent n (idx + 1) st1 := rfl

theorem repeat_units_without_guard_succ (bo : ByteOrder) (ds : List HCI_PARAMETER_REPR)
    (i rp : Nat) (data : List Nat) (indent n : Nat) (repeat_index : Int) (st : WalkState) :
    repeat_units_without_guard bo ds i rp data indent (n + 1) repeat_index st =
    match repeat_unit_without_guard bo ds i (repeat_index + 1) data indent rp 1 st with
    | .error e => .error e
    | .ok st1 => repeat_units_without_guard bo ds i rp data indent n (repeat_index + 1) st1 :=
  rfl

theorem walk_parameters_without_guard_succ (bo : ByteOrder) (ds : List HCI_PARAMETER_REPR)
    (pc : Nat) (data : List Nat) (indent fuel i : Nat) (inst : HCI_INSTANCE) (pos left : Int) :
    walk_parameters_without_guard bo ds pc data indent (fuel + 1) i (inst, pos, left) =
    if i < pc then
      match descriptor_at ds i with
      | .error e => .error e
      | .ok param_repr =>
        match parse_parameter bo inst param_repr 0 data pos left indent with
        | .error e => .error e
        | .ok (inst1, pos1, left_len1) =>
          if param_repr.repeat_param_num ≤ 0 then
            walk_parameters_without_guard bo ds pc data indent fuel (i + 1)
              (inst1, pos1, left_len1)
          else
            match value_at inst1 ((inst1.value_index : Int) - 1) with
            | .error e => .error e
            | .ok count_value =>
              match repeat_units_without_guard bo ds i param_repr.repeat_param_num.toNat data
                  indent (to_int (strtol count_value.value)).toNat 0 (inst1, pos1, left_len1) with
              | .error e => .error e
              | .ok st2 =>
                walk_parameters_without_guard bo ds pc data indent fuel
                  (i + param_repr.repeat_param_num.toNat + 1) st2
    else .ok (inst, pos, left) := rfl

theorem refers_beyond (ds : List HCI_PARAMETER_REPR) (t : Nat) (h : ds.length ≤ t) :
    refers ds t = 0 := by
  unfold refers
  rw [List.getD_eq_getElem?_getD, List.getElem?_eq_none h]
  rfl

theorem cut_spec (ds : List HCI_PARAMETER_REPR) (b : Nat) (h : cut ds b = true) (t : Nat)
    (hbt : b ≤ t) : b + refers ds t ≤ t := by
  by_cases hlt : t < ds.length
  · unfold cut at h
    rw [List.all_eq_true] at h
    have := h t (List.mem_range.mpr hlt)
    simp only [Bool.or_eq_true, decide_eq_true_eq] at this
    omega
  · rw [refers_beyond ds t (by omega)]
    omega

theorem linked_of_cut (ds : List HCI_PARAMETER_REPR) (b : Nat) (inst : HCI_INSTANCE)
    (h : cut ds b = true) : Linked ds b inst := by
  intro t hbt hlt
  have := cut_spec ds b h t hbt
  omega

theorem budget_safe_spec (ds : List HCI_PARAMETER_REPR) (h : budget_safe ds = true) (t : Nat) :
    regular (ds.getD t {}) = true ∧
      (refers ds t ≠ 0 → is_length_field (ds.getD (t - refers ds t) {}) = true) ∧
      (¬ (ds.getD t {}).repeat_param_num ≤ 0 →
        cut ds (t + 1) = true ∧
          cut ds (t + (ds.getD t {}).repeat_param_num.toNat + 1) = true) := by
  by_cases hlt : t < ds.length
  · unfold budget_safe at h
    rw [Bool.and_eq_true, List.all_eq_true] at h
    have := h.2 t (List.mem_range.mpr hlt)
    simp only [Bool.and_eq_true, Bool.or_eq_true, decide_eq_true_eq] at this
    refine ⟨this.1.1, fun h0 => this.1.2.resolve_left h0, fun hr => this.2.resolve_left hr⟩
  · have e : ds.getD t {} = {} := by
      rw [List.getD_eq_getElem?_getD, List.getElem?_eq_none (by omega)]
      rfl
    rw [e]
    refine ⟨by decide, fun h0 => absurd (refers_beyond ds t (by omega)) h0, fun hr => ?_⟩
    exact absurd (by decide) hr

theorem descriptor_at_ok (ds : List HCI_PARAMETER_REPR) (j : Nat) (d : HCI_PARAMETER_REPR)
    (h : descriptor_at ds j = .ok d) : d = ds.getD j {} := by
  unfold descriptor_at at h
  split_ifs at h
  simp only [Except.ok.injEq] at h
  exact h.symm

/-- In a linked state the length `parse_parameter` works with is not negative. -/
theorem linked_length (ds : List HCI_PARAMETER_REPR) (j : Nat) (inst : HCI_INSTANCE)
    (hl : Linked ds j inst) (len : Int)
    (h : param_length_of inst (ds.getD j {}) = .ok len) : 0 ≤ len := by
  unfold param_length_of at h
  by_cases hneg : (ds.getD j {}).length < 0
  · rw [if_pos hneg] at h
    have hk : refers ds j = (-(ds.getD j {}).length).toNat := rfl
    obtain ⟨h1, h2⟩ := hl j (le_refl j) (by omega)
    have e : j + refers ds j - j = refers ds j := by omega
    rw [e] at h1 h2
    unfold value_at at h
    split_ifs at h with hr
    · simp only [Except.ok.injEq] at h
      have e2 : ((inst.value_index : Int) + (ds.getD j {}).length).toNat
          = inst.value_index - refers ds j := by omega
      rw [e2] at h
      rw [← h]
      exact h2
  · rw [if_neg hneg] at h
    simp only [Except.ok.injEq] at h
    omega

/-- A successful `parse_parameter` at position `j` of a list that meets the static
conditions keeps the budget and leaves a state that is linked at position
`j + 1`. -/
theorem linked_step (bo : ByteOrder) (ds : List HCI_PARAMETER_REPR)
    (hsafe : budget_safe ds = true) (j : Nat) (inst : HCI_INSTANCE) (seq : Int)
    (data : List Nat) (pos left : Int) (indent : Nat) (st : WalkState) (hleft : 0 ≤ left)
    (hl : Linked ds j inst)
    (h : parse_parameter bo inst (ds.getD j {}) seq data pos left indent = .ok st) :
    BudgetKept (inst, pos, left) st ∧ Linked ds (j + 1) st.1 := by
  refine ⟨parse_parameter_budget bo inst _ seq data pos left indent st
    (budget_safe_spec ds hsafe j).1 hleft (linked_length ds j inst hl) h, ?_⟩
  obtain ⟨_, hvi, _, _, _, hkeep⟩ := parse_parameter_ok_inv bo inst _ seq data pos left indent st h
  intro t hjt hlt
  by_cases hlast : t < j + refers ds t
  · obtain ⟨h1, h2⟩ := hl t (by omega) hlast
    refine ⟨by omega, ?_⟩
    have e : st.1.value_index - (j + 1 + refers ds t - t)
        = inst.value_index - (j + refers ds t - t) := by omega
    rw [e, hkeep _ (by omega)]
    exact h2
  · have hj : j = t - refers ds t := by omega
    have hne : refers ds t ≠ 0 := by omega
    have hlf := (budget_safe_spec ds hsafe t).2.1 hne
    rw [← hj] at hlf
    refine ⟨by omega, ?_⟩
    have e : st.1.value_index - (j + 1 + refers ds t - t) = inst.value_index := by omega
    rw [e]
    exact length_field_text bo inst _ seq data pos left indent st hlf hleft h

theorem budget_kept_refl (st : WalkState) (h : 0 ≤ st.2.2) : BudgetKept st st :=
  ⟨h, le_refl _, by omega⟩

theorem budget_kept_trans (a b c : WalkState) (h1 : BudgetKept a b) (h2 : BudgetKept b c) :
    BudgetKept a c := by
  unfold BudgetKept at *
  omega

/-- The innermost loop: the guard is true at every test, and the budget is kept. -/
theorem repeat_unit_budget (bo : ByteOrder) (ds : List HCI_PARAMETER_REPR)
    (hsafe : budget_safe ds = true) (i : Nat) (seq : Int) (data : List Nat) (indent : Nat) :
    ∀ (n idx : Nat) (st0 : WalkState), 0 ≤ st0.2.2 → Linked ds (i + idx) st0.1 →
      repeat_unit bo ds i seq data indent n idx st0
          = repeat_unit_without_guard bo ds i seq data indent n idx st0 ∧
        ∀ st, repeat_unit bo ds i seq data indent n idx st0 = .ok st → BudgetKept st0 st := by
  intro n
  induction n with
  | zero =>
    intro idx st0 hleft _
    refine ⟨rfl, fun st h => ?_⟩
    rw [repeat_unit_zero, Except.ok.injEq] at h
    subst h
    exact budget_kept_refl _ hleft
  | succ n ih =>
    intro idx st0 hleft hl
    obtain ⟨inst, pos, left⟩ := st0
    have hg : left ≥ 0 := hleft
    rw [repeat_unit_succ, repeat_unit_without_guard_succ, if_pos hg]
    cases hd : descriptor_at ds (i + idx) with
    | error e => exact ⟨rfl, fun st h => by cases h⟩
    | ok d =>
      have hdd := descriptor_at_ok ds _ d hd
      subst hdd
      simp only []
      cases hp : parse_parameter bo inst (ds.getD (i + idx) {}) seq data pos left indent with
      | error e => exact ⟨rfl, fun st h => by cases h⟩
      | ok st1 =>
        obtain ⟨hb, hl1⟩ := linked_step bo ds hsafe (i + idx) inst seq data pos left indent st1
          hleft hl hp
        obtain ⟨h1, h2⟩ := ih (idx + 1) st1 hb.1 hl1
        exact ⟨h1, fun st h => budget_kept_trans _ _ _ hb (h2 st h)⟩

/-- The middle loop: the guard is true at every test, and the budget is kept. -/
theorem repeat_units_budget (bo : ByteOrder) (ds : List HCI_PARAMETER_REPR)
    (hsafe : budget_safe ds = true) (i rp : Nat) (data : List Nat) (indent : Nat)
    (hcut : cut ds (i + 1) = true) :
    ∀ (n : Nat) (r : Int) (st0 : WalkState), 0 ≤ st0.2.2 →
      repeat_units bo ds i rp data indent n r st0
          = repeat_units_without_guard bo ds i rp data indent n r st0 ∧
        ∀ st, repeat_units bo ds i rp data indent n r st0 = .ok st → BudgetKept st0 st := by
  intro n
  induction n with
  | zero =>
    intro r st0 hleft
    refine ⟨rfl, fun st h => ?_⟩
    rw [repeat_units_zero, Except.ok.injEq] at h
    subst h
    exact budget_kept_refl _ hleft
  | succ n ih =>
    intro r st0 hleft
    obtain ⟨inst, pos, left⟩ := st0
    have hg : left ≥ 0 := hleft
    obtain ⟨hu1, hu2⟩ := repeat_unit_budget bo ds hsafe i (r + 1) data indent rp 1
      (inst, pos, left) hleft (linked_of_cut ds (i + 1) inst hcut)
    rw [repeat_units_succ, repeat_units_without_guard_succ, if_pos hg, ← hu1]
    cases hp : repeat_unit bo ds i (r + 1) data indent rp 1 (inst, pos, left) with
    | error e => exact ⟨rfl, fun st h => by cases h⟩
    | ok st1 =>
      have hb := hu2 st1 hp
      obtain ⟨h1, h2⟩ := ih (r + 1) st1 hb.1
      exact ⟨h1, fun st h => budget_kept_trans _ _ _ hb (h2 st h)⟩

/-- The outer loop: the guard `left_len >= 0` is true at every test, and the
budget is kept. -/
theorem walk_parameters_budget (bo : ByteOrder) (ds : List HCI_PARAMETER_REPR)
    (hsafe : budget_safe ds = true) (pc : Nat) (data : List Nat) (indent : Nat) :
    ∀ (fuel i : Nat) (st0 : WalkState), 0 ≤ st0.2.2 → Linked ds i st0.1 →
      walk_parameters bo ds pc data indent fuel i st0
          = walk_parameters_without_guard bo ds pc data indent fuel i st0 ∧
        ∀ st, walk_parameters bo ds pc data indent fuel i st0 = .ok st → BudgetKept st0 st := by
  intro fuel
  induction fuel with
  | zero =>
    intro i st0 hleft _
    refine ⟨rfl, fun st h => ?_⟩
    have e : walk_parameters bo ds pc data indent 0 i st0 = .ok st0 := rfl
    rw [e, Except.ok.injEq] at h
    subst h
    exact budget_kept_refl _ hleft
  | succ fuel ih =>
    intro i st0 hleft hl
    obtain ⟨inst, pos, left⟩ := st0
    rw [walk_parameters_succ, walk_parameters_without_guard_succ]
    by_cases hi : i < pc
    · have hg : i < pc ∧ left ≥ 0 := ⟨hi, hleft⟩
      rw [if_pos hg, if_pos hi]
      cases hd : descriptor_at ds i with
      | error e => exact ⟨rfl, fun st h => by cases h⟩
      | ok d =>
        have hdd := descriptor_at_ok ds _ d hd
        subst hdd
        simp only []
        cases hp : parse_parameter bo inst (ds.getD i {}) 0 data pos left indent with
        | error e => exact ⟨rfl, fun st h => by cases h⟩
        | ok st1 =>
          obtain ⟨hb, hl1⟩ := linked_step bo ds hsafe i inst 0 data pos left indent st1
            hleft hl hp
          obtain ⟨inst1, pos1, left1⟩ := st1
          by_cases hrep : (ds.getD i {}).repeat_param_num ≤ 0
          · simp only [hrep, if_true]
            obtain ⟨h1, h2⟩ := ih (i + 1) (inst1, pos1, left1) hb.1 hl1
            exact ⟨h1, fun st h => budget_kept_trans _ _ _ hb (h2 st h)⟩
          · simp only [hrep, if_false]
            obtain ⟨hc1, hc2⟩ := (budget_safe_spec ds hsafe i).2.2 hrep
            cases hv : value_at inst1 ((inst1.value_index : Int) - 1) with
            | error e => exact ⟨rfl, fun st h => by cases h⟩
            | ok cv =>
              obtain ⟨hu1, hu2⟩ := repeat_units_budget bo ds hsafe i
                (ds.getD i {}).repeat_param_num.toNat data indent hc1
                (to_int (strtol cv.value)).toNat 0 (inst1, pos1, left1) hb.1
              simp only []
              rw [← hu1]
              cases hru : repeat_units bo ds i (ds.getD i {}).repeat_param_num.toNat data indent
                  (to_int (strtol cv.value)).toNat 0 (inst1, pos1, left1) with
              | error e => exact ⟨rfl, fun st h => by cases h⟩
              | ok st2 =>
                have hb2 := hu2 st2 hru
                obtain ⟨h1, h2⟩ := ih (i + (ds.getD i {}).repeat_param_num.toNat + 1) st2 hb2.1
                  (linked_of_cut ds _ st2.1 hc2)
                exact ⟨h1, fun st h =>
                  budget_kept_trans _ _ _ (budget_kept_trans _ _ _ hb hb2) (h2 st h)⟩
    · have hg : ¬ (i < pc ∧ left ≥ 0) := fun h => hi h.1
      rw [if_neg hg, if_neg hi]
      refine ⟨rfl, fun st h => ?_⟩
      rw [Except.ok.injEq] at h
      subst h
      exact budget_kept_refl _ hleft

theorem walk_result_of_map (x : Except Fault WalkState) (y : Int × Int)
    (h : x.map (fun st => st.2) = .ok y) : ∃ st, x = .ok st ∧ st.2 = y := by
  cases x with
  | error e => cases h
  | ok st =>
    refine ⟨st, rfl, ?_⟩
    simpa only [Except.map, Except.ok.injEq] using h

/-- C32, the byte budget. Let `ds` be a descriptor list of the registry and
`r >= 0` a budget. (1) For every descriptor `d` of `ds`, whenever
`parse_parameter` returns it leaves a budget `r'` with `0 <= r' <= r`, it has
advanced the cursor by `r - r'` and appended exactly one field; for the
descriptors of negative declared length this is proved for the instances in
which the field they refer to reads back as an integer that is not negative,
which during a walk is always so. (2) `parse_hci_instance` started with `r` on
any instance behaves like the walker without the tests `left_len >= 0`, so these
tests are true whenever they are evaluated; and when it returns, the budget `r'`
it leaves has `0 <= r' <= r` and the octets consumed plus `r'` are `r`. -/
theorem C32_byte_budget (bo : ByteOrder) (ds : List HCI_PARAMETER_REPR)
    (hds : ds ∈ registry_lists) :
    (∀ d ∈ ds, ∀ (inst : HCI_INSTANCE) (seq : Int) (data : List Nat) (pos r : Int)
        (indent : Nat) (st : WalkState), 0 ≤ r →
      (d.length < 0 → ∀ len, param_length_of inst d = .ok len → 0 ≤ len) →
      parse_parameter bo inst d seq data pos r indent = .ok st →
      0 ≤ st.2.2 ∧ st.2.2 ≤ r ∧ st.2.1 - pos = r - st.2.2 ∧
        fields st.1 = fields inst ++ [st.1.value inst.value_index]) ∧
    (∀ (pc : Nat) (inst : HCI_INSTANCE) (data : List Nat) (pos r : Int) (indent : Nat), 0 ≤ r →
      parse_hci_instance bo inst ds pc data pos r indent
          = parse_hci_instance_without_guard bo inst ds pc data pos r indent ∧
        ∀ st, parse_hci_instance bo inst ds pc data pos r indent = .ok st →
          0 ≤ st.2.2 ∧ st.2.2 ≤ r ∧ (st.2.1 - pos) + st.2.2 = r) := by
  have hsafe := registry_budget_safe ds hds
  constructor
  · intro d hd inst seq data pos r indent st hr href h
    obtain ⟨t, ht, hdt⟩ := List.getElem_of_mem hd
    have hreg : regular d = true := by
      have := (budget_safe_spec ds hsafe t).1
      rw [List.getD_eq_getElem?_getD, List.getElem?_eq_getElem ht, Option.getD_some, hdt]
        at this
      exact this
    have hlen : ∀ len, param_length_of inst d = .ok len → 0 ≤ len := by
      intro len hl
      by_cases hneg : d.length < 0
      · exact href hneg len hl
      · simp only [param_length_of, hneg, if_false, Except.ok.injEq] at hl
        omega
    obtain ⟨h1, h2, h3⟩ := parse_parameter_budget bo inst d seq data pos r indent st hreg hr
      hlen h
    obtain ⟨_, hvi, _, _, _, hkeep⟩ := parse_parameter_ok_inv bo inst d seq data pos r indent st h
    exact ⟨h1, h2, h3, fields_of_inv inst st.1 hvi hkeep⟩
  · intro pc inst data pos r indent hr
    obtain ⟨h1, h2⟩ := walk_parameters_budget bo ds hsafe pc data indent pc 0 (inst, pos, r) hr
      (linked_of_cut ds 0 inst (by
        unfold budget_safe at hsafe
        rw [Bool.and_eq_true] at hsafe
        exact hsafe.1))
    refine ⟨h1, fun st h => ?_⟩
    have hb := h2 st h
    unfold BudgetKept at hb
    simp only [] at hb
    omega

set_option maxRecDepth 1000000 in
theorem C32_byte_budget_witness :
    LE_META_EVENTS_0x02.parameter ∈ registry_lists ∧
    (∃ st, parse_hci_instance .little {} LE_META_EVENTS_0x02.parameter 7
        [0x01, 0x00, 0x00, 0x11, 0x22, 0x33, 0x44, 0x55, 0x66, 0x02, 0xAA, 0xBB, 0xC4] 0 13 1
          = .ok st ∧
      st.2 = (13, 0) ∧ 0 ≤ st.2.2 ∧ st.2.2 ≤ 13 ∧ (st.2.1 - 0) + st.2.2 = 13) ∧
    (∃ st, parse_hci_instance .little {} LE_META_EVENTS_0x02.parameter 7
        [0x01, 0x00, 0x00, 0x11, 0x22, 0x33, 0x44, 0x55, 0x66, 0x05, 0xAA, 0xBB, 0xC4] 0 12 1
          = .ok st ∧
      st.2 = (12, 0) ∧ 0 ≤ st.2.2 ∧ st.2.2 ≤ 12 ∧ (st.2.1 - 0) + st.2.2 = 12) ∧
    parse_hci_instance .little {} LE_META_EVENTS_0x02.parameter 7
        [0x01, 0x00, 0x00, 0x11, 0x22, 0x33, 0x44, 0x55, 0x66, 0x02, 0xAA, 0xBB, 0xC4] 0 13 1
      = parse_hci_instance_without_guard .little {} LE_META_EVENTS_0x02.parameter 7
        [0x01, 0x00, 0x00, 0x11, 0x22, 0x33, 0x44, 0x55, 0x66, 0x02, 0xAA, 0xBB, 0xC4] 0 13 1 := by
  have hmem : LE_META_EVENTS_0x02.parameter ∈ registry_lists := by decide
  have hw := (C32_byte_budget .little LE_META_EVENTS_0x02.parameter hmem).2
  refine ⟨hmem, ?_, ?_, (hw 7 {} _ 0 13 1 (by decide)).1⟩
  · obtain ⟨st, h1, h2⟩ := walk_result_of_map (parse_hci_instance .little {}
      LE_META_EVENTS_0x02.parameter 7
      [0x01, 0x00, 0x00, 0x11, 0x22, 0x33, 0x44, 0x55, 0x66, 0x02, 0xAA, 0xBB, 0xC4] 0 13 1)
      (13, 0) (by decide)
    exact ⟨st, h1, h2, (hw 7 {} _ 0 13 1 (by decide)).2 st h1⟩
  · obtain ⟨st, h1, h2⟩ := walk_result_of_map (parse_hci_instance .little {}
      LE_META_EVENTS_0x02.parameter 7
      [0x01, 0x00, 0x00, 0x11, 0x22, 0x33, 0x44, 0x55, 0x66, 0x05, 0xAA, 0xBB, 0xC4] 0 12 1)
      (12, 0) (by decide)
    exact ⟨st, h1, h2, (hw 7 {} _ 0 12 1 (by decide)).2 st h1⟩
/-! ### The raw data line -/

theorem raw_data_lines_overrun (data : List Nat) (pos left_len : Int) (h : 255 ≤ left_len)
    (raw : List String) : raw_data_lines data pos left_len ≠ .ok raw := by
  intro hraw
  have h0 : left_len > 0 := by omega
  have h1 : 3 * left_len + 1 > (LOG_BUF_SIZE : Nat) := by
    unfold LOG_BUF_SIZE
    omega
  unfold raw_data_lines at hraw
  rw [if_pos h0, if_pos h1] at hraw
  split at hraw <;> cases hraw

theorem print_instance_raw (header : String) (inst : HCI_INSTANCE) (data : List Nat)
    (pos left_len : Int) (lines : List String) (bs : List Nat)
    (hfl : field_lines (fields inst) = .ok lines) (hpos : 0 < left_len) (hcap : left_len ≤ 254)
    (hbs : octets_at data pos left_len.toNat = some bs) :
    print_instance header inst data pos left_len
      = .ok (header :: lines ++ ["    Raw Data: " ++ hex_dump bs]) := by
  have hne : ¬ (inst.value_index = 0 ∧ left_len = 0) := fun h => by omega
  simp only [print_instance, hne, if_false, hfl,
    raw_data_lines_ok data pos left_len bs hpos hcap hbs]

theorem print_instance_no_raw (header : String) (inst : HCI_INSTANCE) (data : List Nat)
    (pos : Int) (lines : List String) (hfl : field_lines (fields inst) = .ok lines) :
    print_instance header inst data pos 0
      = .ok (if inst.value_index = 0 then [header] else header :: lines) := by
  by_cases hvi : inst.value_index = 0
  · simp only [print_instance, hvi, and_self, if_true]
  · have hne : ¬ (inst.value_index = 0 ∧ (0 : Int) = 0) := fun h => hvi h.1
    simp only [print_instance, hne, hvi, if_false, hfl, raw_data_lines_none, List.append_nil,
      false_and]

set_option maxRecDepth 100000 in
/-- C9, within the capacity of `log_buf`. (1) After the header and the field lines
the formatter logs exactly one more line when `0 < left_len <= 254`, namely
`"    Raw Data: "` followed by the `left_len` octets behind the cursor in
`"%02x "` form, in stream order; with `left_len = 0` it logs no such line (and the
header alone when there is no field either); with `left_len >= 255` it does not
return a list of records. (2), (3) `parse_hci_command` and `parse_hci_event` are
this formatter applied to the instance, the cursor and the budget that the
decoding leaves. (4) For every descriptor list of the registry the walk started
with the budget `L` leaves a budget `L - c` between 0 and `L` and the cursor
behind the `c` octets consumed, so the octets of the line are the parameter
octets at the offsets `c .. L - 1`. -/
theorem C9_raw_data_line :
    (∀ (header : String) (inst : HCI_INSTANCE) (data : List Nat) (pos left_len : Int)
        (lines : List String) (bs : List Nat),
      field_lines (fields inst) = .ok lines → 0 < left_len → left_len ≤ 254 →
      octets_at data pos left_len.toNat = some bs →
      print_instance header inst data pos left_len
        = .ok (header :: lines ++ ["    Raw Data: " ++ hex_dump bs]) ∧
      bs.length = left_len.toNat) ∧
    (∀ (header : String) (inst : HCI_INSTANCE) (data : List Nat) (pos : Int)
        (lines : List String), field_lines (fields inst) = .ok lines →
      print_instance header inst data pos 0
        = .ok (if inst.value_index = 0 then [header] else header :: lines)) ∧
    (∀ (header : String) (inst : HCI_INSTANCE) (data : List Nat) (pos left_len : Int)
        (out : List String), 255 ≤ left_len →
      print_instance header inst data pos left_len ≠ .ok out) ∧
    (∀ (bo : ByteOrder) (h0 h1 L : Nat) (rest : List Nat) (time_str : String)
        (u : HCI_UNIT_REPR) (st : WalkState) (lines : List String),
      h0 < 256 → h1 < 256 → L < 256 →
      get_matched_hci_cmd_repr (assemble bo [h0, h1]) = some u → u.name ≠ none →
      decode_hci_command bo u (assemble bo [h0, h1]) L (h0 :: h1 :: L :: rest) 3 = .ok st →
      field_lines (fields st.1) = .ok lines →
      (∀ bs, 0 < st.2.2 → st.2.2 ≤ 254 →
        octets_at (h0 :: h1 :: L :: rest) st.2.1 st.2.2.toNat = some bs →
        parse_hci_command bo (h0 :: h1 :: L :: rest) time_str
          = .ok (command_header time_str st.1 :: lines ++ ["    Raw Data: " ++ hex_dump bs])) ∧
      (st.2.2 = 0 →
        parse_hci_command bo (h0 :: h1 :: L :: rest) time_str
          = .ok (if st.1.value_index = 0 then [command_header time_str st.1]
              else command_header time_str st.1 :: lines))) ∧
    (∀ (bo : ByteOrder) (eventcode L : Nat) (rest : List Nat) (time_str : String)
        (st : WalkState) (lines : List String),
      eventcode ≤ HCI_EVENT_NUMBER → L < 256 →
      decode_hci_event bo eventcode L (eventcode :: L :: rest) 2 = .ok st →
      field_lines (fields st.1) = .ok lines →
      (∀ bs, 0 < st.2.2 → st.2.2 ≤ 254 →
        octets_at (eventcode :: L :: rest) st.2.1 st.2.2.toNat = some bs →
        parse_hci_event bo (eventcode :: L :: rest) time_str
          = .ok (event_header time_str st.1 :: lines ++ ["    Raw Data: " ++ hex_dump bs])) ∧
      (st.2.2 = 0 →
        parse_hci_event bo (eventcode :: L :: rest) time_str
          = .ok (if st.1.value_index = 0 then [event_header time_str st.1]
              else event_header time_str st.1 :: lines))) ∧
    (∀ (bo : ByteOrder), ∀ ds ∈ registry_lists, ∀ (pc : Nat) (inst : HCI_INSTANCE)
        (data : List Nat) (pos : Int) (L : Nat) (indent : Nat) (st : WalkState),
      parse_hci_instance bo inst ds pc data pos L indent = .ok st →
      0 ≤ st.2.2 ∧ st.2.2 ≤ L ∧ st.2.1 = pos + (L - st.2.2)) ∧
    parse_hci_event .little [0x01, 0x03, 0x00, 0xAA, 0xBB] "T"
      = .ok ["T HCI Event: Inquiry Complete(0x01), Parameter Length: 3",
             "    status: 0x00", "    Raw Data: aa bb "] ∧
    parse_hci_command .little [0x03, 0x0C, 0x02, 0x11, 0x22] "T"
      = .ok ["T HCI Command: HCI_Reset(0x0c03), Parameter Length: 2",
             "    Raw Data: 11 22 "] := by
  refine ⟨?_, ?_, ?_, ?_, ?_, ?_, by decide, by decide⟩
  · intro header inst data pos left_len lines bs hfl hpos hcap hbs
    exact ⟨print_instance_raw header inst data pos left_len lines bs hfl hpos hcap hbs,
      octets_at_length _ _ _ _ hbs⟩
  · intro header inst data pos lines hfl
    exact print_instance_no_raw header inst data pos lines hfl
  · intro header inst data pos left_len out h255 hout
    have hne : ¬ (inst.value_index = 0 ∧ left_len = 0) := fun h => by omega
    simp only [print_instance, hne, if_false] at hout
    split at hout
    · cases hout
    · split at hout
      · cases hout
      · rename_i raw hraw
        exact raw_data_lines_overrun data pos left_len h255 raw hraw
  · intro bo h0 h1 L rest time_str u st lines hh0 hh1 hL hu hname hdec hfl
    have e := parse_hci_command_eq bo h0 h1 L rest time_str u hh0 hh1 hL hu hname
    rw [hdec] at e
    obtain ⟨inst, pos, left⟩ := st
    refine ⟨fun bs hpos hcap hbs => ?_, fun h0l => ?_⟩
    · rw [e]
      exact print_instance_raw _ inst _ pos left lines bs hfl hpos hcap hbs
    · rw [e]
      simp only [] at h0l
      subst h0l
      exact print_instance_no_raw _ inst _ pos lines hfl
  · intro bo ec L rest time_str st lines hec hL hdec hfl
    have e := parse_hci_event_eq bo ec L rest time_str hec hL
    rw [hdec] at e
    obtain ⟨inst, pos, left⟩ := st
    refine ⟨fun bs hpos hcap hbs => ?_, fun h0l => ?_⟩
    · rw [e]
      exact print_instance_raw _ inst _ pos left lines bs hfl hpos hcap hbs
    · rw [e]
      simp only [] at h0l
      subst h0l
      exact print_instance_no_raw _ inst _ pos lines hfl
  · intro bo ds hds pc inst data pos L indent st h
    have hsafe := registry_budget_safe ds hds
    have hb := (walk_parameters_budget bo ds hsafe pc data indent pc 0 (inst, pos, (L : Int))
      (by simp only []; omega)
      (linked_of_cut ds 0 inst (by
        unfold budget_safe at hsafe
        rw [Bool.and_eq_true] at hsafe
        exact hsafe.1))).2 st h
    unfold BudgetKept at hb
    simp only [] at hb
    omega

set_option maxRecDepth 1000000 in
/-- C9, the failing input: a vendor specific command (no parameter is decoded) or
an event without parameters with the parameter length 255 and all 255 octets
present. The text of the 255 octets takes 765 characters and a terminating NUL,
one element more than `log_buf` has, so the last `sprintf` writes behind the
buffer. With a parameter length of 254 the line is logged. -/
theorem C9_raw_data_overrun :
    parse_hci_command .little (0x00 :: 0xFC :: 0xFF :: List.replicate 255 0xAA) "T"
      = .error .log_buf_out_of_range ∧
    parse_hci_command .big (0xFC :: 0x00 :: 0xFF :: List.replicate 255 0xAA) "T"
      = .error .log_buf_out_of_range ∧
    parse_hci_event .little (0x00 :: 0xFF :: List.replicate 255 0xAA) "T"
      = .error .log_buf_out_of_range ∧
    (parse_hci_command .little (0x00 :: 0xFC :: 0xFE :: List.replicate 254 0xAA) "T").map
        (fun out => out.map String.length)
      = .ok [69, 14 + 3 * 254] ∧
    LOG_BUF_SIZE = 765 := by
  refine ⟨by decide, by decide, by decide, by decide, by decide⟩
/-! ### Truncation does not end the walk: lists that are decoded without fault -/

end HciDump
